import Mathlib

/-!
KAKAOMCP: life-index scoring engine (`src/life-indices.js`).

A shallow embedding of the `LifeIndices` class and of the forecast values it
reads, followed by the properties of the scoring engine.

Modelling of JavaScript values:

* A numeric property of a slot or of a daily aggregate is `Option JSNum`:
  absent (`undefined`) or a JavaScript number.  A finite number is a rational
  (every finite double is one); `NaN` and the two infinities are kept, since
  `parseFloat`/`parseInt` can produce them.
* A comparison `x >= c` with a literal `c` first converts `x` with `ToNumber`
  (`undefined` becomes `NaN`) and is `false` as soon as `NaN` is involved.
* `score` only ever holds `100`, `0`, or the result of adding integer literals
  to such a value, so it is an `Int`; no rounding can occur on it.
* Arithmetic on forecast values (`maxTemp - minTemp`, the sums and quotients of
  `average`, the comparator of the sort, `deg / 45`) and the numbers read by
  `parseFloat`/`parseInt` are rounded to the nearest double (`roundToDouble`:
  53 significant bits, ties to even, overflow to an infinity, gradual
  underflow).  The two zeros are one value: no source expression tells them
  apart.
-/

namespace KakaoMcp

/-- A JavaScript number: a finite value, `NaN`, `Infinity` or `-Infinity`. -/
inductive JSNum where
  | fin (q : ℚ)
  | nan
  | posInf
  | negInf
  deriving DecidableEq, Repr

namespace JSNum

/-- The value `x >= c` for a finite literal `c`. -/
def ge (x : JSNum) (c : ℚ) : Bool :=
  match x with
  | fin q => decide (c ≤ q)
  | nan => false
  | posInf => true
  | negInf => false

/-- The value `x <= c` for a finite literal `c`. -/
def le (x : JSNum) (c : ℚ) : Bool :=
  match x with
  | fin q => decide (q ≤ c)
  | nan => false
  | posInf => false
  | negInf => true

/-- The value `x > c` for a finite literal `c`. -/
def gt (x : JSNum) (c : ℚ) : Bool :=
  match x with
  | fin q => decide (c < q)
  | nan => false
  | posInf => true
  | negInf => false

/-- The number of halvings that bring `n` below 2, which is the integer part of
its binary logarithm; `fuel` bounds the number of steps (`n` itself is enough). -/
def bitLog : Nat → Nat → Nat
  | 0, _ => 0
  | fuel + 1, n => if n < 2 then 0 else bitLog fuel (n / 2) + 1

/-- The binade of a positive rational `a`: the integer `e` with
`2 ^ e ≤ a < 2 ^ (e + 1)`. -/
def binade (a : ℚ) : Int :=
  if 1 ≤ a then (bitLog (Int.floor a).toNat (Int.floor a).toNat : Int)
  else
    -((bitLog ((Int.ceil (1 / a)).toNat - 1) ((Int.ceil (1 / a)).toNat - 1) : Int) + 1)

/-- The power `2 ^ e` for an integer `e`. -/
def twoPow (e : Int) : ℚ :=
  if 0 ≤ e then ((2 ^ e.toNat : Nat) : ℚ) else 1 / ((2 ^ (-e).toNat : Nat) : ℚ)

/-- The integer nearest to `x`, the even one on a tie. -/
def roundHalfEven (x : ℚ) : Int :=
  if x - Int.floor x < 1 / 2 then Int.floor x
  else if 1 / 2 < x - Int.floor x then Int.floor x + 1
  else if Int.floor x % 2 = 0 then Int.floor x
  else Int.floor x + 1

/-- The double nearest to the rational `q` (IEEE 754 binary64, round to nearest,
ties to even): 53 significant bits, exponents from -1022 to 1023, subnormal
numbers below, and an infinity when the rounded magnitude reaches `2 ^ 1024`.
Every arithmetic operation of the source returns the exact result rounded
this way. -/
def roundToDouble (q : ℚ) : JSNum :=
  if q = 0 then fin 0
  else
    let quantum : ℚ := twoPow (max (binade |q|) (-1022) - 52)
    let r : ℚ := (roundHalfEven (|q| / quantum) : ℚ) * quantum
    if twoPow 1024 ≤ r then (if 0 < q then posInf else negInf)
    else fin (if 0 < q then r else -r)

/-- The value `x - y`: on finite operands the exact difference rounded to the
nearest double. -/
def sub (x y : JSNum) : JSNum :=
  match x, y with
  | nan, _ => nan
  | _, nan => nan
  | fin a, fin b => roundToDouble (a - b)
  | fin _, posInf => negInf
  | fin _, negInf => posInf
  | posInf, posInf => nan
  | posInf, _ => posInf
  | negInf, negInf => nan
  | negInf, _ => negInf

/-- Truthiness of a number: `0` (and `-0`) and `NaN` are falsy. -/
def truthy (x : JSNum) : Bool :=
  match x with
  | fin q => decide (q ≠ 0)
  | nan => false
  | posInf => true
  | negInf => true

/-- Method `x.toFixed(1)`: sign, then the integer `n` nearest to `10 * |x|`
(the larger one on a tie), printed with one decimal.  Values of magnitude
`10 ^ 21` and more, which JavaScript prints in exponent form, are printed in
the same fixed form here. -/
def toFixed1 (x : JSNum) : String :=
  match x with
  | fin q =>
    let n : Nat := (Int.floor (10 * |q| + 1 / 2)).toNat
    (if q < 0 then "-" else "") ++ toString (n / 10) ++ "." ++ toString (n % 10)
  | nan => "NaN"
  | posInf => "Infinity"
  | negInf => "-Infinity"

end JSNum

/-- Conversion `ToNumber` of a numeric property that may be absent. -/
def toNumber : Option JSNum → JSNum
  | none => JSNum.nan
  | some x => x

/-- Source expression `v >= c` on a property `v`. -/
def jsGe (v : Option JSNum) (c : ℚ) : Bool := (toNumber v).ge c

/-- Source expression `v <= c` on a property `v`. -/
def jsLe (v : Option JSNum) (c : ℚ) : Bool := (toNumber v).le c

/-- Source expression `v > c` on a property `v`. -/
def jsGt (v : Option JSNum) (c : ℚ) : Bool := (toNumber v).gt c

/-- Truthiness of a numeric property (`undefined` is falsy). -/
def jsTruthy : Option JSNum → Bool
  | none => false
  | some x => x.truthy

/-- Source expression `v === s` for a string literal `s`. -/
def strictEq (v : Option String) (s : String) : Bool := decide (v = some s)

/-- Source expression `v !== s` for a string literal `s`. -/
def strictNe (v : Option String) (s : String) : Bool := !strictEq v s

/-- A property inside a template literal: `undefined` prints as such. -/
def templateStr : Option String → String
  | none => "undefined"
  | some s => s

/-- A value of the property `sky` or `precipitation`: a text, or the member of
`Object.prototype` found under `name` by a lookup in an object literal (a
built-in function, or the prototype object itself for `__proto__`). -/
inductive JSLabel where
  | text (s : String)
  | inherited (name : String)
  deriving DecidableEq, Repr

/-- A label inside a template literal: `undefined` and a text print as such, the
prototype object prints as `[object Object]` and a built-in function as its
native source text (the form V8 gives it). -/
def templateLabel : Option JSLabel → String
  | none => "undefined"
  | some (JSLabel.text s) => s
  | some (JSLabel.inherited name) =>
    if name = "__proto__" then "[object Object]"
    else "function " ++ name ++ "() \x7b [native code] \x7d"

/-- One merged forecast slot (the object built by `parseWeatherData`); every
property may be absent. -/
structure TimeSlot where
  date : Option String := none
  time : Option String := none
  dateTime : Option String := none
  temperature : Option JSNum := none
  minTemperature : Option JSNum := none
  maxTemperature : Option JSNum := none
  sky : Option JSLabel := none
  skyCode : Option String := none
  precipitation : Option JSLabel := none
  precipitationCode : Option String := none
  rainProbability : Option JSNum := none
  rainfall : Option String := none
  humidity : Option JSNum := none
  snowfall : Option String := none
  windSpeed : Option JSNum := none
  windDirection : Option String := none
  windDegree : Option JSNum := none
  waveHeight : Option JSNum := none
  deriving DecidableEq, Repr

/-- One per-day aggregate (an element of `daily`, built by
`aggregateDailyForecast`); `minTemp` and `maxTemp` exist only when a slot of the
day reported them. -/
structure DailyAggregate where
  date : Option String := none
  dateFormatted : Option String := none
  dayOfWeek : Option String := none
  temperatures : List JSNum := []
  rainProbabilities : List JSNum := []
  humidities : List JSNum := []
  windSpeeds : List JSNum := []
  items : List TimeSlot := []
  minTemp : Option JSNum := none
  maxTemp : Option JSNum := none
  avgTemperature : Option JSNum := none
  maxRainProbability : Option JSNum := none
  avgHumidity : Option JSNum := none
  maxWindSpeed : Option JSNum := none
  deriving DecidableEq, Repr

/-- The structured forecast `{ current, hourly, daily }` returned by
`parseWeatherData`; `calculateAll` reads `current` and `daily`. -/
structure WeatherData where
  current : TimeSlot
  hourly : List TimeSlot := []
  daily : List DailyAggregate
  deriving DecidableEq, Repr

/-- One life index, as returned by every `calculate*Index`. -/
structure LifeIndex where
  id : String
  name : String
  icon : String
  score : Int
  grade : String
  color : String
  description : String
  reasons : List String
  recommendation : String
  deriving DecidableEq, Repr

/-- The two local variables `score` and `reasons` of a `calculate*Index`. -/
structure Acc where
  score : Int
  reasons : List String
  deriving DecidableEq, Repr

/-- Statements `score += d; reasons.push(r)` (`d` negative for `-=`). -/
def Acc.add (a : Acc) (d : Int) (r : String) : Acc :=
  { score := a.score + d, reasons := a.reasons ++ [r] }

/-- Statements `score = s; reasons.push(r)`. -/
def Acc.set (a : Acc) (s : Int) (r : String) : Acc :=
  { score := s, reasons := a.reasons ++ [r] }

/-- Statement `score = Math.max(0, Math.min(100, score))`. -/
def Acc.clamp (a : Acc) : Acc :=
  { score := max 0 (min 100 a.score), reasons := a.reasons }

/-- Embedding of `LifeIndices.getGrade`. -/
def getGrade (score : Int) : String :=
  if score ≥ 80 then "매우 좋음"
  else if score ≥ 60 then "좋음"
  else if score ≥ 40 then "보통"
  else if score ≥ 20 then "나쁨"
  else "매우 나쁨"

/-- Embedding of `LifeIndices.getColor`. -/
def getColor (score : Int) : String :=
  if score ≥ 80 then "#4CAF50"
  else if score ≥ 60 then "#8BC34A"
  else if score ≥ 40 then "#FFC107"
  else if score ≥ 20 then "#FF9800"
  else "#F44336"

/-- Embedding of `LifeIndices.getDescription`. -/
def getDescription (score : Int) (activity : String) : String :=
  if score ≥ 80 then activity ++ "에 매우 좋습니다"
  else if score ≥ 60 then activity ++ "에 좋습니다"
  else if score ≥ 40 then activity ++ "에 보통입니다"
  else if score ≥ 20 then activity ++ "에 좋지 않습니다"
  else activity ++ "에 매우 좋지 않습니다"

/-- The ternary `score >= 70 ? a : score >= 40 ? b : c` that every index uses
for its recommendation. -/
def pick3 (score : Int) (a b c : String) : String :=
  if score ≥ 70 then a else if score ≥ 40 then b else c

/-- Embedding of `LifeIndices.calculateLaundryIndex`. -/
def calculateLaundryIndex (current : TimeSlot) (_daily : List DailyAggregate) : LifeIndex :=
  let a : Acc := { score := 100, reasons := [] }
  -- 강수 확률
  let a :=
    if jsGe current.rainProbability 70 then a.add (-50) "강수 확률이 높습니다"
    else if jsGe current.rainProbability 40 then a.add (-30) "비 올 가능성이 있습니다"
    else a
  -- 습도
  let a :=
    if jsGe current.humidity 80 then a.add (-30) "습도가 매우 높습니다"
    else if jsGe current.humidity 60 then a.add (-15) "습도가 높은 편입니다"
    else if jsLe current.humidity 40 then a.add 10 "습도가 낮아 건조가 빠릅니다"
    else a
  -- 풍속
  let a :=
    if jsGe current.windSpeed 4 && jsLe current.windSpeed 8 then
      a.add 10 "적당한 바람이 불어 건조에 좋습니다"
    else if jsGt current.windSpeed 10 then a.add (-20) "바람이 너무 강합니다"
    else a
  -- 하늘 상태
  let a :=
    if strictEq current.skyCode "1" then a.add 15 "맑은 날씨입니다"
    else if strictEq current.skyCode "4" then a.add (-10) "흐린 날씨입니다"
    else a
  let a := a.clamp
  { id := "laundry"
    name := "빨래 건조"
    icon := "👕"
    score := a.score
    grade := getGrade a.score
    color := getColor a.score
    description := getDescription a.score "빨래를 말리기"
    reasons := if a.reasons.length > 0 then a.reasons else ["보통 수준입니다"]
    recommendation :=
      pick3 a.score "빨래하기 좋은 날입니다!" "실내 건조를 권장합니다" "빨래를 미루는 것이 좋습니다" }

/-- Embedding of `LifeIndices.calculateCarWashIndex`. -/
def calculateCarWashIndex (daily : List DailyAggregate) : LifeIndex :=
  let a : Acc := { score := 100, reasons := [] }
  -- 향후 3일 강수 확률 체크
  let next3Days := daily.take 3
  let rainDays := next3Days.filter (fun day => jsGe day.maxRainProbability 40)
  let a :=
    if rainDays.length = 0 then a.set 100 "향후 3일간 비 소식이 없습니다"
    else if rainDays.length = 1 then a.set 60 "1-2일 내 비가 올 수 있습니다"
    else a.set 20 "며칠간 비가 예상됩니다"
  { id := "carwash"
    name := "세차"
    icon := "🚗"
    score := a.score
    grade := getGrade a.score
    color := getColor a.score
    description := getDescription a.score "세차하기"
    reasons := a.reasons
    recommendation :=
      pick3 a.score "세차하기 좋은 날입니다!" "세차 후 비를 맞을 수 있습니다" "세차를 미루는 것이 좋습니다" }

/-- Embedding of `LifeIndices.calculateDogWalkIndex`. -/
def calculateDogWalkIndex (current : TimeSlot) : LifeIndex :=
  let a : Acc := { score := 100, reasons := [] }
  -- 강수
  let a :=
    if strictNe current.precipitationCode "0" then
      a.add (-60) (templateLabel current.precipitation ++ " 예보가 있습니다")
    else if jsGe current.rainProbability 50 then a.add (-30) "비 올 확률이 높습니다"
    else a
  -- 기온
  let a :=
    if jsGe current.temperature 30 then a.add (-40) "너무 더워 반려견에게 위험할 수 있습니다"
    else if jsGe current.temperature 25 then a.add (-20) "더운 날씨입니다. 그늘진 곳으로 산책하세요"
    else if jsLe current.temperature (-10) then a.add (-40) "너무 추운 날씨입니다"
    else if jsLe current.temperature 0 then a.add (-20) "추운 날씨입니다. 옷을 입혀주세요"
    else if jsGe current.temperature 15 && jsLe current.temperature 22 then
      a.add 10 "산책하기 좋은 기온입니다"
    else a
  -- 풍속
  let a :=
    if jsGt current.windSpeed 10 then a.add (-20) "바람이 강합니다"
    else a
  let a := a.clamp
  { id := "dogwalk"
    name := "반려견 산책"
    icon := "🐕"
    score := a.score
    grade := getGrade a.score
    color := getColor a.score
    description := getDescription a.score "산책하기"
    reasons := if a.reasons.length > 0 then a.reasons else ["산책하기 좋은 날씨입니다"]
    recommendation := pick3 a.score "산책하기 좋습니다!" "짧게 산책하세요" "실내 활동을 권장합니다" }

/-- Embedding of `LifeIndices.calculateCampingIndex`. -/
def calculateCampingIndex (current : TimeSlot) (daily : List DailyAggregate) : LifeIndex :=
  let a : Acc := { score := 100, reasons := [] }
  -- 강풍 체크 (텐트 위험)
  let a :=
    if jsGe current.windSpeed 10 then a.add (-50) "강풍으로 텐트 설치가 위험합니다"
    else if jsGe current.windSpeed 7 then a.add (-25) "바람이 강한 편입니다"
    else a
  -- 강수
  let today := daily.head?
  let a :=
    if today.any (fun t => jsGe t.maxRainProbability 60) then
      a.add (-40) "비가 올 확률이 높습니다"
    else if today.any (fun t => jsGe t.maxRainProbability 30) then
      a.add (-20) "비가 올 수 있습니다"
    else a
  -- 기온
  let a :=
    if jsLe current.temperature 5 then a.add (-30) "추운 날씨입니다. 방한 준비 필수"
    else if jsGe current.temperature 30 then a.add (-20) "더운 날씨입니다. 그늘막 필수"
    else if jsGe current.temperature 15 && jsLe current.temperature 25 then
      a.add 10 "캠핑하기 좋은 기온입니다"
    else a
  let a := a.clamp
  { id := "camping"
    name := "캠핑"
    icon := "⛺"
    score := a.score
    grade := getGrade a.score
    color := getColor a.score
    description := getDescription a.score "캠핑하기"
    reasons := if a.reasons.length > 0 then a.reasons else ["캠핑하기 좋은 날씨입니다"]
    recommendation :=
      pick3 a.score "캠핑하기 좋습니다!" "날씨 변화에 주의하세요" "캠핑을 연기하는 것이 좋습니다" }

/-- Embedding of `LifeIndices.calculateExerciseIndex`. -/
def calculateExerciseIndex (current : TimeSlot) : LifeIndex :=
  let a : Acc := { score := 100, reasons := [] }
  -- 기온
  let a :=
    if jsGe current.temperature 28 then a.add (-40) "더운 날씨입니다. 열사병 주의"
    else if jsGe current.temperature 25 then a.add (-20) "더운 편입니다. 수분 섭취 필수"
    else if jsLe current.temperature 0 then a.add (-30) "추운 날씨입니다. 준비운동 필수"
    else if jsGe current.temperature 15 && jsLe current.temperature 22 then
      a.add 15 "운동하기 좋은 기온입니다"
    else a
  -- 습도
  let a :=
    if jsGe current.humidity 80 then a.add (-25) "습도가 높아 불쾌감이 있습니다"
    else a
  -- 강수
  let a :=
    if jsGe current.rainProbability 60 then a.add (-30) "비가 올 확률이 높습니다"
    else a
  let a := a.clamp
  { id := "exercise"
    name := "야외 운동"
    icon := "🏃"
    score := a.score
    grade := getGrade a.score
    color := getColor a.score
    description := getDescription a.score "야외 운동하기"
    reasons := if a.reasons.length > 0 then a.reasons else ["운동하기 좋은 날씨입니다"]
    recommendation :=
      pick3 a.score "운동하기 좋습니다!" "실내 운동을 고려하세요" "실내 운동을 권장합니다" }

/-- Embedding of `LifeIndices.calculateStargazingIndex`. -/
def calculateStargazingIndex (current : TimeSlot) : LifeIndex :=
  let a : Acc := { score := 100, reasons := [] }
  -- 하늘 상태
  let a :=
    if strictEq current.skyCode "1" then a.set 100 "맑은 하늘로 별 관측에 최적입니다"
    else if strictEq current.skyCode "3" then a.set 50 "구름이 많아 별 보기 어려울 수 있습니다"
    else a.set 10 "흐린 날씨로 별 관측이 어렵습니다"
  -- 강수
  let a :=
    if strictNe current.precipitationCode "0" then
      { score := 0, reasons := ["비/눈이 와서 별 관측이 불가능합니다"] }
    else a
  { id := "stargazing"
    name := "별 관측"
    icon := "⭐"
    score := a.score
    grade := getGrade a.score
    color := getColor a.score
    description := getDescription a.score "별 보기"
    reasons := a.reasons
    recommendation :=
      pick3 a.score "별 보기 좋은 밤입니다!" "구름 사이로 별을 볼 수 있습니다" "별 관측이 어렵습니다" }

/-- Embedding of `LifeIndices.calculateFoodPoisoningIndex`. -/
def calculateFoodPoisoningIndex (current : TimeSlot) : LifeIndex :=
  let a : Acc := { score := 0, reasons := [] }
  -- 기온과 습도가 높을수록 위험
  let a :=
    if jsGe current.temperature 25 && jsGe current.humidity 60 then
      a.set 80 "고온다습하여 식중독 위험이 높습니다"
    else if jsGe current.temperature 20 && jsGe current.humidity 50 then
      a.set 50 "식중독 주의가 필요합니다"
    else a.set 20 "식중독 위험이 낮습니다"
  -- 역산 (높을수록 안전하게 표시)
  let safetyScore := 100 - a.score
  { id := "foodsafety"
    name := "식품 안전"
    icon := "🍱"
    score := safetyScore
    grade := getGrade safetyScore
    color := getColor safetyScore
    description :=
      pick3 safetyScore "식품 보관이 안전합니다" "식품 보관에 주의하세요" "식품 보관에 각별히 주의하세요"
    reasons := a.reasons
    recommendation :=
      pick3 safetyScore "음식 보관이 비교적 안전합니다" "음식을 냉장 보관하세요"
        "음식을 빨리 섭취하거나 냉장 보관하세요" }

/-- Embedding of `LifeIndices.calculateColdWarningIndex`. -/
def calculateColdWarningIndex (current : TimeSlot) (daily : List DailyAggregate) : LifeIndex :=
  let a : Acc := { score := 100, reasons := [] }
  let today := daily.head?
  -- 일교차
  let a :=
    match today with
    | some t =>
      if jsTruthy t.maxTemp && jsTruthy t.minTemp then
        let tempDiff := (toNumber t.maxTemp).sub (toNumber t.minTemp)
        if tempDiff.ge 15 then
          a.add (-50) ("일교차가 " ++ tempDiff.toFixed1 ++ "°C로 매우 큽니다")
        else if tempDiff.ge 10 then
          a.add (-30) ("일교차가 " ++ tempDiff.toFixed1 ++ "°C로 큽니다")
        else a
      else a
    | none => a
  -- 습도
  let a :=
    if jsLe current.humidity 30 then a.add (-20) "건조하여 호흡기 질환 주의"
    else a
  -- 기온
  let a :=
    if jsLe current.temperature 5 then a.add (-20) "추운 날씨입니다"
    else a
  let a := a.clamp
  let reasons := if a.reasons.length = 0 then a.reasons ++ ["건강 관리에 좋은 날씨입니다"] else a.reasons
  { id := "health"
    name := "건강 관리"
    icon := "💊"
    score := a.score
    grade := getGrade a.score
    color := getColor a.score
    description := getDescription a.score "건강 관리"
    reasons := reasons
    recommendation :=
      pick3 a.score "건강 관리에 좋은 날씨입니다" "옷차림에 신경쓰세요"
        "감기 조심하세요. 보온에 유의하세요" }

/-- Embedding of `LifeIndices.calculateAll`. -/
def calculateAll (weatherData : WeatherData) : List LifeIndex :=
  let current := weatherData.current
  let daily := weatherData.daily
  [ calculateLaundryIndex current daily,
    calculateCarWashIndex daily,
    calculateDogWalkIndex current,
    calculateCampingIndex current daily,
    calculateExerciseIndex current,
    calculateStargazingIndex current,
    calculateFoodPoisoningIndex current,
    calculateColdWarningIndex current daily ]

/-! ## The reasons rule in the words of the specification

Section 4.3 of the specification: every rule that fires produces exactly one
reason, rules are evaluated in order, and an index for which no rule fired
shows a single neutral placeholder.  A rule is written `(fires, reason)`; the
second and later members of an exclusive group fire only when no earlier member
of the group did. -/

/-- Reasons of the rules that fire, in rule order. -/
def firedReasons (rules : List (Bool × String)) : List String :=
  (rules.filter (fun r => r.1)).map (fun r => r.2)

/-- The reasons list the specification asks for: the fired reasons, or the
placeholder alone when no rule fired. -/
def reasonsOfRules (rules : List (Bool × String)) (placeholder : String) : List String :=
  if (firedReasons rules).isEmpty then [placeholder] else firedReasons rules

/-- Rules of the laundry index, in evaluation order. -/
def laundryRuleTable (c : TimeSlot) : List (Bool × String) :=
  [ (jsGe c.rainProbability 70, "강수 확률이 높습니다"),
    (!jsGe c.rainProbability 70 && jsGe c.rainProbability 40, "비 올 가능성이 있습니다"),
    (jsGe c.humidity 80, "습도가 매우 높습니다"),
    (!jsGe c.humidity 80 && jsGe c.humidity 60, "습도가 높은 편입니다"),
    (!jsGe c.humidity 80 && !jsGe c.humidity 60 && jsLe c.humidity 40,
      "습도가 낮아 건조가 빠릅니다"),
    (jsGe c.windSpeed 4 && jsLe c.windSpeed 8, "적당한 바람이 불어 건조에 좋습니다"),
    (!(jsGe c.windSpeed 4 && jsLe c.windSpeed 8) && jsGt c.windSpeed 10,
      "바람이 너무 강합니다"),
    (strictEq c.skyCode "1", "맑은 날씨입니다"),
    (!strictEq c.skyCode "1" && strictEq c.skyCode "4", "흐린 날씨입니다") ]

/-- Rules of the dog-walk index, in evaluation order. -/
def dogWalkRuleTable (c : TimeSlot) : List (Bool × String) :=
  [ (strictNe c.precipitationCode "0", templateLabel c.precipitation ++ " 예보가 있습니다"),
    (!strictNe c.precipitationCode "0" && jsGe c.rainProbability 50, "비 올 확률이 높습니다"),
    (jsGe c.temperature 30, "너무 더워 반려견에게 위험할 수 있습니다"),
    (!jsGe c.temperature 30 && jsGe c.temperature 25,
      "더운 날씨입니다. 그늘진 곳으로 산책하세요"),
    (!jsGe c.temperature 30 && !jsGe c.temperature 25 && jsLe c.temperature (-10),
      "너무 추운 날씨입니다"),
    (!jsGe c.temperature 30 && !jsGe c.temperature 25 && !jsLe c.temperature (-10)
        && jsLe c.temperature 0,
      "추운 날씨입니다. 옷을 입혀주세요"),
    (!jsGe c.temperature 30 && !jsGe c.temperature 25 && !jsLe c.temperature (-10)
        && !jsLe c.temperature 0 && (jsGe c.temperature 15 && jsLe c.temperature 22),
      "산책하기 좋은 기온입니다"),
    (jsGt c.windSpeed 10, "바람이 강합니다") ]

/-- Rules of the camping index, in evaluation order. -/
def campingRuleTable (c : TimeSlot) (daily : List DailyAggregate) : List (Bool × String) :=
  [ (jsGe c.windSpeed 10, "강풍으로 텐트 설치가 위험합니다"),
    (!jsGe c.windSpeed 10 && jsGe c.windSpeed 7, "바람이 강한 편입니다"),
    (daily.head?.any (fun t => jsGe t.maxRainProbability 60), "비가 올 확률이 높습니다"),
    (!daily.head?.any (fun t => jsGe t.maxRainProbability 60)
        && daily.head?.any (fun t => jsGe t.maxRainProbability 30),
      "비가 올 수 있습니다"),
    (jsLe c.temperature 5, "추운 날씨입니다. 방한 준비 필수"),
    (!jsLe c.temperature 5 && jsGe c.temperature 30, "더운 날씨입니다. 그늘막 필수"),
    (!jsLe c.temperature 5 && !jsGe c.temperature 30
        && (jsGe c.temperature 15 && jsLe c.temperature 25),
      "캠핑하기 좋은 기온입니다") ]

/-- Rules of the exercise index, in evaluation order. -/
def exerciseRuleTable (c : TimeSlot) : List (Bool × String) :=
  [ (jsGe c.temperature 28, "더운 날씨입니다. 열사병 주의"),
    (!jsGe c.temperature 28 && jsGe c.temperature 25, "더운 편입니다. 수분 섭취 필수"),
    (!jsGe c.temperature 28 && !jsGe c.temperature 25 && jsLe c.temperature 0,
      "추운 날씨입니다. 준비운동 필수"),
    (!jsGe c.temperature 28 && !jsGe c.temperature 25 && !jsLe c.temperature 0
        && (jsGe c.temperature 15 && jsLe c.temperature 22),
      "운동하기 좋은 기온입니다"),
    (jsGe c.humidity 80, "습도가 높아 불쾌감이 있습니다"),
    (jsGe c.rainProbability 60, "비가 올 확률이 높습니다") ]

/-- The diurnal range `maxTemp - minTemp` of the first daily aggregate when
that aggregate exists and both extremes are truthy. -/
def diurnalRange (daily : List DailyAggregate) : Option JSNum :=
  match daily.head? with
  | some t =>
    if jsTruthy t.maxTemp && jsTruthy t.minTemp then
      some ((toNumber t.maxTemp).sub (toNumber t.minTemp))
    else none
  | none => none

/-- Rules of the cold-warning index, in evaluation order. -/
def coldWarningRuleTable (c : TimeSlot) (daily : List DailyAggregate) :
    List (Bool × String) :=
  [ (jsGe (diurnalRange daily) 15,
      "일교차가 " ++ (toNumber (diurnalRange daily)).toFixed1 ++ "°C로 매우 큽니다"),
    (!jsGe (diurnalRange daily) 15 && jsGe (diurnalRange daily) 10,
      "일교차가 " ++ (toNumber (diurnalRange daily)).toFixed1 ++ "°C로 큽니다"),
    (jsLe c.humidity 30, "건조하여 호흡기 질환 주의"),
    (jsLe c.temperature 5, "추운 날씨입니다") ]

/-! ## Concrete forecasts (scenarios of section 8 of the specification) -/

/-- A hot and humid slot without precipitation: temperature 32, humidity 85,
rain probability 10, precipitation code "0", wind speed 2, clear sky. -/
def scenarioSlot : TimeSlot :=
  { temperature := some (JSNum.fin 32)
    humidity := some (JSNum.fin 85)
    rainProbability := some (JSNum.fin 10)
    precipitationCode := some "0"
    windSpeed := some (JSNum.fin 2)
    skyCode := some "1" }

/-- Three daily aggregates with `maxRainProbability` 0, 0, 0. -/
def dryDays : List DailyAggregate :=
  [ { maxRainProbability := some (JSNum.fin 0) },
    { maxRainProbability := some (JSNum.fin 0) },
    { maxRainProbability := some (JSNum.fin 0) } ]

/-- The forecast made of `scenarioSlot` and `dryDays`. -/
def scenarioForecast : WeatherData :=
  { current := scenarioSlot, daily := dryDays }

/-! ## Exceptions

The only values of `calculateAll` that can be `undefined` where a property is
read are `today = daily[0]` in the camping and cold-warning indices. -/

/-- Property read `obj.p` on a value that may be `undefined`; reading a property
of `undefined` throws a TypeError. -/
def readProp {α β : Type} (obj : Option α) (p : α → β) : Except String β :=
  match obj with
  | none => Except.error "TypeError: Cannot read properties of undefined"
  | some o => Except.ok (p o)

/-- Source expression `obj && rhs` in a condition: `rhs` is evaluated only when
`obj` is an object. -/
def guardObj {α : Type} (obj : Option α) (rhs : Except String Bool) : Except String Bool :=
  match obj with
  | none => Except.ok false
  | some _ => rhs

/-- Embedding of `LifeIndices.calculateCampingIndex` that tracks exceptions: the
reads of `today.maxRainProbability` go through `readProp`. -/
def calculateCampingIndexChecked (current : TimeSlot) (daily : List DailyAggregate) :
    Except String LifeIndex := do
  let a : Acc := { score := 100, reasons := [] }
  let a :=
    if jsGe current.windSpeed 10 then a.add (-50) "강풍으로 텐트 설치가 위험합니다"
    else if jsGe current.windSpeed 7 then a.add (-25) "바람이 강한 편입니다"
    else a
  let today := daily.head?
  let a ←
    guardObj today ((readProp today fun t => t.maxRainProbability).map fun v => jsGe v 60)
      >>= fun c1 =>
        if c1 then pure (a.add (-40) "비가 올 확률이 높습니다")
        else
          guardObj today ((readProp today fun t => t.maxRainProbability).map fun v => jsGe v 30)
            >>= fun c2 =>
              if c2 then pure (a.add (-20) "비가 올 수 있습니다") else pure a
  let a :=
    if jsLe current.temperature 5 then a.add (-30) "추운 날씨입니다. 방한 준비 필수"
    else if jsGe current.temperature 30 then a.add (-20) "더운 날씨입니다. 그늘막 필수"
    else if jsGe current.temperature 15 && jsLe current.temperature 25 then
      a.add 10 "캠핑하기 좋은 기온입니다"
    else a
  let a := a.clamp
  pure
    { id := "camping"
      name := "캠핑"
      icon := "⛺"
      score := a.score
      grade := getGrade a.score
      color := getColor a.score
      description := getDescription a.score "캠핑하기"
      reasons := if a.reasons.length > 0 then a.reasons else ["캠핑하기 좋은 날씨입니다"]
      recommendation :=
        pick3 a.score "캠핑하기 좋습니다!" "날씨 변화에 주의하세요" "캠핑을 연기하는 것이 좋습니다" }

/-- Embedding of `LifeIndices.calculateColdWarningIndex` that tracks exceptions:
the reads of `today.maxTemp` and `today.minTemp` go through `readProp`. -/
def calculateColdWarningIndexChecked (current : TimeSlot) (daily : List DailyAggregate) :
    Except String LifeIndex := do
  let a : Acc := { score := 100, reasons := [] }
  let today := daily.head?
  let both ←
    guardObj today
      ((readProp today fun t => t.maxTemp) >>= fun m =>
        if jsTruthy m then (readProp today fun t => t.minTemp).map jsTruthy else pure false)
  let a ←
    if both then
      (readProp today fun t => t.maxTemp) >>= fun hi =>
      (readProp today fun t => t.minTemp) >>= fun lo =>
        let tempDiff := (toNumber hi).sub (toNumber lo)
        if tempDiff.ge 15 then
          pure (a.add (-50) ("일교차가 " ++ tempDiff.toFixed1 ++ "°C로 매우 큽니다"))
        else if tempDiff.ge 10 then
          pure (a.add (-30) ("일교차가 " ++ tempDiff.toFixed1 ++ "°C로 큽니다"))
        else pure a
    else pure a
  let a :=
    if jsLe current.humidity 30 then a.add (-20) "건조하여 호흡기 질환 주의"
    else a
  let a :=
    if jsLe current.temperature 5 then a.add (-20) "추운 날씨입니다"
    else a
  let a := a.clamp
  let reasons :=
    if a.reasons.length = 0 then a.reasons ++ ["건강 관리에 좋은 날씨입니다"] else a.reasons
  pure
    { id := "health"
      name := "건강 관리"
      icon := "💊"
      score := a.score
      grade := getGrade a.score
      color := getColor a.score
      description := getDescription a.score "건강 관리"
      reasons := reasons
      recommendation :=
        pick3 a.score "건강 관리에 좋은 날씨입니다" "옷차림에 신경쓰세요"
          "감기 조심하세요. 보온에 유의하세요" }

/-- Embedding of `LifeIndices.calculateAll` that tracks exceptions.  The other
six indices only read properties of `current` (an object) and of the elements
of `daily`, compare, and build strings, none of which can throw. -/
def calculateAllChecked (weatherData : WeatherData) : Except String (List LifeIndex) := do
  let current := weatherData.current
  let daily := weatherData.daily
  let laundry := calculateLaundryIndex current daily
  let carwash := calculateCarWashIndex daily
  let dogwalk := calculateDogWalkIndex current
  let camping ← calculateCampingIndexChecked current daily
  let exercise := calculateExerciseIndex current
  let stargazing := calculateStargazingIndex current
  let foodsafety := calculateFoodPoisoningIndex current
  let health ← calculateColdWarningIndexChecked current daily
  pure [laundry, carwash, dogwalk, camping, exercise, stargazing, foodsafety, health]

/-! ## Forecast parsing (`src/weather-api.js`, `src/utils/date-helper.js`)

Strings are sequences of characters; `substring` indices count characters,
which agrees with JavaScript on strings without astral characters.  The number
read by `parseInt` or `parseFloat` is the double nearest to the decimal (or
hexadecimal) value of the digits read; the standard lets an implementation
ignore decimal digits after the twentieth, here every digit counts, as in V8.
Own properties of the `forecast` object are kept in insertion order, as
JavaScript does for keys that are not array indices; a key of `forecast` that
names an inherited property of `Object.prototype` is outside the model (no key
made of an 8-digit date, `_` and a 4-digit time does).  The lookups
`status[code]` and `types[code]` of the two label tables do find inherited
properties, and the model returns them (`JSLabel.inherited`). -/

namespace JSNum

/-- The value `x + y`: on finite operands the exact sum rounded to the nearest
double. -/
def add (x y : JSNum) : JSNum :=
  match x, y with
  | nan, _ => nan
  | _, nan => nan
  | fin a, fin b => roundToDouble (a + b)
  | fin _, posInf => posInf
  | fin _, negInf => negInf
  | posInf, negInf => nan
  | posInf, _ => posInf
  | negInf, posInf => nan
  | negInf, _ => negInf

/-- The values `x * k` and `x / k` for a positive finite `k` (pass `1 / k` for
the quotient): the exact product or quotient rounded to the nearest double. -/
def scale (x : JSNum) (k : ℚ) : JSNum :=
  match x with
  | fin q => roundToDouble (q * k)
  | nan => nan
  | posInf => posInf
  | negInf => negInf

/-- Function `Math.round`: the nearest integer, halves going up. -/
def round (x : JSNum) : JSNum :=
  match x with
  | fin q => fin (Int.floor (q + 1 / 2))
  | nan => nan
  | posInf => posInf
  | negInf => negInf

/-- Function `Math.max` of two numbers. -/
def max2 (x y : JSNum) : JSNum :=
  match x, y with
  | nan, _ => nan
  | _, nan => nan
  | posInf, _ => posInf
  | _, posInf => posInf
  | negInf, b => b
  | a, negInf => a
  | fin a, fin b => fin (max a b)

end JSNum

/-- One raw forecast record, an element of `items`. -/
structure ForecastRecord where
  fcstDate : String
  fcstTime : String
  category : String
  fcstValue : String
  deriving DecidableEq, Repr

/-- Method `s.substring(a, b)` for `a ≤ b`. -/
def substring (s : String) (a b : Nat) : String :=
  String.mk ((s.toList.drop a).take (b - a))

/-- White space and line terminators skipped at the start by `parseInt` and
`parseFloat`. -/
def isStrWhiteSpace (ch : Char) : Bool :=
  decide (ch.toNat ∈ [9, 10, 11, 12, 13, 32, 160, 5760, 8232, 8233, 8239, 8287, 12288, 65279])
    || (decide (8192 ≤ ch.toNat) && decide (ch.toNat ≤ 8202))

/-- An optional leading sign: whether it is a minus, and the rest. -/
def stripSign (cs : List Char) : Bool × List Char :=
  match cs with
  | [] => (false, [])
  | c :: r => if c = '-' then (true, r) else if c = '+' then (false, r) else (false, c :: r)

/-- The rest after a leading `0x` or `0X`, when there is one. -/
def stripHexPrefix (cs : List Char) : Option (List Char) :=
  match cs with
  | a :: b :: r => if a = '0' ∧ (b = 'x' ∨ b = 'X') then some r else none
  | _ => none

/-- Value of a hexadecimal digit, `none` for any other character. -/
def hexDigit (ch : Char) : Option Nat :=
  if ch.isDigit then some (ch.toNat - 48)
  else if 97 ≤ ch.toNat ∧ ch.toNat ≤ 102 then some (ch.toNat - 87)
  else if 65 ≤ ch.toNat ∧ ch.toNat ≤ 70 then some (ch.toNat - 55)
  else none

/-- Value of a sequence of decimal digits. -/
def digitsValue (ds : List Char) : Nat :=
  ds.foldl (fun n c => 10 * n + (c.toNat - 48)) 0

/-- Value of a sequence of hexadecimal digits. -/
def hexValue (ds : List Char) : Nat :=
  ds.foldl (fun n c => 16 * n + (hexDigit c).getD 0) 0

/-- Function `parseInt(s)` without radix: leading white space, an optional
sign, an optional `0x` prefix, then the longest run of digits, read as the
nearest double; `NaN` when that run is empty. -/
def parseInt (s : String) : JSNum :=
  let cs := s.toList.dropWhile isStrWhiteSpace
  let sign := (stripSign cs).1
  let cs := (stripSign cs).2
  match stripHexPrefix cs with
  | some hs =>
    let ds := hs.takeWhile (fun c => (hexDigit c).isSome)
    if ds.isEmpty then JSNum.nan
    else JSNum.roundToDouble (if sign then -(hexValue ds : ℚ) else (hexValue ds : ℚ))
  | none =>
    let ds := cs.takeWhile Char.isDigit
    if ds.isEmpty then JSNum.nan
    else JSNum.roundToDouble (if sign then -(digitsValue ds : ℚ) else (digitsValue ds : ℚ))

/-- The exponent part `e`, optional sign, digits at the start of `cs`; 0 when
there is none. -/
def exponentPart (cs : List Char) : Int :=
  match cs with
  | [] => 0
  | c :: r =>
    if c = 'e' ∨ c = 'E' then
      let ds := (stripSign r).2.takeWhile Char.isDigit
      if ds.isEmpty then 0
      else if (stripSign r).1 then -(digitsValue ds : Int) else (digitsValue ds : Int)
    else 0

/-- Function `parseFloat(s)`: leading white space, an optional sign, then
`Infinity` or the longest decimal literal (digits, optional fraction, optional
exponent), read as the nearest double; `NaN` when there is none. -/
def parseFloat (s : String) : JSNum :=
  let cs := s.toList.dropWhile isStrWhiteSpace
  let sign := (stripSign cs).1
  let cs := (stripSign cs).2
  if "Infinity".toList.isPrefixOf cs then (if sign then JSNum.negInf else JSNum.posInf)
  else
    let intDs := cs.takeWhile Char.isDigit
    let rest := cs.dropWhile Char.isDigit
    let hasDot := rest.head? = some '.'
    let fracDs := if hasDot then (rest.drop 1).takeWhile Char.isDigit else []
    let rest := if hasDot then (rest.drop 1).dropWhile Char.isDigit else rest
    if intDs.isEmpty ∧ fracDs.isEmpty then JSNum.nan
    else
      let mantissa : ℚ := (digitsValue (intDs ++ fracDs) : ℚ) / (10 : ℚ) ^ fracDs.length
      let value : ℚ := mantissa * (10 : ℚ) ^ exponentPart rest
      JSNum.roundToDouble (if sign then -value else value)

/-! ### Values that start with a number, in the words of the specification -/

/-- The characters of `v` after leading white space and one optional sign. -/
def afterSign (v : String) : List Char :=
  (stripSign (v.toList.dropWhile isStrWhiteSpace)).2

/-- The value `v` starts, after white space and an optional sign, with `Infinity`, a
digit, or a point followed by a digit: the prefixes that make a number for a category
read as a decimal (TMP, TMN, TMX, WSD, WAV). -/
def hasDecimalStart (v : String) : Bool :=
  "Infinity".toList.isPrefixOf (afterSign v) ||
    match afterSign v with
    | c :: rest => c.isDigit || (decide (c = '.') && (rest.head?.map Char.isDigit).getD false)
    | [] => false

/-- The value `v` starts, after white space and an optional sign, with a decimal digit
that does not open a `0x` prefix, or with a `0x` prefix followed by a hexadecimal digit:
the prefixes that make a number for a category read as an integer (POP, REH, VEC). -/
def hasIntegerStart (v : String) : Bool :=
  match afterSign v with
  | a :: b :: rest =>
    if a = '0' ∧ (b = 'x' ∨ b = 'X') then ((rest.head?.bind hexDigit).isSome)
    else a.isDigit
  | [a] => a.isDigit
  | [] => false

/-- Embedding of `DateHelper.formatDate`; the argument may be `undefined`. -/
def formatDate (dateStr : Option String) : Option String :=
  match dateStr with
  | none => none
  | some s =>
    if s = "" ∨ s.length ≠ 8 then some s
    else some (substring s 0 4 ++ "-" ++ substring s 4 6 ++ "-" ++ substring s 6 8)

/-- Embedding of `DateHelper.toReadableDateTime`. -/
def toReadableDateTime (dateStr timeStr : String) : String :=
  if dateStr = "" ∨ timeStr = "" then ""
  else
    let year := substring dateStr 0 4
    let month := substring dateStr 4 6
    let day := substring dateStr 6 8
    let hour := substring timeStr 0 2
    let minute := substring timeStr 2 4
    year ++ "년 " ++ month ++ "월 " ++ day ++ "일 " ++ hour ++ ":" ++ minute

/-- Days from 1970-01-01 to the first day of month `month` (0 to 11) of year
`year` in the proleptic Gregorian calendar. -/
def daysFromCivil (year : Int) (month : Int) : Int :=
  let y := if month ≤ 1 then year - 1 else year
  let era := y / 400
  let yoe := y - era * 400
  let mp := (month + 10) % 12
  let doy := (153 * mp + 2) / 5
  let doe := yoe * 365 + yoe / 4 - yoe / 100 + doy
  era * 146097 + doe - 719468

/-- Day of the week (0 is Sunday) of `new Date(year, month, day)`: years 0 to 99
mean 1900 to 1999, months and days outside their range carry over. -/
def dateGetDay (year month day : Int) : Int :=
  let year := if 0 ≤ year ∧ year ≤ 99 then 1900 + year else year
  let ym := year + month / 12
  let mn := month % 12
  (daysFromCivil ym mn + day - 1 + 4) % 7

/-- The integer held by a number, if it is one. -/
def JSNum.toInt? (x : JSNum) : Option Int :=
  match x with
  | JSNum.fin q => if q.den = 1 then some q.num else none
  | _ => none

/-- Embedding of `DateHelper.getDayOfWeek`; the argument may be `undefined`, and
the result is `undefined` when the date is invalid. -/
def getDayOfWeek (dateStr : Option String) : Option String :=
  match dateStr with
  | none => some ""
  | some s =>
    if s = "" ∨ s.length ≠ 8 then some ""
    else
      match (parseInt (substring s 0 4)).toInt?, (parseInt (substring s 4 6)).toInt?,
          (parseInt (substring s 6 8)).toInt? with
      | some year, some month, some day =>
        ["일요일", "월요일", "화요일", "수요일", "목요일", "금요일", "토요일"][(dateGetDay year
          (month - 1) day).toNat]?
      | _, _, _ => none

/-- The names of the properties of `Object.prototype`, which every object
literal inherits. -/
def objectPrototypeNames : List String :=
  ["constructor", "__defineGetter__", "__defineSetter__", "hasOwnProperty",
    "__lookupGetter__", "__lookupSetter__", "isPrototypeOf", "propertyIsEnumerable",
    "toString", "valueOf", "__proto__", "toLocaleString"]

/-- Expression `table[key]` on an object literal with the own properties `own`
(all texts): the own property when there is one, else the inherited one, else
`undefined`. -/
def lookupLiteral (own : List (String × String)) (key : String) : Option JSLabel :=
  match own.lookup key with
  | some v => some (JSLabel.text v)
  | none => if key ∈ objectPrototypeNames then some (JSLabel.inherited key) else none

/-- Expression `v || fallback` on the result of such a lookup: `undefined` and the
empty text are falsy, functions and objects are truthy. -/
def labelOr (v : Option JSLabel) (fallback : String) : JSLabel :=
  match v with
  | some (JSLabel.text s) => if s = "" then JSLabel.text fallback else JSLabel.text s
  | some (JSLabel.inherited name) => JSLabel.inherited name
  | none => JSLabel.text fallback

/-- Embedding of `WeatherAPI.getSkyStatus`. -/
def getSkyStatus (code : String) : JSLabel :=
  let status := [("1", "맑음"), ("3", "구름많음"), ("4", "흐림")]
  labelOr (lookupLiteral status code) "알 수 없음"

/-- Embedding of `WeatherAPI.getPrecipitationType`. -/
def getPrecipitationType (code : String) : JSLabel :=
  let types :=
    [("0", "없음"), ("1", "비"), ("2", "비/눈"), ("3", "눈"), ("4", "소나기"), ("5", "빗방울"),
      ("6", "빗방울눈날림"), ("7", "눈날림")]
  labelOr (lookupLiteral types code) "없음"

/-- Embedding of `WeatherAPI.getWindDirection`: `directions[index]` is
`undefined` when `index` is `NaN` or negative. -/
def getWindDirection (degree : String) : Option String :=
  let deg := parseInt degree
  match (deg.scale (1 / 45)).round with
  | JSNum.fin rounded =>
    let index : Int := Int.tmod (Int.floor rounded) 8
    if 0 ≤ index then ["북", "북동", "동", "남동", "남", "남서", "서", "북서"][index.toNat]? else none
  | _ => none

/-- The `switch (category)` of `parseWeatherData` applied to the slot
`forecast[key]`. -/
def applyCategory (slot : TimeSlot) (category fcstValue : String) : TimeSlot :=
  if category = "TMP" then { slot with temperature := some (parseFloat fcstValue) }
  else if category = "TMN" then { slot with minTemperature := some (parseFloat fcstValue) }
  else if category = "TMX" then { slot with maxTemperature := some (parseFloat fcstValue) }
  else if category = "SKY" then
    { slot with sky := some (getSkyStatus fcstValue), skyCode := some fcstValue }
  else if category = "PTY" then
    { slot with
      precipitation := some (getPrecipitationType fcstValue), precipitationCode := some fcstValue }
  else if category = "POP" then { slot with rainProbability := some (parseInt fcstValue) }
  else if category = "PCP" then { slot with rainfall := some fcstValue }
  else if category = "REH" then { slot with humidity := some (parseInt fcstValue) }
  else if category = "SNO" then { slot with snowfall := some fcstValue }
  else if category = "WSD" then { slot with windSpeed := some (parseFloat fcstValue) }
  else if category = "VEC" then
    { slot with
      windDirection := getWindDirection fcstValue, windDegree := some (parseInt fcstValue) }
  else if category = "WAV" then { slot with waveHeight := some (parseFloat fcstValue) }
  else slot

/-- The key of a record in the `forecast` object. -/
def recordKey (item : ForecastRecord) : String :=
  item.fcstDate ++ "_" ++ item.fcstTime

/-- One iteration of `items.forEach` in `parseWeatherData`: create the slot
`forecast[key]` when there is none, then store the value of the record in it. -/
def addItem (forecast : List (String × TimeSlot)) (item : ForecastRecord) :
    List (String × TimeSlot) :=
  let key := recordKey item
  let forecast :=
    if key ∈ forecast.map Prod.fst then forecast
    else
      forecast ++
        [(key,
          { date := some item.fcstDate
            time := some item.fcstTime
            dateTime := some (toReadableDateTime item.fcstDate item.fcstTime) })]
  forecast.map fun e =>
    if e.1 = key then (e.1, applyCategory e.2 item.category item.fcstValue) else e

/-- The integer read from date followed by time, `parseInt(a.date + a.time)`. -/
def dateTimeInt (a : TimeSlot) : JSNum :=
  parseInt (templateStr a.date ++ templateStr a.time)

/-- The comparator of the sort, `aDateTime - bDateTime`. -/
def compareDateTime (a b : TimeSlot) : JSNum :=
  (dateTimeInt a).sub (dateTimeInt b)

/-- Slot `a` may stay before slot `b`: the comparator is not positive. -/
def notAfter (a b : TimeSlot) : Prop :=
  (compareDateTime a b).gt 0 = false

instance : DecidableRel notAfter := fun a b =>
  inferInstanceAs (Decidable ((compareDateTime a b).gt 0 = false))

/-- Method `sort` with the comparator `compareDateTime`: a stable sort, here
by insertion.  Every conforming sort gives this result when the comparator is
a consistent ordering of the elements. -/
def sortSlots (l : List TimeSlot) : List TimeSlot :=
  l.insertionSort notAfter

/-- Embedding of `WeatherAPI.average`. -/
def average (arr : List JSNum) : JSNum :=
  if arr.length = 0 then JSNum.fin 0
  else
    ((((arr.foldl JSNum.add (JSNum.fin 0)).scale (1 / (arr.length : ℚ))).scale 10).round).scale
      (1 / 10)

/-- Expression `Math.max(...arr, 0)`. -/
def maxWithZero (arr : List JSNum) : JSNum :=
  (arr ++ [JSNum.fin 0]).foldl JSNum.max2 JSNum.negInf

/-- Statement `if (v) arr.push(v)`. -/
def pushIfTruthy (arr : List JSNum) (v : Option JSNum) : List JSNum :=
  match v with
  | some x => if x.truthy then arr ++ [x] else arr
  | none => arr

/-- Statement `if (v) day.p = v` on an optional property. -/
def setIfTruthy (old v : Option JSNum) : Option JSNum :=
  if jsTruthy v then v else old

/-- One iteration of `hourlyData.forEach` in `aggregateDailyForecast`; the
entries of `dailyMap` are kept in insertion order. -/
def addToDay (dailyMap : List DailyAggregate) (item : TimeSlot) : List DailyAggregate :=
  let dailyMap :=
    if item.date ∈ dailyMap.map (fun d => d.date) then dailyMap
    else
      dailyMap ++
        [{ date := item.date
           dateFormatted := formatDate item.date
           dayOfWeek := getDayOfWeek item.date }]
  dailyMap.map fun daily =>
    if daily.date = item.date then
      { daily with
        temperatures := pushIfTruthy daily.temperatures item.temperature
        rainProbabilities := pushIfTruthy daily.rainProbabilities item.rainProbability
        humidities := pushIfTruthy daily.humidities item.humidity
        windSpeeds := pushIfTruthy daily.windSpeeds item.windSpeed
        minTemp := setIfTruthy daily.minTemp item.minTemperature
        maxTemp := setIfTruthy daily.maxTemp item.maxTemperature
        items := daily.items ++ [item] }
    else daily

/-- The update of one day by one slot in `addToDay`. -/
def dayWith (d0 : DailyAggregate) (item : TimeSlot) : DailyAggregate :=
  if d0.date = item.date then
    { d0 with
      temperatures := pushIfTruthy d0.temperatures item.temperature
      rainProbabilities := pushIfTruthy d0.rainProbabilities item.rainProbability
      humidities := pushIfTruthy d0.humidities item.humidity
      windSpeeds := pushIfTruthy d0.windSpeeds item.windSpeed
      minTemp := setIfTruthy d0.minTemp item.minTemperature
      maxTemp := setIfTruthy d0.maxTemp item.maxTemperature
      items := d0.items ++ [item] }
  else d0

/-- Embedding of `WeatherAPI.aggregateDailyForecast`. -/
def aggregateDailyForecast (hourlyData : List TimeSlot) : List DailyAggregate :=
  (hourlyData.foldl addToDay []).map fun day =>
    { day with
      avgTemperature := some (average day.temperatures)
      maxRainProbability := some (maxWithZero day.rainProbabilities)
      avgHumidity := some (average day.humidities)
      maxWindSpeed := some (maxWithZero day.windSpeeds) }

/-- Embedding of `WeatherAPI.parseWeatherData`. -/
def parseWeatherData (items : List ForecastRecord) : WeatherData :=
  let forecast := items.foldl addItem []
  -- 시간순 정렬
  let sortedForecast := sortSlots (forecast.map Prod.snd)
  { current := sortedForecast.head?.getD {}
    hourly := sortedForecast.take 24
    daily := aggregateDailyForecast sortedForecast }

/-- A record with an 8-digit date and a 4-digit time. -/
def wellFormed (item : ForecastRecord) : Bool :=
  decide (item.fcstDate.length = 8) && item.fcstDate.toList.all Char.isDigit
    && decide (item.fcstTime.length = 4) && item.fcstTime.toList.all Char.isDigit

/-- Three records of two slots on two days, the later slot first. -/
def sampleRecords : List ForecastRecord :=
  [ { fcstDate := "20240102", fcstTime := "0000", category := "TMP", fcstValue := "3.5" },
    { fcstDate := "20240101", fcstTime := "2300", category := "TMP", fcstValue := "5" },
    { fcstDate := "20240101", fcstTime := "2300", category := "POP", fcstValue := "30" } ]

/-- Embedding of `parseWeatherData` that tracks exceptions: the source has no
`throw` statement and, on a list of records, no operation that can throw. -/
def parseWeatherDataChecked (items : List ForecastRecord) : Except String WeatherData :=
  pure (parseWeatherData items)

/-- The local array `sortedForecast` of `parseWeatherData`: every slot, in
chronological order. -/
def sortedForecast (items : List ForecastRecord) : List TimeSlot :=
  sortSlots ((items.foldl addItem []).map Prod.snd)

/-! ## The merged slot in the words of the specification

Section 3 of the specification: one merged record per unique (date, time)
pair, accumulating all category values reported for that slot. -/

/-- The categories of the fixed vocabulary. -/
def knownCategories : List String :=
  ["TMP", "TMN", "TMX", "SKY", "PTY", "POP", "PCP", "REH", "SNO", "WSD", "VEC", "WAV"]

/-- The value string of the last record of `items` with date `d`, time `t` and
category `cat`, if there is one. -/
def lastValue (items : List ForecastRecord) (d t cat : String) : Option String :=
  ((items.filter fun r =>
    decide (r.fcstDate = d ∧ r.fcstTime = t ∧ r.category = cat)).getLast?).map
      fun r => r.fcstValue

/-- The slot the specification describes for the pair (`d`, `t`): each field
holds the converted value of the last record of its category for that pair,
and is absent when no such record exists. -/
def mergedSlot (items : List ForecastRecord) (d t : String) : TimeSlot :=
  { date := some d
    time := some t
    dateTime := some (toReadableDateTime d t)
    temperature := (lastValue items d t "TMP").map parseFloat
    minTemperature := (lastValue items d t "TMN").map parseFloat
    maxTemperature := (lastValue items d t "TMX").map parseFloat
    sky := (lastValue items d t "SKY").map getSkyStatus
    skyCode := lastValue items d t "SKY"
    precipitation := (lastValue items d t "PTY").map getPrecipitationType
    precipitationCode := lastValue items d t "PTY"
    rainProbability := (lastValue items d t "POP").map parseInt
    rainfall := lastValue items d t "PCP"
    humidity := (lastValue items d t "REH").map parseInt
    snowfall := lastValue items d t "SNO"
    windSpeed := (lastValue items d t "WSD").map parseFloat
    windDirection := (lastValue items d t "VEC").bind getWindDirection
    windDegree := (lastValue items d t "VEC").map parseInt
    waveHeight := (lastValue items d t "WAV").map parseFloat }


/-- A record with the unknown category "XXX" at a date and time of its own. -/
def unknownRecord : ForecastRecord :=
  { fcstDate := "20240101", fcstTime := "0000", category := "XXX", fcstValue := "1" }

/-- A temperature record whose value is not a number. -/
def badTemperatureRecord : ForecastRecord :=
  { fcstDate := "20240101", fcstTime := "0000", category := "TMP", fcstValue := "abc" }

/-- Two temperature records of one day, the first reporting exactly 0. -/
def zeroTemperatureRecords : List ForecastRecord :=
  [ { fcstDate := "20240101", fcstTime := "0000", category := "TMP", fcstValue := "0" },
    { fcstDate := "20240101", fcstTime := "0100", category := "TMP", fcstValue := "10" } ]

/-- The categories whose value is converted to a number. -/
def numericCategories : List String :=
  ["TMP", "TMN", "TMX", "POP", "REH", "WSD", "VEC", "WAV"]

/-- The property of a slot that holds the number of a numeric category. -/
def numericField (category : String) (s : TimeSlot) : Option JSNum :=
  if category = "TMP" then s.temperature
  else if category = "TMN" then s.minTemperature
  else if category = "TMX" then s.maxTemperature
  else if category = "POP" then s.rainProbability
  else if category = "REH" then s.humidity
  else if category = "WSD" then s.windSpeed
  else if category = "VEC" then s.windDegree
  else if category = "WAV" then s.waveHeight
  else none

/-- The value `v` starts with a number in the syntax of its category: an integer for
POP, REH and VEC, a decimal for the other numeric categories. -/
def parseable (category v : String) : Bool :=
  if category ∈ ["POP", "REH", "VEC"] then hasIntegerStart v else hasDecimalStart v

/-- One SKY record whose value names a member of `Object.prototype`. -/
def inheritedSkyRecord : ForecastRecord :=
  { fcstDate := "20240101", fcstTime := "0000", category := "SKY", fcstValue := "constructor" }

/-- Records of one day: temperature 10 and humidity 50 at 06:00 with the day
minimum 1.4, and the day maximum 16.4 at 15:00. -/
def rangeRecords : List ForecastRecord :=
  [ { fcstDate := "20240101", fcstTime := "0600", category := "TMP", fcstValue := "10" },
    { fcstDate := "20240101", fcstTime := "0600", category := "REH", fcstValue := "50" },
    { fcstDate := "20240101", fcstTime := "0600", category := "TMN", fcstValue := "1.4" },
    { fcstDate := "20240101", fcstTime := "1500", category := "TMX", fcstValue := "16.4" } ]

/-- The cold-warning index of the forecast built from the records `items`, as
`calculateAll` computes it from `current` and `daily`. -/
def coldWarningOf (items : List ForecastRecord) : LifeIndex :=
  calculateColdWarningIndex (parseWeatherData items).current (parseWeatherData items).daily

/-- The sample records followed by a record of unknown category for a date and
time that already have a slot. -/
def sampleWithUnknown : List ForecastRecord :=
  sampleRecords ++
    [{ fcstDate := "20240101", fcstTime := "2300", category := "UUU", fcstValue := "1.2" }]

/-! ## The heap of `calculateAll` (`src/life-indices.js`)

Objects and arrays live in a heap and are passed by reference, as in
JavaScript: an array method such as `push` changes the array in place for
every holder of the reference, while `slice` and `filter` return new arrays.
A forecast slot and a daily aggregate are one heap object each (an aggregate
together with the arrays it holds, which `LifeIndices` never reads).  A
computation takes the heap and returns a value and the heap after it, or
nothing when it throws. -/

/-- A reference to an object: its position in the heap. -/
abbrev Ref := Nat

/-- An element of an array. -/
inductive Value where
  | ref (r : Ref)
  | text (s : String)
  deriving DecidableEq, Repr

/-- A life index object as the source builds it: its `reasons` property is a
reference to an array. -/
structure LifeIndexObject where
  id : String
  name : String
  icon : String
  score : Int
  grade : String
  color : String
  description : String
  reasons : Ref
  recommendation : String
  deriving DecidableEq, Repr

/-- An object of the heap. -/
inductive HeapObject where
  | forecast (current hourly daily : Ref)
  | slot (s : TimeSlot)
  | day (d : DailyAggregate)
  | array (elems : List Value)
  | index (i : LifeIndexObject)
  deriving DecidableEq, Repr

/-- The heap: the objects created so far, in creation order. -/
abbrev Heap := List HeapObject

/-- A computation on the heap; `none` is a thrown TypeError. -/
def Run (α : Type) : Type := Heap → Option (α × Heap)

instance : Monad Run where
  pure x := fun h => some (x, h)
  bind m f := fun h =>
    match m h with
    | some (x, h1) => f x h1
    | none => none

/-- An object or array literal: a new object at the next position. -/
def alloc (o : HeapObject) : Run Ref := fun h => some (h.length, h ++ [o])

/-- An expression `p` over the properties of the slot at `r`, such as
`current.humidity >= 80`. -/
def slotProp {α : Type} (r : Ref) (p : TimeSlot → α) : Run α := fun h =>
  match h[r]? with
  | some (HeapObject.slot s) => some (p s, h)
  | _ => none

/-- The daily aggregate that an array element refers to. -/
def dayAt (h : Heap) (v : Value) : Option DailyAggregate :=
  match v with
  | Value.ref r =>
    match h[r]? with
    | some (HeapObject.day d) => some d
    | _ => none
  | Value.text _ => none

/-- An expression `p` over the properties of the daily aggregate `v`, such as
`day.maxRainProbability >= 40`. -/
def dayProp {α : Type} (v : Value) (p : DailyAggregate → α) : Run α := fun h =>
  match dayAt h v with
  | some d => some (p d, h)
  | none => none

/-- The same on a value that may be `undefined`: reading a property of
`undefined` throws. -/
def optProp {α : Type} (v : Option Value) (p : DailyAggregate → α) : Run α :=
  match v with
  | some x => dayProp x p
  | none => fun _ => none

/-- Source expression `obj && rhs` in a condition, for `obj` an object or
`undefined`: `rhs` is evaluated only when `obj` is an object. -/
def guardValue (obj : Option Value) (rhs : Value → Run Bool) : Run Bool :=
  match obj with
  | some v => rhs v
  | none => pure false

/-- Source expression `a && b` on two conditions: `b` is evaluated only when `a`
holds. -/
def andAlso (a b : Run Bool) : Run Bool := do
  if (← a) then b else pure false

/-- The properties `current` and `daily` of the forecast object, as the
destructuring `const { current, daily } = weatherData` reads them. -/
def forecastProps (weatherData : Ref) : Run (Ref × Ref) := fun h =>
  match h[weatherData]? with
  | some (HeapObject.forecast current _ daily) => some ((current, daily), h)
  | _ => none

/-- Element read `arr[i]`: `undefined` past the end. -/
def elemAt (arr : Ref) (i : Nat) : Run (Option Value) := fun h =>
  match h[arr]? with
  | some (HeapObject.array l) => some (l[i]?, h)
  | _ => none

/-- Property `arr.length`. -/
def lengthOf (arr : Ref) : Run Nat := fun h =>
  match h[arr]? with
  | some (HeapObject.array l) => some (l.length, h)
  | _ => none

/-- Method `arr.push(v)`: the array at `arr` is changed in place. -/
def push (arr : Ref) (v : Value) : Run Unit := fun h =>
  match h[arr]? with
  | some (HeapObject.array l) => some ((), h.set arr (HeapObject.array (l ++ [v])))
  | _ => none

/-- Method `arr.slice(a, b)` for `a ≤ b`: a new array. -/
def slice (arr : Ref) (a b : Nat) : Run Ref := fun h =>
  match h[arr]? with
  | some (HeapObject.array l) => alloc (HeapObject.array ((l.drop a).take (b - a))) h
  | _ => none

/-- The elements kept by a callback, which is called on each element in order. -/
def keepValues (p : Value → Run Bool) : List Value → Run (List Value)
  | [] => pure []
  | v :: vs => do
    let keep ← p v
    let rest ← keepValues p vs
    pure (if keep then v :: rest else rest)

/-- Method `arr.filter(p)`: a new array. -/
def filter (arr : Ref) (p : Value → Run Bool) : Run Ref := do
  let elems ← (fun h =>
    match h[arr]? with
    | some (HeapObject.array l) => some (l, h)
    | _ => none : Run (List Value))
  let kept ← keepValues p elems
  alloc (HeapObject.array kept)

/-- The local variables `score` and `reasons` of a `calculate*Index`; `reasons`
holds a reference to an array. -/
structure AccRef where
  score : Int
  reasons : Ref
  deriving DecidableEq, Repr

/-- Statements `let score = s; let reasons = [];`. -/
def AccRef.init (s : Int) : Run AccRef := do
  let reasons ← alloc (HeapObject.array [])
  pure { score := s, reasons := reasons }

/-- Statements `score += d; reasons.push(r)` (`d` negative for `-=`). -/
def AccRef.add (a : AccRef) (d : Int) (r : String) : Run AccRef := do
  push a.reasons (Value.text r)
  pure { a with score := a.score + d }

/-- Statements `score = s; reasons.push(r)`. -/
def AccRef.set (a : AccRef) (s : Int) (r : String) : Run AccRef := do
  push a.reasons (Value.text r)
  pure { a with score := s }

/-- Statement `score = Math.max(0, Math.min(100, score))`. -/
def AccRef.clamp (a : AccRef) : AccRef :=
  { a with score := max 0 (min 100 a.score) }

/-- Heap embedding of `LifeIndices.calculateLaundryIndex`. -/
def calculateLaundryIndexM (current _daily : Ref) : Run Ref := do
  let a ← AccRef.init 100
  -- 강수 확률
  let a ← (do
    if (← slotProp current fun c => jsGe c.rainProbability 70) then
      a.add (-50) "강수 확률이 높습니다"
    else if (← slotProp current fun c => jsGe c.rainProbability 40) then
      a.add (-30) "비 올 가능성이 있습니다"
    else pure a)
  -- 습도
  let a ← (do
    if (← slotProp current fun c => jsGe c.humidity 80) then a.add (-30) "습도가 매우 높습니다"
    else if (← slotProp current fun c => jsGe c.humidity 60) then
      a.add (-15) "습도가 높은 편입니다"
    else if (← slotProp current fun c => jsLe c.humidity 40) then
      a.add 10 "습도가 낮아 건조가 빠릅니다"
    else pure a)
  -- 풍속
  let a ← (do
    if (← andAlso (slotProp current fun c => jsGe c.windSpeed 4)
        (slotProp current fun c => jsLe c.windSpeed 8)) then
      a.add 10 "적당한 바람이 불어 건조에 좋습니다"
    else if (← slotProp current fun c => jsGt c.windSpeed 10) then
      a.add (-20) "바람이 너무 강합니다"
    else pure a)
  -- 하늘 상태
  let a ← (do
    if (← slotProp current fun c => strictEq c.skyCode "1") then a.add 15 "맑은 날씨입니다"
    else if (← slotProp current fun c => strictEq c.skyCode "4") then
      a.add (-10) "흐린 날씨입니다"
    else pure a)
  let a := a.clamp
  let reasons ← (do
    if (← lengthOf a.reasons) > 0 then pure a.reasons
    else alloc (HeapObject.array [Value.text "보통 수준입니다"]))
  alloc (HeapObject.index
    { id := "laundry"
      name := "빨래 건조"
      icon := "👕"
      score := a.score
      grade := getGrade a.score
      color := getColor a.score
      description := getDescription a.score "빨래를 말리기"
      reasons := reasons
      recommendation :=
        pick3 a.score "빨래하기 좋은 날입니다!" "실내 건조를 권장합니다" "빨래를 미루는 것이 좋습니다" })

/-- Heap embedding of `LifeIndices.calculateCarWashIndex`. -/
def calculateCarWashIndexM (daily : Ref) : Run Ref := do
  let a ← AccRef.init 100
  -- 향후 3일 강수 확률 체크
  let next3Days ← slice daily 0 3
  let rainDays ← filter next3Days fun day => dayProp day fun d => jsGe d.maxRainProbability 40
  let a ← (do
    if (← lengthOf rainDays) = 0 then a.set 100 "향후 3일간 비 소식이 없습니다"
    else if (← lengthOf rainDays) = 1 then a.set 60 "1-2일 내 비가 올 수 있습니다"
    else a.set 20 "며칠간 비가 예상됩니다")
  alloc (HeapObject.index
    { id := "carwash"
      name := "세차"
      icon := "🚗"
      score := a.score
      grade := getGrade a.score
      color := getColor a.score
      description := getDescription a.score "세차하기"
      reasons := a.reasons
      recommendation :=
        pick3 a.score "세차하기 좋은 날입니다!" "세차 후 비를 맞을 수 있습니다" "세차를 미루는 것이 좋습니다" })

/-- Heap embedding of `LifeIndices.calculateDogWalkIndex`. -/
def calculateDogWalkIndexM (current : Ref) : Run Ref := do
  let a ← AccRef.init 100
  -- 강수
  let a ← (do
    if (← slotProp current fun c => strictNe c.precipitationCode "0") then
      a.add (-60)
        ((← slotProp current fun c => templateLabel c.precipitation) ++ " 예보가 있습니다")
    else if (← slotProp current fun c => jsGe c.rainProbability 50) then
      a.add (-30) "비 올 확률이 높습니다"
    else pure a)
  -- 기온
  let a ← (do
    if (← slotProp current fun c => jsGe c.temperature 30) then
      a.add (-40) "너무 더워 반려견에게 위험할 수 있습니다"
    else if (← slotProp current fun c => jsGe c.temperature 25) then
      a.add (-20) "더운 날씨입니다. 그늘진 곳으로 산책하세요"
    else if (← slotProp current fun c => jsLe c.temperature (-10)) then
      a.add (-40) "너무 추운 날씨입니다"
    else if (← slotProp current fun c => jsLe c.temperature 0) then
      a.add (-20) "추운 날씨입니다. 옷을 입혀주세요"
    else if (← andAlso (slotProp current fun c => jsGe c.temperature 15)
        (slotProp current fun c => jsLe c.temperature 22)) then
      a.add 10 "산책하기 좋은 기온입니다"
    else pure a)
  -- 풍속
  let a ← (do
    if (← slotProp current fun c => jsGt c.windSpeed 10) then a.add (-20) "바람이 강합니다"
    else pure a)
  let a := a.clamp
  let reasons ← (do
    if (← lengthOf a.reasons) > 0 then pure a.reasons
    else alloc (HeapObject.array [Value.text "산책하기 좋은 날씨입니다"]))
  alloc (HeapObject.index
    { id := "dogwalk"
      name := "반려견 산책"
      icon := "🐕"
      score := a.score
      grade := getGrade a.score
      color := getColor a.score
      description := getDescription a.score "산책하기"
      reasons := reasons
      recommendation := pick3 a.score "산책하기 좋습니다!" "짧게 산책하세요" "실내 활동을 권장합니다" })

/-- Heap embedding of `LifeIndices.calculateCampingIndex`. -/
def calculateCampingIndexM (current daily : Ref) : Run Ref := do
  let a ← AccRef.init 100
  -- 강풍 체크 (텐트 위험)
  let a ← (do
    if (← slotProp current fun c => jsGe c.windSpeed 10) then
      a.add (-50) "강풍으로 텐트 설치가 위험합니다"
    else if (← slotProp current fun c => jsGe c.windSpeed 7) then
      a.add (-25) "바람이 강한 편입니다"
    else pure a)
  -- 강수
  let today ← elemAt daily 0
  let a ← (do
    if (← guardValue today fun t => dayProp t fun d => jsGe d.maxRainProbability 60) then
      a.add (-40) "비가 올 확률이 높습니다"
    else if (← guardValue today fun t => dayProp t fun d => jsGe d.maxRainProbability 30) then
      a.add (-20) "비가 올 수 있습니다"
    else pure a)
  -- 기온
  let a ← (do
    if (← slotProp current fun c => jsLe c.temperature 5) then
      a.add (-30) "추운 날씨입니다. 방한 준비 필수"
    else if (← slotProp current fun c => jsGe c.temperature 30) then
      a.add (-20) "더운 날씨입니다. 그늘막 필수"
    else if (← andAlso (slotProp current fun c => jsGe c.temperature 15)
        (slotProp current fun c => jsLe c.temperature 25)) then
      a.add 10 "캠핑하기 좋은 기온입니다"
    else pure a)
  let a := a.clamp
  let reasons ← (do
    if (← lengthOf a.reasons) > 0 then pure a.reasons
    else alloc (HeapObject.array [Value.text "캠핑하기 좋은 날씨입니다"]))
  alloc (HeapObject.index
    { id := "camping"
      name := "캠핑"
      icon := "⛺"
      score := a.score
      grade := getGrade a.score
      color := getColor a.score
      description := getDescription a.score "캠핑하기"
      reasons := reasons
      recommendation :=
        pick3 a.score "캠핑하기 좋습니다!" "날씨 변화에 주의하세요" "캠핑을 연기하는 것이 좋습니다" })

/-- Heap embedding of `LifeIndices.calculateExerciseIndex`. -/
def calculateExerciseIndexM (current : Ref) : Run Ref := do
  let a ← AccRef.init 100
  -- 기온
  let a ← (do
    if (← slotProp current fun c => jsGe c.temperature 28) then
      a.add (-40) "더운 날씨입니다. 열사병 주의"
    else if (← slotProp current fun c => jsGe c.temperature 25) then
      a.add (-20) "더운 편입니다. 수분 섭취 필수"
    else if (← slotProp current fun c => jsLe c.temperature 0) then
      a.add (-30) "추운 날씨입니다. 준비운동 필수"
    else if (← andAlso (slotProp current fun c => jsGe c.temperature 15)
        (slotProp current fun c => jsLe c.temperature 22)) then
      a.add 15 "운동하기 좋은 기온입니다"
    else pure a)
  -- 습도
  let a ← (do
    if (← slotProp current fun c => jsGe c.humidity 80) then
      a.add (-25) "습도가 높아 불쾌감이 있습니다"
    else pure a)
  -- 강수
  let a ← (do
    if (← slotProp current fun c => jsGe c.rainProbability 60) then
      a.add (-30) "비가 올 확률이 높습니다"
    else pure a)
  let a := a.clamp
  let reasons ← (do
    if (← lengthOf a.reasons) > 0 then pure a.reasons
    else alloc (HeapObject.array [Value.text "운동하기 좋은 날씨입니다"]))
  alloc (HeapObject.index
    { id := "exercise"
      name := "야외 운동"
      icon := "🏃"
      score := a.score
      grade := getGrade a.score
      color := getColor a.score
      description := getDescription a.score "야외 운동하기"
      reasons := reasons
      recommendation :=
        pick3 a.score "운동하기 좋습니다!" "실내 운동을 고려하세요" "실내 운동을 권장합니다" })

/-- Heap embedding of `LifeIndices.calculateStargazingIndex`. -/
def calculateStargazingIndexM (current : Ref) : Run Ref := do
  let a ← AccRef.init 100
  -- 하늘 상태
  let a ← (do
    if (← slotProp current fun c => strictEq c.skyCode "1") then
      a.set 100 "맑은 하늘로 별 관측에 최적입니다"
    else if (← slotProp current fun c => strictEq c.skyCode "3") then
      a.set 50 "구름이 많아 별 보기 어려울 수 있습니다"
    else a.set 10 "흐린 날씨로 별 관측이 어렵습니다")
  -- 강수
  let a ← (do
    if (← slotProp current fun c => strictNe c.precipitationCode "0") then
      let reasons ← alloc (HeapObject.array [Value.text "비/눈이 와서 별 관측이 불가능합니다"])
      pure { score := 0, reasons := reasons }
    else pure a)
  alloc (HeapObject.index
    { id := "stargazing"
      name := "별 관측"
      icon := "⭐"
      score := a.score
      grade := getGrade a.score
      color := getColor a.score
      description := getDescription a.score "별 보기"
      reasons := a.reasons
      recommendation :=
        pick3 a.score "별 보기 좋은 밤입니다!" "구름 사이로 별을 볼 수 있습니다" "별 관측이 어렵습니다" })

/-- Heap embedding of `LifeIndices.calculateFoodPoisoningIndex`. -/
def calculateFoodPoisoningIndexM (current : Ref) : Run Ref := do
  let a ← AccRef.init 0
  -- 기온과 습도가 높을수록 위험
  let a ← (do
    if (← andAlso (slotProp current fun c => jsGe c.temperature 25)
        (slotProp current fun c => jsGe c.humidity 60)) then
      a.set 80 "고온다습하여 식중독 위험이 높습니다"
    else if (← andAlso (slotProp current fun c => jsGe c.temperature 20)
        (slotProp current fun c => jsGe c.humidity 50)) then
      a.set 50 "식중독 주의가 필요합니다"
    else a.set 20 "식중독 위험이 낮습니다")
  -- 역산 (높을수록 안전하게 표시)
  let safetyScore := 100 - a.score
  alloc (HeapObject.index
    { id := "foodsafety"
      name := "식품 안전"
      icon := "🍱"
      score := safetyScore
      grade := getGrade safetyScore
      color := getColor safetyScore
      description :=
        pick3 safetyScore "식품 보관이 안전합니다" "식품 보관에 주의하세요" "식품 보관에 각별히 주의하세요"
      reasons := a.reasons
      recommendation :=
        pick3 safetyScore "음식 보관이 비교적 안전합니다" "음식을 냉장 보관하세요"
          "음식을 빨리 섭취하거나 냉장 보관하세요" })

/-- Heap embedding of `LifeIndices.calculateColdWarningIndex`. -/
def calculateColdWarningIndexM (current daily : Ref) : Run Ref := do
  let a ← AccRef.init 100
  let today ← elemAt daily 0
  -- 일교차
  let a ← (do
    if (← guardValue today fun t =>
        andAlso (dayProp t fun d => jsTruthy d.maxTemp) (dayProp t fun d => jsTruthy d.minTemp))
    then
      let tempDiff ← optProp today fun d => (toNumber d.maxTemp).sub (toNumber d.minTemp)
      if tempDiff.ge 15 then
        a.add (-50) ("일교차가 " ++ tempDiff.toFixed1 ++ "°C로 매우 큽니다")
      else if tempDiff.ge 10 then
        a.add (-30) ("일교차가 " ++ tempDiff.toFixed1 ++ "°C로 큽니다")
      else pure a
    else pure a)
  -- 습도
  let a ← (do
    if (← slotProp current fun c => jsLe c.humidity 30) then a.add (-20) "건조하여 호흡기 질환 주의"
    else pure a)
  -- 기온
  let a ← (do
    if (← slotProp current fun c => jsLe c.temperature 5) then a.add (-20) "추운 날씨입니다"
    else pure a)
  let a := a.clamp
  if (← lengthOf a.reasons) = 0 then
    push a.reasons (Value.text "건강 관리에 좋은 날씨입니다")
  alloc (HeapObject.index
    { id := "health"
      name := "건강 관리"
      icon := "💊"
      score := a.score
      grade := getGrade a.score
      color := getColor a.score
      description := getDescription a.score "건강 관리"
      reasons := a.reasons
      recommendation :=
        pick3 a.score "건강 관리에 좋은 날씨입니다" "옷차림에 신경쓰세요"
          "감기 조심하세요. 보온에 유의하세요" })

/-- Heap embedding of `LifeIndices.calculateAll`: the argument is a reference to
the forecast object, the result a reference to the new array of the eight
index objects. -/
def calculateAllM (weatherData : Ref) : Run Ref := do
  let (current, daily) ← forecastProps weatherData
  let laundry ← calculateLaundryIndexM current daily
  let carwash ← calculateCarWashIndexM daily
  let dogwalk ← calculateDogWalkIndexM current
  let camping ← calculateCampingIndexM current daily
  let exercise ← calculateExerciseIndexM current
  let stargazing ← calculateStargazingIndexM current
  let foodsafety ← calculateFoodPoisoningIndexM current
  let health ← calculateColdWarningIndexM current daily
  alloc (HeapObject.array
    [Value.ref laundry, Value.ref carwash, Value.ref dogwalk, Value.ref camping,
      Value.ref exercise, Value.ref stargazing, Value.ref foodsafety, Value.ref health])

/-! ### Reading values back from the heap -/

/-- The elements of a list read one by one; nothing when one read fails. -/
def readEach {α : Type} (f : Value → Option α) : List Value → Option (List α)
  | [] => some []
  | v :: vs =>
    match f v, readEach f vs with
    | some x, some xs => some (x :: xs)
    | _, _ => none

/-- The text that an array element holds. -/
def textOf (v : Value) : Option String :=
  match v with
  | Value.text s => some s
  | Value.ref _ => none

/-- The slot that an array element refers to. -/
def slotAt (h : Heap) (v : Value) : Option TimeSlot :=
  match v with
  | Value.ref r =>
    match h[r]? with
    | some (HeapObject.slot s) => some s
    | _ => none
  | Value.text _ => none

/-- The life index that the object at `r` describes, its reasons read from the
array it refers to. -/
def readIndex (h : Heap) (r : Ref) : Option LifeIndex :=
  match h[r]? with
  | some (HeapObject.index i) =>
    match h[i.reasons]? with
    | some (HeapObject.array rs) =>
      (readEach textOf rs).map fun reasons =>
        { id := i.id
          name := i.name
          icon := i.icon
          score := i.score
          grade := i.grade
          color := i.color
          description := i.description
          reasons := reasons
          recommendation := i.recommendation }
    | _ => none
  | _ => none

/-- The life index that an array element refers to. -/
def indexAt (h : Heap) (v : Value) : Option LifeIndex :=
  match v with
  | Value.ref r => readIndex h r
  | Value.text _ => none

/-- The list of life indices held by the array at `r`. -/
def readIndices (h : Heap) (r : Ref) : Option (List LifeIndex) :=
  match h[r]? with
  | some (HeapObject.array l) => readEach (indexAt h) l
  | _ => none

/-- The structured forecast held by the object at `r`. -/
def readForecast (h : Heap) (r : Ref) : Option WeatherData :=
  match h[r]? with
  | some (HeapObject.forecast current hourly daily) =>
    match h[current]?, h[hourly]?, h[daily]? with
    | some (HeapObject.slot c), some (HeapObject.array hs), some (HeapObject.array ds) =>
      match readEach (slotAt h) hs, readEach (dayAt h) ds with
      | some hourlySlots, some days => some { current := c, hourly := hourlySlots, daily := days }
      | _, _ => none
    | _, _, _ => none
  | _ => none

/-- The local variables and the heap of a `calculate*Index` started on the heap
`h`, after the statements that led to the accumulator `a`; `extra` holds the
objects created after the array `reasons`. -/
def accState (h : Heap) (a : Acc) (extra : List HeapObject) : AccRef × Heap :=
  ({ score := a.score, reasons := h.length },
    h ++ HeapObject.array (a.reasons.map Value.text) :: extra)

/-- A heap that holds the scenario forecast: the forecast object, its current
slot, the empty `hourly` array, the `daily` array and its three aggregates. -/
def scenarioHeap : Heap :=
  [ HeapObject.forecast 1 2 3,
    HeapObject.slot scenarioSlot,
    HeapObject.array [],
    HeapObject.array [Value.ref 4, Value.ref 5, Value.ref 6],
    HeapObject.day { maxRainProbability := some (JSNum.fin 0) },
    HeapObject.day { maxRainProbability := some (JSNum.fin 0) },
    HeapObject.day { maxRainProbability := some (JSNum.fin 0) } ]

/-! ## The forecast cache of `WeatherAPI.getForecast`

The cache is an explicit map from key to entry, in insertion order; the two
readings of the clock and the outcome of the network request are inputs.  The
request URL is not modelled. -/

/-- An entry of `this.cache`: `{ data, timestamp }`. -/
structure CacheEntry where
  data : WeatherData
  timestamp : Int
  deriving DecidableEq, Repr

/-- What `fetch`, `response.text()`, `JSON.parse` and the reads of the parsed
response lead to. -/
inductive FetchResponse where
  | networkError (message : String)
  | notJson (textData : String)
  | malformed (message : String)
  | apiError (resultMsg : String)
  | success (items : List ForecastRecord)
  deriving DecidableEq, Repr

/-- The result of a call of `getForecast`: the value or the error of the
promise, the cache after the call, and whether `fetch` was called. -/
structure GetForecastOutcome where
  result : Except String WeatherData
  cache : List (String × CacheEntry)
  fetched : Bool

/-- Field `cacheTimeout`: `10 * 60 * 1000` milliseconds. -/
def cacheTimeout : Int := 10 * 60 * 1000

/-- Method `cache.get(key)`, `none` when `cache.has(key)` is false. -/
def cacheGet (cache : List (String × CacheEntry)) (key : String) : Option CacheEntry :=
  (cache.find? fun e => decide (e.1 = key)).map Prod.snd

/-- Method `cache.set(key, entry)`: an existing key keeps its place. -/
def cacheSet (cache : List (String × CacheEntry)) (key : String) (entry : CacheEntry) :
    List (String × CacheEntry) :=
  if (cacheGet cache key).isSome then
    cache.map fun e => if e.1 = key then (key, entry) else e
  else cache ++ [(key, entry)]

/-- The part of `getForecast` after the cache check: the request, the parse and
the store. -/
def fetchAndStore (cache : List (String × CacheEntry)) (cacheKey : String) (now2 : Int)
    (response : FetchResponse) : GetForecastOutcome :=
  match response with
  | FetchResponse.networkError message =>
    { result := Except.error message, cache := cache, fetched := true }
  | FetchResponse.notJson textData =>
    { result := Except.error ("기상청 API 오류 (응답 형식): " ++ substring textData 0 100 ++ "...")
      cache := cache, fetched := true }
  | FetchResponse.malformed message =>
    { result := Except.error message, cache := cache, fetched := true }
  | FetchResponse.apiError resultMsg =>
    { result := Except.error ("API 오류: " ++ resultMsg), cache := cache, fetched := true }
  | FetchResponse.success items =>
    let weatherData := parseWeatherData items
    { result := Except.ok weatherData
      cache := cacheSet cache cacheKey { data := weatherData, timestamp := now2 }
      fetched := true }

/-- Embedding of `WeatherAPI.getForecast`: `now` is `Date.now()` at the cache
check, `now2` is `Date.now()` when the new entry is stored. -/
def getForecast (cache : List (String × CacheEntry)) (nx ny : Int) (now now2 : Int)
    (response : FetchResponse) : GetForecastOutcome :=
  let cacheKey := toString nx ++ "_" ++ toString ny
  -- 캐시 확인
  match cacheGet cache cacheKey with
  | some cached =>
    if now - cached.timestamp < cacheTimeout then
      { result := Except.ok cached.data, cache := cache, fetched := false }
    else fetchAndStore cache cacheKey now2 response
  | none => fetchAndStore cache cacheKey now2 response

/-- A cache holding the scenario forecast for the cell (60, 127), stored at
time 1000. -/
def sampleCache : List (String × CacheEntry) :=
  [("60_127", { data := scenarioForecast, timestamp := 1000 })]

/-! ## Grid projection (`src/utils/coord-converter.js`)

The projection is modelled in exact real arithmetic: `Math.tan`, `Math.log`,
`Math.pow`, `Math.sin`, `Math.cos`, `Math.sqrt`, `Math.atan` and `Math.atan2`
are the real functions, without the rounding of doubles.  `Math.pow` and
`Math.log` agree with `Real.rpow` and `Real.log` on positive arguments, the
only ones the projection meets below the apex. -/

namespace CoordConverter

/-- Field `RE`, the earth radius in km. -/
noncomputable def RE : ℝ := 6371.00877

/-- Field `GRID`, the grid spacing in km. -/
noncomputable def GRID : ℝ := 5.0

/-- Field `SLAT1`, the first standard parallel. -/
noncomputable def SLAT1 : ℝ := 30.0

/-- Field `SLAT2`, the second standard parallel. -/
noncomputable def SLAT2 : ℝ := 60.0

/-- Field `OLON`, the longitude of the origin. -/
noncomputable def OLON : ℝ := 126.0

/-- Field `OLAT`, the latitude of the origin. -/
noncomputable def OLAT : ℝ := 38.0

/-- Field `XO`, the grid x of the origin. -/
noncomputable def XO : ℝ := 43

/-- Field `YO`, the grid y of the origin. -/
noncomputable def YO : ℝ := 136

/-- Field `DEGRAD`. -/
noncomputable def DEGRAD : ℝ := Real.pi / 180.0

/-- Field `RADDEG`. -/
noncomputable def RADDEG : ℝ := 180.0 / Real.pi

/-- Field `sn` as the constructor computes it. -/
noncomputable def sn : ℝ :=
  let slat1 := SLAT1 * DEGRAD
  let slat2 := SLAT2 * DEGRAD
  let sn := Real.tan (Real.pi * 0.25 + slat2 * 0.5) / Real.tan (Real.pi * 0.25 + slat1 * 0.5)
  Real.log (Real.cos slat1 / Real.cos slat2) / Real.log sn

/-- Field `sf` as the constructor computes it. -/
noncomputable def sf : ℝ :=
  let slat1 := SLAT1 * DEGRAD
  let sf := Real.tan (Real.pi * 0.25 + slat1 * 0.5)
  sf ^ sn * Real.cos slat1 / sn

/-- Field `ro` as the constructor computes it. -/
noncomputable def ro : ℝ :=
  let re := RE / GRID
  let olat := OLAT * DEGRAD
  let ro := Real.tan (Real.pi * 0.25 + olat * 0.5)
  re * sf / ro ^ sn

/-- A grid cell `{ nx, ny }`. -/
structure GridCell where
  nx : Int
  ny : Int
  deriving DecidableEq, Repr

/-- A geographic point `{ lat, lon }` in degrees. -/
structure GeoPoint where
  lat : ℝ
  lon : ℝ

/-- Function `Math.atan2(y, x)`. -/
noncomputable def atan2 (y x : ℝ) : ℝ := Complex.arg ⟨x, y⟩

/-- Embedding of `CoordConverter.toGrid`. -/
noncomputable def toGrid (lat lon : ℝ) : GridCell :=
  let ra := Real.tan (Real.pi * 0.25 + (lat * DEGRAD) * 0.5)
  let ro1 := RE / GRID * sf / ra ^ sn
  let theta := lon * DEGRAD - OLON * DEGRAD
  let theta := if theta > Real.pi then theta - 2.0 * Real.pi else theta
  let theta := if theta < -Real.pi then theta + 2.0 * Real.pi else theta
  let theta := theta * sn
  { nx := Int.floor (ro1 * Real.sin theta + XO + 0.5)
    ny := Int.floor (ro - ro1 * Real.cos theta + YO + 0.5) }

/-- Embedding of `CoordConverter.toLatLon`. -/
noncomputable def toLatLon (nx ny : ℝ) : GeoPoint :=
  let xn := nx - XO
  let yn := ro - ny + YO
  let ra := Real.sqrt (xn * xn + yn * yn)
  let alat :=
    if sn > 0.0 then (RE / GRID * sf / ra) ^ (1.0 / sn)
    else -((RE / GRID * sf / ra) ^ (1.0 / sn))
  let alat := 2.0 * Real.arctan alat - Real.pi * 0.5
  let theta :=
    if |xn| ≤ 0.0 then 0.0
    else if |yn| ≤ 0.0 then (if xn < 0.0 then -(Real.pi * 0.5) else Real.pi * 0.5)
    else atan2 xn yn
  let alon := theta / sn + OLON * DEGRAD
  { lat := alat * RADDEG, lon := alon * RADDEG }

/-- The table `CITY_GRIDS`. -/
def CITY_GRIDS : List (String × GridCell) :=
  [ ("서울", { nx := 60, ny := 127 }),
    ("부산", { nx := 98, ny := 76 }),
    ("대구", { nx := 89, ny := 90 }),
    ("인천", { nx := 55, ny := 124 }),
    ("광주", { nx := 58, ny := 74 }),
    ("대전", { nx := 67, ny := 100 }),
    ("울산", { nx := 102, ny := 84 }),
    ("세종", { nx := 66, ny := 103 }),
    ("제주", { nx := 52, ny := 38 }),
    ("강릉", { nx := 92, ny := 131 }),
    ("전주", { nx := 63, ny := 89 }),
    ("천안", { nx := 68, ny := 107 }),
    ("청주", { nx := 69, ny := 106 }),
    ("포항", { nx := 102, ny := 94 }),
    ("여수", { nx := 73, ny := 66 }) ]

end CoordConverter

/-! ## The base time of a request -/

/-- The local date and time held by a `Date` object: `getFullYear()`, `getMonth()` (0 to
11), `getDate()`, `getHours()` and `getMinutes()`. -/
structure LocalDate where
  year : Int
  month : Nat
  date : Nat
  hours : Nat
  minutes : Nat
  deriving DecidableEq, Repr

/-- Number of days of the month `month` (0 to 11) of `year` in the Gregorian calendar. -/
def daysInMonth (year : Int) (month : Nat) : Nat :=
  if month = 1 then
    if year % 4 = 0 ∧ (year % 100 ≠ 0 ∨ year % 400 = 0) then 29 else 28
  else if month = 3 ∨ month = 5 ∨ month = 8 ∨ month = 10 then 30
  else 31

/-- Statement `now.setDate(now.getDate() - 1)`: the previous calendar day, the time of day
unchanged. -/
def setDatePrevious (now : LocalDate) : LocalDate :=
  if 1 < now.date then { now with date := now.date - 1 }
  else if 0 < now.month then
    { now with month := now.month - 1, date := daysInMonth now.year (now.month - 1) }
  else { now with year := now.year - 1, month := 11, date := 31 }

/-- Expression `String(n).padStart(2, '0')`. -/
def padStart2 (n : Nat) : String :=
  if (toString n).length < 2 then "0" ++ toString n else toString n

/-- The array `baseTimes` of `getBaseDateTime`. -/
def baseTimes : List String :=
  ["0200", "0500", "0800", "1100", "1400", "1700", "2000", "2300"]

/-- The result `{ baseDate, baseTime }`; `baseTime` is `undefined` when the index is
outside the array. -/
structure BaseDateTime where
  baseDate : String
  baseTime : Option String
  deriving DecidableEq, Repr

/-- Embedding of `DateHelper.getBaseDateTime`, with the value of `new Date()` as the
argument `now`. -/
def getBaseDateTime (now : LocalDate) : BaseDateTime :=
  let hour := now.hours
  let _minute := now.minutes
  -- 발표 후 10분 뒤부터 데이터 제공 (API 갱신 시간 고려)
  let baseHour : Int := Int.floor (((hour : ℚ) + 10 / 60) / 3) * 3 - 1
  let now := if baseHour < 2 then setDatePrevious now else now
  let baseHour : Int := if baseHour < 2 then 23 else baseHour
  -- 가장 가까운 발표 시각 찾기
  let baseTimeIndex : Int := Int.floor ((baseHour : ℚ) / 3)
  let baseTimeIndex : Int :=
    if baseTimeIndex ≥ (baseTimes.length : Int) then (baseTimes.length : Int) - 1
    else baseTimeIndex
  { baseDate := toString now.year ++ padStart2 (now.month + 1) ++ padStart2 now.date
    baseTime := if 0 ≤ baseTimeIndex then baseTimes[baseTimeIndex.toNat]? else none }

/-- The release hours of the short-term forecast, from the documentation of
`getBaseDateTime`. -/
def releaseHours : List Nat := [2, 5, 8, 11, 14, 17, 20, 23]

/-- The releases of the current day that are available at `hour:minute`, a release
counting as available from 10 minutes after its time. -/
def availableReleases (hour minute : Nat) : List Nat :=
  releaseHours.filter fun r => decide (r * 60 + 10 ≤ hour * 60 + minute)

/-- The base date and time the documentation asks for: the most recent available release
of the day, or the release of 23:00 of the previous day when none is available yet. -/
def latestRelease (now : LocalDate) : BaseDateTime :=
  match (availableReleases now.hours now.minutes).getLast? with
  | some r =>
    { baseDate := toString now.year ++ padStart2 (now.month + 1) ++ padStart2 now.date
      baseTime := some (padStart2 r ++ "00") }
  | none =>
    { baseDate := toString (setDatePrevious now).year ++
        padStart2 ((setDatePrevious now).month + 1) ++ padStart2 (setDatePrevious now).date
      baseTime := some "2300" }

/-- A local time of 02:30. -/
def halfPastTwo : LocalDate := { year := 2024, month := 0, date := 15, hours := 2, minutes := 30 }

/-! ## Orders used by the relational claims -/

/-- Order of two `date` properties: both are strings, and `parseInt` of the first is a
natural number below `parseInt` of the second. -/
def dateBefore (a b : Option String) : Prop :=
  ∃ x y : String, ∃ m n : ℕ, a = some x ∧ b = some y ∧
    parseInt x = JSNum.fin m ∧ parseInt y = JSNum.fin n ∧ m < n

/-- The value `x < y` of two numbers. -/
def JSNum.lt (x y : JSNum) : Bool :=
  match x, y with
  | JSNum.nan, _ => false
  | _, JSNum.nan => false
  | JSNum.fin a, JSNum.fin b => decide (a < b)
  | JSNum.fin _, JSNum.posInf => true
  | JSNum.fin _, JSNum.negInf => false
  | JSNum.posInf, _ => false
  | JSNum.negInf, JSNum.negInf => false
  | JSNum.negInf, _ => true

/-- Source expression `v < w` on two properties. -/
def jsLt (v w : Option JSNum) : Bool := (toNumber v).lt (toNumber w)

/-- The second aggregate is the first one, or the first one with a larger
`maxRainProbability`. -/
def rainierDay (a b : DailyAggregate) : Prop :=
  a = b ∨ (b = { a with maxRainProbability := b.maxRainProbability } ∧
    jsLt a.maxRainProbability b.maxRainProbability = true)

/-- Three daily aggregates with `maxRainProbability` 0, 45, 0. -/
def oneRainDay : List DailyAggregate :=
  [ { maxRainProbability := some (JSNum.fin 0) },
    { maxRainProbability := some (JSNum.fin 45) },
    { maxRainProbability := some (JSNum.fin 0) } ]

/-- The compass name of the 45-degree sector, centred on a multiple of 45, that contains
the bearing `d`: 0 to 22 and 338 to 360 are north, 23 to 67 north-east, and so on. -/
def compassSector (d : Nat) : String :=
  if d ≤ 22 ∨ 338 ≤ d then "북"
  else if d ≤ 67 then "북동"
  else if d ≤ 112 then "동"
  else if d ≤ 157 then "남동"
  else if d ≤ 202 then "남"
  else if d ≤ 247 then "남서"
  else if d ≤ 292 then "서"
  else "북서"

/-! ## Helper lemmas -/

/-! ## Rounding to the nearest double -/

section Rounding

open JSNum

/-- With enough fuel `bitLog` is the integer binary logarithm. -/
theorem bitLog_eq (fuel n : Nat) (h : n ≤ fuel) : bitLog fuel n = Nat.log2 n := by
  induction fuel generalizing n with
  | zero =>
    have : n = 0 := by omega
    subst this
    simp [bitLog, Nat.log2]
  | succ k ih =>
    rw [bitLog, Nat.log2]
    by_cases h2 : n < 2
    · rw [if_pos h2, if_neg (by omega)]
    · rw [if_neg h2, if_pos (by omega), ih (n / 2) (by omega)]

theorem twoPow_eq (e : Int) : twoPow e = (2 : ℚ) ^ e := by
  unfold twoPow
  split_ifs with h
  · obtain ⟨n, rfl⟩ := Int.eq_ofNat_of_zero_le h
    simp
  · have h2 : 0 ≤ -e := by omega
    obtain ⟨n, hn⟩ := Int.eq_ofNat_of_zero_le h2
    have he : e = -(n : Int) := by omega
    rw [hn, he]
    simp

theorem twoPow_pos (e : Int) : 0 < twoPow e := by
  rw [twoPow_eq]
  positivity

theorem roundHalfEven_floor_le (x : ℚ) : Int.floor x ≤ roundHalfEven x := by
  unfold roundHalfEven
  split_ifs <;> omega

theorem roundHalfEven_intCast (z : Int) : roundHalfEven (z : ℚ) = z := by
  unfold roundHalfEven
  rw [Int.floor_intCast]
  simp

/-- The binade of a rational that is at least 1 is not negative, and its power of two is
at most the rational. -/
theorem binade_of_one_le (a : ℚ) (h : 1 ≤ a) : 0 ≤ binade a ∧ twoPow (binade a) ≤ a := by
  unfold binade
  rw [if_pos h, bitLog_eq _ _ le_rfl]
  have hf : 1 ≤ Int.floor a := Int.le_floor.2 (by simpa using h)
  have hn : (Int.floor a).toNat ≠ 0 := by omega
  refine ⟨Int.natCast_nonneg _, ?_⟩
  rw [twoPow_eq, zpow_natCast]
  have h1 := Nat.log2_self_le hn
  have h2 : ((2 ^ (Int.floor a).toNat.log2 : ℕ) : ℚ) ≤ ((Int.floor a).toNat : ℚ) := by
    exact_mod_cast h1
  have h3 : (((Int.floor a).toNat : ℤ) : ℚ) ≤ a := by
    rw [Int.toNat_of_nonneg (by omega)]
    exact Int.floor_le a
  push_cast at h2 h3 ⊢
  linarith

/-- Rounding a rational that is at least 1 gives a positive number. -/
theorem roundToDouble_pos (q : ℚ) (h : 1 ≤ q) : (roundToDouble q).gt 0 = true := by
  have hq0 : q ≠ 0 := by linarith
  have hq : 0 < q := by linarith
  obtain ⟨hb0, hb⟩ := binade_of_one_le |q| (by rw [abs_of_pos hq]; exact h)
  unfold roundToDouble
  rw [if_neg hq0]
  simp only [if_pos hq]
  have hmax : max (binade |q|) (-1022) = binade |q| := max_eq_left (by omega)
  rw [hmax]
  have hqu := twoPow_pos (binade |q| - 52)
  have hx : (1 : ℚ) ≤ |q| / twoPow (binade |q| - 52) := by
    rw [le_div_iff₀ hqu, one_mul]
    refine le_trans ?_ hb
    rw [twoPow_eq, twoPow_eq]
    exact zpow_le_zpow_right₀ (by norm_num) (by omega)
  have hfl : (1 : Int) ≤ Int.floor (|q| / twoPow (binade |q| - 52)) :=
    Int.le_floor.2 (by simpa using hx)
  have hr := roundHalfEven_floor_le (|q| / twoPow (binade |q| - 52))
  have hpos : (0 : ℚ) < (roundHalfEven (|q| / twoPow (binade |q| - 52)) : ℚ) *
      twoPow (binade |q| - 52) := by
    apply mul_pos _ hqu
    exact_mod_cast (by omega : (0 : Int) < roundHalfEven (|q| / twoPow (binade |q| - 52)))
  split_ifs
  · rfl
  · simp only [JSNum.gt, decide_eq_true_eq]
    exact hpos

/-- Rounding a rational that is not positive gives a number that is not positive. -/
theorem roundToDouble_nonpos (q : ℚ) (h : q ≤ 0) : (roundToDouble q).gt 0 = false := by
  unfold roundToDouble
  by_cases hq0 : q = 0
  · rw [if_pos hq0]
    simp [JSNum.gt]
  · rw [if_neg hq0]
    have hq : ¬ 0 < q := by linarith
    simp only [if_neg hq]
    have hqu := twoPow_pos (max (binade |q|) (-1022) - 52)
    have hx : (0 : ℚ) ≤ |q| / twoPow (max (binade |q|) (-1022) - 52) :=
      div_nonneg (abs_nonneg _) hqu.le
    have hfl : (0 : Int) ≤ Int.floor (|q| / twoPow (max (binade |q|) (-1022) - 52)) :=
      Int.floor_nonneg.2 hx
    have hr := roundHalfEven_floor_le (|q| / twoPow (max (binade |q|) (-1022) - 52))
    have hnn : (0 : ℚ) ≤ (roundHalfEven (|q| / twoPow (max (binade |q|) (-1022) - 52)) : ℚ) *
        twoPow (max (binade |q|) (-1022) - 52) := by
      apply mul_nonneg _ hqu.le
      exact_mod_cast (by omega : (0 : Int) ≤
        roundHalfEven (|q| / twoPow (max (binade |q|) (-1022) - 52)))
    split_ifs
    · rfl
    · simp only [JSNum.gt, decide_eq_false_iff_not, not_lt]
      linarith

/-- A natural number below `2 ^ 53` is a double. -/
theorem roundToDouble_natCast (n : ℕ) (h : n < 2 ^ 53) : roundToDouble (n : ℚ) = fin (n : ℚ) := by
  rcases Nat.eq_zero_or_pos n with h0 | hpos
  · subst h0
    simp [roundToDouble]
  have hn0 : (n : ℚ) ≠ 0 := by exact_mod_cast (by omega : n ≠ 0)
  have hnpos : (0 : ℚ) < n := by exact_mod_cast hpos
  have hlog : n.log2 < 53 := (Nat.log2_lt (by omega)).2 h
  have hb : binade |(n : ℚ)| = (n.log2 : Int) := by
    rw [abs_of_pos hnpos]
    unfold binade
    rw [if_pos (by exact_mod_cast hpos), Int.floor_natCast, Int.toNat_ofNat, bitLog_eq _ _ le_rfl]
  have hq : twoPow (max (binade |(n : ℚ)|) (-1022) - 52) = 1 / (2 : ℚ) ^ (52 - n.log2) := by
    rw [hb, max_eq_left (by omega), twoPow_eq]
    have : ((n.log2 : Int) - 52) = -((52 - n.log2 : ℕ) : Int) := by omega
    rw [this, zpow_neg, zpow_natCast, one_div]
  have hx : |(n : ℚ)| / (1 / (2 : ℚ) ^ (52 - n.log2)) = ((n * 2 ^ (52 - n.log2) : ℕ) : Int) := by
    rw [abs_of_pos hnpos]
    push_cast
    field_simp
  unfold roundToDouble
  rw [if_neg hn0]
  simp only [hq, hx, roundHalfEven_intCast, if_pos hnpos]
  have hr : (((n * 2 ^ (52 - n.log2) : ℕ) : Int) : ℚ) * (1 / (2 : ℚ) ^ (52 - n.log2)) = n := by
    push_cast
    field_simp
  rw [hr, if_neg]
  rw [twoPow_eq, not_le]
  have h1 : (n : ℚ) < 2 ^ 53 := by exact_mod_cast h
  have h2 : (2 : ℚ) ^ (53 : ℕ) ≤ (2 : ℚ) ^ (1024 : Int) := by
    rw [← zpow_natCast]
    exact zpow_le_zpow_right₀ (by norm_num) (by norm_num)
  linarith

end Rounding


theorem clamp_bounds (s : Int) : 0 ≤ max 0 (min 100 s) ∧ max 0 (min 100 s) ≤ 100 := by
  omega

theorem mem_calculateAll (w : WeatherData) (i : LifeIndex) :
    i ∈ calculateAll w ↔
      i = calculateLaundryIndex w.current w.daily ∨
      i = calculateCarWashIndex w.daily ∨
      i = calculateDogWalkIndex w.current ∨
      i = calculateCampingIndex w.current w.daily ∨
      i = calculateExerciseIndex w.current ∨
      i = calculateStargazingIndex w.current ∨
      i = calculateFoodPoisoningIndex w.current ∨
      i = calculateColdWarningIndex w.current w.daily := by
  simp [calculateAll]

theorem carWash_score_cases (daily : List DailyAggregate) :
    (calculateCarWashIndex daily).score = 100 ∨ (calculateCarWashIndex daily).score = 60 ∨
      (calculateCarWashIndex daily).score = 20 := by
  simp only [calculateCarWashIndex, Acc.set]
  split_ifs <;> simp

theorem stargazing_score_cases (c : TimeSlot) :
    (calculateStargazingIndex c).score = 100 ∨ (calculateStargazingIndex c).score = 50 ∨
      (calculateStargazingIndex c).score = 10 ∨ (calculateStargazingIndex c).score = 0 := by
  simp only [calculateStargazingIndex, Acc.set]
  split_ifs <;> simp

theorem foodPoisoning_score_cases (c : TimeSlot) :
    (calculateFoodPoisoningIndex c).score = 20 ∨ (calculateFoodPoisoningIndex c).score = 50 ∨
      (calculateFoodPoisoningIndex c).score = 80 := by
  simp only [calculateFoodPoisoningIndex, Acc.set]
  split_ifs <;> simp

/-- Every index of `calculateAll` has a score between 0 and 100. -/
theorem score_range_of_mem (w : WeatherData) (i : LifeIndex) (hi : i ∈ calculateAll w) :
    0 ≤ i.score ∧ i.score ≤ 100 := by
  rw [mem_calculateAll] at hi
  rcases hi with h | h | h | h | h | h | h | h <;> subst h
  · exact clamp_bounds _
  · rcases carWash_score_cases w.daily with h | h | h <;> omega
  · exact clamp_bounds _
  · exact clamp_bounds _
  · exact clamp_bounds _
  · rcases stargazing_score_cases w.current with h | h | h | h <;> omega
  · rcases foodPoisoning_score_cases w.current with h | h | h <;> omega
  · exact clamp_bounds _

/-! ## The fixed shape of the result -/

/-- C1: for every structured forecast, `calculateAll` returns exactly 8 indices
whose ids are laundry, carwash, dogwalk, camping, exercise, stargazing,
foodsafety, health, in this order; the order is the same for every forecast, so
it cannot depend on the scores. -/
theorem calculateAll_ids_fixed (w : WeatherData) :
    (calculateAll w).length = 8 ∧
      (calculateAll w).map (fun i => i.id) =
        ["laundry", "carwash", "dogwalk", "camping", "exercise", "stargazing",
          "foodsafety", "health"] :=
  ⟨rfl, rfl⟩

/-- C2: every index returned by `calculateAll`, on a forecast whose numeric
fields are numbers or absent, has an integer score between 0 and 100: the score
is a natural number not above 100. -/
theorem calculateAll_score_bounds (w : WeatherData) (i : LifeIndex)
    (hi : i ∈ calculateAll w) :
    ∃ n : ℕ, i.score = (n : Int) ∧ n ≤ 100 := by
  obtain ⟨h0, h1⟩ := score_range_of_mem w i hi
  exact ⟨i.score.toNat, by omega, by omega⟩

/-- The five bands of `getGrade` and `getColor`, band by band. -/
theorem grade_color_table (s : Int) :
    (80 ≤ s → getGrade s = "매우 좋음" ∧ getColor s = "#4CAF50") ∧
    (60 ≤ s → s < 80 → getGrade s = "좋음" ∧ getColor s = "#8BC34A") ∧
    (40 ≤ s → s < 60 → getGrade s = "보통" ∧ getColor s = "#FFC107") ∧
    (20 ≤ s → s < 40 → getGrade s = "나쁨" ∧ getColor s = "#FF9800") ∧
    (s < 20 → getGrade s = "매우 나쁨" ∧ getColor s = "#F44336") := by
  unfold getGrade getColor
  refine ⟨?_, ?_, ?_, ?_, ?_⟩ <;> intros <;> split_ifs <;>
    first
      | omega
      | exact ⟨rfl, rfl⟩

/-- Two scores share a grade exactly when they share a color. -/
theorem grade_eq_iff_color_eq (s t : Int) :
    getGrade s = getGrade t ↔ getColor s = getColor t := by
  unfold getGrade getColor
  split_ifs <;> decide

/-- Every index publishes the grade and the color of its own score. -/
theorem grade_color_of_mem (w : WeatherData) (i : LifeIndex) (hi : i ∈ calculateAll w) :
    i.grade = getGrade i.score ∧ i.color = getColor i.score := by
  rw [mem_calculateAll] at hi
  rcases hi with h | h | h | h | h | h | h | h <;> subst h <;> exact ⟨rfl, rfl⟩

/-- C3: for every forecast and every index returned by `calculateAll`, grade and
color are `getGrade` and `getColor` of the published score; these are the
five-band step functions with breakpoints 80, 60, 40, 20 and the stated values,
and two scores have the same grade if and only if they have the same color. -/
theorem calculateAll_grade_color_bands (w : WeatherData) (i : LifeIndex)
    (hi : i ∈ calculateAll w) :
    (i.grade = getGrade i.score ∧ i.color = getColor i.score) ∧
    (∀ s : Int,
      (80 ≤ s → getGrade s = "매우 좋음" ∧ getColor s = "#4CAF50") ∧
      (60 ≤ s → s < 80 → getGrade s = "좋음" ∧ getColor s = "#8BC34A") ∧
      (40 ≤ s → s < 60 → getGrade s = "보통" ∧ getColor s = "#FFC107") ∧
      (20 ≤ s → s < 40 → getGrade s = "나쁨" ∧ getColor s = "#FF9800") ∧
      (s < 20 → getGrade s = "매우 나쁨" ∧ getColor s = "#F44336")) ∧
    (∀ s t : Int, getGrade s = getGrade t ↔ getColor s = getColor t) :=
  ⟨grade_color_of_mem w i hi, grade_color_table, grade_eq_iff_color_eq⟩

/-! ## Descriptions -/

/-- No activity name makes the five-band template end like the food-safety
description of a safe day. -/
theorem safe_description_not_template (activity : String) :
    "식품 보관이 안전합니다" ≠ activity ++ "에 매우 좋습니다" := by
  intro h
  have h2 := congrArg (fun s : String => s.data.reverse.take 4) h
  simp only [String.data_append, List.reverse_append] at h2
  rw [List.take_append_of_le_length (by decide)] at h2
  revert h2
  decide

/-- The ids of the eight indices, one by one. -/
theorem index_ids (c : TimeSlot) (d : List DailyAggregate) :
    (calculateLaundryIndex c d).id = "laundry" ∧ (calculateCarWashIndex d).id = "carwash" ∧
    (calculateDogWalkIndex c).id = "dogwalk" ∧ (calculateCampingIndex c d).id = "camping" ∧
    (calculateExerciseIndex c).id = "exercise" ∧
    (calculateStargazingIndex c).id = "stargazing" ∧
    (calculateFoodPoisoningIndex c).id = "foodsafety" ∧
    (calculateColdWarningIndex c d).id = "health" :=
  ⟨rfl, rfl, rfl, rfl, rfl, rfl, rfl, rfl⟩

/-- C4, as stated, fails: on a cool dry slot (temperature 10, humidity 30) the
food-safety index has score 80 and the description "식품 보관이 안전합니다", which is
not `getDescription 80 activity` for any activity name. -/
theorem description_foodsafety_counterexample :
    ∃ i ∈ calculateAll
        { current := { temperature := some (JSNum.fin 10), humidity := some (JSNum.fin 30) },
          daily := [] },
      i.id = "foodsafety" ∧ i.score = 80 ∧ i.description = "식품 보관이 안전합니다" ∧
        ∀ activity : String, i.description ≠ getDescription i.score activity := by
  refine ⟨calculateFoodPoisoningIndex
    { temperature := some (JSNum.fin 10), humidity := some (JSNum.fin 30) }, ?_, ?_, ?_, ?_, ?_⟩
  · simp [calculateAll]
  · rfl
  · decide
  · decide
  · intro activity
    have hs : (calculateFoodPoisoningIndex
        { temperature := some (JSNum.fin 10), humidity := some (JSNum.fin 30) }).score = 80 := by
      decide
    have hd : (calculateFoodPoisoningIndex
        { temperature := some (JSNum.fin 10), humidity := some (JSNum.fin 30) }).description
          = "식품 보관이 안전합니다" := by
      decide
    rw [hs, hd]
    simpa [getDescription] using safe_description_not_template activity

/-- C4, amended: for every forecast, the seven indices other than food-safety
have the description `getDescription` of their published score and their own
activity name; the food-safety description is instead chosen among three fixed
strings by the published score with the thresholds 70 and 40. -/
theorem calculateAll_description_amended (w : WeatherData) (i : LifeIndex)
    (hi : i ∈ calculateAll w) :
    (i.id = "laundry" → i.description = getDescription i.score "빨래를 말리기") ∧
    (i.id = "carwash" → i.description = getDescription i.score "세차하기") ∧
    (i.id = "dogwalk" → i.description = getDescription i.score "산책하기") ∧
    (i.id = "camping" → i.description = getDescription i.score "캠핑하기") ∧
    (i.id = "exercise" → i.description = getDescription i.score "야외 운동하기") ∧
    (i.id = "stargazing" → i.description = getDescription i.score "별 보기") ∧
    (i.id = "health" → i.description = getDescription i.score "건강 관리") ∧
    (i.id = "foodsafety" → i.description =
      if i.score ≥ 70 then "식품 보관이 안전합니다"
      else if i.score ≥ 40 then "식품 보관에 주의하세요"
      else "식품 보관에 각별히 주의하세요") := by
  obtain ⟨h1, h2, h3, h4, h5, h6, h7, h8⟩ := index_ids w.current w.daily
  rw [mem_calculateAll] at hi
  rcases hi with h | h | h | h | h | h | h | h <;> subst h <;>
    refine ⟨?_, ?_, ?_, ?_, ?_, ?_, ?_, ?_⟩ <;> intro hid <;>
    first
      | rfl
      | (simp only [h1, h2, h3, h4, h5, h6, h7, h8] at hid
         exact absurd hid (by decide))

/-! ## Reasons -/

theorem laundry_reasons_table (c : TimeSlot) (d : List DailyAggregate) :
    (calculateLaundryIndex c d).reasons = reasonsOfRules (laundryRuleTable c) "보통 수준입니다" := by
  unfold calculateLaundryIndex laundryRuleTable
  generalize jsGe c.rainProbability 70 = b1
  generalize jsGe c.rainProbability 40 = b2
  generalize jsGe c.humidity 80 = b3
  generalize jsGe c.humidity 60 = b4
  generalize jsLe c.humidity 40 = b5
  generalize jsGe c.windSpeed 4 = b6
  generalize jsLe c.windSpeed 8 = b7
  generalize jsGt c.windSpeed 10 = b8
  generalize strictEq c.skyCode "1" = b9
  generalize strictEq c.skyCode "4" = b10
  cases b1 <;> cases b2 <;> cases b3 <;> cases b4 <;> cases b5 <;> cases b6 <;> cases b7 <;>
    cases b8 <;> cases b9 <;> cases b10 <;> rfl

theorem dogWalk_reasons_table (c : TimeSlot) :
    (calculateDogWalkIndex c).reasons =
      reasonsOfRules (dogWalkRuleTable c) "산책하기 좋은 날씨입니다" := by
  unfold calculateDogWalkIndex dogWalkRuleTable
  generalize strictNe c.precipitationCode "0" = b1
  generalize jsGe c.rainProbability 50 = b2
  generalize jsGe c.temperature 30 = b3
  generalize jsGe c.temperature 25 = b4
  generalize jsLe c.temperature (-10) = b5
  generalize jsLe c.temperature 0 = b6
  generalize jsGe c.temperature 15 = b7
  generalize jsLe c.temperature 22 = b8
  generalize jsGt c.windSpeed 10 = b9
  generalize templateLabel c.precipitation ++ " 예보가 있습니다" = r
  cases b1 <;> cases b2 <;> cases b3 <;> cases b4 <;> cases b5 <;> cases b6 <;> cases b7 <;>
    cases b8 <;> cases b9 <;> rfl

theorem camping_reasons_table (c : TimeSlot) (d : List DailyAggregate) :
    (calculateCampingIndex c d).reasons =
      reasonsOfRules (campingRuleTable c d) "캠핑하기 좋은 날씨입니다" := by
  unfold calculateCampingIndex campingRuleTable
  dsimp only
  generalize jsGe c.windSpeed 10 = b1
  generalize jsGe c.windSpeed 7 = b2
  generalize (d.head?.any fun t => jsGe t.maxRainProbability 60) = b3
  generalize (d.head?.any fun t => jsGe t.maxRainProbability 30) = b4
  generalize jsLe c.temperature 5 = b5
  generalize jsGe c.temperature 30 = b6
  generalize jsGe c.temperature 15 = b7
  generalize jsLe c.temperature 25 = b8
  cases b1 <;> cases b2 <;> cases b3 <;> cases b4 <;> cases b5 <;> cases b6 <;> cases b7 <;>
    cases b8 <;> rfl

theorem exercise_reasons_table (c : TimeSlot) :
    (calculateExerciseIndex c).reasons =
      reasonsOfRules (exerciseRuleTable c) "운동하기 좋은 날씨입니다" := by
  unfold calculateExerciseIndex exerciseRuleTable
  generalize jsGe c.temperature 28 = b1
  generalize jsGe c.temperature 25 = b2
  generalize jsLe c.temperature 0 = b3
  generalize jsGe c.temperature 15 = b4
  generalize jsLe c.temperature 22 = b5
  generalize jsGe c.humidity 80 = b6
  generalize jsGe c.rainProbability 60 = b7
  cases b1 <;> cases b2 <;> cases b3 <;> cases b4 <;> cases b5 <;> cases b6 <;> cases b7 <;>
    rfl

theorem coldWarning_reasons_table (c : TimeSlot) (d : List DailyAggregate) :
    (calculateColdWarningIndex c d).reasons =
      reasonsOfRules (coldWarningRuleTable c d) "건강 관리에 좋은 날씨입니다" := by
  unfold calculateColdWarningIndex coldWarningRuleTable diurnalRange
  generalize jsLe c.humidity 30 = b1
  generalize jsLe c.temperature 5 = b2
  cases d.head? with
  | none => cases b1 <;> cases b2 <;> rfl
  | some t =>
    dsimp only
    generalize (jsTruthy t.maxTemp && jsTruthy t.minTemp) = m
    generalize (toNumber t.maxTemp).sub (toNumber t.minTemp) = diff
    cases m
    · cases b1 <;> cases b2 <;> rfl
    · have hge : ∀ k : ℚ, jsGe (some diff) k = diff.ge k := fun _ => rfl
      have hnum : toNumber (some diff) = diff := rfl
      simp only [↓reduceIte, hge, hnum]
      generalize diff.ge 15 = g1
      generalize diff.ge 10 = g2
      generalize diff.toFixed1 = txt
      cases g1 <;> cases g2 <;> cases b1 <;> cases b2 <;> rfl

theorem reasonsOfRules_ne_nil (rules : List (Bool × String)) (placeholder : String) :
    reasonsOfRules rules placeholder ≠ [] := by
  unfold reasonsOfRules
  split_ifs with h
  · simp
  · intro h2
    simp [h2] at h

theorem carWash_reasons_length (d : List DailyAggregate) :
    (calculateCarWashIndex d).reasons.length = 1 := by
  simp only [calculateCarWashIndex, Acc.set]
  split_ifs <;> rfl

theorem stargazing_reasons_length (c : TimeSlot) :
    (calculateStargazingIndex c).reasons.length = 1 := by
  simp only [calculateStargazingIndex, Acc.set]
  split_ifs <;> rfl

theorem foodPoisoning_reasons_length (c : TimeSlot) :
    (calculateFoodPoisoningIndex c).reasons.length = 1 := by
  simp only [calculateFoodPoisoningIndex, Acc.set]
  split_ifs <;> rfl

/-- C5: for every structured forecast, each of the 8 indices has a non-empty
reasons list; for laundry, dog-walk, camping, exercise and cold-warning the list
is the single placeholder when no rule fires and otherwise holds the reason of
each fired rule, one per rule, in evaluation order. -/
theorem calculateAll_reasons_nonempty (w : WeatherData) :
    (∀ i ∈ calculateAll w, i.reasons ≠ []) ∧
    (calculateLaundryIndex w.current w.daily).reasons =
      reasonsOfRules (laundryRuleTable w.current) "보통 수준입니다" ∧
    (calculateDogWalkIndex w.current).reasons =
      reasonsOfRules (dogWalkRuleTable w.current) "산책하기 좋은 날씨입니다" ∧
    (calculateCampingIndex w.current w.daily).reasons =
      reasonsOfRules (campingRuleTable w.current w.daily) "캠핑하기 좋은 날씨입니다" ∧
    (calculateExerciseIndex w.current).reasons =
      reasonsOfRules (exerciseRuleTable w.current) "운동하기 좋은 날씨입니다" ∧
    (calculateColdWarningIndex w.current w.daily).reasons =
      reasonsOfRules (coldWarningRuleTable w.current w.daily) "건강 관리에 좋은 날씨입니다" := by
  refine ⟨?_, laundry_reasons_table _ _, dogWalk_reasons_table _, camping_reasons_table _ _,
    exercise_reasons_table _, coldWarning_reasons_table _ _⟩
  intro i hi
  rw [mem_calculateAll] at hi
  rcases hi with h | h | h | h | h | h | h | h <;> subst h
  · rw [laundry_reasons_table]; exact reasonsOfRules_ne_nil _ _
  · exact List.ne_nil_of_length_eq_add_one (carWash_reasons_length _)
  · rw [dogWalk_reasons_table]; exact reasonsOfRules_ne_nil _ _
  · rw [camping_reasons_table]; exact reasonsOfRules_ne_nil _ _
  · rw [exercise_reasons_table]; exact reasonsOfRules_ne_nil _ _
  · exact List.ne_nil_of_length_eq_add_one (stargazing_reasons_length _)
  · exact List.ne_nil_of_length_eq_add_one (foodPoisoning_reasons_length _)
  · rw [coldWarning_reasons_table]; exact reasonsOfRules_ne_nil _ _

/-! ## Score formulas -/

/-- C6: for a current slot with numeric rain probability `rp`, humidity `h` and
wind speed `ws`, the laundry score is `max 0 (min 100 (100 + R + H + W + S))`
with the four stated deltas, and the daily list has no influence on the index. -/
theorem laundry_score_formula (c : TimeSlot) (daily : List DailyAggregate) (rp h ws : ℚ)
    (hrp : c.rainProbability = some (JSNum.fin rp)) (hh : c.humidity = some (JSNum.fin h))
    (hws : c.windSpeed = some (JSNum.fin ws)) :
    (calculateLaundryIndex c daily).score =
        max 0 (min 100 (100
          + (if rp ≥ 70 then -50 else if rp ≥ 40 then -30 else 0)
          + (if h ≥ 80 then -30 else if h ≥ 60 then -15 else if h ≤ 40 then 10 else 0)
          + (if 4 ≤ ws ∧ ws ≤ 8 then 10 else if ws > 10 then -20 else 0)
          + (if c.skyCode = some "1" then 15 else if c.skyCode = some "4" then -10 else 0))) ∧
      ∀ daily2 : List DailyAggregate,
        calculateLaundryIndex c daily2 = calculateLaundryIndex c daily := by
  refine ⟨?_, fun _ => rfl⟩
  have e1 : jsGe c.rainProbability 70 = decide (rp ≥ 70) := by rw [hrp]; rfl
  have e2 : jsGe c.rainProbability 40 = decide (rp ≥ 40) := by rw [hrp]; rfl
  have e3 : jsGe c.humidity 80 = decide (h ≥ 80) := by rw [hh]; rfl
  have e4 : jsGe c.humidity 60 = decide (h ≥ 60) := by rw [hh]; rfl
  have e5 : jsLe c.humidity 40 = decide (h ≤ 40) := by rw [hh]; rfl
  have e6 : jsGe c.windSpeed 4 = decide (4 ≤ ws) := by rw [hws]; rfl
  have e7 : jsLe c.windSpeed 8 = decide (ws ≤ 8) := by rw [hws]; rfl
  have e8 : jsGt c.windSpeed 10 = decide (ws > 10) := by rw [hws]; rfl
  simp only [← Bool.cond_decide, Bool.decide_and]
  unfold calculateLaundryIndex strictEq
  rw [e1, e2, e3, e4, e5, e6, e7, e8]
  generalize decide (rp ≥ 70) = b1
  generalize decide (rp ≥ 40) = b2
  generalize decide (h ≥ 80) = b3
  generalize decide (h ≥ 60) = b4
  generalize decide (h ≤ 40) = b5
  generalize decide (4 ≤ ws) = b6
  generalize decide (ws ≤ 8) = b7
  generalize decide (ws > 10) = b8
  generalize decide (c.skyCode = some "1") = b9
  generalize decide (c.skyCode = some "4") = b10
  cases b1 <;> cases b2 <;> cases b3 <;> cases b4 <;> cases b5 <;> cases b6 <;> cases b7 <;>
    cases b8 <;> cases b9 <;> cases b10 <;> rfl

/-- The car-wash index reads only the first three daily aggregates. -/
theorem carWash_take_three (d1 d2 : List DailyAggregate) (h : d1.take 3 = d2.take 3) :
    calculateCarWashIndex d1 = calculateCarWashIndex d2 := by
  unfold calculateCarWashIndex
  rw [h]

/-- C7: the car-wash score is 100, 60 or 20 according to whether 0, 1 or at
least 2 of the first three daily aggregates have `maxRainProbability >= 40`,
with exactly one reason; daily lists that agree on their first three aggregates
give the same index, and the current slot does not influence it.  With
`maxRainProbability` 0, 0, 0 (`dryDays`) the score is 100, the grade "매우 좋음",
and there is one reason, about no rain in the next three days. -/
theorem carWash_score_formula (daily : List DailyAggregate) :
    (((daily.take 3).countP (fun d => jsGe d.maxRainProbability 40) = 0 →
        (calculateCarWashIndex daily).score = 100) ∧
      ((daily.take 3).countP (fun d => jsGe d.maxRainProbability 40) = 1 →
        (calculateCarWashIndex daily).score = 60) ∧
      (2 ≤ (daily.take 3).countP (fun d => jsGe d.maxRainProbability 40) →
        (calculateCarWashIndex daily).score = 20)) ∧
    (calculateCarWashIndex daily).reasons.length = 1 ∧
    (∀ other : List DailyAggregate, other.take 3 = daily.take 3 →
      calculateCarWashIndex other = calculateCarWashIndex daily) ∧
    (∀ c : TimeSlot,
      (calculateAll { current := c, daily := daily })[1]? = some (calculateCarWashIndex daily)) ∧
    ((calculateCarWashIndex dryDays).score = 100 ∧
      (calculateCarWashIndex dryDays).grade = "매우 좋음" ∧
      (calculateCarWashIndex dryDays).reasons = ["향후 3일간 비 소식이 없습니다"]) := by
  refine ⟨?_, carWash_reasons_length daily, fun other h => carWash_take_three other daily h,
    fun _ => rfl, by decide, by decide, by decide⟩
  simp only [calculateCarWashIndex, Acc.set, List.countP_eq_length_filter]
  generalize (List.filter (fun d => jsGe d.maxRainProbability 40) (List.take 3 daily)).length = k
  refine ⟨?_, ?_, ?_⟩ <;> intro hk <;> split_ifs <;> first | rfl | omega

/-- C8: for a current slot with precipitation code `pc` and numeric temperature
`t`, rain probability `rp` and wind speed `ws`, the dog-walk score is
`max 0 (min 100 (100 + P + T + W))` with the stated deltas; at temperature 32,
rain probability 10, code "0" and wind speed 2 the score is 60 and the only
reason is the heat reason. -/
theorem dogWalk_score_formula (c : TimeSlot) (pc : String) (t rp ws : ℚ)
    (hpc : c.precipitationCode = some pc) (ht : c.temperature = some (JSNum.fin t))
    (hrp : c.rainProbability = some (JSNum.fin rp)) (hws : c.windSpeed = some (JSNum.fin ws)) :
    (calculateDogWalkIndex c).score =
        max 0 (min 100 (100
          + (if pc ≠ "0" then -60 else if rp ≥ 50 then -30 else 0)
          + (if t ≥ 30 then -40 else if t ≥ 25 then -20 else if t ≤ -10 then -40
              else if t ≤ 0 then -20 else if 15 ≤ t ∧ t ≤ 22 then 10 else 0)
          + (if ws > 10 then -20 else 0))) ∧
      (t = 32 → rp = 10 → pc = "0" → ws = 2 →
        (calculateDogWalkIndex c).score = 60 ∧
          (calculateDogWalkIndex c).reasons = ["너무 더워 반려견에게 위험할 수 있습니다"]) := by
  have e1 : strictNe c.precipitationCode "0" = decide (pc ≠ "0") := by
    rw [hpc]; simp [strictNe, strictEq]
  have e2 : jsGe c.rainProbability 50 = decide (rp ≥ 50) := by rw [hrp]; rfl
  have e3 : jsGe c.temperature 30 = decide (t ≥ 30) := by rw [ht]; rfl
  have e4 : jsGe c.temperature 25 = decide (t ≥ 25) := by rw [ht]; rfl
  have e5 : jsLe c.temperature (-10) = decide (t ≤ -10) := by rw [ht]; rfl
  have e6 : jsLe c.temperature 0 = decide (t ≤ 0) := by rw [ht]; rfl
  have e7 : jsGe c.temperature 15 = decide (15 ≤ t) := by rw [ht]; rfl
  have e8 : jsLe c.temperature 22 = decide (t ≤ 22) := by rw [ht]; rfl
  have e9 : jsGt c.windSpeed 10 = decide (ws > 10) := by rw [hws]; rfl
  constructor
  · simp only [← Bool.cond_decide, Bool.decide_and]
    unfold calculateDogWalkIndex
    rw [e1, e2, e3, e4, e5, e6, e7, e8, e9]
    generalize decide (pc ≠ "0") = b1
    generalize decide (rp ≥ 50) = b2
    generalize decide (t ≥ 30) = b3
    generalize decide (t ≥ 25) = b4
    generalize decide (t ≤ -10) = b5
    generalize decide (t ≤ 0) = b6
    generalize decide (15 ≤ t) = b7
    generalize decide (t ≤ 22) = b8
    generalize decide (ws > 10) = b9
    cases b1 <;> cases b2 <;> cases b3 <;> cases b4 <;> cases b5 <;> cases b6 <;> cases b7 <;>
      cases b8 <;> cases b9 <;> rfl
  · intro h1 h2 h3 h4
    subst h1 h2 h3 h4
    have f1 : strictNe c.precipitationCode "0" = false := by rw [e1]; decide
    have f2 : jsGe c.rainProbability 50 = false := by rw [e2]; decide
    have f3 : jsGe c.temperature 30 = true := by rw [e3]; decide
    have f9 : jsGt c.windSpeed 10 = false := by rw [e9]; decide
    unfold calculateDogWalkIndex
    rw [f1, f2, f3, f9]
    exact ⟨rfl, rfl⟩

/-- The camping index reads only the first daily aggregate. -/
theorem camping_head_only (c : TimeSlot) (d1 d2 : List DailyAggregate)
    (h : d1.head? = d2.head?) : calculateCampingIndex c d1 = calculateCampingIndex c d2 := by
  unfold calculateCampingIndex
  rw [h]

/-- C9: for a current slot with numeric wind speed `ws` and temperature `t` and
every daily list, the camping score is `max 0 (min 100 (100 + W + R + T))` with
the stated deltas, where `R` reads only the first daily aggregate and is 0 for
an empty daily list. -/
theorem camping_score_formula (c : TimeSlot) (daily : List DailyAggregate) (ws t : ℚ)
    (hws : c.windSpeed = some (JSNum.fin ws)) (ht : c.temperature = some (JSNum.fin t)) :
    (calculateCampingIndex c daily).score =
        max 0 (min 100 (100
          + (if ws ≥ 10 then -50 else if ws ≥ 7 then -25 else 0)
          + (match daily.head? with
              | none => 0
              | some today =>
                if jsGe today.maxRainProbability 60 then -40
                else if jsGe today.maxRainProbability 30 then -20 else 0)
          + (if t ≤ 5 then -30 else if t ≥ 30 then -20
              else if 15 ≤ t ∧ t ≤ 25 then 10 else 0))) ∧
      ∀ other : List DailyAggregate, other.head? = daily.head? →
        calculateCampingIndex c other = calculateCampingIndex c daily := by
  refine ⟨?_, fun other h => camping_head_only c other daily h⟩
  have e1 : jsGe c.windSpeed 10 = decide (ws ≥ 10) := by rw [hws]; rfl
  have e2 : jsGe c.windSpeed 7 = decide (ws ≥ 7) := by rw [hws]; rfl
  have e3 : jsLe c.temperature 5 = decide (t ≤ 5) := by rw [ht]; rfl
  have e4 : jsGe c.temperature 30 = decide (t ≥ 30) := by rw [ht]; rfl
  have e5 : jsGe c.temperature 15 = decide (15 ≤ t) := by rw [ht]; rfl
  have e6 : jsLe c.temperature 25 = decide (t ≤ 25) := by rw [ht]; rfl
  simp only [← Bool.cond_decide, Bool.decide_and]
  unfold calculateCampingIndex
  rw [e1, e2, e3, e4, e5, e6]
  generalize decide (ws ≥ 10) = b1
  generalize decide (ws ≥ 7) = b2
  generalize decide (t ≤ 5) = b3
  generalize decide (t ≥ 30) = b4
  generalize decide (15 ≤ t) = b5
  generalize decide (t ≤ 25) = b6
  cases daily.head? with
  | none =>
    cases b1 <;> cases b2 <;> cases b3 <;> cases b4 <;> cases b5 <;> cases b6 <;> rfl
  | some today =>
    dsimp only [Option.any]
    generalize jsGe today.maxRainProbability 60 = r1
    generalize jsGe today.maxRainProbability 30 = r2
    cases r1 <;> cases r2 <;> cases b1 <;> cases b2 <;> cases b3 <;> cases b4 <;> cases b5 <;>
      cases b6 <;> rfl

/-- C10: for a current slot with numeric temperature `t`, humidity `h` and rain
probability `rp`, the exercise score is `max 0 (min 100 (100 + T + H + R))` with
the stated deltas. -/
theorem exercise_score_formula (c : TimeSlot) (t h rp : ℚ)
    (ht : c.temperature = some (JSNum.fin t)) (hh : c.humidity = some (JSNum.fin h))
    (hrp : c.rainProbability = some (JSNum.fin rp)) :
    (calculateExerciseIndex c).score =
      max 0 (min 100 (100
        + (if t ≥ 28 then -40 else if t ≥ 25 then -20 else if t ≤ 0 then -30
            else if 15 ≤ t ∧ t ≤ 22 then 15 else 0)
        + (if h ≥ 80 then -25 else 0)
        + (if rp ≥ 60 then -30 else 0))) := by
  have e1 : jsGe c.temperature 28 = decide (t ≥ 28) := by rw [ht]; rfl
  have e2 : jsGe c.temperature 25 = decide (t ≥ 25) := by rw [ht]; rfl
  have e3 : jsLe c.temperature 0 = decide (t ≤ 0) := by rw [ht]; rfl
  have e4 : jsGe c.temperature 15 = decide (15 ≤ t) := by rw [ht]; rfl
  have e5 : jsLe c.temperature 22 = decide (t ≤ 22) := by rw [ht]; rfl
  have e6 : jsGe c.humidity 80 = decide (h ≥ 80) := by rw [hh]; rfl
  have e7 : jsGe c.rainProbability 60 = decide (rp ≥ 60) := by rw [hrp]; rfl
  simp only [← Bool.cond_decide, Bool.decide_and]
  unfold calculateExerciseIndex
  rw [e1, e2, e3, e4, e5, e6, e7]
  generalize decide (t ≥ 28) = b1
  generalize decide (t ≥ 25) = b2
  generalize decide (t ≤ 0) = b3
  generalize decide (15 ≤ t) = b4
  generalize decide (t ≤ 22) = b5
  generalize decide (h ≥ 80) = b6
  generalize decide (rp ≥ 60) = b7
  cases b1 <;> cases b2 <;> cases b3 <;> cases b4 <;> cases b5 <;> cases b6 <;> cases b7 <;> rfl

/-! ## Stargazing, food safety, cold warning, recommendations -/

/-- C11: for a current slot with sky code `sky` and precipitation code `pc`: when
`pc` is "0" the stargazing score is 100 for sky "1", 50 for sky "3" and 10 for
any other sky code, with exactly one reason; when `pc` is not "0" the score is 0
whatever the sky code and the reasons list is the single explanatory entry. -/
theorem stargazing_score_formula (c : TimeSlot) (sky pc : String)
    (hsky : c.skyCode = some sky) (hpc : c.precipitationCode = some pc) :
    (pc = "0" →
      (calculateStargazingIndex c).score = (if sky = "1" then 100 else if sky = "3" then 50 else 10) ∧
        (calculateStargazingIndex c).reasons.length = 1) ∧
    (pc ≠ "0" →
      (calculateStargazingIndex c).score = 0 ∧
        (calculateStargazingIndex c).reasons = ["비/눈이 와서 별 관측이 불가능합니다"]) := by
  have e1 : strictNe c.precipitationCode "0" = decide (pc ≠ "0") := by
    rw [hpc]; simp [strictNe, strictEq]
  have e2 : strictEq c.skyCode "1" = decide (sky = "1") := by rw [hsky]; simp [strictEq]
  have e3 : strictEq c.skyCode "3" = decide (sky = "3") := by rw [hsky]; simp [strictEq]
  refine ⟨fun h => ⟨?_, stargazing_reasons_length c⟩, fun h => ?_⟩
  · have f1 : strictNe c.precipitationCode "0" = false := by rw [e1]; simp [h]
    simp only [← Bool.cond_decide]
    unfold calculateStargazingIndex
    rw [f1, e2, e3]
    generalize decide (sky = "1") = b1
    generalize decide (sky = "3") = b2
    cases b1 <;> cases b2 <;> rfl
  · have f1 : strictNe c.precipitationCode "0" = true := by rw [e1]; simp [h]
    unfold calculateStargazingIndex
    rw [f1]
    exact ⟨rfl, rfl⟩

/-- C12: for a current slot with numeric temperature `t` and humidity `h`, the
published food-safety score is `100 - danger` with danger 80, 50 or 20 as
stated, so it is one of 20, 50, 80; there is exactly one reason; grade, color
and recommendation are functions of the published score, and whenever the
published score and the danger score differ (published score not 50) grade and
color differ from those of the danger score. -/
theorem foodSafety_score_formula (c : TimeSlot) (t h : ℚ)
    (ht : c.temperature = some (JSNum.fin t)) (hh : c.humidity = some (JSNum.fin h)) :
    (calculateFoodPoisoningIndex c).score =
        100 - (if t ≥ 25 ∧ h ≥ 60 then 80 else if t ≥ 20 ∧ h ≥ 50 then 50 else 20) ∧
      ((calculateFoodPoisoningIndex c).score = 20 ∨ (calculateFoodPoisoningIndex c).score = 50 ∨
        (calculateFoodPoisoningIndex c).score = 80) ∧
      (calculateFoodPoisoningIndex c).reasons.length = 1 ∧
      (calculateFoodPoisoningIndex c).grade = getGrade (calculateFoodPoisoningIndex c).score ∧
      (calculateFoodPoisoningIndex c).color = getColor (calculateFoodPoisoningIndex c).score ∧
      (calculateFoodPoisoningIndex c).recommendation =
        (if (calculateFoodPoisoningIndex c).score ≥ 70 then "음식 보관이 비교적 안전합니다"
         else if (calculateFoodPoisoningIndex c).score ≥ 40 then "음식을 냉장 보관하세요"
         else "음식을 빨리 섭취하거나 냉장 보관하세요") ∧
      ((calculateFoodPoisoningIndex c).score ≠ 50 →
        (calculateFoodPoisoningIndex c).grade ≠
            getGrade (100 - (calculateFoodPoisoningIndex c).score) ∧
          (calculateFoodPoisoningIndex c).color ≠
            getColor (100 - (calculateFoodPoisoningIndex c).score)) := by
  have e1 : jsGe c.temperature 25 = decide (t ≥ 25) := by rw [ht]; rfl
  have e2 : jsGe c.humidity 60 = decide (h ≥ 60) := by rw [hh]; rfl
  have e3 : jsGe c.temperature 20 = decide (t ≥ 20) := by rw [ht]; rfl
  have e4 : jsGe c.humidity 50 = decide (h ≥ 50) := by rw [hh]; rfl
  refine ⟨?_, foodPoisoning_score_cases c, foodPoisoning_reasons_length c, rfl, rfl, rfl, ?_⟩
  · simp only [← Bool.cond_decide, Bool.decide_and]
    unfold calculateFoodPoisoningIndex
    rw [e1, e2, e3, e4]
    generalize decide (t ≥ 25) = b1
    generalize decide (h ≥ 60) = b2
    generalize decide (t ≥ 20) = b3
    generalize decide (h ≥ 50) = b4
    cases b1 <;> cases b2 <;> cases b3 <;> cases b4 <;> rfl
  · intro hne
    have hg : (calculateFoodPoisoningIndex c).grade =
        getGrade (calculateFoodPoisoningIndex c).score := rfl
    have hc : (calculateFoodPoisoningIndex c).color =
        getColor (calculateFoodPoisoningIndex c).score := rfl
    rw [hg, hc]
    rcases foodPoisoning_score_cases c with h1 | h1 | h1
    · rw [h1]; decide
    · exact absurd h1 hne
    · rw [h1]; decide

/-- The cold-warning score for finite humidity and temperature: the band of the
diurnal range, which exists when the first aggregate holds two truthy extremes,
then the humidity and temperature groups, each added on its own. -/
theorem coldWarning_score_range (c : TimeSlot) (daily : List DailyAggregate) (h t : ℚ)
    (hh : c.humidity = some (JSNum.fin h)) (ht : c.temperature = some (JSNum.fin t)) :
    (calculateColdWarningIndex c daily).score =
      max 0 (min 100 (100
        + (bif jsGe (diurnalRange daily) 15 then -50
            else bif jsGe (diurnalRange daily) 10 then -30 else 0)
        + (if h ≤ 30 then -20 else 0)
        + (if t ≤ 5 then -20 else 0))) := by
  have e4 : jsLe c.humidity 30 = decide (h ≤ 30) := by rw [hh]; rfl
  have e5 : jsLe c.temperature 5 = decide (t ≤ 5) := by rw [ht]; rfl
  simp only [← Bool.cond_decide]
  unfold calculateColdWarningIndex diurnalRange
  rw [e4, e5]
  generalize decide (h ≤ 30) = b3
  generalize decide (t ≤ 5) = b4
  cases daily.head? with
  | none => cases b3 <;> cases b4 <;> rfl
  | some today =>
    dsimp only
    generalize (toNumber today.maxTemp).sub (toNumber today.minTemp) = diff
    generalize (jsTruthy today.maxTemp && jsTruthy today.minTemp) = both
    cases both
    · cases b3 <;> cases b4 <;> rfl
    · have e1 : jsGe (some diff) 15 = diff.ge 15 := rfl
      have e2 : jsGe (some diff) 10 = diff.ge 10 := rfl
      simp only [if_true, e1, e2]
      generalize diff.toFixed1 = txt
      generalize diff.ge 15 = b1
      generalize diff.ge 10 = b2
      cases b1 <;> cases b2 <;> cases b3 <;> cases b4 <;> rfl

/-- Statement `if (v) day.p = v` leaves the property absent or truthy. -/
theorem setIfTruthy_truthy (old v : Option JSNum) (h : old = none ∨ jsTruthy old = true) :
    setIfTruthy old v = none ∨ jsTruthy (setIfTruthy old v) = true := by
  unfold setIfTruthy
  split_ifs with hv
  · exact Or.inr hv
  · exact h

/-- C15, as stated, fails on its own witness: at temperature 32 and humidity 85
the published score is 20 and `getGrade 20` is "나쁨" (poor), not "매우 나쁨". -/
theorem foodSafety_scenario_grade_counterexample :
    scenarioSlot.temperature = some (JSNum.fin 32) ∧ scenarioSlot.humidity = some (JSNum.fin 85) ∧
      (calculateFoodPoisoningIndex scenarioSlot).score = 20 ∧
      (calculateFoodPoisoningIndex scenarioSlot).grade = "나쁨" ∧
      (calculateFoodPoisoningIndex scenarioSlot).grade ≠ "매우 나쁨" := by
  refine ⟨rfl, rfl, by decide, by decide, by decide⟩

/-- C15, amended: for every current slot with temperature at least 25 and
humidity at least 60, the food-safety index is in the danger-80 branch (its
reason is the high-risk one), its published score is `100 - 80 = 20`, and its
grade is "나쁨" (poor). -/
theorem foodSafety_hot_humid (c : TimeSlot) (t h : ℚ)
    (ht : c.temperature = some (JSNum.fin t)) (hh : c.humidity = some (JSNum.fin h))
    (ht25 : t ≥ 25) (hh60 : h ≥ 60) :
    (calculateFoodPoisoningIndex c).reasons = ["고온다습하여 식중독 위험이 높습니다"] ∧
      (calculateFoodPoisoningIndex c).score = 100 - 80 ∧
      (calculateFoodPoisoningIndex c).score = 20 ∧
      (calculateFoodPoisoningIndex c).grade = "나쁨" := by
  have e1 : jsGe c.temperature 25 = true := by rw [ht]; simpa [jsGe, toNumber, JSNum.ge] using ht25
  have e2 : jsGe c.humidity 60 = true := by rw [hh]; simpa [jsGe, toNumber, JSNum.ge] using hh60
  unfold calculateFoodPoisoningIndex
  rw [e1, e2]
  exact ⟨rfl, rfl, rfl, rfl⟩

/-- C16 at the failing input: on the empty current slot (no precipitation code)
the dog-walk index takes the precipitation penalty (score 40, reason built from
the absent label) where precipitation code "0" gives 100, and the stargazing
index is overridden to 0 where the sky code alone gives 10. -/
theorem absent_precipitationCode_penalised :
    (calculateDogWalkIndex {}).score = 40 ∧
      (calculateDogWalkIndex {}).reasons = ["undefined 예보가 있습니다"] ∧
      (calculateDogWalkIndex { precipitationCode := some "0" }).score = 100 ∧
      (calculateStargazingIndex {}).score = 0 ∧
      (calculateStargazingIndex { precipitationCode := some "0" }).score = 10 := by
  refine ⟨by decide, by decide, by decide, by decide, by decide⟩

/-- Every index picks its recommendation with `pick3` on its published score. -/
theorem recommendation_pick3 (c : TimeSlot) (d : List DailyAggregate) :
    (calculateLaundryIndex c d).recommendation =
        pick3 (calculateLaundryIndex c d).score "빨래하기 좋은 날입니다!" "실내 건조를 권장합니다"
          "빨래를 미루는 것이 좋습니다" ∧
    (calculateCarWashIndex d).recommendation =
        pick3 (calculateCarWashIndex d).score "세차하기 좋은 날입니다!" "세차 후 비를 맞을 수 있습니다"
          "세차를 미루는 것이 좋습니다" ∧
    (calculateDogWalkIndex c).recommendation =
        pick3 (calculateDogWalkIndex c).score "산책하기 좋습니다!" "짧게 산책하세요"
          "실내 활동을 권장합니다" ∧
    (calculateCampingIndex c d).recommendation =
        pick3 (calculateCampingIndex c d).score "캠핑하기 좋습니다!" "날씨 변화에 주의하세요"
          "캠핑을 연기하는 것이 좋습니다" ∧
    (calculateExerciseIndex c).recommendation =
        pick3 (calculateExerciseIndex c).score "운동하기 좋습니다!" "실내 운동을 고려하세요"
          "실내 운동을 권장합니다" ∧
    (calculateStargazingIndex c).recommendation =
        pick3 (calculateStargazingIndex c).score "별 보기 좋은 밤입니다!"
          "구름 사이로 별을 볼 수 있습니다" "별 관측이 어렵습니다" ∧
    (calculateFoodPoisoningIndex c).recommendation =
        pick3 (calculateFoodPoisoningIndex c).score "음식 보관이 비교적 안전합니다"
          "음식을 냉장 보관하세요" "음식을 빨리 섭취하거나 냉장 보관하세요" ∧
    (calculateColdWarningIndex c d).recommendation =
        pick3 (calculateColdWarningIndex c d).score "건강 관리에 좋은 날씨입니다"
          "옷차림에 신경쓰세요" "감기 조심하세요. 보온에 유의하세요" :=
  ⟨rfl, rfl, rfl, rfl, rfl, rfl, rfl, rfl⟩

/-- Indices at the same position with the same score have the same recommendation. -/
theorem recommendation_of_score (w1 w2 : WeatherData) (k : Nat) (i1 i2 : LifeIndex)
    (h1 : (calculateAll w1)[k]? = some i1) (h2 : (calculateAll w2)[k]? = some i2)
    (hs : i1.score = i2.score) : i1.recommendation = i2.recommendation := by
  obtain ⟨a1, a2, a3, a4, a5, a6, a7, a8⟩ := recommendation_pick3 w1.current w1.daily
  obtain ⟨b1, b2, b3, b4, b5, b6, b7, b8⟩ := recommendation_pick3 w2.current w2.daily
  rcases k with _ | _ | _ | _ | _ | _ | _ | _ | k <;>
    simp only [calculateAll, List.getElem?_cons_zero, List.getElem?_cons_succ,
      List.getElem?_nil, Option.some.injEq, reduceCtorEq] at h1 h2
  all_goals subst h1 h2
  · rw [a1, b1, hs]
  · rw [a2, b2, hs]
  · rw [a3, b3, hs]
  · rw [a4, b4, hs]
  · rw [a5, b5, hs]
  · rw [a6, b6, hs]
  · rw [a7, b7, hs]
  · rw [a8, b8, hs]

/-- C14: for every forecast and every index, the recommendation is chosen among
the three fixed strings of that index by the published score with the
thresholds 70 and 40 only; indices at the same position with the same score
have the same recommendation; and the laundry scores 60 and 75, which share a
grade band, have different recommendations. -/
theorem calculateAll_recommendation_bands :
    (∀ (w : WeatherData) (i : LifeIndex), i ∈ calculateAll w →
      (i.id = "laundry" → i.recommendation =
        if i.score ≥ 70 then "빨래하기 좋은 날입니다!"
        else if i.score ≥ 40 then "실내 건조를 권장합니다" else "빨래를 미루는 것이 좋습니다") ∧
      (i.id = "carwash" → i.recommendation =
        if i.score ≥ 70 then "세차하기 좋은 날입니다!"
        else if i.score ≥ 40 then "세차 후 비를 맞을 수 있습니다" else "세차를 미루는 것이 좋습니다") ∧
      (i.id = "dogwalk" → i.recommendation =
        if i.score ≥ 70 then "산책하기 좋습니다!"
        else if i.score ≥ 40 then "짧게 산책하세요" else "실내 활동을 권장합니다") ∧
      (i.id = "camping" → i.recommendation =
        if i.score ≥ 70 then "캠핑하기 좋습니다!"
        else if i.score ≥ 40 then "날씨 변화에 주의하세요" else "캠핑을 연기하는 것이 좋습니다") ∧
      (i.id = "exercise" → i.recommendation =
        if i.score ≥ 70 then "운동하기 좋습니다!"
        else if i.score ≥ 40 then "실내 운동을 고려하세요" else "실내 운동을 권장합니다") ∧
      (i.id = "stargazing" → i.recommendation =
        if i.score ≥ 70 then "별 보기 좋은 밤입니다!"
        else if i.score ≥ 40 then "구름 사이로 별을 볼 수 있습니다" else "별 관측이 어렵습니다") ∧
      (i.id = "foodsafety" → i.recommendation =
        if i.score ≥ 70 then "음식 보관이 비교적 안전합니다"
        else if i.score ≥ 40 then "음식을 냉장 보관하세요"
        else "음식을 빨리 섭취하거나 냉장 보관하세요") ∧
      (i.id = "health" → i.recommendation =
        if i.score ≥ 70 then "건강 관리에 좋은 날씨입니다"
        else if i.score ≥ 40 then "옷차림에 신경쓰세요" else "감기 조심하세요. 보온에 유의하세요")) ∧
    (∀ (w1 w2 : WeatherData) (k : Nat) (i1 i2 : LifeIndex),
      (calculateAll w1)[k]? = some i1 → (calculateAll w2)[k]? = some i2 →
        i1.score = i2.score → i1.recommendation = i2.recommendation) ∧
    ((calculateLaundryIndex
          { rainProbability := some (JSNum.fin 70), humidity := some (JSNum.fin 40) } []).score = 60 ∧
      (calculateLaundryIndex
          { humidity := some (JSNum.fin 60), skyCode := some "4" } []).score = 75 ∧
      getGrade 60 = getGrade 75 ∧
      (calculateLaundryIndex
          { rainProbability := some (JSNum.fin 70), humidity := some (JSNum.fin 40) } []).recommendation ≠
        (calculateLaundryIndex
          { humidity := some (JSNum.fin 60), skyCode := some "4" } []).recommendation) := by
  refine ⟨?_, recommendation_of_score, by decide, by decide, by decide, by decide⟩
  intro w i hi
  obtain ⟨h1, h2, h3, h4, h5, h6, h7, h8⟩ := index_ids w.current w.daily
  rw [mem_calculateAll] at hi
  rcases hi with h | h | h | h | h | h | h | h <;> subst h <;>
    refine ⟨?_, ?_, ?_, ?_, ?_, ?_, ?_, ?_⟩ <;> intro hid <;>
    first
      | rfl
      | (simp only [h1, h2, h3, h4, h5, h6, h7, h8] at hid
         exact absurd hid (by decide))

/-! ## Totality -/

theorem camping_checked_ok (c : TimeSlot) (d : List DailyAggregate) :
    calculateCampingIndexChecked c d = Except.ok (calculateCampingIndex c d) := by
  unfold calculateCampingIndexChecked calculateCampingIndex
  cases hd : d.head? with
  | none => rfl
  | some t =>
    dsimp only [guardObj, readProp, Except.map, Option.any, bind, Except.bind, pure, Except.pure]
    generalize jsGe t.maxRainProbability 60 = r1
    generalize jsGe t.maxRainProbability 30 = r2
    cases r1 <;> cases r2 <;> rfl

theorem coldWarning_checked_ok (c : TimeSlot) (d : List DailyAggregate) :
    calculateColdWarningIndexChecked c d = Except.ok (calculateColdWarningIndex c d) := by
  unfold calculateColdWarningIndexChecked calculateColdWarningIndex
  cases hd : d.head? with
  | none => rfl
  | some t =>
    dsimp only [guardObj, readProp, Except.map, bind, Except.bind, pure, Except.pure]
    generalize jsTruthy t.maxTemp = m1
    generalize jsTruthy t.minTemp = m2
    generalize (toNumber t.maxTemp).sub (toNumber t.minTemp) = diff
    generalize diff.ge 15 = g1
    generalize diff.ge 10 = g2
    cases m1 <;> cases m2 <;> cases g1 <;> cases g2 <;> rfl

/-- C17: on every forecast with a current slot (any subset of its fields) and a
daily list of any length, the exception-tracking embedding of `calculateAll`
raises no error and returns the 8 indices of `calculateAll`; in particular on
the empty slot with an empty daily list and with an aggregate without
`maxTemp`/`minTemp`. -/
theorem calculateAll_total (w : WeatherData) :
    calculateAllChecked w = Except.ok (calculateAll w) ∧ (calculateAll w).length = 8 ∧
      calculateAllChecked { current := {}, daily := [] } =
        Except.ok (calculateAll { current := {}, daily := [] }) ∧
      calculateAllChecked { current := {}, daily := [{}] } =
        Except.ok (calculateAll { current := {}, daily := [{}] }) := by
  have key : ∀ v : WeatherData, calculateAllChecked v = Except.ok (calculateAll v) := by
    intro v
    unfold calculateAllChecked calculateAll
    simp only [camping_checked_ok, coldWarning_checked_ok]
    rfl
  exact ⟨key w, rfl, key _, key _⟩

/-! ## Digit strings -/

theorem isDigit_toNat (c : Char) (h : c.isDigit = true) : 48 ≤ c.toNat ∧ c.toNat ≤ 57 := by
  simp only [Char.isDigit, Bool.and_eq_true, decide_eq_true_eq] at h
  exact ⟨h.1, h.2⟩

theorem isDigit_not_whiteSpace (c : Char) (h : c.isDigit = true) : isStrWhiteSpace c = false := by
  obtain ⟨h1, h2⟩ := isDigit_toNat c h
  simp only [isStrWhiteSpace, Bool.or_eq_false_iff, decide_eq_false_iff_not, Bool.and_eq_false_imp,
    decide_eq_true_eq, List.mem_cons, List.mem_singleton, not_or, List.not_mem_nil, or_false]
  omega

theorem digitsValue_foldl (ds : List Char) (n : Nat) :
    ds.foldl (fun n c => 10 * n + (c.toNat - 48)) n = n * 10 ^ ds.length + digitsValue ds := by
  unfold digitsValue
  induction ds generalizing n with
  | nil => simp
  | cons c r ih =>
    simp only [List.foldl_cons, List.length_cons]
    rw [ih (10 * n + (c.toNat - 48)), ih (10 * 0 + (c.toNat - 48))]
    ring

theorem digitsValue_cons (c : Char) (r : List Char) :
    digitsValue (c :: r) = (c.toNat - 48) * 10 ^ r.length + digitsValue r := by
  have h := digitsValue_foldl r (10 * 0 + (c.toNat - 48))
  simp only [digitsValue, List.foldl_cons] at h ⊢
  rw [h]
  simp

theorem digitsValue_lt (ds : List Char) (h : ∀ c ∈ ds, c.isDigit = true) :
    digitsValue ds < 10 ^ ds.length := by
  induction ds with
  | nil => simp [digitsValue]
  | cons c r ih =>
    rw [digitsValue_cons]
    have hc := isDigit_toNat c (h c (List.mem_cons_self _ _))
    have hr := ih (fun x hx => h x (List.mem_cons_of_mem _ hx))
    have h9 : c.toNat - 48 ≤ 9 := by omega
    have : (c.toNat - 48) * 10 ^ r.length ≤ 9 * 10 ^ r.length := Nat.mul_le_mul_right _ h9
    simp only [List.length_cons, pow_succ]
    omega

/-- Digit strings of the same length with the same value are equal. -/
theorem digitsValue_injective (a b : List Char) (hlen : a.length = b.length)
    (ha : ∀ c ∈ a, c.isDigit = true) (hb : ∀ c ∈ b, c.isDigit = true)
    (h : digitsValue a = digitsValue b) : a = b := by
  induction a generalizing b with
  | nil =>
    cases b with
    | nil => rfl
    | cons _ _ => simp at hlen
  | cons x xs ih =>
    cases b with
    | nil => simp at hlen
    | cons y ys =>
      have hl : xs.length = ys.length := by simpa using hlen
      rw [digitsValue_cons, digitsValue_cons, hl] at h
      have hx := isDigit_toNat x (ha x (List.mem_cons_self _ _))
      have hy := isDigit_toNat y (hb y (List.mem_cons_self _ _))
      have hxs := digitsValue_lt xs (fun c hc => ha c (List.mem_cons_of_mem _ hc))
      have hys := digitsValue_lt ys (fun c hc => hb c (List.mem_cons_of_mem _ hc))
      rw [hl] at hxs
      have hp : 0 < 10 ^ ys.length := by positivity
      have hd : x.toNat - 48 = y.toNat - 48 := by
        by_contra hne
        rcases Nat.lt_or_gt_of_ne hne with hlt | hgt
        · have : (x.toNat - 48 + 1) * 10 ^ ys.length ≤ (y.toNat - 48) * 10 ^ ys.length :=
            Nat.mul_le_mul_right _ hlt
          rw [Nat.add_mul] at this
          omega
        · have : (y.toNat - 48 + 1) * 10 ^ ys.length ≤ (x.toNat - 48) * 10 ^ ys.length :=
            Nat.mul_le_mul_right _ hgt
          rw [Nat.add_mul] at this
          omega
      have hxy : x = y := by
        apply Char.ext
        apply UInt32.ext
        have : x.toNat = y.toNat := by omega
        exact this
      rw [hd] at h
      have hrest : digitsValue xs = digitsValue ys := by omega
      rw [hxy, ih ys hl (fun c hc => ha c (List.mem_cons_of_mem _ hc))
        (fun c hc => hb c (List.mem_cons_of_mem _ hc)) hrest]

/-- On a non-empty string of at most 15 digits `parseInt` reads the decimal
value, which is a double. -/
theorem parseInt_digits (s : String) (hne : s.toList ≠ [])
    (hd : ∀ c ∈ s.toList, c.isDigit = true) (hlen : s.toList.length ≤ 15) :
    parseInt s = JSNum.fin (digitsValue s.toList : ℚ) := by
  unfold parseInt
  generalize s.toList = cs at hne hd hlen
  have hexact : JSNum.roundToDouble (digitsValue cs : ℚ) = JSNum.fin (digitsValue cs : ℚ) := by
    apply roundToDouble_natCast
    have h1 := digitsValue_lt cs hd
    have h2 : (10 : ℕ) ^ cs.length ≤ 10 ^ 15 := Nat.pow_le_pow_right (by norm_num) hlen
    have h3 : (10 : ℕ) ^ 15 < 2 ^ 53 := by norm_num
    omega
  cases cs with
  | nil => exact absurd rfl hne
  | cons c r =>
    have hc : c.isDigit = true := hd c (List.mem_cons_self _ _)
    have hws : isStrWhiteSpace c = false := isDigit_not_whiteSpace c hc
    have hminus : c ≠ '-' := by rintro rfl; simp at hc
    have hplus : c ≠ '+' := by rintro rfl; simp at hc
    have hdrop : List.dropWhile isStrWhiteSpace (c :: r) = c :: r := by
      simp [List.dropWhile, hws]
    have hsign : stripSign (c :: r) = (false, c :: r) := by
      simp [stripSign, hminus, hplus]
    have hhex : stripHexPrefix (c :: r) = none := by
      cases r with
      | nil => rfl
      | cons b r2 =>
        have hb : b.isDigit = true := hd b (by simp)
        have hx : b ≠ 'x' := by rintro rfl; simp at hb
        have hX : b ≠ 'X' := by rintro rfl; simp at hb
        simp [stripHexPrefix, hx, hX]
    have htake : List.takeWhile Char.isDigit (c :: r) = c :: r := by
      rw [List.takeWhile_eq_self_iff]
      exact hd
    simp only [hdrop, hsign, hhex, htake]
    simpa using hexact

/-! ## Values that are not a number -/

theorem roundToDouble_ne_nan (q : ℚ) : JSNum.roundToDouble q ≠ JSNum.nan := by
  unfold JSNum.roundToDouble
  dsimp only
  split_ifs <;> simp

theorem takeWhile_isEmpty_iff (p : Char → Bool) (cs : List Char) :
    (cs.takeWhile p).isEmpty = !((cs.head?.map p).getD false) := by
  cases cs with
  | nil => rfl
  | cons c r =>
    by_cases h : p c = true
    · simp [List.takeWhile, h]
    · simp [List.takeWhile, h]

/-- The function `parseFloat` gives NaN exactly on the values without a decimal start. -/
theorem parseFloat_eq_nan_iff (v : String) :
    parseFloat v = JSNum.nan ↔ hasDecimalStart v = false := by
  unfold parseFloat hasDecimalStart afterSign
  dsimp only
  generalize (stripSign (v.toList.dropWhile isStrWhiteSpace)).2 = cs
  generalize (stripSign (v.toList.dropWhile isStrWhiteSpace)).1 = sign
  by_cases hinf : "Infinity".toList.isPrefixOf cs = true
  · rw [if_pos hinf, hinf]
    cases sign <;> simp
  · rw [if_neg hinf]
    have hinf2 : "Infinity".toList.isPrefixOf cs = false := Bool.eq_false_iff.2 hinf
    rw [hinf2, Bool.false_or]
    cases cs with
    | nil => simp
    | cons c rest =>
      by_cases hc : c.isDigit = true
      · have h1 : ((c :: rest).takeWhile Char.isDigit).isEmpty = false := by
          simp [List.takeWhile, hc]
        simp only [h1, hc, Bool.true_or]
        simp [roundToDouble_ne_nan]
      · have hc2 : c.isDigit = false := by simpa using hc
        have h1 : (c :: rest).takeWhile Char.isDigit = [] := by
          simp [List.takeWhile, hc2]
        have h2 : (c :: rest).dropWhile Char.isDigit = c :: rest := by
          simp [List.dropWhile, hc2]
        simp only [h1, h2, hc2, Bool.false_or, List.head?_cons, List.isEmpty_nil,
          List.drop_succ_cons, List.drop_zero]
        by_cases hdot : c = '.'
        · subst hdot
          simp only [if_true, decide_True, Bool.true_and]
          rw [takeWhile_isEmpty_iff]
          cases hh : (rest.head?.map Char.isDigit).getD false
          · simp
          · simp [roundToDouble_ne_nan]
        · have : ¬ (some c = some '.') := by simpa using hdot
          simp [hdot]

/-- The function `parseInt` gives NaN exactly on the values without an integer start. -/
theorem parseInt_eq_nan_iff (v : String) :
    parseInt v = JSNum.nan ↔ hasIntegerStart v = false := by
  unfold parseInt hasIntegerStart afterSign
  dsimp only
  generalize (stripSign (v.toList.dropWhile isStrWhiteSpace)).2 = cs
  generalize (stripSign (v.toList.dropWhile isStrWhiteSpace)).1 = sign
  cases cs with
  | nil => simp [stripHexPrefix]
  | cons a r =>
    cases r with
    | nil =>
      have hs : stripHexPrefix [a] = none := rfl
      rw [hs]
      dsimp only
      rw [takeWhile_isEmpty_iff]
      simp only [List.head?_cons, Option.map_some', Option.getD_some]
      by_cases hd : a.isDigit = true
      · simp [hd, roundToDouble_ne_nan]
      · simp [hd]
    | cons b rest =>
      by_cases hx : a = '0' ∧ (b = 'x' ∨ b = 'X')
      · have hs : stripHexPrefix (a :: b :: rest) = some rest := by
          simp [stripHexPrefix, hx]
        rw [hs]
        dsimp only
        rw [if_pos hx, takeWhile_isEmpty_iff]
        have e : (rest.head?.map fun c => (hexDigit c).isSome).getD false =
            (rest.head?.bind hexDigit).isSome := by
          cases rest with
          | nil => rfl
          | cons c _ => simp
        rw [e]
        cases (rest.head?.bind hexDigit).isSome
        · simp
        · simp [roundToDouble_ne_nan]
      · have hs : stripHexPrefix (a :: b :: rest) = none := by
          simp [stripHexPrefix, hx]
        rw [hs]
        dsimp only
        rw [if_neg hx, takeWhile_isEmpty_iff]
        simp only [List.head?_cons, Option.map_some', Option.getD_some]
        by_cases hd : a.isDigit = true
        · simp [hd, roundToDouble_ne_nan]
        · simp [hd]

/-! ## The slots built from the records -/

theorem applyCategory_date_time (slot : TimeSlot) (category fcstValue : String) :
    (applyCategory slot category fcstValue).date = slot.date ∧
      (applyCategory slot category fcstValue).time = slot.time := by
  unfold applyCategory
  constructor
  · simp only [apply_ite TimeSlot.date, ite_self]
  · simp only [apply_ite TimeSlot.time, ite_self]

theorem addItem_keys (forecast : List (String × TimeSlot)) (item : ForecastRecord) :
    (addItem forecast item).map Prod.fst =
      if recordKey item ∈ forecast.map Prod.fst then forecast.map Prod.fst
      else forecast.map Prod.fst ++ [recordKey item] := by
  have hf : (Prod.fst ∘ fun e : String × TimeSlot =>
      if e.1 = recordKey item then (e.1, applyCategory e.2 item.category item.fcstValue) else e)
      = Prod.fst := by
    funext e
    simp only [Function.comp]
    split_ifs <;> rfl
  unfold addItem
  simp only [List.map_map, hf]
  split_ifs <;> simp

theorem addItem_entry (forecast : List (String × TimeSlot)) (item : ForecastRecord)
    (e : String × TimeSlot) (he : e ∈ addItem forecast item) :
    (∃ e0 ∈ forecast, e.1 = e0.1 ∧ e.2.date = e0.2.date ∧ e.2.time = e0.2.time) ∨
      (e.1 = recordKey item ∧ e.2.date = some item.fcstDate ∧ e.2.time = some item.fcstTime) := by
  unfold addItem at he
  simp only [List.mem_map] at he
  obtain ⟨e0, he0, rfl⟩ := he
  have hup : (if e0.1 = recordKey item then
        (e0.1, applyCategory e0.2 item.category item.fcstValue) else e0).1 = e0.1 ∧
      (if e0.1 = recordKey item then
        (e0.1, applyCategory e0.2 item.category item.fcstValue) else e0).2.date = e0.2.date ∧
      (if e0.1 = recordKey item then
        (e0.1, applyCategory e0.2 item.category item.fcstValue) else e0).2.time = e0.2.time := by
    split_ifs
    · exact ⟨rfl, (applyCategory_date_time _ _ _).1, (applyCategory_date_time _ _ _).2⟩
    · exact ⟨rfl, rfl, rfl⟩
  split_ifs at he0 with hk
  · exact Or.inl ⟨e0, he0, hup⟩
  · rw [List.mem_append, List.mem_singleton] at he0
    rcases he0 with h | h
    · exact Or.inl ⟨e0, h, hup⟩
    · right
      obtain ⟨u1, u2, u3⟩ := hup
      rw [u1, u2, u3, h]
      exact ⟨rfl, rfl, rfl⟩

/-- The slots after all records: distinct keys, every slot carries the date and
time of a record with its key, and every record has its slot. -/
theorem foldl_addItem_inv (items : List ForecastRecord) :
    ((items.foldl addItem []).map Prod.fst).Nodup ∧
      (∀ e ∈ items.foldl addItem [], ∃ r ∈ items,
        e.1 = recordKey r ∧ e.2.date = some r.fcstDate ∧ e.2.time = some r.fcstTime) ∧
      (∀ r ∈ items, recordKey r ∈ (items.foldl addItem []).map Prod.fst) := by
  induction items using List.reverseRecOn with
  | nil => simp
  | append_singleton l a ih =>
    obtain ⟨h1, h2, h3⟩ := ih
    rw [List.foldl_append]
    simp only [List.foldl_cons, List.foldl_nil]
    refine ⟨?_, ?_, ?_⟩
    · rw [addItem_keys]
      split_ifs with hk
      · exact h1
      · rw [List.nodup_append]
        refine ⟨h1, List.nodup_singleton _, ?_⟩
        intro x hx hx2
        rw [List.mem_singleton] at hx2
        exact hk (hx2 ▸ hx)
    · intro e he
      rcases addItem_entry _ _ _ he with ⟨e0, he0, k1, k2, k3⟩ | ⟨k1, k2, k3⟩
      · obtain ⟨r, hr, q1, q2, q3⟩ := h2 e0 he0
        exact ⟨r, List.mem_append_left _ hr, k1.trans q1, k2.trans q2, k3.trans q3⟩
      · exact ⟨a, by simp, k1, k2, k3⟩
    · intro r hr
      rw [addItem_keys]
      rw [List.mem_append, List.mem_singleton] at hr
      split_ifs with hk
      · rcases hr with hr | hr
        · exact h3 r hr
        · rw [hr]; exact hk
      · rw [List.mem_append, List.mem_singleton]
        rcases hr with hr | hr
        · exact Or.inl (h3 r hr)
        · exact Or.inr (by rw [hr])

theorem wellFormed_iff (item : ForecastRecord) :
    wellFormed item = true ↔
      item.fcstDate.toList.length = 8 ∧ (∀ c ∈ item.fcstDate.toList, c.isDigit = true) ∧
        item.fcstTime.toList.length = 4 ∧ (∀ c ∈ item.fcstTime.toList, c.isDigit = true) := by
  simp only [wellFormed, Bool.and_eq_true, decide_eq_true_eq, List.all_eq_true, String.length,
    String.toList]
  tauto

/-- Records with dates of the same length have the same key only when they have
the same date and the same time. -/
theorem recordKey_injective (r1 r2 : ForecastRecord)
    (hlen : r1.fcstDate.toList.length = r2.fcstDate.toList.length)
    (h : recordKey r1 = recordKey r2) :
    r1.fcstDate = r2.fcstDate ∧ r1.fcstTime = r2.fcstTime := by
  have h2 := congrArg String.toList h
  simp only [recordKey, String.toList, String.data_append, List.append_assoc] at h2
  simp only [String.toList] at hlen
  obtain ⟨ha, hb⟩ := List.append_inj h2 hlen
  have hb2 := List.append_inj_right hb rfl
  exact ⟨String.ext ha, String.ext hb2⟩

/-! ## Sorting -/

theorem orderedInsert_congr {α : Type} (r r2 : α → α → Prop) [DecidableRel r] [DecidableRel r2]
    (a : α) (m : List α) (h : ∀ b ∈ m, (r a b ↔ r2 a b)) :
    m.orderedInsert r a = m.orderedInsert r2 a := by
  induction m with
  | nil => rfl
  | cons b m ih =>
    have hb : r a b ↔ r2 a b := h b (List.mem_cons_self _ _)
    have hm := ih (fun x hx => h x (List.mem_cons_of_mem _ hx))
    simp only [List.orderedInsert]
    by_cases hr : r a b
    · rw [if_pos hr, if_pos (hb.1 hr)]
    · rw [if_neg hr, if_neg (fun h2 => hr (hb.2 h2)), hm]

/-- Insertion sort only looks at the relation on the elements of the list. -/
theorem insertionSort_congr {α : Type} (r r2 : α → α → Prop) [DecidableRel r] [DecidableRel r2]
    (l : List α) (h : ∀ a ∈ l, ∀ b ∈ l, (r a b ↔ r2 a b)) :
    l.insertionSort r = l.insertionSort r2 := by
  induction l with
  | nil => rfl
  | cons a l ih =>
    have hl := ih (fun x hx y hy =>
      h x (List.mem_cons_of_mem _ hx) y (List.mem_cons_of_mem _ hy))
    simp only [List.insertionSort]
    rw [hl]
    apply orderedInsert_congr
    intro b hb
    have hb2 : b ∈ l := (List.perm_insertionSort r2 l).mem_iff.1 hb
    exact h a (List.mem_cons_self _ _) b (List.mem_cons_of_mem _ hb2)

/-- Insertion sort by a natural-number key without repeated keys is strictly
increasing in the key. -/
theorem insertionSort_strict {α : Type} (f : α → ℕ) (l : List α) (hn : (l.map f).Nodup) :
    (l.insertionSort (fun a b => f a ≤ f b)).Pairwise (fun a b => f a < f b) := by
  haveI : IsTotal α (fun a b => f a ≤ f b) := ⟨fun a b => Nat.le_total _ _⟩
  haveI : IsTrans α (fun a b => f a ≤ f b) := ⟨fun a b c h1 h2 => Nat.le_trans h1 h2⟩
  have hs : (l.insertionSort (fun a b => f a ≤ f b)).Pairwise (fun a b => f a ≤ f b) :=
    List.sorted_insertionSort (fun a b => f a ≤ f b) l
  have hp := List.perm_insertionSort (fun a b => f a ≤ f b) l
  have hn2 : ((l.insertionSort (fun a b => f a ≤ f b)).map f).Nodup :=
    (hp.map f).nodup_iff.2 hn
  have hne : (l.insertionSort (fun a b => f a ≤ f b)).Pairwise (fun a b => f a ≠ f b) := by
    rw [List.Nodup, List.pairwise_map] at hn2
    exact hn2
  exact List.Pairwise.imp₂ (fun a b h1 h2 => Nat.lt_of_le_of_ne h1 h2) hs hne

/-- The comparator on two slots whose integers are natural numbers. -/
theorem notAfter_iff (a b : TimeSlot) (m n : ℕ) (ha : dateTimeInt a = JSNum.fin m)
    (hb : dateTimeInt b = JSNum.fin n) : notAfter a b ↔ m ≤ n := by
  unfold notAfter compareDateTime
  rw [ha, hb]
  simp only [JSNum.sub]
  constructor
  · intro h
    by_contra hlt
    have h1 : (1 : ℚ) ≤ (m : ℚ) - n := by
      have : n + 1 ≤ m := by omega
      have h2 : ((n + 1 : ℕ) : ℚ) ≤ (m : ℚ) := by exact_mod_cast this
      push_cast at h2
      linarith
    rw [roundToDouble_pos _ h1] at h
    exact absurd h (by decide)
  · intro h
    apply roundToDouble_nonpos
    have : (m : ℚ) ≤ n := by exact_mod_cast h
    linarith

/-! ## The sorted slots of well-formed records -/

/-- Every slot built from the records carries the date and time of a record. -/
theorem slot_of_record (items : List ForecastRecord) (a : TimeSlot)
    (ha : a ∈ (items.foldl addItem []).map Prod.snd) :
    ∃ r ∈ items, a.date = some r.fcstDate ∧ a.time = some r.fcstTime := by
  rw [List.mem_map] at ha
  obtain ⟨e, he, rfl⟩ := ha
  obtain ⟨r, hr, _, h2, h3⟩ := (foldl_addItem_inv items).2.1 e he
  exact ⟨r, hr, h2, h3⟩

/-- The integer of a slot of a well-formed record is the decimal value of its
twelve digits. -/
theorem dateTimeInt_of_record (a : TimeSlot) (r : ForecastRecord) (hwf : wellFormed r = true)
    (hd : a.date = some r.fcstDate) (ht : a.time = some r.fcstTime) :
    dateTimeInt a = JSNum.fin (digitsValue (r.fcstDate.toList ++ r.fcstTime.toList) : ℚ) := by
  obtain ⟨h1, h2, h3, h4⟩ := (wellFormed_iff r).1 hwf
  unfold dateTimeInt
  rw [hd, ht]
  simp only [templateStr]
  have hl : (r.fcstDate ++ r.fcstTime).toList = r.fcstDate.toList ++ r.fcstTime.toList := by
    simp [String.toList, String.data_append]
  rw [parseInt_digits, hl]
  · rw [hl]
    intro h
    have := congrArg List.length h
    rw [List.length_append, h1, h3] at this
    simp at this
  · rw [hl]
    intro c hc
    rcases List.mem_append.1 hc with h | h
    · exact h2 c h
    · exact h4 c h
  · rw [hl, List.length_append, h1, h3]
    norm_num

/-- Two well-formed records with the same twelve-digit value have the same date
and the same time. -/
theorem record_eq_of_value (r1 r2 : ForecastRecord) (h1 : wellFormed r1 = true)
    (h2 : wellFormed r2 = true)
    (h : digitsValue (r1.fcstDate.toList ++ r1.fcstTime.toList) =
      digitsValue (r2.fcstDate.toList ++ r2.fcstTime.toList)) :
    r1.fcstDate = r2.fcstDate ∧ r1.fcstTime = r2.fcstTime := by
  obtain ⟨a1, a2, a3, a4⟩ := (wellFormed_iff r1).1 h1
  obtain ⟨b1, b2, b3, b4⟩ := (wellFormed_iff r2).1 h2
  have hall1 : ∀ c ∈ r1.fcstDate.toList ++ r1.fcstTime.toList, c.isDigit = true := by
    intro c hc
    rcases List.mem_append.1 hc with h | h
    · exact a2 c h
    · exact a4 c h
  have hall2 : ∀ c ∈ r2.fcstDate.toList ++ r2.fcstTime.toList, c.isDigit = true := by
    intro c hc
    rcases List.mem_append.1 hc with h | h
    · exact b2 c h
    · exact b4 c h
  have heq := digitsValue_injective _ _
    (by rw [List.length_append, List.length_append, a1, a3, b1, b3]) hall1 hall2 h
  obtain ⟨e1, e2⟩ := List.append_inj heq (by rw [a1, b1])
  exact ⟨String.ext e1, String.ext e2⟩

/-- The sorted slots of well-formed records are strictly increasing in the
integer read from date followed by time, and there is exactly one of them for
each distinct (date, time) pair of the records. -/
theorem sorted_slots_facts (items : List ForecastRecord)
    (hwf : ∀ r ∈ items, wellFormed r = true) :
    (sortSlots ((items.foldl addItem []).map Prod.snd)).Pairwise
        (fun a b => ∃ m n : ℕ,
          dateTimeInt a = JSNum.fin m ∧ dateTimeInt b = JSNum.fin n ∧ m < n) ∧
      ((sortSlots ((items.foldl addItem []).map Prod.snd)).map fun s => (s.date, s.time)).Perm
        ((items.map fun r => (some r.fcstDate, some r.fcstTime)).dedup) := by
  obtain ⟨hnd, hent, hcov⟩ := foldl_addItem_inv items
  -- the key of an entry is a function of its slot
  have hfst : (items.foldl addItem []).map Prod.fst =
      ((items.foldl addItem []).map Prod.snd).map
        (fun s => templateStr s.date ++ "_" ++ templateStr s.time) := by
    rw [List.map_map]
    apply List.map_congr_left
    intro e he
    obtain ⟨r, _, k1, k2, k3⟩ := hent e he
    simp only [Function.comp, k1, k2, k3, templateStr, recordKey]
  rw [hfst] at hnd
  have hL : ((items.foldl addItem []).map Prod.snd).Nodup := List.Nodup.of_map _ hnd
  have hinj := List.inj_on_of_nodup_map hnd
  -- sort keys
  have hkey : ∀ a ∈ (items.foldl addItem []).map Prod.snd,
      dateTimeInt a =
        JSNum.fin (digitsValue (templateStr a.date ++ templateStr a.time).toList : ℚ) := by
    intro a ha
    obtain ⟨r, hr, hd, ht⟩ := slot_of_record items a ha
    rw [dateTimeInt_of_record a r (hwf r hr) hd ht, hd, ht]
    simp [templateStr, String.toList, String.data_append]
  have hkinj : ∀ a ∈ (items.foldl addItem []).map Prod.snd,
      ∀ b ∈ (items.foldl addItem []).map Prod.snd,
      digitsValue (templateStr a.date ++ templateStr a.time).toList =
        digitsValue (templateStr b.date ++ templateStr b.time).toList → a = b := by
    intro a ha b hb h
    obtain ⟨r1, hr1, hd1, ht1⟩ := slot_of_record items a ha
    obtain ⟨r2, hr2, hd2, ht2⟩ := slot_of_record items b hb
    apply hinj ha hb
    rw [hd1, ht1, hd2, ht2] at h ⊢
    simp only [templateStr, String.toList, String.data_append] at h
    obtain ⟨e1, e2⟩ := record_eq_of_value r1 r2 (hwf r1 hr1) (hwf r2 hr2) h
    simp only [templateStr, e1, e2]
  have hsort : sortSlots ((items.foldl addItem []).map Prod.snd) =
      ((items.foldl addItem []).map Prod.snd).insertionSort
        (fun a b => digitsValue (templateStr a.date ++ templateStr a.time).toList ≤
          digitsValue (templateStr b.date ++ templateStr b.time).toList) := by
    unfold sortSlots
    apply insertionSort_congr
    intro a ha b hb
    exact notAfter_iff a b _ _ (hkey a ha) (hkey b hb)
  have hperm : (sortSlots ((items.foldl addItem []).map Prod.snd)).Perm
      ((items.foldl addItem []).map Prod.snd) := by
    unfold sortSlots
    exact List.perm_insertionSort _ _
  constructor
  · have hstrict := insertionSort_strict
      (fun a : TimeSlot => digitsValue (templateStr a.date ++ templateStr a.time).toList)
      ((items.foldl addItem []).map Prod.snd) (List.Nodup.map_on hkinj hL)
    rw [← hsort] at hstrict
    refine List.Pairwise.imp_of_mem ?_ hstrict
    intro a b ha hb hlt
    exact ⟨_, _, hkey a (hperm.mem_iff.1 ha), hkey b (hperm.mem_iff.1 hb), hlt⟩
  · refine (hperm.map _).trans ?_
    rw [List.perm_ext_iff_of_nodup]
    · intro p
      rw [List.mem_dedup, List.mem_map, List.mem_map]
      constructor
      · rintro ⟨a, ha, rfl⟩
        obtain ⟨r, hr, hd, ht⟩ := slot_of_record items a ha
        exact ⟨r, hr, by rw [hd, ht]⟩
      · rintro ⟨r, hr, rfl⟩
        have hk := hcov r hr
        rw [List.mem_map] at hk
        obtain ⟨e, he, hek⟩ := hk
        obtain ⟨r2, hr2, k1, k2, k3⟩ := hent e he
        obtain ⟨w1, _, _, _⟩ := (wellFormed_iff r).1 (hwf r hr)
        obtain ⟨w2, _, _, _⟩ := (wellFormed_iff r2).1 (hwf r2 hr2)
        obtain ⟨e1, e2⟩ := recordKey_injective r2 r (by rw [w1, w2]) (k1.symm.trans hek)
        exact ⟨e.2, List.mem_map_of_mem _ he, by rw [k2, k3, e1, e2]⟩
    · apply List.Nodup.map_on _ hL
      intro a ha b hb h
      apply hinj ha hb
      simp only [Prod.mk.injEq] at h
      rw [h.1, h.2]
    · exact List.nodup_dedup _

/-- C18: for every non-empty sequence of well-formed records, `hourly` has
length `min 24 (number of distinct (date, time) pairs)`, at most 24; it is
strictly increasing in the integer read from date followed by time; it is the
first 24 slots of the full chronological order (a strictly increasing list with
one slot for each distinct pair); and `current` is `hourly[0]`. -/
theorem parseWeatherData_hourly (items : List ForecastRecord) (hne : items ≠ [])
    (hwf : ∀ r ∈ items, wellFormed r = true) :
    (parseWeatherData items).hourly.length =
        min 24 ((items.map fun r => (r.fcstDate, r.fcstTime)).dedup.length) ∧
      (parseWeatherData items).hourly.length ≤ 24 ∧
      (parseWeatherData items).hourly.Pairwise
        (fun a b => ∃ m n : ℕ,
          dateTimeInt a = JSNum.fin m ∧ dateTimeInt b = JSNum.fin n ∧ m < n) ∧
      (∃ sorted : List TimeSlot,
        sorted.Pairwise
          (fun a b => ∃ m n : ℕ,
            dateTimeInt a = JSNum.fin m ∧ dateTimeInt b = JSNum.fin n ∧ m < n) ∧
        (sorted.map fun s => (s.date, s.time)).Perm
          ((items.map fun r => (some r.fcstDate, some r.fcstTime)).dedup) ∧
        (parseWeatherData items).hourly = sorted.take 24) ∧
      (parseWeatherData items).hourly.head? = some (parseWeatherData items).current := by
  obtain ⟨hstrict, hperm⟩ := sorted_slots_facts items hwf
  have hmap : (items.map fun r => ((some r.fcstDate : Option String), (some r.fcstTime : Option String))) =
      (items.map fun r => (r.fcstDate, r.fcstTime)).map
        (fun p : String × String => ((some p.1 : Option String), (some p.2 : Option String))) := by
    rw [List.map_map]
    rfl
  have hinj : Function.Injective
      (fun p : String × String => ((some p.1 : Option String), (some p.2 : Option String))) := by
    intro p q h
    simp only [Prod.mk.injEq, Option.some.injEq] at h
    exact Prod.ext h.1 h.2
  have hlen : (sortSlots ((items.foldl addItem []).map Prod.snd)).length =
      ((items.map fun r => (r.fcstDate, r.fcstTime)).dedup).length := by
    have h1 := hperm.length_eq
    rw [List.length_map, hmap, List.dedup_map_of_injective hinj, List.length_map] at h1
    exact h1
  have hpos : 0 < (sortSlots ((items.foldl addItem []).map Prod.snd)).length := by
    rw [hlen, List.length_pos]
    intro h
    cases items with
    | nil => exact hne rfl
    | cons r rest =>
      have hm : (r.fcstDate, r.fcstTime) ∈
          ((List.map (fun r => (r.fcstDate, r.fcstTime)) (r :: rest)).dedup) := by
        rw [List.mem_dedup]
        simp
      rw [h] at hm
      exact List.not_mem_nil _ hm
  have hhourly : (parseWeatherData items).hourly =
      (sortSlots ((items.foldl addItem []).map Prod.snd)).take 24 := rfl
  have hcurrent : (parseWeatherData items).current =
      (sortSlots ((items.foldl addItem []).map Prod.snd)).head?.getD {} := rfl
  refine ⟨?_, ?_, ?_, ⟨_, hstrict, hperm, hhourly⟩, ?_⟩
  · rw [hhourly, List.length_take, hlen]
  · rw [hhourly, List.length_take]
    exact Nat.min_le_left _ _
  · rw [hhourly]
    exact List.Pairwise.sublist (List.take_sublist _ _) hstrict
  · rw [hhourly, hcurrent]
    cases hs : sortSlots ((items.foldl addItem []).map Prod.snd) with
    | nil => rw [hs] at hpos; exact absurd hpos (by simp)
    | cons x xs => rfl

/-! ## Daily aggregates -/

theorem addToDay_dates (dailyMap : List DailyAggregate) (item : TimeSlot) :
    (addToDay dailyMap item).map (fun d => d.date) =
      if item.date ∈ dailyMap.map (fun d => d.date) then dailyMap.map (fun d => d.date)
      else dailyMap.map (fun d => d.date) ++ [item.date] := by
  unfold addToDay
  simp only [List.map_map]
  have hf : ∀ l : List DailyAggregate,
      List.map ((fun d : DailyAggregate => d.date) ∘ fun daily : DailyAggregate =>
        if daily.date = item.date then
          { daily with
            temperatures := pushIfTruthy daily.temperatures item.temperature
            rainProbabilities := pushIfTruthy daily.rainProbabilities item.rainProbability
            humidities := pushIfTruthy daily.humidities item.humidity
            windSpeeds := pushIfTruthy daily.windSpeeds item.windSpeed
            minTemp := setIfTruthy daily.minTemp item.minTemperature
            maxTemp := setIfTruthy daily.maxTemp item.maxTemperature
            items := daily.items ++ [item] }
        else daily) l = l.map (fun d => d.date) := by
    intro l
    apply List.map_congr_left
    intro d _
    simp only [Function.comp]
    split_ifs <;> rfl
  rw [hf]
  split_ifs <;> simp

/-- The days collected from the slots: distinct dates, exactly those of the
slots. -/
theorem foldl_addToDay_dates (hourlyData : List TimeSlot) :
    ((hourlyData.foldl addToDay []).map fun d => d.date).Nodup ∧
      ∀ x, x ∈ (hourlyData.foldl addToDay []).map (fun d => d.date) ↔
        x ∈ hourlyData.map (fun s => s.date) := by
  induction hourlyData using List.reverseRecOn with
  | nil => simp
  | append_singleton l a ih =>
    obtain ⟨h1, h2⟩ := ih
    rw [List.foldl_append]
    simp only [List.foldl_cons, List.foldl_nil]
    rw [addToDay_dates]
    split_ifs with hk
    · refine ⟨h1, fun x => ?_⟩
      rw [h2, List.map_append, List.mem_append, List.map_singleton, List.mem_singleton]
      constructor
      · exact Or.inl
      · rintro (h | h)
        · exact h
        · rw [h, ← h2]; exact hk
    · refine ⟨?_, fun x => ?_⟩
      · rw [List.nodup_append]
        refine ⟨h1, List.nodup_singleton _, ?_⟩
        intro x hx hx2
        rw [List.mem_singleton] at hx2
        exact hk (hx2 ▸ hx)
      · rw [List.mem_append, h2, List.map_append, List.mem_append]
        simp

theorem aggregateDailyForecast_dates (hourlyData : List TimeSlot) :
    (aggregateDailyForecast hourlyData).map (fun d => d.date) =
      (hourlyData.foldl addToDay []).map (fun d => d.date) := by
  unfold aggregateDailyForecast
  rw [List.map_map]
  rfl

/-- In a list without repeated keys exactly one element has a given key that
occurs. -/
theorem filter_length_eq_one {α β : Type} [DecidableEq β] (f : α → β) (l : List α) (x : β)
    (hn : (l.map f).Nodup) (hx : x ∈ l.map f) :
    (l.filter fun a => decide (f a = x)).length = 1 := by
  induction l with
  | nil => simp at hx
  | cons a l ih =>
    rw [List.map_cons, List.nodup_cons] at hn
    by_cases hax : f a = x
    · have hnone : l.filter (fun a => decide (f a = x)) = [] := by
        rw [List.filter_eq_nil_iff]
        intro b hb
        simp only [decide_eq_true_eq]
        intro hbx
        exact hn.1 (hax ▸ hbx ▸ List.mem_map_of_mem f hb)
      rw [List.filter_cons_of_pos (by simpa using hax), hnone]
      rfl
    · rw [List.filter_cons_of_neg (by simpa using hax)]
      apply ih hn.2
      rw [List.map_cons, List.mem_cons] at hx
      rcases hx with h | h
      · exact absurd h.symm hax
      · exact h

/-- C19: for every sequence of well-formed records, every date of the input
is the date of exactly one entry of `daily`, every entry of `daily` has the
date of a record, and the dates of `daily` are a rearrangement of the distinct
dates of all records, whatever their number. -/
theorem parseWeatherData_daily_dates (items : List ForecastRecord)
    (hwf : ∀ r ∈ items, wellFormed r = true) :
    (∀ r ∈ items,
      ((parseWeatherData items).daily.filter
        fun d => decide (d.date = some r.fcstDate)).length = 1) ∧
      (∀ d ∈ (parseWeatherData items).daily, ∃ r ∈ items, d.date = some r.fcstDate) ∧
      ((parseWeatherData items).daily.map fun d => d.date).Perm
        ((items.map fun r => some r.fcstDate).dedup) := by
  obtain ⟨_, hperm⟩ := sorted_slots_facts items hwf
  have hdaily : (parseWeatherData items).daily.map (fun d => d.date) =
      ((sortSlots ((items.foldl addItem []).map Prod.snd)).foldl addToDay []).map
        (fun d => d.date) := aggregateDailyForecast_dates _
  obtain ⟨hnd, hmem⟩ := foldl_addToDay_dates (sortSlots ((items.foldl addItem []).map Prod.snd))
  have hdates : ∀ x, x ∈ (parseWeatherData items).daily.map (fun d => d.date) ↔
      ∃ r ∈ items, x = some r.fcstDate := by
    intro x
    rw [hdaily, hmem]
    have hfst : (sortSlots ((items.foldl addItem []).map Prod.snd)).map (fun s => s.date) =
        ((sortSlots ((items.foldl addItem []).map Prod.snd)).map
          fun s => (s.date, s.time)).map Prod.fst := by
      rw [List.map_map]; rfl
    rw [hfst, (hperm.map Prod.fst).mem_iff, List.mem_map]
    constructor
    · rintro ⟨p, hp, rfl⟩
      rw [List.mem_dedup, List.mem_map] at hp
      obtain ⟨r, hr, rfl⟩ := hp
      exact ⟨r, hr, rfl⟩
    · rintro ⟨r, hr, rfl⟩
      exact ⟨(some r.fcstDate, some r.fcstTime),
        List.mem_dedup.2 (List.mem_map_of_mem _ hr), rfl⟩
  rw [← hdaily] at hnd
  refine ⟨?_, ?_, ?_⟩
  · intro r hr
    exact filter_length_eq_one (fun d : DailyAggregate => d.date) _ _ hnd
      ((hdates _).2 ⟨r, hr, rfl⟩)
  · intro d hd
    exact (hdates d.date).1 (List.mem_map_of_mem _ hd)
  · rw [List.perm_ext_iff_of_nodup hnd (List.nodup_dedup _)]
    intro x
    rw [hdates, List.mem_dedup, List.mem_map]
    constructor
    · rintro ⟨r, hr, rfl⟩; exact ⟨r, hr, rfl⟩
    · rintro ⟨r, hr, rfl⟩; exact ⟨r, hr, rfl⟩

/-- C20, as stated, fails: on the empty record sequence `parseWeatherData` raises
no error and returns the forecast with the empty current slot and empty
`hourly` and `daily`. -/
theorem parseWeatherData_empty_counterexample :
    parseWeatherDataChecked [] =
      Except.ok { current := {}, hourly := [], daily := [] } := by
  rfl

/-- C20, amended: applied to an empty record sequence, `parseWeatherData`
returns a structured forecast whose current slot is the empty object and whose
`hourly` and `daily` lists are empty. -/
theorem parseWeatherData_empty :
    (parseWeatherData []).current = {} ∧ (parseWeatherData []).hourly = [] ∧
      (parseWeatherData []).daily = [] :=
  ⟨rfl, rfl, rfl⟩

/-! ## Merged slots -/

theorem lastValue_snoc (l : List ForecastRecord) (a : ForecastRecord) (d t cat : String) :
    lastValue (l ++ [a]) d t cat =
      if a.fcstDate = d ∧ a.fcstTime = t ∧ a.category = cat then some a.fcstValue
      else lastValue l d t cat := by
  unfold lastValue
  rw [List.filter_append]
  by_cases h : a.fcstDate = d ∧ a.fcstTime = t ∧ a.category = cat
  · rw [if_pos h, List.filter_cons_of_pos (by simpa using h)]
    simp
  · rw [if_neg h, List.filter_cons_of_neg (by simpa using h)]
    simp

theorem lastValue_snoc_other (l : List ForecastRecord) (a : ForecastRecord) (d t cat : String)
    (h : ¬ (a.fcstDate = d ∧ a.fcstTime = t)) :
    lastValue (l ++ [a]) d t cat = lastValue l d t cat := by
  rw [lastValue_snoc, if_neg]
  intro h2
  exact h ⟨h2.1, h2.2.1⟩

theorem mergedSlot_snoc_other (l : List ForecastRecord) (a : ForecastRecord) (d t : String)
    (h : ¬ (a.fcstDate = d ∧ a.fcstTime = t)) :
    mergedSlot (l ++ [a]) d t = mergedSlot l d t := by
  unfold mergedSlot
  simp only [lastValue_snoc_other l a d t _ h]

/-- The `switch` applied to the merged slot of a pair is the merged slot after
one more record of that pair. -/
theorem applyCategory_mergedSlot (l : List ForecastRecord) (a : ForecastRecord) :
    applyCategory (mergedSlot l a.fcstDate a.fcstTime) a.category a.fcstValue =
      mergedSlot (l ++ [a]) a.fcstDate a.fcstTime := by
  unfold mergedSlot applyCategory
  simp only [lastValue_snoc, true_and]
  by_cases h1 : a.category = "TMP"
  · simp [h1]
  by_cases h2 : a.category = "TMN"
  · simp [h2]
  by_cases h3 : a.category = "TMX"
  · simp [h3]
  by_cases h4 : a.category = "SKY"
  · simp [h4]
  by_cases h5 : a.category = "PTY"
  · simp [h5]
  by_cases h6 : a.category = "POP"
  · simp [h6]
  by_cases h7 : a.category = "PCP"
  · simp [h7]
  by_cases h8 : a.category = "REH"
  · simp [h8]
  by_cases h9 : a.category = "SNO"
  · simp [h9]
  by_cases h10 : a.category = "WSD"
  · simp [h10]
  by_cases h11 : a.category = "VEC"
  · simp [h11]
  by_cases h12 : a.category = "WAV"
  · simp [h12]
  simp [h1, h2, h3, h4, h5, h6, h7, h8, h9, h10, h11, h12]

theorem lastValue_none (l : List ForecastRecord) (d t cat : String)
    (h : ∀ r ∈ l, ¬ (r.fcstDate = d ∧ r.fcstTime = t)) : lastValue l d t cat = none := by
  unfold lastValue
  have : l.filter (fun r => decide (r.fcstDate = d ∧ r.fcstTime = t ∧ r.category = cat)) = [] := by
    rw [List.filter_eq_nil_iff]
    intro r hr
    simp only [decide_eq_true_eq]
    intro h2
    exact h r hr ⟨h2.1, h2.2.1⟩
  rw [this]
  rfl

theorem mergedSlot_fresh (l : List ForecastRecord) (d t : String)
    (h : ∀ r ∈ l, ¬ (r.fcstDate = d ∧ r.fcstTime = t)) :
    mergedSlot l d t =
      { date := some d, time := some t, dateTime := some (toReadableDateTime d t) } := by
  unfold mergedSlot
  simp only [lastValue_none l d t _ h]
  rfl

theorem mem_addItem (forecast : List (String × TimeSlot)) (item : ForecastRecord)
    (e : String × TimeSlot) (he : e ∈ addItem forecast item) :
    ∃ e0, (e0 ∈ forecast ∨
        (recordKey item ∉ forecast.map Prod.fst ∧
          e0 = (recordKey item,
            { date := some item.fcstDate, time := some item.fcstTime,
              dateTime := some (toReadableDateTime item.fcstDate item.fcstTime) }))) ∧
      e = if e0.1 = recordKey item then
          (e0.1, applyCategory e0.2 item.category item.fcstValue) else e0 := by
  unfold addItem at he
  simp only [List.mem_map] at he
  obtain ⟨e0, he0, rfl⟩ := he
  refine ⟨e0, ?_, rfl⟩
  split_ifs at he0 with hmem
  · exact Or.inl he0
  · rw [List.mem_append, List.mem_singleton] at he0
    rcases he0 with h | h
    · exact Or.inl h
    · refine Or.inr ⟨?_, h⟩
      intro hk
      apply hmem
      rw [List.mem_map] at hk
      obtain ⟨x, hx, hxk⟩ := hk
      exact ⟨x, hx, hxk⟩

/-- Every slot built from well-formed records is the merged slot of the pair of
one of the records. -/
theorem foldl_addItem_merged (items : List ForecastRecord)
    (hwf : ∀ r ∈ items, wellFormed r = true) :
    ∀ e ∈ items.foldl addItem [], ∃ r ∈ items,
      e.1 = recordKey r ∧ e.2 = mergedSlot items r.fcstDate r.fcstTime := by
  induction items using List.reverseRecOn with
  | nil => simp
  | append_singleton l a ih =>
    have hwfl : ∀ r ∈ l, wellFormed r = true := fun r hr => hwf r (List.mem_append_left _ hr)
    have hwfa : wellFormed a = true := hwf a (by simp)
    have ih2 := ih hwfl
    obtain ⟨_, _, hcov⟩ := foldl_addItem_inv l
    have hla : ∀ b ∈ l, recordKey b = recordKey a →
        b.fcstDate = a.fcstDate ∧ b.fcstTime = a.fcstTime := by
      intro b hb hk
      obtain ⟨w1, _, _, _⟩ := (wellFormed_iff b).1 (hwfl b hb)
      obtain ⟨w2, _, _, _⟩ := (wellFormed_iff a).1 hwfa
      exact recordKey_injective b a (by rw [w1, w2]) hk
    intro e he
    rw [List.foldl_append] at he
    simp only [List.foldl_cons, List.foldl_nil] at he
    obtain ⟨e0, he0, rfl⟩ := mem_addItem _ _ _ he
    have hold : ∀ e1 ∈ List.foldl addItem [] l,
        ∃ r ∈ l ++ [a],
          (if e1.1 = recordKey a then (e1.1, applyCategory e1.2 a.category a.fcstValue)
            else e1).1 = recordKey r ∧
          (if e1.1 = recordKey a then (e1.1, applyCategory e1.2 a.category a.fcstValue)
            else e1).2 = mergedSlot (l ++ [a]) r.fcstDate r.fcstTime := by
      intro e1 he1
      obtain ⟨r, hr, k1, k2⟩ := ih2 e1 he1
      by_cases hk : e1.1 = recordKey a
      · rw [if_pos hk]
        obtain ⟨q1, q2⟩ := hla r hr (k1.symm.trans hk)
        refine ⟨a, by simp, hk, ?_⟩
        show applyCategory e1.2 a.category a.fcstValue = _
        rw [k2, q1, q2]
        exact applyCategory_mergedSlot l a
      · rw [if_neg hk]
        refine ⟨r, List.mem_append_left _ hr, k1, ?_⟩
        rw [k2, mergedSlot_snoc_other]
        rintro ⟨p1, p2⟩
        apply hk
        rw [k1]
        simp only [recordKey, p1, p2]
    rcases he0 with h | ⟨hmem, h⟩
    · exact hold e0 h
    · subst h
      refine ⟨a, by simp, ?_, ?_⟩
      · simp
      · simp only [if_true]
        have hnone : ∀ r ∈ l, ¬ (r.fcstDate = a.fcstDate ∧ r.fcstTime = a.fcstTime) := by
          rintro r hr ⟨p1, p2⟩
          apply hmem
          have := hcov r hr
          simpa only [recordKey, p1, p2] using this
        rw [← mergedSlot_fresh l a.fcstDate a.fcstTime hnone]
        exact applyCategory_mergedSlot l a

/-- The slots of well-formed records are exactly the merged slots of the pairs
of the records. -/
theorem mem_sortedForecast (items : List ForecastRecord)
    (hwf : ∀ r ∈ items, wellFormed r = true) (s : TimeSlot) :
    s ∈ sortedForecast items ↔
      ∃ r ∈ items, s = mergedSlot items r.fcstDate r.fcstTime := by
  have hperm : (sortedForecast items).Perm ((items.foldl addItem []).map Prod.snd) :=
    List.perm_insertionSort _ _
  rw [hperm.mem_iff, List.mem_map]
  constructor
  · rintro ⟨e, he, rfl⟩
    obtain ⟨r, hr, _, k2⟩ := foldl_addItem_merged items hwf e he
    exact ⟨r, hr, k2⟩
  · rintro ⟨r, hr, rfl⟩
    obtain ⟨_, _, hcov⟩ := foldl_addItem_inv items
    have hk := hcov r hr
    rw [List.mem_map] at hk
    obtain ⟨e, he, hek⟩ := hk
    obtain ⟨r2, hr2, k1, k2⟩ := foldl_addItem_merged items hwf e he
    obtain ⟨w1, _, _, _⟩ := (wellFormed_iff r).1 (hwf r hr)
    obtain ⟨w2, _, _, _⟩ := (wellFormed_iff r2).1 (hwf r2 hr2)
    obtain ⟨e1, e2⟩ := recordKey_injective r2 r (by rw [w1, w2]) (k1.symm.trans hek)
    exact ⟨e, he, by rw [k2, e1, e2]⟩

theorem parseWeatherData_eq (items : List ForecastRecord) :
    parseWeatherData items =
      { current := (sortedForecast items).head?.getD {}
        hourly := (sortedForecast items).take 24
        daily := aggregateDailyForecast (sortedForecast items) } := rfl

theorem lastValue_filter_known (l : List ForecastRecord) (d t cat : String)
    (hc : cat ∈ knownCategories) :
    lastValue (l.filter fun r => decide (r.category ∈ knownCategories)) d t cat =
      lastValue l d t cat := by
  unfold lastValue
  rw [List.filter_filter]
  congr 2
  apply List.filter_congr
  intro r _
  by_cases h : r.category = cat
  · subst h
    simp [hc]
  · simp [h]

theorem mergedSlot_filter_known (l : List ForecastRecord) (d t : String) :
    mergedSlot (l.filter fun r => decide (r.category ∈ knownCategories)) d t =
      mergedSlot l d t := by
  unfold mergedSlot
  rw [lastValue_filter_known l d t "TMP" (by decide),
    lastValue_filter_known l d t "TMN" (by decide),
    lastValue_filter_known l d t "TMX" (by decide),
    lastValue_filter_known l d t "SKY" (by decide),
    lastValue_filter_known l d t "PTY" (by decide),
    lastValue_filter_known l d t "POP" (by decide),
    lastValue_filter_known l d t "PCP" (by decide),
    lastValue_filter_known l d t "REH" (by decide),
    lastValue_filter_known l d t "SNO" (by decide),
    lastValue_filter_known l d t "WSD" (by decide),
    lastValue_filter_known l d t "VEC" (by decide),
    lastValue_filter_known l d t "WAV" (by decide)]

/-- Two well-formed record sequences with the same slots have the same sorted
slot list. -/
theorem sortedForecast_eq_of_mem (items1 items2 : List ForecastRecord)
    (hwf1 : ∀ r ∈ items1, wellFormed r = true) (hwf2 : ∀ r ∈ items2, wellFormed r = true)
    (h : ∀ s, s ∈ sortedForecast items1 ↔ s ∈ sortedForecast items2) :
    sortedForecast items1 = sortedForecast items2 := by
  have s1 := (sorted_slots_facts items1 hwf1).1
  have s2 := (sorted_slots_facts items2 hwf2).1
  have hirr : ∀ a b : TimeSlot,
      (∃ m n : ℕ, dateTimeInt a = JSNum.fin m ∧ dateTimeInt b = JSNum.fin n ∧ m < n) →
        a ≠ b := by
    rintro a b ⟨m, n, h1, h2, hlt⟩ rfl
    rw [h1] at h2
    have : (m : ℚ) = n := JSNum.fin.inj h2
    have : m = n := by exact_mod_cast this
    omega
  have n1 : (sortedForecast items1).Nodup := List.Pairwise.imp (hirr _ _) s1
  have n2 : (sortedForecast items2).Nodup := List.Pairwise.imp (hirr _ _) s2
  have hp : (sortedForecast items1).Perm (sortedForecast items2) :=
    (List.perm_ext_iff_of_nodup n1 n2).2 h
  haveI : IsAntisymm TimeSlot (fun a b => ∃ m n : ℕ,
      dateTimeInt a = JSNum.fin m ∧ dateTimeInt b = JSNum.fin n ∧ m < n) := by
    constructor
    rintro a b ⟨m, n, h1, h2, hlt⟩ ⟨m2, n2, h3, h4, hlt2⟩
    rw [h1] at h4
    rw [h2] at h3
    have e1 : (m : ℚ) = n2 := JSNum.fin.inj h4
    have e2 : (n : ℚ) = m2 := JSNum.fin.inj h3
    have e3 : m = n2 := by exact_mod_cast e1
    have e4 : n = m2 := by exact_mod_cast e2
    omega
  exact List.eq_of_perm_of_sorted hp s1 s2

/-- Removing the records of unknown category changes nothing when every pair
keeps a record of a known category. -/
theorem sortedForecast_filter_known (items : List ForecastRecord)
    (hwf : ∀ r ∈ items, wellFormed r = true)
    (hcov : ∀ r ∈ items, ∃ r2 ∈ items, r2.category ∈ knownCategories ∧
      r2.fcstDate = r.fcstDate ∧ r2.fcstTime = r.fcstTime) :
    sortedForecast (items.filter fun r => decide (r.category ∈ knownCategories)) =
      sortedForecast items := by
  have hwfK : ∀ r ∈ items.filter (fun r => decide (r.category ∈ knownCategories)),
      wellFormed r = true := fun r hr => hwf r (List.mem_of_mem_filter hr)
  apply sortedForecast_eq_of_mem _ _ hwfK hwf
  intro s
  rw [mem_sortedForecast _ hwfK, mem_sortedForecast _ hwf]
  constructor
  · rintro ⟨r, hr, rfl⟩
    exact ⟨r, List.mem_of_mem_filter hr, mergedSlot_filter_known items _ _⟩
  · rintro ⟨r, hr, rfl⟩
    obtain ⟨r2, hr2, hk, e1, e2⟩ := hcov r hr
    refine ⟨r2, List.mem_filter.2 ⟨hr2, by simpa using hk⟩, ?_⟩
    rw [mergedSlot_filter_known, e1, e2]

/-- C24, as stated, fails: adding to the empty sequence one record of unknown
category creates a slot, so `hourly` and `daily` are no longer empty. -/
theorem unknown_category_counterexample :
    unknownRecord.category ∉ knownCategories ∧
      (parseWeatherData []).hourly.length = 0 ∧
      (parseWeatherData [unknownRecord]).hourly.length = 1 ∧
      (parseWeatherData [unknownRecord]).daily.length = 1 ∧
      parseWeatherData [unknownRecord] ≠ parseWeatherData [] := by
  refine ⟨by decide, by decide, by decide!, by decide!, ?_⟩
  intro h
  have h2 := congrArg (fun w => w.hourly.length) h
  revert h2
  decide!

/-- C24, amended: for two well-formed record sequences that differ only by
records of unknown category (their records of known category are the same, in
the same order), and in which every (date, time) pair has a record of known
category, `parseWeatherData` returns the same forecast, without raising an
error. -/
theorem unknown_category_ignored (items1 items2 : List ForecastRecord)
    (hwf1 : ∀ r ∈ items1, wellFormed r = true) (hwf2 : ∀ r ∈ items2, wellFormed r = true)
    (hsame : (items1.filter fun r => decide (r.category ∈ knownCategories)) =
      items2.filter fun r => decide (r.category ∈ knownCategories))
    (hcov1 : ∀ r ∈ items1, ∃ r2 ∈ items1, r2.category ∈ knownCategories ∧
      r2.fcstDate = r.fcstDate ∧ r2.fcstTime = r.fcstTime)
    (hcov2 : ∀ r ∈ items2, ∃ r2 ∈ items2, r2.category ∈ knownCategories ∧
      r2.fcstDate = r.fcstDate ∧ r2.fcstTime = r.fcstTime) :
    parseWeatherData items1 = parseWeatherData items2 ∧
      parseWeatherDataChecked items1 = Except.ok (parseWeatherData items1) ∧
      parseWeatherDataChecked items2 = Except.ok (parseWeatherData items2) := by
  refine ⟨?_, rfl, rfl⟩
  have h : sortedForecast items1 = sortedForecast items2 := by
    rw [← sortedForecast_filter_known items1 hwf1 hcov1,
      ← sortedForecast_filter_known items2 hwf2 hcov2, hsame]
  rw [parseWeatherData_eq, parseWeatherData_eq, h]

/-- C21, as stated, fails: a temperature record with the value "abc" raises no
error; the forecast is returned and its temperature is `NaN`. -/
theorem unparseable_value_counterexample :
    badTemperatureRecord.category = "TMP" ∧ parseFloat badTemperatureRecord.fcstValue = JSNum.nan ∧
      parseWeatherDataChecked [badTemperatureRecord] =
        Except.ok (parseWeatherData [badTemperatureRecord]) ∧
      (parseWeatherData [badTemperatureRecord]).current.temperature = some JSNum.nan := by
  refine ⟨rfl, by decide, rfl, by decide!⟩

/-! ## The lists of a daily aggregate -/

theorem pushIfTruthy_eq (arr : List JSNum) (v : Option JSNum) :
    pushIfTruthy arr v = arr ++ (v.toList.filter JSNum.truthy) := by
  cases v with
  | none => simp [pushIfTruthy]
  | some x =>
    by_cases h : x.truthy = true
    · simp [pushIfTruthy, h]
    · simp [pushIfTruthy, h]

theorem mem_addToDay (dailyMap : List DailyAggregate) (item : TimeSlot) (d : DailyAggregate)
    (hd : d ∈ addToDay dailyMap item) :
    ∃ d0, (d0 ∈ dailyMap ∨
        (item.date ∉ dailyMap.map (fun x => x.date) ∧
          d0 = { date := item.date, dateFormatted := formatDate item.date,
                 dayOfWeek := getDayOfWeek item.date })) ∧
      d = if d0.date = item.date then
          { d0 with
            temperatures := pushIfTruthy d0.temperatures item.temperature
            rainProbabilities := pushIfTruthy d0.rainProbabilities item.rainProbability
            humidities := pushIfTruthy d0.humidities item.humidity
            windSpeeds := pushIfTruthy d0.windSpeeds item.windSpeed
            minTemp := setIfTruthy d0.minTemp item.minTemperature
            maxTemp := setIfTruthy d0.maxTemp item.maxTemperature
            items := d0.items ++ [item] }
        else d0 := by
  unfold addToDay at hd
  simp only [List.mem_map] at hd
  obtain ⟨d0, hd0, rfl⟩ := hd
  refine ⟨d0, ?_, rfl⟩
  split_ifs at hd0 with hmem
  · exact Or.inl hd0
  · rw [List.mem_append, List.mem_singleton] at hd0
    rcases hd0 with h | h
    · exact Or.inl h
    · refine Or.inr ⟨?_, h⟩
      intro hk
      apply hmem
      rw [List.mem_map] at hk
      obtain ⟨x, hx, hxk⟩ := hk
      exact ⟨x, hx, hxk⟩

/-- The truthy values of a property over the slots of a date. -/
theorem filter_snoc_values (l : List TimeSlot) (a : TimeSlot) (x : Option String)
    (f : TimeSlot → Option JSNum) :
    (((l ++ [a]).filter fun s => decide (s.date = x)).filterMap f).filter JSNum.truthy =
      ((l.filter fun s => decide (s.date = x)).filterMap f).filter JSNum.truthy ++
        (if a.date = x then (f a).toList.filter JSNum.truthy else []) := by
  rw [List.filter_append, List.filterMap_append, List.filter_append]
  congr 1
  by_cases h : a.date = x
  · rw [if_pos h, List.filter_cons_of_pos (by simpa using h)]
    cases hf : f a <;> simp [hf]
  · rw [if_neg h, List.filter_cons_of_neg (by simpa using h)]
    simp

/-- Each day collected from the slots holds, in order, the truthy temperatures,
rain probabilities, humidities and wind speeds of the slots of its date. -/
theorem foldl_addToDay_lists (hourlyData : List TimeSlot) :
    ∀ d ∈ hourlyData.foldl addToDay [],
      d.temperatures =
          ((hourlyData.filter fun s => decide (s.date = d.date)).filterMap
            fun s => s.temperature).filter JSNum.truthy ∧
        d.rainProbabilities =
          ((hourlyData.filter fun s => decide (s.date = d.date)).filterMap
            fun s => s.rainProbability).filter JSNum.truthy ∧
        d.humidities =
          ((hourlyData.filter fun s => decide (s.date = d.date)).filterMap
            fun s => s.humidity).filter JSNum.truthy ∧
        d.windSpeeds =
          ((hourlyData.filter fun s => decide (s.date = d.date)).filterMap
            fun s => s.windSpeed).filter JSNum.truthy := by
  induction hourlyData using List.reverseRecOn with
  | nil => simp
  | append_singleton l a ih =>
    intro d hd
    rw [List.foldl_append] at hd
    simp only [List.foldl_cons, List.foldl_nil] at hd
    obtain ⟨d0, hd0, rfl⟩ := mem_addToDay _ _ _ hd
    have hstep : ∀ d1 : DailyAggregate,
        (d1.temperatures =
          ((l.filter fun s => decide (s.date = d1.date)).filterMap
            fun s => s.temperature).filter JSNum.truthy ∧
        d1.rainProbabilities =
          ((l.filter fun s => decide (s.date = d1.date)).filterMap
            fun s => s.rainProbability).filter JSNum.truthy ∧
        d1.humidities =
          ((l.filter fun s => decide (s.date = d1.date)).filterMap
            fun s => s.humidity).filter JSNum.truthy ∧
        d1.windSpeeds =
          ((l.filter fun s => decide (s.date = d1.date)).filterMap
            fun s => s.windSpeed).filter JSNum.truthy) →
        ∀ d2, d2 = (if d1.date = a.date then
          { d1 with
            temperatures := pushIfTruthy d1.temperatures a.temperature
            rainProbabilities := pushIfTruthy d1.rainProbabilities a.rainProbability
            humidities := pushIfTruthy d1.humidities a.humidity
            windSpeeds := pushIfTruthy d1.windSpeeds a.windSpeed
            minTemp := setIfTruthy d1.minTemp a.minTemperature
            maxTemp := setIfTruthy d1.maxTemp a.maxTemperature
            items := d1.items ++ [a] }
        else d1) →
        (d2.temperatures =
          (((l ++ [a]).filter fun s => decide (s.date = d2.date)).filterMap
            fun s => s.temperature).filter JSNum.truthy ∧
        d2.rainProbabilities =
          (((l ++ [a]).filter fun s => decide (s.date = d2.date)).filterMap
            fun s => s.rainProbability).filter JSNum.truthy ∧
        d2.humidities =
          (((l ++ [a]).filter fun s => decide (s.date = d2.date)).filterMap
            fun s => s.humidity).filter JSNum.truthy ∧
        d2.windSpeeds =
          (((l ++ [a]).filter fun s => decide (s.date = d2.date)).filterMap
            fun s => s.windSpeed).filter JSNum.truthy) := by
      rintro d1 ⟨h1, h2, h3, h4⟩ d2 rfl
      simp only [filter_snoc_values]
      by_cases hk : d1.date = a.date
      · simp only [if_pos hk, hk.symm, if_true, pushIfTruthy_eq]
        rw [← h1, ← h2, ← h3, ← h4]
        exact ⟨rfl, rfl, rfl, rfl⟩
      · have hk2 : ¬ a.date = d1.date := fun h => hk h.symm
        simp only [if_neg hk, if_neg hk2, List.append_nil]
        exact ⟨h1, h2, h3, h4⟩
    rcases hd0 with h | ⟨hmem, h⟩
    · exact hstep d0 (ih d0 h) _ rfl
    · apply hstep d0 _ _ rfl
      subst h
      have hnone : (l.filter fun s => decide (s.date = a.date)) = [] := by
        rw [List.filter_eq_nil_iff]
        intro s hs
        simp only [decide_eq_true_eq]
        intro hsd
        apply hmem
        rw [(foldl_addToDay_dates l).2]
        rw [← hsd]
        exact List.mem_map_of_mem _ hs
      simp only [hnone]
      exact ⟨rfl, rfl, rfl, rfl⟩

/-- The derived statistics of an entry of `aggregateDailyForecast`. -/
theorem mem_aggregateDailyForecast (hourlyData : List TimeSlot) (e : DailyAggregate)
    (he : e ∈ aggregateDailyForecast hourlyData) :
    e.avgTemperature = some (average
        (((hourlyData.filter fun s => decide (s.date = e.date)).filterMap
          fun s => s.temperature).filter JSNum.truthy)) ∧
      e.maxRainProbability = some (maxWithZero
        (((hourlyData.filter fun s => decide (s.date = e.date)).filterMap
          fun s => s.rainProbability).filter JSNum.truthy)) ∧
      e.avgHumidity = some (average
        (((hourlyData.filter fun s => decide (s.date = e.date)).filterMap
          fun s => s.humidity).filter JSNum.truthy)) ∧
      e.maxWindSpeed = some (maxWithZero
        (((hourlyData.filter fun s => decide (s.date = e.date)).filterMap
          fun s => s.windSpeed).filter JSNum.truthy)) := by
  unfold aggregateDailyForecast at he
  rw [List.mem_map] at he
  obtain ⟨d, hd, rfl⟩ := he
  obtain ⟨h1, h2, h3, h4⟩ := foldl_addToDay_lists hourlyData d hd
  simp only
  rw [← h1, ← h2, ← h3, ← h4]
  exact ⟨rfl, rfl, rfl, rfl⟩

theorem addToDay_eq_map (dailyMap : List DailyAggregate) (item : TimeSlot) :
    addToDay dailyMap item =
      (if item.date ∈ dailyMap.map (fun d => d.date) then dailyMap
        else dailyMap ++
          [{ date := item.date
             dateFormatted := formatDate item.date
             dayOfWeek := getDayOfWeek item.date }]).map fun d => dayWith d item := rfl

/-- The slots are exactly the members of the `items` arrays of the days collected from
them. -/
theorem foldl_addToDay_items (hourlyData : List TimeSlot) (s : TimeSlot) :
    s ∈ hourlyData ↔ ∃ d ∈ hourlyData.foldl addToDay [], s ∈ d.items := by
  induction hourlyData using List.reverseRecOn with
  | nil => simp
  | append_singleton l a ih =>
    rw [List.foldl_append]
    simp only [List.foldl_cons, List.foldl_nil]
    generalize l.foldl addToDay [] = M at ih
    rw [addToDay_eq_map, List.mem_append, List.mem_singleton]
    constructor
    · rintro (hs | rfl)
      · obtain ⟨d, hd, hsd⟩ := ih.1 hs
        refine ⟨dayWith d a, List.mem_map_of_mem _ ?_, ?_⟩
        · split_ifs
          · exact hd
          · exact List.mem_append_left _ hd
        · unfold dayWith
          split_ifs
          · exact List.mem_append_left _ hsd
          · exact hsd
      · by_cases hk : s.date ∈ M.map (fun d => d.date)
        · obtain ⟨d, hd, hdate⟩ := List.mem_map.1 hk
          refine ⟨dayWith d s, List.mem_map_of_mem _ ?_, ?_⟩
          · rw [if_pos hk]
            exact hd
          · unfold dayWith
            rw [if_pos hdate]
            exact List.mem_append_right _ (List.mem_singleton_self _)
        · refine ⟨dayWith
              { date := s.date
                dateFormatted := formatDate s.date
                dayOfWeek := getDayOfWeek s.date } s, List.mem_map_of_mem _ ?_, ?_⟩
          · rw [if_neg hk]
            exact List.mem_append_right _ (List.mem_singleton_self _)
          · unfold dayWith
            rw [if_pos rfl]
            exact List.mem_append_right _ (List.mem_singleton_self _)
    · rintro ⟨d2, hd2, hs⟩
      obtain ⟨d, hd, rfl⟩ := List.mem_map.1 hd2
      have hd3 : d ∈ M ∨
          d = { date := a.date
                dateFormatted := formatDate a.date
                dayOfWeek := getDayOfWeek a.date } := by
        split_ifs at hd
        · exact Or.inl hd
        · rw [List.mem_append, List.mem_singleton] at hd
          exact hd
      have hs2 : s ∈ d.items ∨ s = a := by
        unfold dayWith at hs
        split_ifs at hs
        · rw [List.mem_append, List.mem_singleton] at hs
          exact hs
        · exact Or.inl hs
      rcases hs2 with hs2 | hs2
      · rcases hd3 with hd3 | hd3
        · exact Or.inl (ih.2 ⟨d, hd3, hs2⟩)
        · rw [hd3] at hs2
          simp at hs2
      · exact Or.inr hs2

/-- The slots built from the records are exactly the members of the `items` arrays of
the daily aggregates of the parsed forecast. -/
theorem mem_daily_items (items : List ForecastRecord) (s : TimeSlot) :
    s ∈ sortedForecast items ↔ ∃ d ∈ (parseWeatherData items).daily, s ∈ d.items := by
  have h : (parseWeatherData items).daily = aggregateDailyForecast (sortedForecast items) := rfl
  rw [h, foldl_addToDay_items]
  unfold aggregateDailyForecast
  constructor
  · rintro ⟨d, hd, hs⟩
    exact ⟨_, List.mem_map_of_mem _ hd, hs⟩
  · rintro ⟨d2, hd2, hs⟩
    obtain ⟨d, hd, rfl⟩ := List.mem_map.1 hd2
    exact ⟨d, hd, hs⟩

/-- Every day collected from the slots holds extremes that are absent or truthy. -/
theorem foldl_addToDay_extremes (hourlyData : List TimeSlot) :
    ∀ d ∈ hourlyData.foldl addToDay [],
      (d.maxTemp = none ∨ jsTruthy d.maxTemp = true) ∧
        (d.minTemp = none ∨ jsTruthy d.minTemp = true) := by
  induction hourlyData using List.reverseRecOn with
  | nil => simp
  | append_singleton l a ih =>
    intro d hd
    rw [List.foldl_append] at hd
    simp only [List.foldl_cons, List.foldl_nil] at hd
    obtain ⟨d0, h0, rfl⟩ := mem_addToDay _ _ _ hd
    have hd0 : (d0.maxTemp = none ∨ jsTruthy d0.maxTemp = true) ∧
        (d0.minTemp = none ∨ jsTruthy d0.minTemp = true) := by
      rcases h0 with h | ⟨_, h⟩
      · exact ih d0 h
      · rw [h]
        exact ⟨Or.inl rfl, Or.inl rfl⟩
    split_ifs
    · exact ⟨setIfTruthy_truthy _ _ hd0.1, setIfTruthy_truthy _ _ hd0.2⟩
    · exact hd0

/-- The extremes of a daily aggregate of a parsed forecast are absent or truthy. -/
theorem daily_extremes_truthy (items : List ForecastRecord) :
    ∀ d ∈ (parseWeatherData items).daily,
      (d.maxTemp = none ∨ jsTruthy d.maxTemp = true) ∧
        (d.minTemp = none ∨ jsTruthy d.minTemp = true) := by
  intro d hd
  have hd2 : d ∈ aggregateDailyForecast (sortSlots ((items.foldl addItem []).map Prod.snd)) := hd
  unfold aggregateDailyForecast at hd2
  rw [List.mem_map] at hd2
  obtain ⟨d0, hd0, rfl⟩ := hd2
  exact foldl_addToDay_extremes _ d0 hd0

/-- C13: on every forecast that `parseWeatherData` builds, with finite humidity h and
temperature t in the current slot, the cold-warning score is
max(0, min(100, 100 + D + H + T)).  When the first daily aggregate holds both a maximum
and a minimum, D = -50 if d >= 15, else -30 if d >= 10, else 0, where d is the value of
`maxTemp - minTemp` (the double difference; an infinite d counts as at least 15 when
positive, and a NaN or negative infinite d gives 0); when either extreme is absent,
D = 0.  H = -20 if h <= 30, T = -20 if t <= 5, each added on its own.  An aggregate of a
parsed forecast never holds an extreme that is 0 or NaN (the aggregator stores truthy
values only), so the presence test of the source is exact on these forecasts.  At the
day maximum 16.4 and minimum 1.4 the double difference is below 15: the score is 70. -/
theorem coldWarning_score_formula (items : List ForecastRecord) (h t : ℚ)
    (hh : (parseWeatherData items).current.humidity = some (JSNum.fin h))
    (ht : (parseWeatherData items).current.temperature = some (JSNum.fin t)) :
    (∀ today hi lo, (parseWeatherData items).daily.head? = some today →
        today.maxTemp = some hi → today.minTemp = some lo →
        (∀ d : ℚ, hi.sub lo = JSNum.fin d →
          (coldWarningOf items).score =
            max 0 (min 100 (100
              + (if d ≥ 15 then -50 else if d ≥ 10 then -30 else 0)
              + (if h ≤ 30 then -20 else 0)
              + (if t ≤ 5 then -20 else 0)))) ∧
        (hi.sub lo = JSNum.posInf →
          (coldWarningOf items).score =
            max 0 (min 100 (100 + -50 + (if h ≤ 30 then -20 else 0)
              + (if t ≤ 5 then -20 else 0)))) ∧
        (hi.sub lo = JSNum.nan ∨ hi.sub lo = JSNum.negInf →
          (coldWarningOf items).score =
            max 0 (min 100 (100 + 0 + (if h ≤ 30 then -20 else 0)
              + (if t ≤ 5 then -20 else 0))))) ∧
      (∀ today, (parseWeatherData items).daily.head? = some today →
        today.maxTemp = none ∨ today.minTemp = none →
        (coldWarningOf items).score =
          max 0 (min 100 (100 + 0 + (if h ≤ 30 then -20 else 0)
            + (if t ≤ 5 then -20 else 0)))) ∧
      (∀ day ∈ (parseWeatherData items).daily,
        day.maxTemp ≠ some (JSNum.fin 0) ∧ day.maxTemp ≠ some JSNum.nan ∧
          day.minTemp ≠ some (JSNum.fin 0) ∧ day.minTemp ≠ some JSNum.nan) ∧
      (parseWeatherData rangeRecords).daily.map (fun d => (d.maxTemp, d.minTemp)) =
        [(some (JSNum.fin (2308094809027379 / 140737488355328)),
          some (JSNum.fin (3152519739159347 / 2251799813685248)))] ∧
      (coldWarningOf rangeRecords).score = 70 ∧
      (coldWarningOf rangeRecords).reasons = ["일교차가 15.0°C로 큽니다"] := by
  have hscore := coldWarning_score_range (parseWeatherData items).current
    (parseWeatherData items).daily h t hh ht
  refine ⟨?_, ?_, ?_, by decide!, by decide!, by decide!⟩
  · intro today hi lo hhead hmax hmin
    have htr := daily_extremes_truthy items today (List.mem_of_mem_head? hhead)
    have h1 : jsTruthy today.maxTemp = true := by
      rcases htr.1 with h0 | h0
      · rw [hmax] at h0; exact absurd h0 (by simp)
      · exact h0
    have h2 : jsTruthy today.minTemp = true := by
      rcases htr.2 with h0 | h0
      · rw [hmin] at h0; exact absurd h0 (by simp)
      · exact h0
    have hr : diurnalRange (parseWeatherData items).daily = some (hi.sub lo) := by
      unfold diurnalRange
      rw [hhead]
      simp only [h1, h2, Bool.and_self, if_true]
      rw [hmax, hmin]
      rfl
    unfold coldWarningOf
    rw [hscore, hr]
    refine ⟨?_, ?_, ?_⟩
    · intro d hd
      rw [hd]
      simp only [jsGe, toNumber, JSNum.ge, ← Bool.cond_decide]
    · intro hd
      rw [hd]
      rfl
    · rintro (hd | hd) <;> rw [hd] <;> rfl
  · intro today hhead habs
    have hr : diurnalRange (parseWeatherData items).daily = none := by
      unfold diurnalRange
      rw [hhead]
      rcases habs with h0 | h0 <;> simp [h0, jsTruthy]
    unfold coldWarningOf
    rw [hscore, hr]
    rfl
  · intro day hday
    have htr := daily_extremes_truthy items day hday
    refine ⟨?_, ?_, ?_, ?_⟩
    · intro h0
      rcases htr.1 with h1 | h1
      · rw [h0] at h1; exact absurd h1 (by simp)
      · rw [h0] at h1; exact absurd h1 (by decide)
    · intro h0
      rcases htr.1 with h1 | h1
      · rw [h0] at h1; exact absurd h1 (by simp)
      · rw [h0] at h1; exact absurd h1 (by decide)
    · intro h0
      rcases htr.2 with h1 | h1
      · rw [h0] at h1; exact absurd h1 (by simp)
      · rw [h0] at h1; exact absurd h1 (by decide)
    · intro h0
      rcases htr.2 with h1 | h1
      · rw [h0] at h1; exact absurd h1 (by simp)
      · rw [h0] at h1; exact absurd h1 (by decide)

/-- The number stored for a numeric category is the value converted by `parseFloat`
or `parseInt`. -/
theorem numericField_mergedSlot (items : List ForecastRecord) (d t cat v : String)
    (hcat : cat ∈ numericCategories) (hlast : lastValue items d t cat = some v) :
    numericField cat (mergedSlot items d t) =
      some (if cat ∈ ["POP", "REH", "VEC"] then parseInt v else parseFloat v) := by
  simp only [numericCategories, List.mem_cons, List.mem_singleton, List.not_mem_nil,
    or_false] at hcat
  rcases hcat with h | h | h | h | h | h | h | h <;> subst h <;>
    simp [numericField, mergedSlot, hlast]

/-- C21, amended: `parseWeatherData` raises nothing and substitutes nothing.  For every
well-formed record sequence and every record of a numeric category that is the last of
its category for its date and time, the returned forecast holds a slot for that date
and time (in the `items` of a daily aggregate, and in `hourly` when there are at most
24 slots) whose field of the category is NaN when the value does not start with a
number in the syntax of the category, and a number other than NaN when it does; a
value too large for a double is stored as an infinity and a leading number is read up
to the first character that does not belong to it. -/
theorem unparseable_value_stored (items : List ForecastRecord)
    (hwf : ∀ r ∈ items, wellFormed r = true) (r : ForecastRecord) (hr : r ∈ items)
    (hcat : r.category ∈ numericCategories)
    (hlast : lastValue items r.fcstDate r.fcstTime r.category = some r.fcstValue) :
    (∃ day ∈ (parseWeatherData items).daily, ∃ s ∈ day.items,
        s.date = some r.fcstDate ∧ s.time = some r.fcstTime ∧
        ((sortedForecast items).length ≤ 24 → s ∈ (parseWeatherData items).hourly) ∧
        (parseable r.category r.fcstValue = false →
          numericField r.category s = some JSNum.nan) ∧
        (parseable r.category r.fcstValue = true →
          ∃ x, numericField r.category s = some x ∧ x ≠ JSNum.nan)) ∧
      parseFloat "abc" = JSNum.nan ∧ parseInt "abc" = JSNum.nan ∧
      parseFloat "" = JSNum.nan ∧ parseInt "" = JSNum.nan ∧
      parseFloat "12abc" = JSNum.fin 12 ∧ parseInt "12.7" = JSNum.fin 12 ∧
      parseFloat "1e400" = JSNum.posInf := by
  refine ⟨?_, by decide!, by decide!, by decide!, by decide!, by decide!, by decide!,
    by set_option maxRecDepth 100000 in decide!⟩
  have hs : mergedSlot items r.fcstDate r.fcstTime ∈ sortedForecast items :=
    (mem_sortedForecast items hwf _).2 ⟨r, hr, rfl⟩
  obtain ⟨day, hday, hsd⟩ := (mem_daily_items items _).1 hs
  have hf := numericField_mergedSlot items _ _ _ _ hcat hlast
  refine ⟨day, hday, _, hsd, rfl, rfl, ?_, ?_, ?_⟩
  · intro hlen
    have h24 : (parseWeatherData items).hourly = (sortedForecast items).take 24 := rfl
    rw [h24, List.take_of_length_le hlen]
    exact hs
  · intro hp
    rw [hf]
    unfold parseable at hp
    split_ifs at hp ⊢ with hc
    · rw [(parseInt_eq_nan_iff _).2 hp]
    · rw [(parseFloat_eq_nan_iff _).2 hp]
  · intro hp
    refine ⟨_, hf, ?_⟩
    unfold parseable at hp
    split_ifs at hp ⊢ with hc
    · intro h
      rw [(parseInt_eq_nan_iff _).1 h] at hp
      exact absurd hp (by decide)
    · intro h
      rw [(parseFloat_eq_nan_iff _).1 h] at hp
      exact absurd hp (by decide)

/-- The table of `getSkyStatus`. -/
theorem getSkyStatus_table (code : String) :
    getSkyStatus code =
      if code = "1" then JSLabel.text "맑음"
      else if code = "3" then JSLabel.text "구름많음"
      else if code = "4" then JSLabel.text "흐림"
      else if code ∈ objectPrototypeNames then JSLabel.inherited code
      else JSLabel.text "알 수 없음" := by
  unfold getSkyStatus lookupLiteral
  simp only [List.lookup]
  by_cases h1 : code = "1"
  · subst h1; rfl
  by_cases h3 : code = "3"
  · subst h3; rfl
  by_cases h4 : code = "4"
  · subst h4; rfl
  have e1 : (code == "1") = false := by simpa using h1
  have e3 : (code == "3") = false := by simpa using h3
  have e4 : (code == "4") = false := by simpa using h4
  rw [if_neg h1, if_neg h3, if_neg h4]
  simp only [e1, e3, e4]
  split_ifs <;> rfl

/-- The table of `getPrecipitationType`. -/
theorem getPrecipitationType_table (code : String) :
    getPrecipitationType code =
      if code = "0" then JSLabel.text "없음"
      else if code = "1" then JSLabel.text "비"
      else if code = "2" then JSLabel.text "비/눈"
      else if code = "3" then JSLabel.text "눈"
      else if code = "4" then JSLabel.text "소나기"
      else if code = "5" then JSLabel.text "빗방울"
      else if code = "6" then JSLabel.text "빗방울눈날림"
      else if code = "7" then JSLabel.text "눈날림"
      else if code ∈ objectPrototypeNames then JSLabel.inherited code
      else JSLabel.text "없음" := by
  unfold getPrecipitationType lookupLiteral
  simp only [List.lookup]
  by_cases h0 : code = "0"
  · subst h0; rfl
  by_cases h1 : code = "1"
  · subst h1; rfl
  by_cases h2 : code = "2"
  · subst h2; rfl
  by_cases h3 : code = "3"
  · subst h3; rfl
  by_cases h4 : code = "4"
  · subst h4; rfl
  by_cases h5 : code = "5"
  · subst h5; rfl
  by_cases h6 : code = "6"
  · subst h6; rfl
  by_cases h7 : code = "7"
  · subst h7; rfl
  have e0 : (code == "0") = false := by simpa using h0
  have e1 : (code == "1") = false := by simpa using h1
  have e2 : (code == "2") = false := by simpa using h2
  have e3 : (code == "3") = false := by simpa using h3
  have e4 : (code == "4") = false := by simpa using h4
  have e5 : (code == "5") = false := by simpa using h5
  have e6 : (code == "6") = false := by simpa using h6
  have e7 : (code == "7") = false := by simpa using h7
  rw [if_neg h0, if_neg h1, if_neg h2, if_neg h3, if_neg h4, if_neg h5, if_neg h6, if_neg h7]
  simp only [e0, e1, e2, e3, e4, e5, e6, e7]
  split_ifs <;> rfl

/-- C25: for every well-formed record sequence there is exactly one slot per distinct
(date, time) pair; the slots are the members of the `items` of the daily aggregates,
the first 24 are `hourly` and the first is `current`; each slot holds, for every known
category, the converted value of the last record of the category for its pair
(`parseFloat` or `parseInt` of the value, read as the nearest double; the compass name;
the value string itself for PCP and SNO), and for SKY and PTY both the raw code, which
is exactly the value string, and the result of the label lookup.  The lookup gives the
text of the table for the codes of the table and the default text for any other value,
except for a value that names a member of `Object.prototype`: the lookup then finds the
inherited member, and the slot holds that function or object instead of a
human-readable label.  The record SKY "constructor" is the failing input. -/
theorem parseWeatherData_slots (items : List ForecastRecord)
    (hwf : ∀ r ∈ items, wellFormed r = true) :
    ((sortedForecast items).map fun s => (s.date, s.time)).Perm
        ((items.map fun r => (some r.fcstDate, some r.fcstTime)).dedup) ∧
      (∀ s, s ∈ sortedForecast items ↔
        ∃ day ∈ (parseWeatherData items).daily, s ∈ day.items) ∧
      (parseWeatherData items).hourly = (sortedForecast items).take 24 ∧
      (parseWeatherData items).current = (sortedForecast items).head?.getD {} ∧
      (∀ r ∈ items, ∃ s ∈ sortedForecast items,
        s.date = some r.fcstDate ∧ s.time = some r.fcstTime) ∧
      (∀ s ∈ sortedForecast items, ∃ d t : String, (∃ r ∈ items, r.fcstDate = d ∧ r.fcstTime = t) ∧
        s.date = some d ∧ s.time = some t ∧
        s.dateTime = some (toReadableDateTime d t) ∧
        s.temperature = (lastValue items d t "TMP").map parseFloat ∧
        s.minTemperature = (lastValue items d t "TMN").map parseFloat ∧
        s.maxTemperature = (lastValue items d t "TMX").map parseFloat ∧
        s.skyCode = lastValue items d t "SKY" ∧
        s.sky = (lastValue items d t "SKY").map getSkyStatus ∧
        s.precipitationCode = lastValue items d t "PTY" ∧
        s.precipitation = (lastValue items d t "PTY").map getPrecipitationType ∧
        s.rainProbability = (lastValue items d t "POP").map parseInt ∧
        s.rainfall = lastValue items d t "PCP" ∧
        s.humidity = (lastValue items d t "REH").map parseInt ∧
        s.snowfall = lastValue items d t "SNO" ∧
        s.windSpeed = (lastValue items d t "WSD").map parseFloat ∧
        s.windDirection = (lastValue items d t "VEC").bind getWindDirection ∧
        s.windDegree = (lastValue items d t "VEC").map parseInt ∧
        s.waveHeight = (lastValue items d t "WAV").map parseFloat) ∧
      (∀ code : String, getSkyStatus code =
        if code = "1" then JSLabel.text "맑음"
        else if code = "3" then JSLabel.text "구름많음"
        else if code = "4" then JSLabel.text "흐림"
        else if code ∈ objectPrototypeNames then JSLabel.inherited code
        else JSLabel.text "알 수 없음") ∧
      (∀ code : String, getPrecipitationType code =
        if code = "0" then JSLabel.text "없음"
        else if code = "1" then JSLabel.text "비"
        else if code = "2" then JSLabel.text "비/눈"
        else if code = "3" then JSLabel.text "눈"
        else if code = "4" then JSLabel.text "소나기"
        else if code = "5" then JSLabel.text "빗방울"
        else if code = "6" then JSLabel.text "빗방울눈날림"
        else if code = "7" then JSLabel.text "눈날림"
        else if code ∈ objectPrototypeNames then JSLabel.inherited code
        else JSLabel.text "없음") ∧
      (parseFloat "3.5" = JSNum.fin (7 / 2) ∧ parseFloat "-2.5" = JSNum.fin (-5 / 2) ∧
        parseFloat "16.4" = JSNum.fin (2308094809027379 / 140737488355328) ∧
        parseFloat "29.99999999999999999999" = JSNum.fin 30 ∧
        parseFloat "1e400" = JSNum.posInf ∧ parseFloat "1e-400" = JSNum.fin 0 ∧
        parseInt "30" = JSNum.fin 30 ∧
        parseInt "9007199254740993" = JSNum.fin 9007199254740992 ∧
        getWindDirection "90" = some "동" ∧ getWindDirection "abc" = none) ∧
      (wellFormed inheritedSkyRecord = true ∧
        (parseWeatherData [inheritedSkyRecord]).current.skyCode = some "constructor" ∧
        (parseWeatherData [inheritedSkyRecord]).current.sky =
          some (JSLabel.inherited "constructor") ∧
        ∀ label : String,
          (parseWeatherData [inheritedSkyRecord]).current.sky ≠ some (JSLabel.text label)) := by
  refine ⟨(sorted_slots_facts items hwf).2, mem_daily_items items, rfl, rfl, ?_, ?_,
    getSkyStatus_table, getPrecipitationType_table,
    by set_option maxRecDepth 100000 in decide!, by decide, by decide!, by decide!, ?_⟩
  · intro r hr
    exact ⟨_, (mem_sortedForecast items hwf _).2 ⟨r, hr, rfl⟩, rfl, rfl⟩
  · intro s hs
    obtain ⟨r, hr, rfl⟩ := (mem_sortedForecast items hwf s).1 hs
    exact ⟨r.fcstDate, r.fcstTime, ⟨r, hr, rfl, rfl⟩, rfl, rfl, rfl, rfl, rfl, rfl, rfl, rfl, rfl,
      rfl, rfl, rfl, rfl, rfl, rfl, rfl, rfl, rfl⟩
  · intro label h
    have h2 : (parseWeatherData [inheritedSkyRecord]).current.sky =
        some (JSLabel.inherited "constructor") := by decide!
    rw [h2] at h
    exact JSLabel.noConfusion (Option.some.inj h)

/-! ## Maximum with the zero floor -/

theorem foldl_max2_fin (l : List JSNum) (a : ℚ) (hl : ∀ x ∈ l, ∃ q : ℚ, x = JSNum.fin q) :
    ∃ m : ℚ, l.foldl JSNum.max2 (JSNum.fin a) = JSNum.fin m ∧ a ≤ m ∧
      (∀ q : ℚ, JSNum.fin q ∈ l → q ≤ m) ∧ (m = a ∨ JSNum.fin m ∈ l) := by
  induction l generalizing a with
  | nil => exact ⟨a, rfl, le_refl _, by simp, Or.inl rfl⟩
  | cons x r ih =>
    obtain ⟨q, rfl⟩ := hl x (List.mem_cons_self _ _)
    obtain ⟨m, h1, h2, h3, h4⟩ := ih (max a q) (fun y hy => hl y (List.mem_cons_of_mem _ hy))
    refine ⟨m, ?_, le_trans (le_max_left _ _) h2, ?_, ?_⟩
    · simp only [List.foldl_cons, JSNum.max2]
      exact h1
    · intro p hp
      rw [List.mem_cons] at hp
      rcases hp with hp | hp
      · have : p = q := JSNum.fin.inj hp
        rw [this]
        exact le_trans (le_max_right _ _) h2
      · exact h3 p hp
    · rcases h4 with h4 | h4
      · rcases max_choice a q with hc | hc
        · exact Or.inl (h4.trans hc)
        · right
          rw [h4, hc]
          exact List.mem_cons_self _ _
      · exact Or.inr (List.mem_cons_of_mem _ h4)

/-- On finite numbers `Math.max(...arr, 0)` is the largest of the numbers and 0. -/
theorem maxWithZero_fin (l : List JSNum) (hl : ∀ x ∈ l, ∃ q : ℚ, x = JSNum.fin q) :
    ∃ m : ℚ, maxWithZero l = JSNum.fin m ∧ 0 ≤ m ∧
      (∀ q : ℚ, JSNum.fin q ∈ l → q ≤ m) ∧ (m = 0 ∨ JSNum.fin m ∈ l) := by
  unfold maxWithZero
  rw [List.foldl_append]
  cases l with
  | nil => exact ⟨0, rfl, le_refl _, by simp, Or.inl rfl⟩
  | cons x r =>
    obtain ⟨q, rfl⟩ := hl x (List.mem_cons_self _ _)
    obtain ⟨m, h1, h2, h3, h4⟩ :=
      foldl_max2_fin r q (fun y hy => hl y (List.mem_cons_of_mem _ hy))
    have hfold : List.foldl JSNum.max2 JSNum.negInf (JSNum.fin q :: r) = JSNum.fin m := by
      simp only [List.foldl_cons, JSNum.max2]
      exact h1
    rw [hfold]
    refine ⟨max m 0, rfl, le_max_right _ _, ?_, ?_⟩
    · intro p hp
      rw [List.mem_cons] at hp
      rcases hp with hp | hp
      · have : p = q := JSNum.fin.inj hp
        rw [this]
        exact le_trans h2 (le_max_left _ _)
      · exact le_trans (h3 p hp) (le_max_left _ _)
    · rcases max_choice m 0 with hc | hc
      · right
        rw [hc]
        rcases h4 with h4 | h4
        · rw [h4]; exact List.mem_cons_self _ _
        · exact List.mem_cons_of_mem _ h4
      · exact Or.inl hc

/-- The maximum with zero floor of the truthy members of a list of
non-negative finite numbers is the largest member, and 0 for the empty list. -/
theorem maxWithZero_truthy (reported : List JSNum)
    (hr : ∀ x ∈ reported, ∃ q : ℚ, x = JSNum.fin q ∧ 0 ≤ q) :
    ∃ m : ℚ, maxWithZero (reported.filter JSNum.truthy) = JSNum.fin m ∧ 0 ≤ m ∧
      (∀ q : ℚ, JSNum.fin q ∈ reported → q ≤ m) ∧
      (reported = [] → m = 0) ∧ (reported ≠ [] → JSNum.fin m ∈ reported) := by
  obtain ⟨m, h1, h2, h3, h4⟩ := maxWithZero_fin (reported.filter JSNum.truthy)
    (fun x hx => by
      obtain ⟨q, hq, _⟩ := hr x (List.mem_of_mem_filter hx)
      exact ⟨q, hq⟩)
  have hall : ∀ q : ℚ, JSNum.fin q ∈ reported → q ≤ m := by
    intro q hq
    by_cases hq0 : q = 0
    · rw [hq0]; exact h2
    · apply h3
      rw [List.mem_filter]
      exact ⟨hq, by simp [JSNum.truthy, hq0]⟩
  refine ⟨m, h1, h2, hall, ?_, ?_⟩
  · intro he
    rcases h4 with h4 | h4
    · exact h4
    · rw [he] at h4
      simp at h4
  · intro hne
    rcases h4 with h4 | h4
    · obtain ⟨x, hx⟩ := List.exists_mem_of_ne_nil reported hne
      obtain ⟨q, rfl, hq⟩ := hr x hx
      have hle := hall q hx
      have : q = 0 := le_antisymm (h4 ▸ hle) hq
      rw [h4, ← this]
      exact hx
    · exact List.mem_of_mem_filter h4

/-- C23: for every record sequence and every entry of `daily`: when the rain
probabilities reported by the slots of its date are non-negative numbers,
`maxRainProbability` is the largest of them, and 0 when there is none, and is
never negative; `maxWindSpeed` is the same function of the reported wind
speeds. -/
theorem daily_max_formula (items : List ForecastRecord) (e : DailyAggregate)
    (he : e ∈ (parseWeatherData items).daily) :
    ((∀ x ∈ ((sortedForecast items).filter fun s => decide (s.date = e.date)).filterMap
          (fun s => s.rainProbability), ∃ q : ℚ, x = JSNum.fin q ∧ 0 ≤ q) →
      ∃ m : ℚ, e.maxRainProbability = some (JSNum.fin m) ∧ 0 ≤ m ∧
        (∀ q : ℚ, JSNum.fin q ∈
            ((sortedForecast items).filter fun s => decide (s.date = e.date)).filterMap
              (fun s => s.rainProbability) → q ≤ m) ∧
        (((sortedForecast items).filter fun s => decide (s.date = e.date)).filterMap
            (fun s => s.rainProbability) = [] → m = 0) ∧
        (((sortedForecast items).filter fun s => decide (s.date = e.date)).filterMap
            (fun s => s.rainProbability) ≠ [] →
          JSNum.fin m ∈
            ((sortedForecast items).filter fun s => decide (s.date = e.date)).filterMap
              (fun s => s.rainProbability))) ∧
    ((∀ x ∈ ((sortedForecast items).filter fun s => decide (s.date = e.date)).filterMap
          (fun s => s.windSpeed), ∃ q : ℚ, x = JSNum.fin q ∧ 0 ≤ q) →
      ∃ m : ℚ, e.maxWindSpeed = some (JSNum.fin m) ∧ 0 ≤ m ∧
        (∀ q : ℚ, JSNum.fin q ∈
            ((sortedForecast items).filter fun s => decide (s.date = e.date)).filterMap
              (fun s => s.windSpeed) → q ≤ m) ∧
        (((sortedForecast items).filter fun s => decide (s.date = e.date)).filterMap
            (fun s => s.windSpeed) = [] → m = 0) ∧
        (((sortedForecast items).filter fun s => decide (s.date = e.date)).filterMap
            (fun s => s.windSpeed) ≠ [] →
          JSNum.fin m ∈
            ((sortedForecast items).filter fun s => decide (s.date = e.date)).filterMap
              (fun s => s.windSpeed))) := by
  have he2 : e ∈ aggregateDailyForecast (sortedForecast items) := he
  obtain ⟨_, h2, _, h4⟩ := mem_aggregateDailyForecast _ e he2
  constructor
  · intro hr
    obtain ⟨m, k1, k2, k3, k4, k5⟩ := maxWithZero_truthy _ hr
    exact ⟨m, by rw [h2, k1], k2, k3, k4, k5⟩
  · intro hr
    obtain ⟨m, k1, k2, k3, k4, k5⟩ := maxWithZero_truthy _ hr
    exact ⟨m, by rw [h4, k1], k2, k3, k4, k5⟩

/-- C22 at the failing input: one day with two slots reporting the temperatures
0 and 10.  The slot of 00:00 does report 0, the mean of 0 and 10 is 5, and the
code publishes 10.  In general the average is taken over the truthy values
only. -/
theorem average_skips_zero :
    (sortedForecast zeroTemperatureRecords).map (fun s => s.temperature) =
        [some (JSNum.fin 0), some (JSNum.fin 10)] ∧
      (parseWeatherData zeroTemperatureRecords).daily.map (fun d => d.avgTemperature) =
        [some (JSNum.fin 10)] ∧
      average [JSNum.fin 0, JSNum.fin 10] = JSNum.fin 5 ∧
      (parseWeatherData zeroTemperatureRecords).daily.map (fun d => d.temperatures) =
        [[JSNum.fin 10]] := by
  refine ⟨by decide!, by decide!, by decide!, by decide!⟩

/-! ## The heap run of `calculateAll` -/

theorem Run.bind_apply {α β : Type} (m : Run α) (f : α → Run β) (h : Heap) :
    (m >>= f) h = (m h).bind fun p => f p.1 p.2 := by
  show (match m h with
    | some (x, h1) => f x h1
    | none => none) = _
  cases m h with
  | none => rfl
  | some p => rfl

theorem Run.pure_apply {α : Type} (x : α) (h : Heap) : (pure x : Run α) h = some (x, h) := rfl

theorem Run.ite_apply {α : Type} (c : Prop) [Decidable c] (m1 m2 : Run α) (h : Heap) :
    (if c then m1 else m2) h = if c then m1 h else m2 h := by
  split_ifs <;> rfl

theorem alloc_apply (o : HeapObject) (h : Heap) : alloc o h = some (h.length, h ++ [o]) := rfl

theorem getElem?_append_length_add {α : Type} (h l : List α) (k : Nat) :
    (h ++ l)[h.length + k]? = l[k]? := by
  rw [List.getElem?_append_right (by omega)]
  simp

theorem getElem?_append_length {α : Type} (h l : List α) :
    (h ++ l)[h.length]? = l[0]? := by
  have := getElem?_append_length_add h l 0
  simpa using this

theorem getElem?_append_of_some {α : Type} (h l : List α) (r : Nat) (x : α)
    (hr : h[r]? = some x) : (h ++ l)[r]? = some x := by
  have hlt : r < h.length := by
    by_contra hge
    rw [List.getElem?_eq_none (by omega)] at hr
    exact absurd hr (by simp)
  rw [List.getElem?_append_left hlt]
  exact hr

theorem set_append_length {α : Type} (h l : List α) (x : α) :
    (h ++ l).set h.length x = h ++ l.set 0 x := by
  rw [List.set_append_right _ _ (by omega)]
  simp

theorem dayAt_append (h ext : Heap) (v : Value) (d : DailyAggregate)
    (hv : dayAt h v = some d) : dayAt (h ++ ext) v = some d := by
  cases v with
  | text s => exact absurd hv (by simp [dayAt])
  | ref r =>
    unfold dayAt at hv ⊢
    simp only at hv ⊢
    cases hr : h[r]? with
    | none => rw [hr] at hv; exact absurd hv (by simp)
    | some o =>
      rw [getElem?_append_of_some h ext r o hr]
      rw [hr] at hv
      exact hv

theorem slotAt_append (h ext : Heap) (v : Value) (s : TimeSlot)
    (hv : slotAt h v = some s) : slotAt (h ++ ext) v = some s := by
  cases v with
  | text s => exact absurd hv (by simp [slotAt])
  | ref r =>
    unfold slotAt at hv ⊢
    simp only at hv ⊢
    cases hr : h[r]? with
    | none => rw [hr] at hv; exact absurd hv (by simp)
    | some o =>
      rw [getElem?_append_of_some h ext r o hr]
      rw [hr] at hv
      exact hv

theorem readEach_eq_some {α : Type} (f : Value → Option α) (l : List Value) (xs : List α) :
    readEach f l = some xs ↔ List.Forall₂ (fun v x => f v = some x) l xs := by
  induction l generalizing xs with
  | nil =>
    cases xs with
    | nil => simp [readEach]
    | cons x xs => simp [readEach]
  | cons v vs ih =>
    unfold readEach
    cases hv : f v with
    | none =>
      simp only
      constructor
      · intro h; exact absurd h (by simp)
      · intro h
        cases h with
        | cons h1 _ => rw [hv] at h1; exact absurd h1 (by simp)
    | some x =>
      cases hvs : readEach f vs with
      | none =>
        simp only
        constructor
        · intro h; exact absurd h (by simp)
        · intro h
          cases h with
          | cons _ h2 => rw [(ih _).2 h2] at hvs; exact absurd hvs (by simp)
      | some ys =>
        simp only
        constructor
        · intro h
          have h2 : x :: ys = xs := Option.some.inj h
          subst h2
          exact List.Forall₂.cons hv ((ih _).1 hvs)
        · intro h
          cases h with
          | cons h1 h2 =>
            rw [hv] at h1
            rw [(ih _).2 h2] at hvs
            rw [Option.some.inj h1, Option.some.inj hvs]

theorem readEach_textOf_map (rs : List String) :
    readEach textOf (rs.map Value.text) = some rs := by
  induction rs with
  | nil => rfl
  | cons r rs ih => simp [readEach, textOf, ih]

theorem init_apply (s : Int) (h : Heap) :
    AccRef.init s h = some (accState h { score := s, reasons := [] } []) := rfl

theorem slotProp_accState {α : Type} (h : Heap) (a : Acc) (e : List HeapObject) (cur : Ref)
    (c : TimeSlot) (p : TimeSlot → α) (hc : h[cur]? = some (HeapObject.slot c)) :
    slotProp cur p (accState h a e).2 = some (p c, (accState h a e).2) := by
  unfold slotProp accState
  simp only
  rw [getElem?_append_of_some h _ cur _ hc]

theorem dayProp_accState {α : Type} (h : Heap) (a : Acc) (e : List HeapObject) (v : Value)
    (d : DailyAggregate) (p : DailyAggregate → α) (hv : dayAt h v = some d) :
    dayProp v p (accState h a e).2 = some (p d, (accState h a e).2) := by
  unfold dayProp accState
  simp only
  rw [dayAt_append h _ v d hv]

theorem elemAt_accState (h : Heap) (a : Acc) (e : List HeapObject) (arr : Ref)
    (l : List Value) (i : Nat) (hl : h[arr]? = some (HeapObject.array l)) :
    elemAt arr i (accState h a e).2 = some (l[i]?, (accState h a e).2) := by
  unfold elemAt accState
  simp only
  rw [getElem?_append_of_some h _ arr _ hl]

theorem push_accState (h : Heap) (a : Acc) (e : List HeapObject) (r : String) :
    push (accState h a e).1.reasons (Value.text r) (accState h a e).2 =
      some ((), (accState h { a with reasons := a.reasons ++ [r] } e).2) := by
  unfold push accState
  simp only [getElem?_append_length, set_append_length, List.getElem?_cons_zero, List.set_cons_zero,
    List.map_append, List.map_cons, List.map_nil]

theorem add_accState (h : Heap) (a : Acc) (e : List HeapObject) (d : Int) (r : String) :
    AccRef.add (accState h a e).1 d r (accState h a e).2 = some (accState h (a.add d r) e) := by
  show (push (accState h a e).1.reasons (Value.text r) >>= fun _ => pure _) (accState h a e).2 = _
  rw [Run.bind_apply, push_accState]
  rfl

theorem set_accState (h : Heap) (a : Acc) (e : List HeapObject) (s : Int) (r : String) :
    AccRef.set (accState h a e).1 s r (accState h a e).2 = some (accState h (a.set s r) e) := by
  show (push (accState h a e).1.reasons (Value.text r) >>= fun _ => pure _) (accState h a e).2 = _
  rw [Run.bind_apply, push_accState]
  rfl

theorem ite_accState (c : Prop) [Decidable c] (h : Heap) (a b : Acc) (e : List HeapObject) :
    (if c then some (accState h a e) else some (accState h b e)) =
      some (accState h (if c then a else b) e) := by
  split_ifs <;> rfl

theorem ite_some_pair {α : Type} (c : Prop) [Decidable c] (x y : α) (h : Heap) :
    (if c then some (x, h) else some (y, h)) = some (if c then x else y, h) := by
  split_ifs <;> rfl

theorem andAlso_apply (a b : Run Bool) (h : Heap) :
    andAlso a b h = (a h).bind fun p => if p.1 = true then b p.2 else some (false, p.2) := by
  unfold andAlso
  rw [Run.bind_apply]
  cases a h with
  | none => rfl
  | some p =>
    simp only [Option.some_bind, Run.ite_apply]
    rfl

theorem ite_false_eq_and (a b : Bool) : (if a = true then b else false) = (a && b) := by
  cases a <;> rfl

theorem lengthOf_accState (h : Heap) (a : Acc) (e : List HeapObject) :
    lengthOf (accState h a e).1.reasons (accState h a e).2 =
      some (a.reasons.length, (accState h a e).2) := by
  unfold lengthOf accState
  simp only [getElem?_append_length, List.getElem?_cons_zero, List.length_map]

theorem clamp_score (a : AccRef) : a.clamp.score = max 0 (min 100 a.score) := rfl

theorem clamp_reasons (a : AccRef) : a.clamp.reasons = a.reasons := rfl

theorem readIndex_append (h ext : Heap) (r : Ref) (i : LifeIndex)
    (hr : readIndex h r = some i) : readIndex (h ++ ext) r = some i := by
  unfold readIndex at hr ⊢
  cases h1 : h[r]? with
  | none => rw [h1] at hr; exact absurd hr (by simp)
  | some o =>
    rw [getElem?_append_of_some h ext r o h1]
    rw [h1] at hr
    cases o with
    | index obj =>
      simp only at hr ⊢
      cases h2 : h[obj.reasons]? with
      | none => rw [h2] at hr; exact absurd hr (by simp)
      | some o2 =>
        rw [getElem?_append_of_some h ext _ o2 h2]
        rw [h2] at hr
        exact hr
    | _ => exact absurd hr (by simp)

/-- The heap run of the laundry index: it only adds objects to the heap, and the object
it returns describes the index that the function computes from the values. -/
theorem laundry_run (h : Heap) (cur dly : Ref) (c : TimeSlot) (d : List DailyAggregate)
    (hc : h[cur]? = some (HeapObject.slot c)) :
    ∃ r ext, calculateLaundryIndexM cur dly h = some (r, h ++ ext) ∧
      readIndex (h ++ ext) r = some (calculateLaundryIndex c d) := by
  unfold calculateLaundryIndexM calculateLaundryIndex
  simp only [Run.bind_apply, init_apply, Option.some_bind, slotProp_accState _ _ _ _ _ _ hc,
    Run.ite_apply, add_accState, set_accState, Run.pure_apply, Prod.mk.eta, ite_accState,
    lengthOf_accState, clamp_reasons, andAlso_apply, ite_some_pair, ite_false_eq_and]
  generalize (ite (strictEq c.skyCode "1" = true) _ _ : Acc) = acc
  by_cases hlen : acc.reasons.length > 0
  · simp only [if_pos hlen, Option.some_bind, alloc_apply, accState, List.append_assoc,
      List.singleton_append, List.length_append, List.length_singleton, clamp_score,
      clamp_reasons, List.cons_append, List.nil_append, List.length_cons, List.length_nil]
    refine ⟨_, _, rfl, ?_⟩
    unfold readIndex
    simp only [getElem?_append_length_add, getElem?_append_length, List.getElem?_cons_zero,
      List.getElem?_cons_succ, Acc.clamp, hlen, if_true, if_false, readEach_textOf_map,
      Option.map_some']
  · simp only [if_neg hlen, Option.some_bind, alloc_apply, accState, List.append_assoc,
      List.singleton_append, List.length_append, List.length_singleton, clamp_score,
      clamp_reasons, List.cons_append, List.nil_append, List.length_cons, List.length_nil]
    refine ⟨_, _, rfl, ?_⟩
    unfold readIndex
    simp only [getElem?_append_length_add, getElem?_append_length, List.getElem?_cons_zero,
      List.getElem?_cons_succ, Acc.clamp, hlen, if_true, if_false, readEach_textOf_map,
      Option.map_some']
    rfl

/-- The heap run of the dog-walk index. -/
theorem dogWalk_run (h : Heap) (cur : Ref) (c : TimeSlot)
    (hc : h[cur]? = some (HeapObject.slot c)) :
    ∃ r ext, calculateDogWalkIndexM cur h = some (r, h ++ ext) ∧
      readIndex (h ++ ext) r = some (calculateDogWalkIndex c) := by
  unfold calculateDogWalkIndexM calculateDogWalkIndex
  simp only [Run.bind_apply, init_apply, Option.some_bind, slotProp_accState _ _ _ _ _ _ hc,
    Run.ite_apply, add_accState, set_accState, Run.pure_apply, Prod.mk.eta, ite_accState,
    lengthOf_accState, clamp_reasons, andAlso_apply, ite_some_pair, ite_false_eq_and]
  generalize (ite (jsGt c.windSpeed 10 = true) _ _ : Acc) = acc
  by_cases hlen : acc.reasons.length > 0
  · simp only [if_pos hlen, Option.some_bind, alloc_apply, accState, List.append_assoc,
      List.singleton_append, List.length_append, List.length_singleton, clamp_score,
      clamp_reasons, List.cons_append, List.nil_append, List.length_cons, List.length_nil]
    refine ⟨_, _, rfl, ?_⟩
    unfold readIndex
    simp only [getElem?_append_length_add, getElem?_append_length, List.getElem?_cons_zero,
      List.getElem?_cons_succ, Acc.clamp, hlen, if_true, if_false, readEach_textOf_map,
      Option.map_some']
  · simp only [if_neg hlen, Option.some_bind, alloc_apply, accState, List.append_assoc,
      List.singleton_append, List.length_append, List.length_singleton, clamp_score,
      clamp_reasons, List.cons_append, List.nil_append, List.length_cons, List.length_nil]
    refine ⟨_, _, rfl, ?_⟩
    unfold readIndex
    simp only [getElem?_append_length_add, getElem?_append_length, List.getElem?_cons_zero,
      List.getElem?_cons_succ, Acc.clamp, hlen, if_true, if_false, readEach_textOf_map,
      Option.map_some']
    rfl

/-- The heap run of the exercise index. -/
theorem exercise_run (h : Heap) (cur : Ref) (c : TimeSlot)
    (hc : h[cur]? = some (HeapObject.slot c)) :
    ∃ r ext, calculateExerciseIndexM cur h = some (r, h ++ ext) ∧
      readIndex (h ++ ext) r = some (calculateExerciseIndex c) := by
  unfold calculateExerciseIndexM calculateExerciseIndex
  simp only [Run.bind_apply, init_apply, Option.some_bind, slotProp_accState _ _ _ _ _ _ hc,
    Run.ite_apply, add_accState, set_accState, Run.pure_apply, Prod.mk.eta, ite_accState,
    lengthOf_accState, clamp_reasons, andAlso_apply, ite_some_pair, ite_false_eq_and]
  generalize (ite (jsGe c.rainProbability 60 = true) _ _ : Acc) = acc
  by_cases hlen : acc.reasons.length > 0
  · simp only [if_pos hlen, Option.some_bind, alloc_apply, accState, List.append_assoc,
      List.singleton_append, List.length_append, List.length_singleton, clamp_score,
      clamp_reasons, List.cons_append, List.nil_append, List.length_cons, List.length_nil]
    refine ⟨_, _, rfl, ?_⟩
    unfold readIndex
    simp only [getElem?_append_length_add, getElem?_append_length, List.getElem?_cons_zero,
      List.getElem?_cons_succ, Acc.clamp, hlen, if_true, if_false, readEach_textOf_map,
      Option.map_some']
  · simp only [if_neg hlen, Option.some_bind, alloc_apply, accState, List.append_assoc,
      List.singleton_append, List.length_append, List.length_singleton, clamp_score,
      clamp_reasons, List.cons_append, List.nil_append, List.length_cons, List.length_nil]
    refine ⟨_, _, rfl, ?_⟩
    unfold readIndex
    simp only [getElem?_append_length_add, getElem?_append_length, List.getElem?_cons_zero,
      List.getElem?_cons_succ, Acc.clamp, hlen, if_true, if_false, readEach_textOf_map,
      Option.map_some']
    rfl

/-- The heap run of the food-safety index. -/
theorem foodPoisoning_run (h : Heap) (cur : Ref) (c : TimeSlot)
    (hc : h[cur]? = some (HeapObject.slot c)) :
    ∃ r ext, calculateFoodPoisoningIndexM cur h = some (r, h ++ ext) ∧
      readIndex (h ++ ext) r = some (calculateFoodPoisoningIndex c) := by
  unfold calculateFoodPoisoningIndexM calculateFoodPoisoningIndex
  simp only [Run.bind_apply, init_apply, Option.some_bind, slotProp_accState _ _ _ _ _ _ hc,
    Run.ite_apply, add_accState, set_accState, Run.pure_apply, Prod.mk.eta, ite_accState,
    lengthOf_accState, clamp_reasons, andAlso_apply, ite_some_pair, ite_false_eq_and]
  generalize (ite ((jsGe c.temperature 25 && jsGe c.humidity 60) = true) _ _ : Acc) = acc
  simp only [alloc_apply, accState, List.append_assoc, List.singleton_append,
    List.length_append, List.length_singleton, List.cons_append, List.nil_append,
    List.length_cons, List.length_nil]
  refine ⟨_, _, rfl, ?_⟩
  unfold readIndex
  simp only [getElem?_append_length_add, getElem?_append_length, List.getElem?_cons_zero,
    List.getElem?_cons_succ, readEach_textOf_map, Option.map_some']
/-- The heap run of the camping index. -/
theorem camping_run (h : Heap) (cur dly : Ref) (c : TimeSlot) (vals : List Value)
    (days : List DailyAggregate) (hc : h[cur]? = some (HeapObject.slot c))
    (hd : h[dly]? = some (HeapObject.array vals))
    (hF : List.Forall₂ (fun v d => dayAt h v = some d) vals days) :
    ∃ r ext, calculateCampingIndexM cur dly h = some (r, h ++ ext) ∧
      readIndex (h ++ ext) r = some (calculateCampingIndex c days) := by
  unfold calculateCampingIndexM calculateCampingIndex
  cases hF with
  | nil =>
    simp only [Run.bind_apply, init_apply, Option.some_bind, slotProp_accState _ _ _ _ _ _ hc,
      Run.ite_apply, add_accState, set_accState, Run.pure_apply, Prod.mk.eta, ite_accState,
      lengthOf_accState, clamp_reasons, andAlso_apply, ite_some_pair, ite_false_eq_and,
      elemAt_accState _ _ _ _ _ _ hd, guardValue, List.getElem?_nil, List.head?_nil,
      Option.any_none, Bool.false_eq_true, if_false]
    generalize (ite (jsLe c.temperature 5 = true) _ _ : Acc) = acc
    by_cases hlen : acc.reasons.length > 0
    · simp only [if_pos hlen, Option.some_bind, alloc_apply, accState, List.append_assoc,
        List.singleton_append, List.length_append, List.length_singleton, clamp_score,
        clamp_reasons, List.cons_append, List.nil_append, List.length_cons, List.length_nil]
      refine ⟨_, _, rfl, ?_⟩
      unfold readIndex
      simp only [getElem?_append_length_add, getElem?_append_length, List.getElem?_cons_zero,
        List.getElem?_cons_succ, Acc.clamp, hlen, if_true, if_false, readEach_textOf_map,
        Option.map_some']
    · simp only [if_neg hlen, Option.some_bind, alloc_apply, accState, List.append_assoc,
        List.singleton_append, List.length_append, List.length_singleton, clamp_score,
        clamp_reasons, List.cons_append, List.nil_append, List.length_cons, List.length_nil]
      refine ⟨_, _, rfl, ?_⟩
      unfold readIndex
      simp only [getElem?_append_length_add, getElem?_append_length, List.getElem?_cons_zero,
        List.getElem?_cons_succ, Acc.clamp, hlen, if_true, if_false, readEach_textOf_map,
        Option.map_some']
      rfl
  | cons hv _ =>
    simp only [Run.bind_apply, init_apply, Option.some_bind, slotProp_accState _ _ _ _ _ _ hc,
      Run.ite_apply, add_accState, set_accState, Run.pure_apply, Prod.mk.eta, ite_accState,
      lengthOf_accState, clamp_reasons, andAlso_apply, ite_some_pair, ite_false_eq_and,
      elemAt_accState _ _ _ _ _ _ hd, guardValue, List.getElem?_cons_zero, List.head?_cons,
      Option.any_some, dayProp_accState _ _ _ _ _ _ hv]
    generalize (ite (jsLe c.temperature 5 = true) _ _ : Acc) = acc
    by_cases hlen : acc.reasons.length > 0
    · simp only [if_pos hlen, Option.some_bind, alloc_apply, accState, List.append_assoc,
        List.singleton_append, List.length_append, List.length_singleton, clamp_score,
        clamp_reasons, List.cons_append, List.nil_append, List.length_cons, List.length_nil]
      refine ⟨_, _, rfl, ?_⟩
      unfold readIndex
      simp only [getElem?_append_length_add, getElem?_append_length, List.getElem?_cons_zero,
        List.getElem?_cons_succ, Acc.clamp, hlen, if_true, if_false, readEach_textOf_map,
        Option.map_some']
    · simp only [if_neg hlen, Option.some_bind, alloc_apply, accState, List.append_assoc,
        List.singleton_append, List.length_append, List.length_singleton, clamp_score,
        clamp_reasons, List.cons_append, List.nil_append, List.length_cons, List.length_nil]
      refine ⟨_, _, rfl, ?_⟩
      unfold readIndex
      simp only [getElem?_append_length_add, getElem?_append_length, List.getElem?_cons_zero,
        List.getElem?_cons_succ, Acc.clamp, hlen, if_true, if_false, readEach_textOf_map,
        Option.map_some']
      rfl
/-- The heap run of the stargazing index. -/
theorem stargazing_run (h : Heap) (cur : Ref) (c : TimeSlot)
    (hc : h[cur]? = some (HeapObject.slot c)) :
    ∃ r ext, calculateStargazingIndexM cur h = some (r, h ++ ext) ∧
      readIndex (h ++ ext) r = some (calculateStargazingIndex c) := by
  unfold calculateStargazingIndexM calculateStargazingIndex
  simp only [Run.bind_apply, init_apply, Option.some_bind, slotProp_accState _ _ _ _ _ _ hc,
    Run.ite_apply, add_accState, set_accState, Run.pure_apply, Prod.mk.eta, ite_accState,
    lengthOf_accState, clamp_reasons, andAlso_apply, ite_some_pair, ite_false_eq_and]
  generalize (ite (strictEq c.skyCode "1" = true) _ _ : Acc) = acc
  by_cases hp : strictNe c.precipitationCode "0" = true
  · simp only [if_pos hp, Option.some_bind, alloc_apply, accState, List.append_assoc,
      List.singleton_append, List.length_append, List.length_singleton, List.cons_append,
      List.nil_append, List.length_cons, List.length_nil]
    refine ⟨_, _, rfl, ?_⟩
    unfold readIndex
    simp only [getElem?_append_length_add, getElem?_append_length, List.getElem?_cons_zero,
      List.getElem?_cons_succ, readEach_textOf_map, Option.map_some']
    rfl
  · simp only [if_neg hp, Option.some_bind, alloc_apply, accState, List.append_assoc,
      List.singleton_append, List.length_append, List.length_singleton, List.cons_append,
      List.nil_append, List.length_cons, List.length_nil]
    refine ⟨_, _, rfl, ?_⟩
    unfold readIndex
    simp only [getElem?_append_length_add, getElem?_append_length, List.getElem?_cons_zero,
      List.getElem?_cons_succ, readEach_textOf_map, Option.map_some']

/-- The heap run of the cold-warning index. -/
theorem coldWarning_run (h : Heap) (cur dly : Ref) (c : TimeSlot) (vals : List Value)
    (days : List DailyAggregate) (hc : h[cur]? = some (HeapObject.slot c))
    (hd : h[dly]? = some (HeapObject.array vals))
    (hF : List.Forall₂ (fun v d => dayAt h v = some d) vals days) :
    ∃ r ext, calculateColdWarningIndexM cur dly h = some (r, h ++ ext) ∧
      readIndex (h ++ ext) r = some (calculateColdWarningIndex c days) := by
  unfold calculateColdWarningIndexM calculateColdWarningIndex
  cases hF with
  | nil =>
    simp only [Run.bind_apply, init_apply, Option.some_bind, slotProp_accState _ _ _ _ _ _ hc,
      Run.ite_apply, add_accState, set_accState, Run.pure_apply, Prod.mk.eta, ite_accState,
      lengthOf_accState, clamp_reasons, andAlso_apply, ite_some_pair, ite_false_eq_and,
      elemAt_accState _ _ _ _ _ _ hd, guardValue, List.getElem?_nil, List.head?_nil,
      Bool.false_eq_true, if_false]
    generalize (ite (jsLe c.temperature 5 = true) _ _ : Acc) = acc
    by_cases hlen : acc.reasons.length = 0
    · simp only [if_pos hlen, push_accState, Option.some_bind]
      simp only [alloc_apply, accState, List.append_assoc, List.singleton_append,
        List.length_append, List.length_singleton, clamp_score, clamp_reasons, List.cons_append,
        List.nil_append, List.length_cons, List.length_nil]
      refine ⟨_, _, rfl, ?_⟩
      unfold readIndex
      simp only [getElem?_append_length_add, getElem?_append_length, List.getElem?_cons_zero,
        List.getElem?_cons_succ, Acc.clamp, hlen, if_true, if_false, readEach_textOf_map,
        Option.map_some']
    · simp only [if_neg hlen, Option.some_bind]
      simp only [alloc_apply, accState, List.append_assoc, List.singleton_append,
        List.length_append, List.length_singleton, clamp_score, clamp_reasons, List.cons_append,
        List.nil_append, List.length_cons, List.length_nil]
      refine ⟨_, _, rfl, ?_⟩
      unfold readIndex
      simp only [getElem?_append_length_add, getElem?_append_length, List.getElem?_cons_zero,
        List.getElem?_cons_succ, Acc.clamp, hlen, if_true, if_false, readEach_textOf_map,
        Option.map_some']
  | cons hv _ =>
    simp only [Run.bind_apply, init_apply, Option.some_bind, slotProp_accState _ _ _ _ _ _ hc,
      Run.ite_apply, add_accState, set_accState, Run.pure_apply, Prod.mk.eta, ite_accState,
      lengthOf_accState, clamp_reasons, andAlso_apply, ite_some_pair, ite_false_eq_and,
      elemAt_accState _ _ _ _ _ _ hd, guardValue, optProp, List.getElem?_cons_zero, List.head?_cons,
      dayProp_accState _ _ _ _ _ _ hv]
    generalize (ite (jsLe c.temperature 5 = true) _ _ : Acc) = acc
    by_cases hlen : acc.reasons.length = 0
    · simp only [if_pos hlen, push_accState, Option.some_bind]
      simp only [alloc_apply, accState, List.append_assoc, List.singleton_append,
        List.length_append, List.length_singleton, clamp_score, clamp_reasons, List.cons_append,
        List.nil_append, List.length_cons, List.length_nil]
      refine ⟨_, _, rfl, ?_⟩
      unfold readIndex
      simp only [getElem?_append_length_add, getElem?_append_length, List.getElem?_cons_zero,
        List.getElem?_cons_succ, Acc.clamp, hlen, if_true, if_false, readEach_textOf_map,
        Option.map_some']
    · simp only [if_neg hlen, Option.some_bind]
      simp only [alloc_apply, accState, List.append_assoc, List.singleton_append,
        List.length_append, List.length_singleton, clamp_score, clamp_reasons, List.cons_append,
        List.nil_append, List.length_cons, List.length_nil]
      refine ⟨_, _, rfl, ?_⟩
      unfold readIndex
      simp only [getElem?_append_length_add, getElem?_append_length, List.getElem?_cons_zero,
        List.getElem?_cons_succ, Acc.clamp, hlen, if_true, if_false, readEach_textOf_map,
        Option.map_some']
/-- The callback of `filter` reads each element and changes nothing: the elements kept
are those whose aggregate satisfies the test. -/
theorem keepValues_days (h : Heap) (q : DailyAggregate → Bool) (vals : List Value)
    (days : List DailyAggregate)
    (hF : List.Forall₂ (fun v d => dayAt h v = some d) vals days) :
    ∃ kept, keepValues (fun v => dayProp v q) vals h = some (kept, h) ∧
      List.Forall₂ (fun v d => dayAt h v = some d) kept (days.filter q) := by
  induction hF with
  | nil => exact ⟨[], rfl, List.Forall₂.nil⟩
  | @cons v d vs ds hv _ ih =>
    obtain ⟨kept, hk, hkF⟩ := ih
    have h1 : dayProp v q h = some (q d, h) := by
      unfold dayProp
      rw [hv]
    refine ⟨if q d = true then v :: kept else kept, ?_, ?_⟩
    · show (dayProp v q >>= fun keep => keepValues (fun v => dayProp v q) vs >>= fun rest =>
        pure (if keep = true then v :: rest else rest)) h = _
      rw [Run.bind_apply, h1, Option.some_bind, Run.bind_apply, hk]
      rfl
    · by_cases hq : q d = true
      · rw [if_pos hq, List.filter_cons_of_pos hq]
        exact List.Forall₂.cons hv hkF
      · rw [if_neg hq, List.filter_cons_of_neg hq]
        exact hkF

/-- The heap run of the car-wash index: `slice` and `filter` create new arrays and the
array `daily` is left as it is. -/
theorem carWash_run (h : Heap) (dly : Ref) (vals : List Value) (days : List DailyAggregate)
    (hd : h[dly]? = some (HeapObject.array vals))
    (hF : List.Forall₂ (fun v d => dayAt h v = some d) vals days) :
    ∃ r ext, calculateCarWashIndexM dly h = some (r, h ++ ext) ∧
      readIndex (h ++ ext) r = some (calculateCarWashIndex days) := by
  have hF3 : List.Forall₂
      (fun v d => dayAt (h ++ [HeapObject.array [], HeapObject.array (vals.take 3)]) v = some d)
      (vals.take 3) (days.take 3) :=
    (List.forall₂_take 3 hF).imp fun v d hv => dayAt_append _ _ _ _ hv
  obtain ⟨kept, hkeep, hkF⟩ :=
    keepValues_days _ (fun d => jsGe d.maxRainProbability 40) _ _ hF3
  have hlen : kept.length =
      ((days.take 3).filter fun day => jsGe day.maxRainProbability 40).length := hkF.length_eq
  unfold calculateCarWashIndexM calculateCarWashIndex
  simp only [Run.bind_apply, init_apply, Option.some_bind, accState, slice, filter, alloc_apply,
    getElem?_append_of_some _ _ _ _ hd, List.map_nil, List.drop_zero, Nat.sub_zero,
    List.append_assoc, List.singleton_append, List.length_append, List.length_singleton,
    List.cons_append, List.nil_append, List.length_cons, List.length_nil,
    getElem?_append_length_add, getElem?_append_length, List.getElem?_cons_zero,
    List.getElem?_cons_succ, hkeep, lengthOf, hlen]
  generalize ((days.take 3).filter fun day => jsGe day.maxRainProbability 40).length = n
    at hlen ⊢
  have hpush : ∀ (s : Int) (r : String),
      AccRef.set { score := 100, reasons := h.length } s r
        (h ++ [HeapObject.array [], HeapObject.array (vals.take 3), HeapObject.array kept]) =
      some ({ score := s, reasons := h.length },
        h ++ [HeapObject.array [Value.text r], HeapObject.array (vals.take 3),
          HeapObject.array kept]) := by
    intro s r
    show (push h.length (Value.text r) >>= fun _ => pure _) _ = _
    rw [Run.bind_apply]
    unfold push
    simp only [getElem?_append_length, List.getElem?_cons_zero, set_append_length,
      List.set_cons_zero, List.nil_append, Option.some_bind]
    rfl
  have hread : ∀ (s : Int) (r : String),
      readIndex (h ++ [HeapObject.array [Value.text r], HeapObject.array (vals.take 3),
          HeapObject.array kept,
          HeapObject.index
            { id := "carwash", name := "세차", icon := "🚗", score := s, grade := getGrade s,
              color := getColor s, description := getDescription s "세차하기",
              reasons := h.length,
              recommendation :=
                pick3 s "세차하기 좋은 날입니다!" "세차 후 비를 맞을 수 있습니다"
                  "세차를 미루는 것이 좋습니다" }]) (h.length + 3) =
        some { id := "carwash", name := "세차", icon := "🚗", score := s, grade := getGrade s,
               color := getColor s, description := getDescription s "세차하기",
               reasons := [r],
               recommendation :=
                pick3 s "세차하기 좋은 날입니다!" "세차 후 비를 맞을 수 있습니다"
                  "세차를 미루는 것이 좋습니다" } := by
    intro s r
    unfold readIndex
    simp only [getElem?_append_length_add, getElem?_append_length, List.getElem?_cons_zero,
      List.getElem?_cons_succ]
    rfl
  by_cases h0 : n = 0
  · simp only [if_pos h0, hpush, Option.some_bind, List.append_assoc, List.cons_append,
      List.nil_append, List.length_append, List.length_cons, List.length_nil]
    exact ⟨_, _, rfl, hread _ _⟩
  · by_cases h1 : n = 1
    · simp only [if_neg h0, if_pos h1, Run.bind_apply, Run.ite_apply, lengthOf,
        getElem?_append_length_add, List.getElem?_cons_zero, List.getElem?_cons_succ, hlen,
        hpush, Option.some_bind, List.append_assoc, List.cons_append,
        List.nil_append, List.length_append, List.length_cons, List.length_nil]
      exact ⟨_, _, rfl, hread _ _⟩
    · simp only [if_neg h0, if_neg h1, Run.bind_apply, Run.ite_apply, lengthOf,
        getElem?_append_length_add, List.getElem?_cons_zero, List.getElem?_cons_succ, hlen,
        hpush, Option.some_bind, List.append_assoc, List.cons_append,
        List.nil_append, List.length_append, List.length_cons, List.length_nil]
      exact ⟨_, _, rfl, hread _ _⟩

theorem readEach_append_heap {α : Type} (f : Heap → Value → Option α) (h ext : Heap)
    (hf : ∀ v x, f h v = some x → f (h ++ ext) v = some x) (l : List Value) (xs : List α)
    (hl : readEach (f h) l = some xs) : readEach (f (h ++ ext)) l = some xs := by
  rw [readEach_eq_some] at hl ⊢
  exact hl.imp fun v x hv => hf v x hv

/-- What a heap that holds a forecast contains. -/
theorem readForecast_some (h : Heap) (r : Ref) (w : WeatherData)
    (hw : readForecast h r = some w) :
    ∃ cur hourly dly vals, h[r]? = some (HeapObject.forecast cur hourly dly) ∧
      h[cur]? = some (HeapObject.slot w.current) ∧
      h[dly]? = some (HeapObject.array vals) ∧
      List.Forall₂ (fun v d => dayAt h v = some d) vals w.daily := by
  unfold readForecast at hw
  cases h1 : h[r]? with
  | none => rw [h1] at hw; exact absurd hw (by simp)
  | some o =>
    rw [h1] at hw
    cases o with
    | forecast cur hourly dly =>
      simp only at hw
      cases h2 : h[cur]? with
      | none => rw [h2] at hw; exact absurd hw (by simp)
      | some o2 =>
        cases h3 : h[hourly]? with
        | none => rw [h2, h3] at hw; exact absurd hw (by simp)
        | some o3 =>
          cases h4 : h[dly]? with
          | none => rw [h2, h3, h4] at hw; exact absurd hw (by simp)
          | some o4 =>
            rw [h2, h3, h4] at hw
            cases o2 <;> cases o3 <;> cases o4 <;> first | (simp at hw; done) | skip
            rename_i c hs ds
            simp only at hw
            cases h5 : readEach (slotAt h) hs with
            | none => rw [h5] at hw; exact absurd hw (by simp)
            | some hourlySlots =>
              cases h6 : readEach (dayAt h) ds with
              | none => rw [h5, h6] at hw; exact absurd hw (by simp)
              | some days =>
                rw [h5, h6] at hw
                simp only [Option.some.injEq] at hw
                subst hw
                exact ⟨cur, hourly, dly, ds, rfl, h2, h4, (readEach_eq_some _ _ _).1 h6⟩
    | _ => exact absurd hw (by simp)

/-- A heap that grows still holds the forecast. -/
theorem readForecast_append (h ext : Heap) (r : Ref) (w : WeatherData)
    (hw : readForecast h r = some w) : readForecast (h ++ ext) r = some w := by
  unfold readForecast at hw ⊢
  cases h1 : h[r]? with
  | none => rw [h1] at hw; exact absurd hw (by simp)
  | some o =>
    rw [h1] at hw
    rw [getElem?_append_of_some h ext r o h1]
    cases o with
    | forecast cur hourly dly =>
      simp only at hw ⊢
      cases h2 : h[cur]? with
      | none => rw [h2] at hw; exact absurd hw (by simp)
      | some o2 =>
        cases h3 : h[hourly]? with
        | none => rw [h2, h3] at hw; exact absurd hw (by simp)
        | some o3 =>
          cases h4 : h[dly]? with
          | none => rw [h2, h3, h4] at hw; exact absurd hw (by simp)
          | some o4 =>
            rw [h2, h3, h4] at hw
            rw [getElem?_append_of_some h ext _ o2 h2, getElem?_append_of_some h ext _ o3 h3,
              getElem?_append_of_some h ext _ o4 h4]
            cases o2 <;> cases o3 <;> cases o4 <;> first | (simp at hw; done) | skip
            rename_i c hs ds
            simp only at hw ⊢
            cases h5 : readEach (slotAt h) hs with
            | none => rw [h5] at hw; exact absurd hw (by simp)
            | some hourlySlots =>
              cases h6 : readEach (dayAt h) ds with
              | none => rw [h5, h6] at hw; exact absurd hw (by simp)
              | some days =>
                rw [h5, h6] at hw
                rw [readEach_append_heap slotAt h ext (slotAt_append h ext) _ _ h5,
                  readEach_append_heap dayAt h ext (dayAt_append h ext) _ _ h6]
                exact hw
    | _ => exact absurd hw (by simp)

/-- A heap that grows still holds the list of indices. -/
theorem readIndices_append (h ext : Heap) (r : Ref) (l : List LifeIndex)
    (hl : readIndices h r = some l) : readIndices (h ++ ext) r = some l := by
  unfold readIndices at hl ⊢
  cases h1 : h[r]? with
  | none => rw [h1] at hl; exact absurd hl (by simp)
  | some o =>
    rw [h1] at hl
    rw [getElem?_append_of_some h ext r o h1]
    cases o with
    | array vs =>
      simp only at hl ⊢
      apply readEach_append_heap indexAt h ext _ _ _ hl
      intro v x hv
      cases v with
      | ref r2 => exact readIndex_append h ext r2 x hv
      | text s => exact absurd hv (by simp [indexAt])
    | _ => exact absurd hl (by simp)

/-- The heap run of `calculateAll`: started on a heap that holds the forecast `w`, it
returns a reference to an array of index objects that describe `calculateAll w`, and the
heap after the call is the heap before it followed by new objects. -/
theorem calculateAll_run (h : Heap) (weatherData : Ref) (w : WeatherData)
    (hw : readForecast h weatherData = some w) :
    ∃ r ext, calculateAllM weatherData h = some (r, h ++ ext) ∧
      readIndices (h ++ ext) r = some (calculateAll w) := by
  obtain ⟨cur, hourly, dly, vals, hf, hc, hd, hF⟩ := readForecast_some h weatherData w hw
  obtain ⟨r1, e1, hr1, hi1⟩ := laundry_run h cur dly w.current w.daily hc
  have hc1 := getElem?_append_of_some h e1 _ _ hc
  have hd1 := getElem?_append_of_some h e1 _ _ hd
  have hF1 := hF.imp fun v d hv => dayAt_append h e1 v d hv
  obtain ⟨r2, e2, hr2, hi2⟩ := carWash_run (h ++ e1) dly vals w.daily hd1 hF1
  have hc2 := getElem?_append_of_some _ e2 _ _ hc1
  have hd2 := getElem?_append_of_some _ e2 _ _ hd1
  have hF2 := hF1.imp fun v d hv => dayAt_append _ e2 v d hv
  obtain ⟨r3, e3, hr3, hi3⟩ := dogWalk_run (h ++ e1 ++ e2) cur w.current hc2
  have hc3 := getElem?_append_of_some _ e3 _ _ hc2
  have hd3 := getElem?_append_of_some _ e3 _ _ hd2
  have hF3 := hF2.imp fun v d hv => dayAt_append _ e3 v d hv
  obtain ⟨r4, e4, hr4, hi4⟩ :=
    camping_run (h ++ e1 ++ e2 ++ e3) cur dly w.current vals w.daily hc3 hd3 hF3
  have hc4 := getElem?_append_of_some _ e4 _ _ hc3
  have hd4 := getElem?_append_of_some _ e4 _ _ hd3
  have hF4 := hF3.imp fun v d hv => dayAt_append _ e4 v d hv
  obtain ⟨r5, e5, hr5, hi5⟩ := exercise_run (h ++ e1 ++ e2 ++ e3 ++ e4) cur w.current hc4
  have hc5 := getElem?_append_of_some _ e5 _ _ hc4
  have hd5 := getElem?_append_of_some _ e5 _ _ hd4
  have hF5 := hF4.imp fun v d hv => dayAt_append _ e5 v d hv
  obtain ⟨r6, e6, hr6, hi6⟩ :=
    stargazing_run (h ++ e1 ++ e2 ++ e3 ++ e4 ++ e5) cur w.current hc5
  have hc6 := getElem?_append_of_some _ e6 _ _ hc5
  have hd6 := getElem?_append_of_some _ e6 _ _ hd5
  have hF6 := hF5.imp fun v d hv => dayAt_append _ e6 v d hv
  obtain ⟨r7, e7, hr7, hi7⟩ :=
    foodPoisoning_run (h ++ e1 ++ e2 ++ e3 ++ e4 ++ e5 ++ e6) cur w.current hc6
  have hc7 := getElem?_append_of_some _ e7 _ _ hc6
  have hd7 := getElem?_append_of_some _ e7 _ _ hd6
  have hF7 := hF6.imp fun v d hv => dayAt_append _ e7 v d hv
  obtain ⟨r8, e8, hr8, hi8⟩ :=
    coldWarning_run (h ++ e1 ++ e2 ++ e3 ++ e4 ++ e5 ++ e6 ++ e7) cur dly w.current vals w.daily
      hc7 hd7 hF7
  have hprops : forecastProps weatherData h = some ((cur, dly), h) := by
    unfold forecastProps
    rw [hf]
  refine ⟨(h ++ e1 ++ e2 ++ e3 ++ e4 ++ e5 ++ e6 ++ e7 ++ e8).length,
    e1 ++ e2 ++ e3 ++ e4 ++ e5 ++ e6 ++ e7 ++ e8 ++
      [HeapObject.array [Value.ref r1, Value.ref r2, Value.ref r3, Value.ref r4, Value.ref r5,
        Value.ref r6, Value.ref r7, Value.ref r8]], ?_, ?_⟩
  · unfold calculateAllM
    simp only [Run.bind_apply, hprops, Option.some_bind, hr1, hr2, hr3, hr4, hr5, hr6, hr7, hr8,
      alloc_apply]
    simp only [List.append_assoc]
  · have k1 := readIndex_append _ [HeapObject.array [Value.ref r1, Value.ref r2, Value.ref r3,
      Value.ref r4, Value.ref r5, Value.ref r6, Value.ref r7, Value.ref r8]] _ _
      (readIndex_append _ e8 _ _ (readIndex_append _ e7 _ _ (readIndex_append _ e6 _ _
        (readIndex_append _ e5 _ _ (readIndex_append _ e4 _ _ (readIndex_append _ e3 _ _
          (readIndex_append _ e2 _ _ hi1)))))))
    have k2 := readIndex_append _ [HeapObject.array [Value.ref r1, Value.ref r2, Value.ref r3,
      Value.ref r4, Value.ref r5, Value.ref r6, Value.ref r7, Value.ref r8]] _ _
      (readIndex_append _ e8 _ _ (readIndex_append _ e7 _ _ (readIndex_append _ e6 _ _
        (readIndex_append _ e5 _ _ (readIndex_append _ e4 _ _ (readIndex_append _ e3 _ _
          hi2))))))
    have k3 := readIndex_append _ [HeapObject.array [Value.ref r1, Value.ref r2, Value.ref r3,
      Value.ref r4, Value.ref r5, Value.ref r6, Value.ref r7, Value.ref r8]] _ _
      (readIndex_append _ e8 _ _ (readIndex_append _ e7 _ _ (readIndex_append _ e6 _ _
        (readIndex_append _ e5 _ _ (readIndex_append _ e4 _ _ hi3)))))
    have k4 := readIndex_append _ [HeapObject.array [Value.ref r1, Value.ref r2, Value.ref r3,
      Value.ref r4, Value.ref r5, Value.ref r6, Value.ref r7, Value.ref r8]] _ _
      (readIndex_append _ e8 _ _ (readIndex_append _ e7 _ _ (readIndex_append _ e6 _ _
        (readIndex_append _ e5 _ _ hi4))))
    have k5 := readIndex_append _ [HeapObject.array [Value.ref r1, Value.ref r2, Value.ref r3,
      Value.ref r4, Value.ref r5, Value.ref r6, Value.ref r7, Value.ref r8]] _ _
      (readIndex_append _ e8 _ _ (readIndex_append _ e7 _ _ (readIndex_append _ e6 _ _ hi5)))
    have k6 := readIndex_append _ [HeapObject.array [Value.ref r1, Value.ref r2, Value.ref r3,
      Value.ref r4, Value.ref r5, Value.ref r6, Value.ref r7, Value.ref r8]] _ _
      (readIndex_append _ e8 _ _ (readIndex_append _ e7 _ _ hi6))
    have k7 := readIndex_append _ [HeapObject.array [Value.ref r1, Value.ref r2, Value.ref r3,
      Value.ref r4, Value.ref r5, Value.ref r6, Value.ref r7, Value.ref r8]] _ _
      (readIndex_append _ e8 _ _ hi7)
    have k8 := readIndex_append _ [HeapObject.array [Value.ref r1, Value.ref r2, Value.ref r3,
      Value.ref r4, Value.ref r5, Value.ref r6, Value.ref r7, Value.ref r8]] _ _ hi8
    have hheap : h ++ (e1 ++ e2 ++ e3 ++ e4 ++ e5 ++ e6 ++ e7 ++ e8 ++
        [HeapObject.array [Value.ref r1, Value.ref r2, Value.ref r3, Value.ref r4, Value.ref r5,
          Value.ref r6, Value.ref r7, Value.ref r8]]) =
        (h ++ e1 ++ e2 ++ e3 ++ e4 ++ e5 ++ e6 ++ e7 ++ e8) ++
          [HeapObject.array [Value.ref r1, Value.ref r2, Value.ref r3, Value.ref r4,
            Value.ref r5, Value.ref r6, Value.ref r7, Value.ref r8]] := by
      simp only [List.append_assoc]
    rw [hheap]
    unfold readIndices
    rw [getElem?_append_length]
    simp only [List.getElem?_cons_zero, readEach, indexAt, k1, k2, k3, k4, k5, k6, k7, k8]
    rfl

/-- C29: `calculateAll` is deterministic and does not change its input.  On every heap
that holds a structured forecast, the call returns a new array of 8 index objects that
describe `calculateAll` of the forecast, and a second call on the heap left by the first
returns an array that describes the same list (same scores, grades, colours,
descriptions, reasons and recommendations); both calls only add new objects at the end
of the heap, so every object that existed before the first call (the forecast object,
its current slot, the array `daily` and each aggregate it refers to) is unchanged, the
heap still holds the same forecast, and the result of the first call can still be read
after the second. -/
theorem calculateAll_pure (h : Heap) (weatherData : Ref) (w : WeatherData)
    (hw : readForecast h weatherData = some w) :
    ∃ first second ext1 ext2,
      calculateAllM weatherData h = some (first, h ++ ext1) ∧
      calculateAllM weatherData (h ++ ext1) = some (second, h ++ ext1 ++ ext2) ∧
      readIndices (h ++ ext1) first = some (calculateAll w) ∧
      readIndices (h ++ ext1 ++ ext2) second = some (calculateAll w) ∧
      readIndices (h ++ ext1 ++ ext2) first = some (calculateAll w) ∧
      (calculateAll w).length = 8 ∧
      (∀ a : Ref, a < h.length →
        (h ++ ext1)[a]? = h[a]? ∧ (h ++ ext1 ++ ext2)[a]? = h[a]?) ∧
      readForecast (h ++ ext1) weatherData = some w ∧
      readForecast (h ++ ext1 ++ ext2) weatherData = some w := by
  obtain ⟨first, ext1, hrun1, hread1⟩ := calculateAll_run h weatherData w hw
  have hw1 := readForecast_append h ext1 weatherData w hw
  obtain ⟨second, ext2, hrun2, hread2⟩ := calculateAll_run (h ++ ext1) weatherData w hw1
  refine ⟨first, second, ext1, ext2, hrun1, hrun2, hread1, hread2,
    readIndices_append _ ext2 _ _ hread1, rfl, ?_, hw1,
    readForecast_append _ ext2 weatherData w hw1⟩
  intro a ha
  constructor
  · exact List.getElem?_append_left ha
  · rw [List.append_assoc]
    exact List.getElem?_append_left ha

/-! ## The forecast cache: theorems -/

/-- C30: with the cache as an explicit map and the clock as an input: when the
entry of the key is younger than 10 minutes (600000 ms), `getForecast` returns
exactly the cached data, calls no fetch and leaves the cache unchanged; and a
fetch is attempted exactly when the key is absent or its entry is at least 10
minutes old. -/
theorem getForecast_cache_fresh (cache : List (String × CacheEntry)) (nx ny now now2 : Int)
    (response : FetchResponse) :
    cacheTimeout = 600000 ∧
    (∀ entry : CacheEntry,
      cacheGet cache (toString nx ++ "_" ++ toString ny) = some entry →
      now - entry.timestamp < 600000 →
        (getForecast cache nx ny now now2 response).result = Except.ok entry.data ∧
        (getForecast cache nx ny now now2 response).fetched = false ∧
        (getForecast cache nx ny now now2 response).cache = cache) ∧
    ((getForecast cache nx ny now now2 response).fetched = true ↔
      (cacheGet cache (toString nx ++ "_" ++ toString ny) = none ∨
        ∃ entry : CacheEntry,
          cacheGet cache (toString nx ++ "_" ++ toString ny) = some entry ∧
            600000 ≤ now - entry.timestamp)) := by
  have hto : cacheTimeout = 600000 := by decide
  have hfetch : ∀ k : String, (fetchAndStore cache k now2 response).fetched = true := by
    intro k
    unfold fetchAndStore
    cases response <;> rfl
  refine ⟨hto, ?_, ?_⟩
  · intro entry hget hfresh
    unfold getForecast
    simp only [hget, hto, if_pos hfresh]
    exact ⟨trivial, trivial, trivial⟩
  · unfold getForecast
    cases hget : cacheGet cache (toString nx ++ "_" ++ toString ny) with
    | none =>
      simp only [hget, hfetch]
      simp
    | some entry =>
      simp only [hget, hto]
      by_cases hfresh : now - entry.timestamp < 600000
      · simp only [if_pos hfresh]
        constructor
        · intro h; exact absurd h (by simp)
        · rintro (h | ⟨e, he, hle⟩)
          · exact absurd h (by simp)
          · have : e = entry := (Option.some.inj he).symm
            rw [this] at hle
            omega
      · simp only [if_neg hfresh, hfetch, true_iff]
        right
        exact ⟨entry, rfl, by omega⟩

/-! ## The projection origin -/

namespace CoordConverter

theorem angle_slat1 : Real.pi * 0.25 + SLAT1 * DEGRAD * 0.5 = Real.pi / 3 := by
  unfold SLAT1 DEGRAD; ring

theorem angle_slat2 : Real.pi * 0.25 + SLAT2 * DEGRAD * 0.5 = 5 * Real.pi / 12 := by
  unfold SLAT2 DEGRAD; ring

theorem angle_olat : Real.pi * 0.25 + OLAT * DEGRAD * 0.5 = 16 * Real.pi / 45 := by
  unfold OLAT DEGRAD; ring

theorem slat1_eq : SLAT1 * DEGRAD = Real.pi / 6 := by
  unfold SLAT1 DEGRAD; ring

theorem slat2_eq : SLAT2 * DEGRAD = Real.pi / 3 := by
  unfold SLAT2 DEGRAD; ring

theorem sn_eq :
    sn = Real.log (Real.cos (Real.pi / 6) / Real.cos (Real.pi / 3)) /
      Real.log (Real.tan (5 * Real.pi / 12) / Real.tan (Real.pi / 3)) := by
  unfold sn
  simp only [angle_slat1, angle_slat2]
  rw [slat1_eq, slat2_eq]

theorem sn_pos : 0 < sn := by
  rw [sn_eq]
  have hpi := Real.pi_pos
  apply div_pos
  · apply Real.log_pos
    rw [Real.cos_pi_div_six, Real.cos_pi_div_three]
    have h3 : (1 : ℝ) < Real.sqrt 3 := by
      rw [show (1 : ℝ) = Real.sqrt 1 by simp]
      exact Real.sqrt_lt_sqrt (by norm_num) (by norm_num)
    rw [lt_div_iff₀ (by norm_num)]
    linarith
  · apply Real.log_pos
    have ht3 : 0 < Real.tan (Real.pi / 3) :=
      Real.tan_pos_of_pos_of_lt_pi_div_two (by linarith) (by linarith)
    rw [lt_div_iff₀ ht3, one_mul]
    exact Real.tan_lt_tan_of_lt_of_lt_pi_div_two (by linarith) (by linarith) (by linarith)

theorem sf_eq :
    sf = Real.tan (Real.pi / 3) ^ sn * Real.cos (Real.pi / 6) / sn := by
  unfold sf
  simp only [angle_slat1]
  rw [slat1_eq]

theorem sf_pos : 0 < sf := by
  rw [sf_eq]
  have hpi := Real.pi_pos
  have ht3 : 0 < Real.tan (Real.pi / 3) :=
    Real.tan_pos_of_pos_of_lt_pi_div_two (by linarith) (by linarith)
  have hc : 0 < Real.cos (Real.pi / 6) := by
    rw [Real.cos_pi_div_six]
    positivity
  exact div_pos (mul_pos (Real.rpow_pos_of_pos ht3 _) hc) sn_pos

theorem tan_olat_pos : 0 < Real.tan (16 * Real.pi / 45) := by
  have hpi := Real.pi_pos
  exact Real.tan_pos_of_pos_of_lt_pi_div_two (by linarith) (by linarith)

theorem re_pos : 0 < RE / GRID := by
  unfold RE GRID; norm_num

theorem ro_eq : ro = RE / GRID * sf / Real.tan (16 * Real.pi / 45) ^ sn := by
  unfold ro
  simp only [angle_olat]

theorem ro_pos : 0 < ro := by
  rw [ro_eq]
  exact div_pos (mul_pos re_pos sf_pos) (Real.rpow_pos_of_pos tan_olat_pos _)

/-! ### Numerical bounds for the cell of Seoul -/

theorem sqrt3_gt : (1.73205 : ℝ) < Real.sqrt 3 := by
  rw [Real.lt_sqrt (by norm_num)]
  norm_num

theorem sqrt3_lt : Real.sqrt 3 < (1.73206 : ℝ) := by
  rw [Real.sqrt_lt' (by norm_num)]
  norm_num

theorem exp_le_taylor (x : ℝ) (h0 : 0 ≤ x) (h1 : x ≤ 1) :
    Real.exp x ≤ 1 + x + x ^ 2 / 2 + x ^ 3 / 6 + x ^ 4 / 24 + x ^ 5 / 120 + x ^ 6 / 720
      + x ^ 7 / 5040 + x ^ 8 * 9 / 322560 := by
  have h := Real.exp_bound' h0 h1 (show 0 < 8 by norm_num)
  simp only [Finset.sum_range_succ, Finset.sum_range_zero, Nat.factorial] at h
  norm_num at h
  linarith

theorem taylor_le_exp (x : ℝ) (h0 : 0 ≤ x) :
    1 + x + x ^ 2 / 2 + x ^ 3 / 6 + x ^ 4 / 24 + x ^ 5 / 120 + x ^ 6 / 720 ≤ Real.exp x := by
  have h := Real.sum_le_exp_of_nonneg h0 7
  simp only [Finset.sum_range_succ, Finset.sum_range_zero, Nat.factorial] at h
  norm_num at h
  linarith

theorem log_sqrt3_ge : (0.549 : ℝ) ≤ Real.log (Real.sqrt 3) := by
  rw [Real.le_log_iff_exp_le (by positivity)]
  have h := exp_le_taylor 0.549 (by norm_num) (by norm_num)
  have h3 := sqrt3_gt
  norm_num at h
  linarith

theorem log_sqrt3_le : Real.log (Real.sqrt 3) ≤ (0.5495 : ℝ) := by
  rw [Real.log_le_iff_le_exp (by positivity)]
  have h := taylor_le_exp 0.5495 (by norm_num)
  have h3 := sqrt3_lt
  norm_num at h
  linarith

/-- The difference of two tangents, relative to the smaller one. -/
theorem tan_div_sub_one (a b : ℝ) (ha : Real.cos a ≠ 0) (hs : Real.sin b ≠ 0) :
    Real.tan a / Real.tan b - 1 = Real.sin (a - b) / (Real.cos a * Real.sin b) := by
  rw [Real.tan_eq_sin_div_cos, Real.tan_eq_sin_div_cos, Real.sin_sub]
  field_simp

/-- The difference of two tangents, relative to the larger one. -/
theorem one_sub_tan_div (a b : ℝ) (hb : Real.cos b ≠ 0) (hs : Real.sin a ≠ 0) :
    1 - Real.tan b / Real.tan a = Real.sin (a - b) / (Real.sin a * Real.cos b) := by
  rw [Real.tan_eq_sin_div_cos, Real.tan_eq_sin_div_cos, Real.sin_sub]
  field_simp
  ring

theorem tan_ratio_slat : Real.tan (5 * Real.pi / 12) / Real.tan (Real.pi / 3)
    = 1 + 2 / Real.sqrt 3 := by
  have hpi := Real.pi_pos
  have hc1 : 0 < Real.cos (5 * Real.pi / 12) :=
    Real.cos_pos_of_mem_Ioo ⟨by linarith, by linarith⟩
  have hc : Real.cos (5 * Real.pi / 12) = Real.sin (Real.pi / 12) := by
    rw [← Real.cos_pi_div_two_sub]
    congr 1
    ring
  have h3 : (0 : ℝ) < Real.sqrt 3 := by positivity
  have h := tan_div_sub_one (5 * Real.pi / 12) (Real.pi / 3) hc1.ne'
    (by rw [Real.sin_pi_div_three]; positivity)
  have hd : 5 * Real.pi / 12 - Real.pi / 3 = Real.pi / 12 := by ring
  rw [hd, Real.sin_pi_div_three, hc] at h
  have hs : Real.sin (Real.pi / 12) ≠ 0 := by rw [← hc]; exact hc1.ne'
  have h2 : Real.sin (Real.pi / 12) / (Real.sin (Real.pi / 12) * (Real.sqrt 3 / 2))
      = 2 / Real.sqrt 3 := by
    field_simp
    ring
  rw [h2] at h
  linarith

theorem sn_value : sn = Real.log (Real.sqrt 3) / Real.log (1 + 2 / Real.sqrt 3) := by
  rw [sn_eq, tan_ratio_slat, Real.cos_pi_div_six, Real.cos_pi_div_three]
  congr 2
  field_simp

theorem log_ratio_ge : (0.7675 : ℝ) ≤ Real.log (1 + 2 / Real.sqrt 3) := by
  have h3 := sqrt3_lt
  have h3p : (0 : ℝ) < Real.sqrt 3 := by positivity
  rw [Real.le_log_iff_exp_le (by positivity)]
  have h := exp_le_taylor 0.7675 (by norm_num) (by norm_num)
  have hq : (2 : ℝ) / 1.73206 ≤ 2 / Real.sqrt 3 :=
    div_le_div_of_nonneg_left (by norm_num) h3p h3.le
  norm_num at h hq
  linarith

theorem log_ratio_le : Real.log (1 + 2 / Real.sqrt 3) ≤ (0.768 : ℝ) := by
  have h3 := sqrt3_gt
  rw [Real.log_le_iff_le_exp (by positivity)]
  have h := taylor_le_exp 0.768 (by norm_num)
  have hq : (2 : ℝ) / Real.sqrt 3 ≤ 2 / 1.73205 :=
    div_le_div_of_nonneg_left (by norm_num) (by norm_num) h3.le
  norm_num at h hq
  linarith

theorem sn_ge : (0.71 : ℝ) ≤ sn := by
  rw [sn_value]
  have h1 := log_sqrt3_ge
  have h2 := log_ratio_le
  have h3 := log_ratio_ge
  rw [le_div_iff₀ (by linarith)]
  nlinarith

theorem sn_le : sn ≤ (0.72 : ℝ) := by
  rw [sn_value]
  have h1 := log_sqrt3_le
  have h3 := log_ratio_ge
  rw [div_le_iff₀ (by linarith)]
  nlinarith


theorem sin_ge_of_le (x y : ℝ) (hy : 0 ≤ y) (hyx : y ≤ x) (hx : x ≤ 1) :
    y - y ^ 3 / 6 - y ^ 4 * (5 / 96) ≤ Real.sin x := by
  have hpi := Real.pi_gt_three
  have hm : Real.sin y ≤ Real.sin x :=
    Real.sin_le_sin_of_le_of_le_pi_div_two (by linarith) (by linarith) hyx
  have hb := Real.sin_bound (show |y| ≤ 1 by rw [abs_of_nonneg hy]; linarith)
  rw [abs_of_nonneg hy] at hb
  have := (abs_le.mp hb).1
  linarith

theorem sin_le_of_le (x y : ℝ) (hx : 0 ≤ x) (hxy : x ≤ y) : Real.sin x ≤ y :=
  (Real.sin_le hx).trans hxy

theorem cos_le_of_le (x y : ℝ) (hy : 0 ≤ y) (hyx : y ≤ x) (hx : x ≤ 1) :
    Real.cos x ≤ 1 - y ^ 2 / 2 + y ^ 4 * (5 / 96) := by
  have hpi := Real.pi_gt_three
  have hm : Real.cos x ≤ Real.cos y :=
    Real.cos_le_cos_of_nonneg_of_le_pi hy (by linarith) hyx
  have hb := Real.cos_bound (show |y| ≤ 1 by rw [abs_of_nonneg hy]; linarith)
  rw [abs_of_nonneg hy] at hb
  have := (abs_le.mp hb).2
  linarith

theorem cos_ge_of_le (x y : ℝ) (hx : 0 ≤ x) (hxy : x ≤ y) (hy : y ≤ 1) :
    1 - y ^ 2 / 2 ≤ Real.cos x := by
  have hpi := Real.pi_gt_three
  have hm : Real.cos y ≤ Real.cos x :=
    Real.cos_le_cos_of_nonneg_of_le_pi hx (by linarith) hxy
  have := @Real.one_sub_sq_div_two_le_cos y
  linarith

theorem angle_seoul :
    Real.pi * 0.25 + 37.5665 * DEGRAD * 0.5 = 255133 * Real.pi / 720000 := by
  unfold DEGRAD; ring

theorem cos_olat_ge : (0.436 : ℝ) ≤ Real.cos (16 * Real.pi / 45) := by
  have h1 := Real.pi_gt_d6
  have h2 := Real.pi_lt_d6
  have he : Real.cos (16 * Real.pi / 45) = Real.sin (13 * Real.pi / 90) := by
    rw [← Real.cos_pi_div_two_sub]; congr 1; ring
  rw [he]
  have h := sin_ge_of_le (13 * Real.pi / 90) (13 * 3.141592 / 90) (by norm_num)
    (by linarith) (by linarith)
  norm_num at h
  linarith

theorem sin_olat_le : Real.sin (16 * Real.pi / 45) ≤ (0.89925 : ℝ) := by
  have h1 := Real.pi_gt_d6
  have h2 := Real.pi_lt_d6
  have he : Real.sin (16 * Real.pi / 45) = Real.cos (13 * Real.pi / 90) := by
    rw [← Real.sin_pi_div_two_sub]; congr 1; ring
  rw [he]
  have h := cos_le_of_le (13 * Real.pi / 90) (13 * 3.141592 / 90) (by norm_num)
    (by linarith) (by linarith)
  norm_num at h
  linarith

theorem sin_olat_pos : 0 < Real.sin (16 * Real.pi / 45) := by
  have hpi := Real.pi_pos
  exact Real.sin_pos_of_pos_of_lt_pi (by linarith) (by linarith)

theorem cos_seoul_ge : (0.4393 : ℝ) ≤ Real.cos (255133 * Real.pi / 720000) := by
  have h1 := Real.pi_gt_d6
  have h2 := Real.pi_lt_d6
  have he : Real.cos (255133 * Real.pi / 720000) = Real.sin (104867 * Real.pi / 720000) := by
    rw [← Real.cos_pi_div_two_sub]; congr 1; ring
  rw [he]
  have h := sin_ge_of_le (104867 * Real.pi / 720000) (104867 * 3.141592 / 720000) (by norm_num)
    (by linarith) (by linarith)
  norm_num at h
  linarith

theorem cos_seoul_le : Real.cos (255133 * Real.pi / 720000) ≤ (0.4576 : ℝ) := by
  have h1 := Real.pi_gt_d6
  have h2 := Real.pi_lt_d6
  have he : Real.cos (255133 * Real.pi / 720000) = Real.sin (104867 * Real.pi / 720000) := by
    rw [← Real.cos_pi_div_two_sub]; congr 1; ring
  rw [he]
  exact sin_le_of_le _ _ (by linarith) (by linarith)

theorem sin_seoul_ge : (0.8953 : ℝ) ≤ Real.sin (255133 * Real.pi / 720000) := by
  have h1 := Real.pi_gt_d6
  have h2 := Real.pi_lt_d6
  have he : Real.sin (255133 * Real.pi / 720000) = Real.cos (104867 * Real.pi / 720000) := by
    rw [← Real.sin_pi_div_two_sub]; congr 1; ring
  rw [he]
  have h := cos_ge_of_le (104867 * Real.pi / 720000) (104867 * 3.141593 / 720000)
    (by linarith) (by linarith) (by norm_num)
  norm_num at h
  linarith

theorem sin_seoul_le : Real.sin (255133 * Real.pi / 720000) ≤ (0.8976 : ℝ) := by
  have h1 := Real.pi_gt_d6
  have h2 := Real.pi_lt_d6
  have he : Real.sin (255133 * Real.pi / 720000) = Real.cos (104867 * Real.pi / 720000) := by
    rw [← Real.sin_pi_div_two_sub]; congr 1; ring
  rw [he]
  have h := cos_le_of_le (104867 * Real.pi / 720000) (104867 * 3.141592 / 720000) (by norm_num)
    (by linarith) (by linarith)
  norm_num at h
  linarith

theorem sin_four_deg_ge : (0.06975 : ℝ) ≤ Real.sin (Real.pi / 45) := by
  have h1 := Real.pi_gt_d6
  have h2 := Real.pi_lt_d6
  have h := sin_ge_of_le (Real.pi / 45) (3.141592 / 45) (by norm_num) (by linarith) (by linarith)
  norm_num at h
  linarith

theorem sin_four_deg_le : Real.sin (Real.pi / 45) ≤ (0.06982 : ℝ) := by
  have h1 := Real.pi_gt_d6
  have h2 := Real.pi_lt_d6
  exact sin_le_of_le _ _ (by linarith) (by linarith)

theorem sin_seoul_off_ge : (0.06598 : ℝ) ≤ Real.sin (15133 * Real.pi / 720000) := by
  have h1 := Real.pi_gt_d6
  have h2 := Real.pi_lt_d6
  have h := sin_ge_of_le (15133 * Real.pi / 720000) (15133 * 3.141592 / 720000) (by norm_num)
    (by linarith) (by linarith)
  norm_num at h
  linarith

theorem sin_seoul_off_le : Real.sin (15133 * Real.pi / 720000) ≤ (0.06604 : ℝ) := by
  have h1 := Real.pi_gt_d6
  have h2 := Real.pi_lt_d6
  exact sin_le_of_le _ _ (by linarith) (by linarith)

theorem sin_gap_ge : (0.003782 : ℝ) ≤ Real.sin (289 * Real.pi / 240000) := by
  have h1 := Real.pi_gt_d6
  have h2 := Real.pi_lt_d6
  have h := sin_ge_of_le (289 * Real.pi / 240000) (289 * 3.141592 / 240000) (by norm_num)
    (by linarith) (by linarith)
  norm_num at h
  linarith

theorem sin_gap_le : Real.sin (289 * Real.pi / 240000) ≤ (0.003784 : ℝ) := by
  have h1 := Real.pi_gt_d6
  have h2 := Real.pi_lt_d6
  exact sin_le_of_le _ _ (by linarith) (by linarith)


theorem tan_seoul_pos : 0 < Real.tan (255133 * Real.pi / 720000) := by
  have hpi := Real.pi_pos
  exact Real.tan_pos_of_pos_of_lt_pi_div_two (by positivity) (by linarith)

theorem sin_seoul_pos : 0 < Real.sin (255133 * Real.pi / 720000) :=
  lt_of_lt_of_le (by norm_num) sin_seoul_ge

theorem cos_seoul_pos : 0 < Real.cos (255133 * Real.pi / 720000) :=
  lt_of_lt_of_le (by norm_num) cos_seoul_ge

theorem cos_olat_pos : 0 < Real.cos (16 * Real.pi / 45) :=
  lt_of_lt_of_le (by norm_num) cos_olat_ge

/-- Relative distance of `tan 60°` below the tangent at the origin latitude. -/
theorem origin_below_ge :
    (0.1551 : ℝ) ≤ 1 - Real.sqrt 3 / Real.tan (16 * Real.pi / 45) := by
  have h := one_sub_tan_div (16 * Real.pi / 45) (Real.pi / 3)
    (by rw [Real.cos_pi_div_three]; norm_num) sin_olat_pos.ne'
  have hd : 16 * Real.pi / 45 - Real.pi / 3 = Real.pi / 45 := by ring
  rw [hd, Real.tan_pi_div_three, Real.cos_pi_div_three] at h
  rw [h, le_div_iff₀ (mul_pos sin_olat_pos (by norm_num))]
  have h1 := sin_four_deg_ge
  have h2 := sin_olat_le
  linarith

theorem seoul_below_ge :
    (0.1470 : ℝ) ≤ 1 - Real.sqrt 3 / Real.tan (255133 * Real.pi / 720000) := by
  have h := one_sub_tan_div (255133 * Real.pi / 720000) (Real.pi / 3)
    (by rw [Real.cos_pi_div_three]; norm_num) sin_seoul_pos.ne'
  have hd : 255133 * Real.pi / 720000 - Real.pi / 3 = 15133 * Real.pi / 720000 := by ring
  rw [hd, Real.tan_pi_div_three, Real.cos_pi_div_three] at h
  rw [h, le_div_iff₀ (mul_pos sin_seoul_pos (by norm_num))]
  have h1 := sin_seoul_off_ge
  have h2 := sin_seoul_le
  linarith

theorem origin_above_le :
    Real.tan (16 * Real.pi / 45) / Real.sqrt 3 - 1 ≤ (0.18492 : ℝ) := by
  have h3 : (0 : ℝ) < Real.sqrt 3 := by positivity
  have h := tan_div_sub_one (16 * Real.pi / 45) (Real.pi / 3) cos_olat_pos.ne'
    (by rw [Real.sin_pi_div_three]; positivity)
  have hd : 16 * Real.pi / 45 - Real.pi / 3 = Real.pi / 45 := by ring
  rw [hd, Real.tan_pi_div_three, Real.sin_pi_div_three] at h
  rw [h, div_le_iff₀ (mul_pos cos_olat_pos (by positivity))]
  have h1 := sin_four_deg_le
  have h2 := cos_olat_ge
  have h4 := sqrt3_gt
  have h5 : (0.436 : ℝ) * (1.73205 / 2) ≤ Real.cos (16 * Real.pi / 45) * (Real.sqrt 3 / 2) :=
    mul_le_mul h2 (by linarith) (by norm_num) cos_olat_pos.le
  linarith

theorem seoul_above_le :
    Real.tan (255133 * Real.pi / 720000) / Real.sqrt 3 - 1 ≤ (0.17359 : ℝ) := by
  have h3 : (0 : ℝ) < Real.sqrt 3 := by positivity
  have h := tan_div_sub_one (255133 * Real.pi / 720000) (Real.pi / 3) cos_seoul_pos.ne'
    (by rw [Real.sin_pi_div_three]; positivity)
  have hd : 255133 * Real.pi / 720000 - Real.pi / 3 = 15133 * Real.pi / 720000 := by ring
  rw [hd, Real.tan_pi_div_three, Real.sin_pi_div_three] at h
  rw [h, div_le_iff₀ (mul_pos cos_seoul_pos (by positivity))]
  have h1 := sin_seoul_off_le
  have h2 := cos_seoul_ge
  have h4 := sqrt3_gt
  have h5 : (0.4393 : ℝ) * (1.73205 / 2) ≤
      Real.cos (255133 * Real.pi / 720000) * (Real.sqrt 3 / 2) :=
    mul_le_mul h2 (by linarith) (by norm_num) cos_seoul_pos.le
  linarith

/-- Relative distance of the tangent at the origin latitude above the one at Seoul. -/
theorem gap_above_le :
    Real.tan (16 * Real.pi / 45) / Real.tan (255133 * Real.pi / 720000) - 1 ≤ (0.009694 : ℝ) := by
  have h := tan_div_sub_one (16 * Real.pi / 45) (255133 * Real.pi / 720000) cos_olat_pos.ne'
    sin_seoul_pos.ne'
  have hd : 16 * Real.pi / 45 - 255133 * Real.pi / 720000 = 289 * Real.pi / 240000 := by ring
  rw [hd] at h
  rw [h, div_le_iff₀ (mul_pos cos_olat_pos sin_seoul_pos)]
  have h1 := sin_gap_le
  have h5 : (0.436 : ℝ) * 0.8953 ≤
      Real.cos (16 * Real.pi / 45) * Real.sin (255133 * Real.pi / 720000) :=
    mul_le_mul cos_olat_ge sin_seoul_ge (by norm_num) cos_olat_pos.le
  linarith

theorem gap_above_nonneg :
    0 ≤ Real.tan (16 * Real.pi / 45) / Real.tan (255133 * Real.pi / 720000) - 1 := by
  have h := tan_div_sub_one (16 * Real.pi / 45) (255133 * Real.pi / 720000) cos_olat_pos.ne'
    sin_seoul_pos.ne'
  have hd : 16 * Real.pi / 45 - 255133 * Real.pi / 720000 = 289 * Real.pi / 240000 := by ring
  rw [hd] at h
  rw [h]
  have h1 := sin_gap_ge
  exact div_nonneg (by linarith) (mul_pos cos_olat_pos sin_seoul_pos).le

theorem gap_below_ge :
    (0.00919 : ℝ) ≤
      1 - Real.tan (255133 * Real.pi / 720000) / Real.tan (16 * Real.pi / 45) := by
  have h := one_sub_tan_div (16 * Real.pi / 45) (255133 * Real.pi / 720000) cos_seoul_pos.ne'
    sin_olat_pos.ne'
  have hd : 16 * Real.pi / 45 - 255133 * Real.pi / 720000 = 289 * Real.pi / 240000 := by ring
  rw [hd] at h
  rw [h, le_div_iff₀ (mul_pos sin_olat_pos cos_seoul_pos)]
  have h1 := sin_gap_ge
  have h5 : Real.sin (16 * Real.pi / 45) * Real.cos (255133 * Real.pi / 720000) ≤
      (0.89925 : ℝ) * 0.4576 :=
    mul_le_mul sin_olat_le cos_seoul_le cos_seoul_pos.le (by norm_num)
  linarith

/-- Bernoulli bound from above for a power of a number below 1. -/
theorem rpow_le_of_below (x s p : ℝ) (hx : 0 ≤ x) (hs : s ≤ 1 - x) (hs0 : 0 ≤ s)
    (p0 : ℝ) (hp0 : 0 ≤ p0) (hp : p0 ≤ p) (hp1 : p ≤ 1) : x ^ p ≤ 1 - p0 * s := by
  have h := rpow_one_add_le_one_add_mul_self (show (-1 : ℝ) ≤ x - 1 by linarith)
    (hp0.trans hp) hp1
  rw [show 1 + (x - 1) = x by ring] at h
  have h1 : p0 * s ≤ p * (1 - x) := mul_le_mul hp hs hs0 (hp0.trans hp)
  linarith

/-- Bernoulli bound from below for a power of a number below 1. -/
theorem rpow_ge_of_above (x t p : ℝ) (hx : 0 < x) (ht : 1 / x - 1 ≤ t) (hx1 : x ≤ 1)
    (p1 : ℝ) (hp0 : 0 ≤ p) (hp : p ≤ p1) (hp1 : p1 ≤ 1) : 1 / (1 + p1 * t) ≤ x ^ p := by
  have hinv : 0 ≤ 1 / x - 1 := by
    rw [sub_nonneg, le_div_iff₀ hx]
    linarith
  have h := rpow_one_add_le_one_add_mul_self (show (-1 : ℝ) ≤ 1 / x - 1 by linarith)
    hp0 (hp.trans hp1)
  rw [show 1 + (1 / x - 1) = x⁻¹ by ring, Real.inv_rpow hx.le] at h
  have h1 : p * (1 / x - 1) ≤ p1 * t := mul_le_mul hp ht hinv (hp0.trans hp)
  have hxp : 0 < x ^ p := Real.rpow_pos_of_pos hx p
  have h2 : (x ^ p)⁻¹ ≤ 1 + p1 * t := by linarith
  have h3 : 0 < 1 + p1 * t := lt_of_lt_of_le (inv_pos.mpr hxp) h2
  rw [div_le_iff₀ h3]
  have := (inv_le_iff_one_le_mul₀ hxp).mp h2
  linarith

/-- The offsets of Seoul from the origin cell, from bounds on the ingredients. -/
theorem seoul_offsets (A q u0 u1 δ s c : ℝ)
    (hA1 : 1103.49 ≤ A) (hA2 : A ≤ 1103.497) (hq1 : 0.71 ≤ q) (hq2 : q ≤ 0.72)
    (hu1a : 0.8889 ≤ u1) (hu1b : u1 ≤ 0.89563) (hu0a : 0.8825 ≤ u0) (hu0b : u0 ≤ 0.88988)
    (hr1 : u1 ≤ u0 * (1 + q * 0.009694)) (hr2 : u0 ≤ u1 * (1 - q * 0.00919))
    (hd1 : 0.017069 ≤ δ) (hd2 : δ ≤ 0.01707)
    (hs1 : s ≤ δ * q) (hs2 : δ * q - (δ * q) ^ 3 / 4 ≤ s)
    (hc1 : c ≤ 1 - 0.0000719) (hc2 : 1 - (δ * q) ^ 2 / 2 ≤ c) :
    16.5 ≤ A / q * u1 * s ∧ A / q * u1 * s < 17.5 ∧
      8.5 < A / q * u1 * c - A / q * u0 ∧ A / q * u1 * c - A / q * u0 ≤ 9.5 := by
  have hq0 : 0 < q := by linarith
  have hA0 : 0 < A := by linarith
  have hu10 : 0 < u1 := by linarith
  have hu00 : 0 < u0 := by linarith
  have hd0 : 0 < δ := by linarith
  have hK0 : 0 < A / q := div_pos hA0 hq0
  have hKq : A / q * q = A := by field_simp
  have hK1 : 1103.49 / 0.72 ≤ A / q := div_le_div₀ hA0.le hA1 hq0 hq2
  have hth1 : δ * q ≤ 0.01707 * 0.72 := mul_le_mul hd2 hq2 hq0.le (by norm_num)
  have hth0 : 0 < δ * q := mul_pos hd0 hq0
  have hth2 : (δ * q) ^ 2 ≤ (0.01707 * 0.72) ^ 2 := pow_le_pow_left₀ hth0.le hth1 2
  have hKu1 : 0 < A / q * u1 := mul_pos hK0 hu10
  have hKu0 : 0 < A / q * u0 := mul_pos hK0 hu00
  have hc0 : 0 ≤ c := by
    have : (0.01707 * 0.72 : ℝ) ^ 2 ≤ 1 := by norm_num
    linarith
  refine ⟨?_, ?_, ?_, ?_⟩
  · have h1 : A / q * u1 * (δ * q - (δ * q) ^ 3 / 4) ≤ A / q * u1 * s :=
      mul_le_mul_of_nonneg_left hs2 hKu1.le
    have h2 : A / q * u1 * (δ * q - (δ * q) ^ 3 / 4)
        = A * u1 * δ * (1 - (δ * q) ^ 2 / 4) := by
      rw [← hKq]
      field_simp
      ring
    have h3 : (1103.49 : ℝ) * 0.8889 * 0.017069 ≤ A * u1 * δ :=
      mul_le_mul (mul_le_mul hA1 hu1a (by norm_num) hA0.le) hd1 (by norm_num)
        (mul_pos hA0 hu10).le
    have h4 : (0.9999 : ℝ) ≤ 1 - (δ * q) ^ 2 / 4 := by
      norm_num at hth2 ⊢
      linarith
    have h5 : (1103.49 : ℝ) * 0.8889 * 0.017069 * 0.9999 ≤
        A * u1 * δ * (1 - (δ * q) ^ 2 / 4) :=
      mul_le_mul h3 h4 (by norm_num) (mul_pos (mul_pos hA0 hu10) hd0).le
    norm_num at h5
    linarith
  · have h1 : A / q * u1 * s ≤ A / q * u1 * (δ * q) :=
      mul_le_mul_of_nonneg_left hs1 hKu1.le
    have h2 : A / q * u1 * (δ * q) = A * u1 * δ := by
      rw [← hKq]
      field_simp
      ring
    have h3 : A * u1 * δ ≤ (1103.497 : ℝ) * 0.89563 * 0.01707 :=
      mul_le_mul (mul_le_mul hA2 hu1b hu10.le (by norm_num)) hd2 hd0.le (by norm_num)
    norm_num at h3
    linarith
  · have h1 : A / q * u0 ≤ A / q * (u1 * (1 - q * 0.00919)) :=
      mul_le_mul_of_nonneg_left hr2 hK0.le
    have h2 : A / q * u1 * (1 - (δ * q) ^ 2 / 2) ≤ A / q * u1 * c :=
      mul_le_mul_of_nonneg_left hc2 hKu1.le
    have h3 : A / q * u1 * (1 - (δ * q) ^ 2 / 2) - A / q * (u1 * (1 - q * 0.00919))
        = A * u1 * (0.00919 - δ ^ 2 * q / 2) := by
      rw [← hKq]
      field_simp
      ring
    have h4 : δ ^ 2 * q ≤ 0.01707 ^ 2 * 0.72 :=
      mul_le_mul (pow_le_pow_left₀ hd0.le hd2 2) hq2 hq0.le (by norm_num)
    have h5 : (0.00908 : ℝ) ≤ 0.00919 - δ ^ 2 * q / 2 := by
      norm_num at h4 ⊢
      linarith
    have h6 : (1103.49 : ℝ) * 0.8889 * 0.00908 ≤ A * u1 * (0.00919 - δ ^ 2 * q / 2) :=
      mul_le_mul (mul_le_mul hA1 hu1a (by norm_num) hA0.le) h5 (by norm_num)
        (mul_pos hA0 hu10).le
    norm_num at h6
    linarith
  · have h1 : A / q * u1 * c ≤ A / q * (u0 * (1 + q * 0.009694)) * c :=
      mul_le_mul_of_nonneg_right (mul_le_mul_of_nonneg_left hr1 hK0.le) hc0
    have h2 : A / q * (u0 * (1 + q * 0.009694)) * c ≤
        A / q * (u0 * (1 + q * 0.009694)) * (1 - 0.0000719) :=
      mul_le_mul_of_nonneg_left hc1
        (mul_pos hK0 (mul_pos hu00 (by positivity))).le
    have h3 : A / q * (u0 * (1 + q * 0.009694)) * (1 - 0.0000719) - A / q * u0
        = A * u0 * 0.009694 * (1 - 0.0000719) - A / q * u0 * 0.0000719 := by
      rw [← hKq]
      field_simp
      ring
    have h4 : A * u0 * 0.009694 * (1 - 0.0000719) ≤
        (1103.497 : ℝ) * 0.88988 * 0.009694 * (1 - 0.0000719) :=
      mul_le_mul_of_nonneg_right
        (mul_le_mul_of_nonneg_right (mul_le_mul hA2 hu0b hu00.le (by norm_num)) (by norm_num))
        (by norm_num)
    have h5 : (1103.49 / 0.72 : ℝ) * 0.8825 * 0.0000719 ≤ A / q * u0 * 0.0000719 :=
      mul_le_mul_of_nonneg_right (mul_le_mul hK1 hu0a (by norm_num) hK0.le) (by norm_num)
    norm_num at h4 h5
    linarith

theorem sqrt3_div_origin_pos : 0 < Real.sqrt 3 / Real.tan (16 * Real.pi / 45) :=
  div_pos (by positivity) tan_olat_pos

theorem sqrt3_div_seoul_pos : 0 < Real.sqrt 3 / Real.tan (255133 * Real.pi / 720000) :=
  div_pos (by positivity) tan_seoul_pos

theorem pow_origin_le : (Real.sqrt 3 / Real.tan (16 * Real.pi / 45)) ^ sn ≤ (0.88988 : ℝ) := by
  have h := rpow_le_of_below _ 0.1551 sn sqrt3_div_origin_pos.le origin_below_ge (by norm_num)
    0.71 (by norm_num) sn_ge (sn_le.trans (by norm_num))
  norm_num at h ⊢
  linarith

theorem pow_seoul_le :
    (Real.sqrt 3 / Real.tan (255133 * Real.pi / 720000)) ^ sn ≤ (0.89563 : ℝ) := by
  have h := rpow_le_of_below _ 0.1470 sn sqrt3_div_seoul_pos.le seoul_below_ge (by norm_num)
    0.71 (by norm_num) sn_ge (sn_le.trans (by norm_num))
  norm_num at h ⊢
  linarith

theorem pow_origin_ge : (0.8825 : ℝ) ≤ (Real.sqrt 3 / Real.tan (16 * Real.pi / 45)) ^ sn := by
  have hb := origin_below_ge
  have h := rpow_ge_of_above _ 0.18492 sn sqrt3_div_origin_pos
    (by rw [one_div_div]; exact origin_above_le) (by linarith) 0.72 sn_pos.le sn_le (by norm_num)
  refine le_trans ?_ h
  rw [le_div_iff₀ (by norm_num)]
  norm_num

theorem pow_seoul_ge :
    (0.8889 : ℝ) ≤ (Real.sqrt 3 / Real.tan (255133 * Real.pi / 720000)) ^ sn := by
  have hb := seoul_below_ge
  have h := rpow_ge_of_above _ 0.17359 sn sqrt3_div_seoul_pos
    (by rw [one_div_div]; exact seoul_above_le) (by linarith) 0.72 sn_pos.le sn_le (by norm_num)
  refine le_trans ?_ h
  rw [le_div_iff₀ (by norm_num)]
  norm_num

theorem pow_seoul_le_origin :
    (Real.sqrt 3 / Real.tan (255133 * Real.pi / 720000)) ^ sn ≤
      (Real.sqrt 3 / Real.tan (16 * Real.pi / 45)) ^ sn * (1 + sn * 0.009694) := by
  have h0 := tan_olat_pos
  have h1 := tan_seoul_pos
  have he : Real.sqrt 3 / Real.tan (255133 * Real.pi / 720000) =
      Real.sqrt 3 / Real.tan (16 * Real.pi / 45) *
        (Real.tan (16 * Real.pi / 45) / Real.tan (255133 * Real.pi / 720000)) := by
    field_simp
  rw [he, Real.mul_rpow sqrt3_div_origin_pos.le (div_pos h0 h1).le]
  apply mul_le_mul_of_nonneg_left _ (Real.rpow_nonneg sqrt3_div_origin_pos.le _)
  have hg := gap_above_nonneg
  have h := rpow_one_add_le_one_add_mul_self
    (show (-1 : ℝ) ≤ Real.tan (16 * Real.pi / 45) / Real.tan (255133 * Real.pi / 720000) - 1
      by linarith) sn_pos.le (sn_le.trans (by norm_num))
  rw [show ∀ z : ℝ, 1 + (z - 1) = z from fun z => by ring] at h
  have h2 := mul_le_mul_of_nonneg_left gap_above_le sn_pos.le
  linarith

theorem pow_origin_le_seoul :
    (Real.sqrt 3 / Real.tan (16 * Real.pi / 45)) ^ sn ≤
      (Real.sqrt 3 / Real.tan (255133 * Real.pi / 720000)) ^ sn * (1 - sn * 0.00919) := by
  have h0 := tan_olat_pos
  have h1 := tan_seoul_pos
  have he : Real.sqrt 3 / Real.tan (16 * Real.pi / 45) =
      Real.sqrt 3 / Real.tan (255133 * Real.pi / 720000) *
        (Real.tan (255133 * Real.pi / 720000) / Real.tan (16 * Real.pi / 45)) := by
    field_simp
  rw [he, Real.mul_rpow sqrt3_div_seoul_pos.le (div_pos h1 h0).le]
  apply mul_le_mul_of_nonneg_left _ (Real.rpow_nonneg sqrt3_div_seoul_pos.le _)
  exact rpow_le_of_below _ 0.00919 sn (div_pos h1 h0).le gap_below_ge (by norm_num) sn sn_pos.le
    le_rfl (sn_le.trans (by norm_num))

/-- The radius `re * sf / ra ^ sn` of `toGrid`, with the constants evaluated. -/
theorem radius_eq (T : ℝ) (hT : 0 < T) :
    RE / GRID * sf / T ^ sn = RE / GRID * (Real.sqrt 3 / 2) / sn * (Real.sqrt 3 / T) ^ sn := by
  rw [sf_eq, Real.tan_pi_div_three, Real.cos_pi_div_six,
    Real.div_rpow (Real.sqrt_nonneg 3) hT.le]
  have h1 : T ^ sn ≠ 0 := (Real.rpow_pos_of_pos hT _).ne'
  have h2 : sn ≠ 0 := sn_pos.ne'
  field_simp
  ring

theorem scale_ge : (1103.49 : ℝ) ≤ RE / GRID * (Real.sqrt 3 / 2) := by
  have h := sqrt3_gt
  unfold RE GRID
  norm_num
  linarith

theorem scale_le : RE / GRID * (Real.sqrt 3 / 2) ≤ (1103.497 : ℝ) := by
  have h := sqrt3_lt
  unfold RE GRID
  norm_num
  linarith

/-! ### The inverse projection near a projected point -/

/-- An angle of the right half plane is at most its tangent, in absolute value. -/
theorem abs_le_abs_tan (x : ℝ) (h : |x| < Real.pi / 2) : |x| ≤ |Real.tan x| := by
  rcases le_total 0 x with h0 | h0
  · rw [abs_of_nonneg h0] at h ⊢
    exact (Real.le_tan h0 h).trans (le_abs_self _)
  · rw [abs_of_nonpos h0] at h ⊢
    have h1 := Real.le_tan (neg_nonneg.mpr h0) h
    rw [Real.tan_neg] at h1
    exact h1.trans (neg_le_abs _)

theorem abs_arctan_le (z : ℝ) : |Real.arctan z| ≤ |z| := by
  have h := abs_le_abs_tan (Real.arctan z)
    (abs_lt.mpr ⟨Real.neg_pi_div_two_lt_arctan z, Real.arctan_lt_pi_div_two z⟩)
  rwa [Real.tan_arctan] at h

theorem arctan_sub_arctan (T m : ℝ) (hT : 0 < T) (hm : 0 < m) :
    Real.arctan (T * m) - Real.arctan T = Real.arctan ((T * m - T) / (1 + T * m * T)) := by
  have h := Real.arctan_add (show T * m * (-T) < 1 by nlinarith [mul_pos (mul_pos hT hm) hT])
  rw [Real.arctan_neg] at h
  rw [sub_eq_add_neg, h]
  congr 1
  ring

/-- Two arctangents whose arguments differ by a factor close to 1. -/
theorem arctan_close (T m η : ℝ) (hT : 0 < T) (hη0 : 0 ≤ η) (hη1 : η < 1)
    (hm1 : 1 - η ≤ m) (hm2 : m ≤ 1 / (1 - η)) :
    |Real.arctan (T * m) - Real.arctan T| ≤ η / (2 * (1 - η)) := by
  have hη : 0 < 1 - η := by linarith
  have hm : 0 < m := lt_of_lt_of_le hη hm1
  rw [arctan_sub_arctan T m hT hm]
  refine (abs_arctan_le _).trans ?_
  have hden : 0 < 1 + T * m * T := by nlinarith [mul_pos (mul_pos hT hm) hT]
  rw [abs_div, abs_of_pos hden, div_le_div_iff₀ hden (by linarith)]
  have hm2' : m * (1 - η) ≤ 1 := by
    rw [le_div_iff₀ hη] at hm2
    exact hm2
  have hsq : 2 * T ≤ 1 + T * T := by nlinarith [sq_nonneg (T - 1)]
  rcases le_total 1 m with h1 | h1
  · rw [abs_of_nonneg (by nlinarith : 0 ≤ T * m - T)]
    have ha : (m - 1) * (1 - η) ≤ η := by nlinarith
    have hb : T * m - T = T * (m - 1) := by ring
    have hc : T * (m - 1) * (2 * (1 - η)) ≤ 2 * T * η := by
      have := mul_le_mul_of_nonneg_left ha (by linarith : 0 ≤ 2 * T)
      linarith
    have hd : 2 * T * η ≤ η * (1 + T * T) := by
      have := mul_le_mul_of_nonneg_left hsq hη0
      linarith
    have he : η * (1 + T * T) ≤ η * (1 + T * m * T) := by
      apply mul_le_mul_of_nonneg_left _ hη0
      nlinarith [mul_pos hT hT]
    rw [hb]
    linarith
  · rw [abs_of_nonpos (by nlinarith : T * m - T ≤ 0)]
    have ha : 1 - m ≤ η := by linarith
    have hb : -(T * m - T) = T * (1 - m) := by ring
    have hc : T * (1 - m) * (2 * (1 - η)) ≤ 2 * T * (1 - η) * η := by
      have := mul_le_mul_of_nonneg_left ha (by nlinarith : 0 ≤ 2 * T * (1 - η))
      linarith
    have hd : 2 * T * (1 - η) * η ≤ η * ((1 + T * T) * (1 - η)) := by
      have := mul_le_mul_of_nonneg_left hsq (mul_nonneg hη0 hη.le)
      linarith
    have he : η * ((1 + T * T) * (1 - η)) ≤ η * (1 + T * m * T) := by
      apply mul_le_mul_of_nonneg_left _ hη0
      have : T * T * (1 - η) ≤ T * T * m := mul_le_mul_of_nonneg_left hm1 (mul_pos hT hT).le
      nlinarith
    rw [hb]
    linarith

/-- Powers `1 / q` of the ratio of two radii that differ by at most `d`. -/
theorem rpow_ratio_bounds (ρ d q σ : ℝ) (hρ : 0 < ρ) (hd : 0 ≤ d) (hq0 : 0 < q) (hq1 : q ≤ 1)
    (hη : d / (q * ρ) < 1) (h1 : ρ - d ≤ σ) (h2 : σ ≤ ρ + d) :
    1 - d / (q * ρ) ≤ (ρ / σ) ^ (1 / q) ∧ (ρ / σ) ^ (1 / q) ≤ 1 / (1 - d / (q * ρ)) := by
  have hqρ : 0 < q * ρ := mul_pos hq0 hρ
  have hdq : d < q * ρ := by
    rwa [div_lt_one hqρ] at hη
  have hdρ : d < ρ := by nlinarith
  have hσ : 0 < σ := by linarith
  have hp : 1 ≤ 1 / q := by
    rw [le_div_iff₀ hq0]; linarith
  have hs0 : 0 ≤ d / ρ := div_nonneg hd hρ.le
  have hs1 : d / ρ < 1 := by
    rw [div_lt_one hρ]; exact hdρ
  have hb := one_add_mul_self_le_rpow_one_add (show (-1 : ℝ) ≤ -(d / ρ) by linarith) hp
  have hη' : 1 / q * -(d / ρ) = -(d / (q * ρ)) := by
    field_simp
  rw [hη', ← sub_eq_add_neg, ← sub_eq_add_neg] at hb
  have hpos : 0 < 1 - d / (q * ρ) := by linarith
  constructor
  · refine hb.trans ?_
    apply Real.rpow_le_rpow (by linarith) _ (by linarith)
    rw [le_div_iff₀ hσ]
    have : (1 - d / ρ) * σ ≤ (1 - d / ρ) * (ρ + d) :=
      mul_le_mul_of_nonneg_left h2 (by linarith)
    have h3 : (1 - d / ρ) * (ρ + d) = ρ - d * d / ρ := by
      field_simp
      ring
    have h4 : 0 ≤ d * d / ρ := div_nonneg (mul_nonneg hd hd) hρ.le
    linarith
  · have h3 : ρ / σ ≤ (1 - d / ρ)⁻¹ := by
      rw [div_le_iff₀ hσ, ← div_eq_inv_mul, le_div_iff₀ (by linarith)]
      have : ρ * (1 - d / ρ) = ρ - d := by
        field_simp
      rw [this]
      nlinarith
    have h4 : (ρ / σ) ^ (1 / q) ≤ ((1 - d / ρ)⁻¹) ^ (1 / q) :=
      Real.rpow_le_rpow (div_pos hρ hσ).le h3 (by linarith)
    rw [Real.inv_rpow (by linarith)] at h4
    refine h4.trans ?_
    have h5 := inv_anti₀ hpos hb
    rw [← one_div (1 - d / (q * ρ))] at h5
    exact h5

/-- The argument of a point of the right half plane. -/
theorem abs_arg_le (P r : ℝ) (hP : 0 < P) : |Complex.arg ⟨P, r⟩| ≤ |r| / P := by
  have h1 : |Complex.arg ⟨P, r⟩| < Real.pi / 2 :=
    Complex.abs_arg_lt_pi_div_two_iff.mpr (Or.inl hP)
  have h2 := abs_le_abs_tan _ h1
  rw [Complex.tan_arg] at h2
  simp only [abs_div, abs_of_pos hP] at h2
  exact h2

/-- Rotating a point of the right half plane by a small angle adds the angle. -/
theorem arg_rotate (P r θ : ℝ) (hP : 0 < P) (hθ : |θ| ≤ 1) :
    Complex.arg ⟨P * Real.cos θ - r * Real.sin θ, P * Real.sin θ + r * Real.cos θ⟩ =
      Complex.arg ⟨P, r⟩ + θ := by
  have hpi := Real.pi_gt_three
  have h1 : |Complex.arg ⟨P, r⟩| < Real.pi / 2 :=
    Complex.abs_arg_lt_pi_div_two_iff.mpr (Or.inl hP)
  have hne : (⟨P, r⟩ : ℂ) ≠ 0 := by
    intro h
    have := congrArg Complex.re h
    simp at this
    linarith
  have hR : 0 < Complex.abs ⟨P, r⟩ := Complex.abs.pos hne
  have hc := Complex.abs_mul_cos_arg ⟨P, r⟩
  have hs := Complex.abs_mul_sin_arg ⟨P, r⟩
  simp only at hc hs
  have hmem : Complex.arg ⟨P, r⟩ + θ ∈ Set.Ioc (-Real.pi) Real.pi := by
    rw [abs_lt] at h1
    rw [abs_le] at hθ
    constructor <;> linarith [h1.1, h1.2, hθ.1, hθ.2]
  generalize Complex.arg ⟨P, r⟩ = α at hc hs hmem ⊢
  generalize Complex.abs ⟨P, r⟩ = R at hc hs hR ⊢
  have key : (⟨P * Real.cos θ - r * Real.sin θ, P * Real.sin θ + r * Real.cos θ⟩ : ℂ) =
      ↑R * (Complex.cos ↑(α + θ) + Complex.sin ↑(α + θ) * Complex.I) := by
    rw [← Complex.ofReal_cos, ← Complex.ofReal_sin]
    apply Complex.ext
    · simp only [Complex.mul_re, Complex.add_re, Complex.ofReal_re, Complex.ofReal_im,
        Complex.mul_im, Complex.add_im, Complex.I_re, Complex.I_im, mul_zero, mul_one, zero_mul,
        sub_zero, add_zero, zero_add, sub_self]
      rw [Real.cos_add, ← hc, ← hs]
      ring
    · simp only [Complex.mul_re, Complex.add_re, Complex.ofReal_re, Complex.ofReal_im,
        Complex.mul_im, Complex.add_im, Complex.I_re, Complex.I_im, mul_zero, mul_one, zero_mul,
        sub_zero, add_zero, zero_add, sub_self]
      rw [Real.sin_add, ← hc, ← hs]
      ring
  rw [key]
  exact Complex.arg_mul_cos_add_sin_mul_I hR hmem

/-- Rounding to the nearest integer with `Math.floor(v + 0.5)` moves by at most 0.5. -/
theorem abs_floor_half_sub_le (z : ℝ) : |((Int.floor (z + 0.5) : Int) : ℝ) - z| ≤ 0.5 := by
  have h1 := Int.floor_le (z + 0.5)
  have h2 := Int.lt_floor_add_one (z + 0.5)
  rw [abs_le]
  constructor <;> linarith

/-- A point at offsets of at most 0.5 from the point of radius `ρ` and angle `θ`, in the
frame rotated by `θ`. -/
theorem rotated_offsets (ρ s c xn yn : ℝ) (hsc : s ^ 2 + c ^ 2 = 1)
    (hx : |xn - ρ * s| ≤ 0.5) (hy : |ρ * c - yn| ≤ 0.5) :
    xn = (xn * s + yn * c) * s + (xn * c - yn * s) * c ∧
      yn = (xn * s + yn * c) * c - (xn * c - yn * s) * s ∧
      |xn * s + yn * c - ρ| ≤ 0.7072 ∧ |xn * c - yn * s| ≤ 0.7072 ∧
      xn * xn + yn * yn = (xn * s + yn * c) ^ 2 + (xn * c - yn * s) ^ 2 ∧
      (xn * s + yn * c - ρ) ^ 2 + (xn * c - yn * s) ^ 2 ≤ 0.5 := by
  have hx2 : (xn - ρ * s) ^ 2 ≤ 0.5 ^ 2 := by
    rw [← sq_abs]
    exact pow_le_pow_left₀ (abs_nonneg _) hx 2
  have hy2 : (ρ * c - yn) ^ 2 ≤ 0.5 ^ 2 := by
    rw [← sq_abs]
    exact pow_le_pow_left₀ (abs_nonneg _) hy 2
  have hsum : (xn * s + yn * c - ρ) ^ 2 + (xn * c - yn * s) ^ 2
      = (xn - ρ * s) ^ 2 + (ρ * c - yn) ^ 2 := by
    linear_combination (xn ^ 2 + yn ^ 2 - ρ ^ 2) * hsc
  have h5 : (xn * s + yn * c - ρ) ^ 2 + (xn * c - yn * s) ^ 2 ≤ 0.5 := by
    rw [hsum]
    norm_num at hx2 hy2 ⊢
    linarith
  refine ⟨?_, ?_, ?_, ?_, ?_, h5⟩
  · linear_combination (-xn) * hsc
  · linear_combination (-yn) * hsc
  · apply abs_le_of_sq_le_sq _ (by norm_num)
    nlinarith [sq_nonneg (xn * c - yn * s)]
  · apply abs_le_of_sq_le_sq _ (by norm_num)
    nlinarith [sq_nonneg (xn * s + yn * c - ρ)]
  · linear_combination (-(xn ^ 2 + yn ^ 2)) * hsc

theorem raddeg_lt : RADDEG < 57.33 := by
  have hpi := Real.pi_gt_d2
  unfold RADDEG
  rw [div_lt_iff₀ Real.pi_pos]
  norm_num
  linarith

theorem raddeg_pos : 0 < RADDEG := by
  unfold RADDEG
  exact div_pos (by norm_num) Real.pi_pos

/-- A point at offsets of at most 0.5 from the point of radius `ρ` and angle `θ`: its
coordinates in the frame rotated by `θ`, and its distance from the apex. -/
theorem near_point (ρ θ xn yn : ℝ) (hρ1 : 1191 ≤ ρ) (hθ : |θ| ≤ 1)
    (hx : |xn - ρ * Real.sin θ| ≤ 0.5) (hy : |ρ * Real.cos θ - yn| ≤ 0.5) :
    ∃ P r : ℝ, ρ - 0.7072 ≤ P ∧ |r| ≤ 0.7072 ∧
      xn = P * Real.sin θ + r * Real.cos θ ∧ yn = P * Real.cos θ - r * Real.sin θ ∧
      ρ - 0.7072 ≤ Real.sqrt (xn * xn + yn * yn) ∧
      Real.sqrt (xn * xn + yn * yn) ≤ ρ + 0.7072 ∧ 0 < yn := by
  obtain ⟨hxn, hyn, hP, hr, hsq, hpr⟩ := rotated_offsets ρ (Real.sin θ) (Real.cos θ)
    xn yn (Real.sin_sq_add_cos_sq θ) hx hy
  refine ⟨xn * Real.sin θ + yn * Real.cos θ, xn * Real.cos θ - yn * Real.sin θ, ?_, hr, hxn, hyn,
    ?_, ?_, ?_⟩
  · linarith [(abs_le.mp hP).1]
  · generalize xn * Real.sin θ + yn * Real.cos θ = P at hP hsq hpr
    generalize xn * Real.cos θ - yn * Real.sin θ = r at hsq hpr
    rw [hsq]
    apply Real.le_sqrt_of_sq_le
    have h1 : (ρ - 0.7072) ^ 2 ≤ P ^ 2 :=
      pow_le_pow_left₀ (by linarith) (by linarith [(abs_le.mp hP).1]) 2
    linarith [sq_nonneg r]
  · generalize xn * Real.sin θ + yn * Real.cos θ = P at hP hsq hpr
    generalize xn * Real.cos θ - yn * Real.sin θ = r at hsq hpr
    rw [hsq, Real.sqrt_le_iff]
    constructor
    · linarith
    · have h1 : 2 * ρ * (P - ρ) ≤ 2 * ρ * 0.7072 :=
        mul_le_mul_of_nonneg_left (abs_le.mp hP).2 (by linarith)
      have h2 : P ^ 2 + r ^ 2 = ρ ^ 2 + 2 * ρ * (P - ρ) + ((P - ρ) ^ 2 + r ^ 2) := by ring
      have h3 : (ρ + 0.7072) ^ 2 = ρ ^ 2 + 2 * ρ * 0.7072 + 0.7072 ^ 2 := by ring
      rw [h2, h3]
      norm_num at hpr ⊢
      linarith
  · have hc := @Real.one_sub_sq_div_two_le_cos θ
    have hθ2 : θ ^ 2 ≤ 1 := by
      rw [← sq_abs]
      exact pow_le_one₀ (abs_nonneg _) hθ
    have hc2 : (1 / 2 : ℝ) ≤ Real.cos θ := by linarith
    have h3 : ρ * (1 / 2) ≤ ρ * Real.cos θ := mul_le_mul_of_nonneg_left hc2 (by linarith)
    have := (abs_le.mp hy).2
    norm_num at this
    linarith

/-- The latitude returned by `toLatLon` at a distance `σ` from the apex that is within
0.7072 of the radius `ρ` of the latitude `2 * arctan T - π / 2`. -/
theorem lat_near (T ρ nx ny : ℝ) (hT : 0 < T) (hcsρ : RE / GRID * sf = ρ * T ^ sn)
    (hρ : 858 ≤ sn * ρ)
    (hσ1 : ρ - 0.7072 ≤ Real.sqrt ((nx - XO) * (nx - XO) + (ro - ny + YO) * (ro - ny + YO)))
    (hσ2 : Real.sqrt ((nx - XO) * (nx - XO) + (ro - ny + YO) * (ro - ny + YO)) ≤ ρ + 0.7072) :
    |(toLatLon nx ny).lat - (2 * Real.arctan T - Real.pi / 2) * RADDEG| < 0.05 := by
  have hq0 := sn_pos
  have hq2 := sn_le
  have hTq : 0 < T ^ sn := Real.rpow_pos_of_pos hT _
  have hρ1 : 1191 ≤ ρ := by nlinarith
  have hρ0 : 0 < ρ := by linarith
  have hη : 0.7072 / (sn * ρ) ≤ 0.7072 / 858 :=
    div_le_div_of_nonneg_left (by norm_num) (by norm_num) hρ
  have hη1 : 0.7072 / (sn * ρ) < 1 := by
    have : (0.7072 / 858 : ℝ) < 1 := by norm_num
    linarith
  have hη0 : (0 : ℝ) ≤ 0.7072 / (sn * ρ) :=
    div_nonneg (by norm_num) (mul_pos hq0 hρ0).le
  have hdeg := raddeg_lt
  have hdeg0 := raddeg_pos
  have hsn0 : sn > 0.0 := by
    have : (0.0 : ℝ) = 0 := by norm_num
    rw [gt_iff_lt, this]
    exact hq0
  generalize hσ : Real.sqrt ((nx - XO) * (nx - XO) + (ro - ny + YO) * (ro - ny + YO)) = σ
    at hσ1 hσ2
  have hσ0 : 0 < σ := by linarith
  have hbase : (RE / GRID * sf / σ) ^ (1.0 / sn) = T * (ρ / σ) ^ (1 / sn) := by
    rw [hcsρ, show ρ * T ^ sn / σ = T ^ sn * (ρ / σ) by ring,
      Real.mul_rpow hTq.le (div_pos hρ0 hσ0).le, ← Real.rpow_mul hT.le]
    have h1 : sn * (1.0 / sn) = 1 := by
      have : (1.0 : ℝ) = 1 := by norm_num
      rw [this]
      field_simp
    have h2 : (1.0 : ℝ) / sn = 1 / sn := by norm_num
    rw [h1, Real.rpow_one, h2]
  obtain ⟨hm1, hm2⟩ := rpow_ratio_bounds ρ 0.7072 sn σ hρ0 (by norm_num) hq0 (by linarith)
    hη1 hσ1 hσ2
  have hclose := arctan_close T ((ρ / σ) ^ (1 / sn)) (0.7072 / (sn * ρ)) hT hη0 hη1 hm1 hm2
  have hbound : 0.7072 / (sn * ρ) / (2 * (1 - 0.7072 / (sn * ρ))) ≤ 0.000413 := by
    have hb1 : 0.7072 / (sn * ρ) / (2 * (1 - 0.7072 / (sn * ρ))) ≤
        (0.7072 / 858) / (2 * (1 - 0.7072 / 858)) :=
      div_le_div₀ (by norm_num) hη (by norm_num) (by linarith)
    refine hb1.trans ?_
    norm_num
  unfold toLatLon
  simp only [hσ, if_pos hsn0, hbase]
  have he : (2.0 * Real.arctan (T * (ρ / σ) ^ (1 / sn)) - Real.pi * 0.5) * RADDEG -
      (2 * Real.arctan T - Real.pi / 2) * RADDEG =
      2 * RADDEG * (Real.arctan (T * (ρ / σ) ^ (1 / sn)) - Real.arctan T) := by
    ring
  rw [he, abs_mul, abs_of_pos (by linarith : 0 < 2 * RADDEG)]
  have h3 : 2 * RADDEG * |Real.arctan (T * (ρ / σ) ^ (1 / sn)) - Real.arctan T| ≤
      2 * 57.33 * 0.000413 :=
    mul_le_mul (by linarith) (hclose.trans hbound) (abs_nonneg _) (by norm_num)
  norm_num at h3 ⊢
  linarith

/-- The longitude returned by `toLatLon` at a point whose coordinates in the frame rotated
by `θ` are `P`, within 0.7072 of the radius `ρ`, and `r`, within 0.7072 of 0. -/
theorem lon_near (θ ρ nx ny P r : ℝ) (hθ : |θ| ≤ 1) (hρ : 858 ≤ sn * ρ)
    (hP : ρ - 0.7072 ≤ P) (hr : |r| ≤ 0.7072)
    (hxn : nx - XO = P * Real.sin θ + r * Real.cos θ)
    (hyn : ro - ny + YO = P * Real.cos θ - r * Real.sin θ) (hy0 : 0 < ro - ny + YO) :
    |(toLatLon nx ny).lon - (θ / sn + OLON * DEGRAD) * RADDEG| < 0.05 := by
  have hq0 := sn_pos
  have hq2 := sn_le
  have hρ1 : 1191 ≤ ρ := by nlinarith
  have hP0 : 0 < P := by linarith
  have hdeg := raddeg_lt
  have hdeg0 := raddeg_pos
  have hz : (⟨ro - ny + YO, nx - XO⟩ : ℂ) =
      ⟨P * Real.cos θ - r * Real.sin θ, P * Real.sin θ + r * Real.cos θ⟩ :=
    Complex.ext hyn hxn
  have harg : Complex.arg ⟨ro - ny + YO, nx - XO⟩ = Complex.arg ⟨P, r⟩ + θ := by
    rw [hz]
    exact arg_rotate P r θ hP0 hθ
  have hzero : (0.0 : ℝ) = 0 := by norm_num
  have hy1 : ¬ |ro - ny + YO| ≤ 0.0 := by
    rw [hzero, abs_of_pos hy0]
    linarith
  have hθ' : (if |nx - XO| ≤ 0.0 then (0.0 : ℝ)
      else if |ro - ny + YO| ≤ 0.0 then
        (if nx - XO < 0.0 then -(Real.pi * 0.5) else Real.pi * 0.5)
      else atan2 (nx - XO) (ro - ny + YO)) = Complex.arg ⟨P, r⟩ + θ := by
    rw [← harg]
    by_cases hx0 : |nx - XO| ≤ 0.0
    · rw [if_pos hx0]
      rw [hzero] at hx0
      have hx1 : nx - XO = 0 := abs_eq_zero.mp (le_antisymm hx0 (abs_nonneg _))
      rw [hx1, hzero]
      exact (Complex.arg_ofReal_of_nonneg hy0.le).symm
    · rw [if_neg hx0, if_neg hy1]
      rfl
  have ha := abs_arg_le P r hP0
  have ha2 : |r| / P ≤ 0.7072 / (ρ - 0.7072) :=
    div_le_div₀ (by norm_num) hr (by linarith) hP
  have hden : (857.4 : ℝ) ≤ sn * (ρ - 0.7072) := by
    have h1 : sn * (ρ - 0.7072) = sn * ρ - 0.7072 * sn := by ring
    rw [h1]
    linarith
  have ha3 : |Complex.arg ⟨P, r⟩| / sn ≤ 0.7072 / 857.4 := by
    rw [div_le_iff₀ hq0]
    have h1 : 0.7072 / (ρ - 0.7072) ≤ 0.7072 / 857.4 * sn := by
      rw [div_le_iff₀ (by linarith)]
      have : (0.7072 / 857.4 : ℝ) * 857.4 ≤ 0.7072 / 857.4 * (sn * (ρ - 0.7072)) :=
        mul_le_mul_of_nonneg_left hden (by norm_num)
      norm_num at this ⊢
      linarith
    linarith
  unfold toLatLon
  simp only [hθ']
  have he : ((Complex.arg ⟨P, r⟩ + θ) / sn + OLON * DEGRAD) * RADDEG -
      (θ / sn + OLON * DEGRAD) * RADDEG = RADDEG * (Complex.arg ⟨P, r⟩ / sn) := by
    ring
  rw [he, abs_mul, abs_of_pos hdeg0, abs_div, abs_of_pos hq0]
  have h3 : RADDEG * (|Complex.arg ⟨P, r⟩| / sn) ≤ 57.33 * (0.7072 / 857.4) :=
    mul_le_mul hdeg.le ha3 (div_nonneg (abs_nonneg _) hq0.le) (by norm_num)
  norm_num at h3 ⊢
  linarith

theorem sin_pi_div_eight_ge : (0.3813 : ℝ) ≤ Real.sin (Real.pi / 8) := by
  have h1 := Real.pi_gt_d6
  have h2 := Real.pi_lt_d6
  have h := sin_ge_of_le (Real.pi / 8) (3.141592 / 8) (by norm_num) (by linarith) (by linarith)
  refine le_trans ?_ h
  norm_num

/-- Between the latitudes 30 and 45 the radius `re * sf / ra ^ sn` of `toGrid`, times
`sn`, is at least 858 grid units. -/
theorem radius_large (a : ℝ) (ha1 : Real.pi / 3 ≤ a) (ha2 : a ≤ 3 * Real.pi / 8) :
    0 < Real.tan a ∧ 858 ≤ sn * (RE / GRID * sf / Real.tan a ^ sn) := by
  have hp1 := Real.pi_gt_d6
  have hp2 := Real.pi_lt_d6
  have h3 : (0 : ℝ) < Real.sqrt 3 := by positivity
  have hT : 0 < Real.tan a := Real.tan_pos_of_pos_of_lt_pi_div_two (by linarith) (by linarith)
  have hcos : (0.3813 : ℝ) ≤ Real.cos a := by
    have h := Real.cos_le_cos_of_nonneg_of_le_pi (by linarith : 0 ≤ a)
      (by linarith : 3 * Real.pi / 8 ≤ Real.pi) ha2
    have he : Real.cos (3 * Real.pi / 8) = Real.sin (Real.pi / 8) := by
      rw [← Real.cos_pi_div_two_sub]; congr 1; ring
    rw [he] at h
    exact sin_pi_div_eight_ge.trans h
  have hcos0 : 0 < Real.cos a := by linarith
  have ht := tan_div_sub_one a (Real.pi / 3) hcos0.ne'
    (by rw [Real.sin_pi_div_three]; positivity)
  rw [Real.tan_pi_div_three, Real.sin_pi_div_three] at ht
  have hs0 : 0 ≤ Real.sin (a - Real.pi / 3) :=
    Real.sin_nonneg_of_nonneg_of_le_pi (by linarith) (by linarith)
  have hs1 : Real.sin (a - Real.pi / 3) ≤ 0.1309 :=
    sin_le_of_le _ _ (by linarith) (by linarith)
  have hden : (0.3813 : ℝ) * (1.73205 / 2) ≤ Real.cos a * (Real.sqrt 3 / 2) :=
    mul_le_mul hcos (by linarith [sqrt3_gt]) (by norm_num) hcos0.le
  have ht0 : 0 ≤ Real.tan a / Real.sqrt 3 - 1 := by
    rw [ht]
    exact div_nonneg hs0 (mul_pos hcos0 (by positivity)).le
  have ht1 : Real.tan a / Real.sqrt 3 - 1 ≤ 0.3965 := by
    rw [ht, div_le_iff₀ (mul_pos hcos0 (by positivity))]
    linarith
  have hx0 : 0 < Real.sqrt 3 / Real.tan a := div_pos h3 hT
  have hx1 : Real.sqrt 3 / Real.tan a ≤ 1 := by
    rw [div_le_one hT]
    have : 1 ≤ Real.tan a / Real.sqrt 3 := by linarith
    rwa [le_div_iff₀ h3, one_mul] at this
  have hu := rpow_ge_of_above _ 0.3965 sn hx0 (by rw [one_div_div]; exact ht1) hx1 0.72
    sn_pos.le sn_le (by norm_num)
  have hu2 : (0.7779 : ℝ) ≤ (Real.sqrt 3 / Real.tan a) ^ sn := by
    refine le_trans ?_ hu
    rw [le_div_iff₀ (by norm_num)]
    norm_num
  refine ⟨hT, ?_⟩
  rw [radius_eq _ hT]
  have he : sn * (RE / GRID * (Real.sqrt 3 / 2) / sn * (Real.sqrt 3 / Real.tan a) ^ sn)
      = RE / GRID * (Real.sqrt 3 / 2) * (Real.sqrt 3 / Real.tan a) ^ sn := by
    have := sn_pos.ne'
    generalize RE / GRID * (Real.sqrt 3 / 2) = A
    generalize (Real.sqrt 3 / Real.tan a) ^ sn = u
    field_simp
  rw [he]
  have h5 : (1103.49 : ℝ) * 0.7779 ≤
      RE / GRID * (Real.sqrt 3 / 2) * (Real.sqrt 3 / Real.tan a) ^ sn :=
    mul_le_mul scale_ge hu2 (by norm_num) (by linarith [scale_ge])
  norm_num at h5 ⊢
  linarith

/-! ### From a cell to its point and back -/

/-- The angle computed by `toLatLon` for a point on the near side of the apex: the
argument of the point, between `-π / 2` and `π / 2`, with sine and cosine the coordinates
over the distance from the apex. -/
theorem theta_near_side (xn yn : ℝ) (hy : 0 < yn) :
    ∃ θ : ℝ, (if |xn| ≤ 0.0 then (0.0 : ℝ)
        else if |yn| ≤ 0.0 then (if xn < 0.0 then -(Real.pi * 0.5) else Real.pi * 0.5)
        else atan2 xn yn) = θ ∧ |θ| < Real.pi / 2 ∧
      Real.sqrt (xn * xn + yn * yn) * Real.sin θ = xn ∧
      Real.sqrt (xn * xn + yn * yn) * Real.cos θ = yn := by
  have hzero : (0.0 : ℝ) = 0 := by norm_num
  have hy1 : ¬ |yn| ≤ 0.0 := by
    rw [hzero, abs_of_pos hy]
    linarith
  have habs : Complex.abs ⟨yn, xn⟩ = Real.sqrt (xn * xn + yn * yn) := by
    rw [Complex.abs_apply, Complex.normSq_mk, add_comm]
  refine ⟨Complex.arg ⟨yn, xn⟩, ?_, Complex.abs_arg_lt_pi_div_two_iff.mpr (Or.inl hy), ?_, ?_⟩
  · by_cases hx0 : |xn| ≤ 0.0
    · rw [if_pos hx0]
      rw [hzero] at hx0
      have hx1 : xn = 0 := abs_eq_zero.mp (le_antisymm hx0 (abs_nonneg _))
      rw [hx1, hzero]
      exact (Complex.arg_ofReal_of_nonneg hy.le).symm
    · rw [if_neg hx0, if_neg hy1]
      rfl
  · rw [← habs]
    exact Complex.abs_mul_sin_arg ⟨yn, xn⟩
  · rw [← habs]
    exact Complex.abs_mul_cos_arg ⟨yn, xn⟩

/-- The radius that `toGrid` computes from the latitude that `toLatLon` returns at the
distance `ra` from the apex is `ra`. -/
theorem radius_of_lat (ra : ℝ) (hra : 0 < ra) :
    RE / GRID * sf /
      Real.tan (Real.pi * 0.25 +
        ((2.0 * Real.arctan ((RE / GRID * sf / ra) ^ (1.0 / sn)) - Real.pi * 0.5) * RADDEG
          * DEGRAD) * 0.5) ^ sn = ra := by
  have hcs : 0 < RE / GRID * sf := mul_pos re_pos sf_pos
  have hbase : 0 < RE / GRID * sf / ra := div_pos hcs hra
  have hangle : Real.pi * 0.25 +
      ((2.0 * Real.arctan ((RE / GRID * sf / ra) ^ (1.0 / sn)) - Real.pi * 0.5) * RADDEG
        * DEGRAD) * 0.5 = Real.arctan ((RE / GRID * sf / ra) ^ (1.0 / sn)) := by
    unfold RADDEG DEGRAD
    have := Real.pi_pos.ne'
    field_simp
    ring
  rw [hangle, Real.tan_arctan, ← Real.rpow_mul hbase.le]
  have h1 : 1.0 / sn * sn = 1 := by
    have : (1.0 : ℝ) = 1 := by norm_num
    rw [this]
    have := sn_pos.ne'
    field_simp
  rw [h1, Real.rpow_one]
  generalize RE / GRID * sf = c at hcs
  field_simp

/-- The angle that `toGrid` computes from the longitude that `toLatLon` returns for the
angle `θ` is `θ`. -/
theorem theta_of_lon (θ : ℝ) (hθ : |θ| < Real.pi / 2) :
    (if (if (θ / sn + OLON * DEGRAD) * RADDEG * DEGRAD - OLON * DEGRAD > Real.pi then
          (θ / sn + OLON * DEGRAD) * RADDEG * DEGRAD - OLON * DEGRAD - 2.0 * Real.pi
        else (θ / sn + OLON * DEGRAD) * RADDEG * DEGRAD - OLON * DEGRAD) < -Real.pi then
      (if (θ / sn + OLON * DEGRAD) * RADDEG * DEGRAD - OLON * DEGRAD > Real.pi then
          (θ / sn + OLON * DEGRAD) * RADDEG * DEGRAD - OLON * DEGRAD - 2.0 * Real.pi
        else (θ / sn + OLON * DEGRAD) * RADDEG * DEGRAD - OLON * DEGRAD) + 2.0 * Real.pi
    else
      (if (θ / sn + OLON * DEGRAD) * RADDEG * DEGRAD - OLON * DEGRAD > Real.pi then
          (θ / sn + OLON * DEGRAD) * RADDEG * DEGRAD - OLON * DEGRAD - 2.0 * Real.pi
        else (θ / sn + OLON * DEGRAD) * RADDEG * DEGRAD - OLON * DEGRAD)) * sn = θ := by
  have hq0 := sn_pos
  have hq1 := sn_ge
  have hpi := Real.pi_pos
  have he : (θ / sn + OLON * DEGRAD) * RADDEG * DEGRAD - OLON * DEGRAD = θ / sn := by
    unfold RADDEG DEGRAD
    have := Real.pi_pos.ne'
    field_simp
    ring
  rw [he]
  rw [abs_lt] at hθ
  have h1 : θ / sn < Real.pi := by
    rw [div_lt_iff₀ hq0]
    nlinarith
  have h2 : -Real.pi < θ / sn := by
    rw [lt_div_iff₀ hq0]
    nlinarith
  rw [if_neg (not_lt.mpr h1.le), if_neg (not_lt.mpr h2.le)]
  field_simp

end CoordConverter

/-- C27: the projection origin is a fixed point in both directions, in exact
real arithmetic: `toGrid(38.0, 126.0)` is the cell (43, 136), and
`toLatLon(43, 136)` is latitude 38 and longitude 126; there the x offset is 0,
so `toLatLon` takes the branch `theta = 0` and calls no `atan2`. -/
theorem origin_fixed_point :
    CoordConverter.toGrid 38.0 126.0 = { nx := 43, ny := 136 } ∧
      (CoordConverter.toLatLon 43 136).lat = 38 ∧
      (CoordConverter.toLatLon 43 136).lon = 126 ∧
      |(43 : ℝ) - CoordConverter.XO| ≤ 0.0 := by
  have hpi := Real.pi_pos
  have hsn := CoordConverter.sn_pos
  have hro := CoordConverter.ro_pos
  refine ⟨?_, ?_, ?_, ?_⟩
  · have htheta : (126.0 : ℝ) * CoordConverter.DEGRAD
        - CoordConverter.OLON * CoordConverter.DEGRAD = 0 := by
      unfold CoordConverter.OLON; ring
    have hro1 : CoordConverter.RE / CoordConverter.GRID * CoordConverter.sf /
        Real.tan (Real.pi * 0.25 + (38.0 : ℝ) * CoordConverter.DEGRAD * 0.5) ^ CoordConverter.sn
        = CoordConverter.ro := by
      rw [CoordConverter.ro_eq]
      congr 3
      unfold CoordConverter.DEGRAD; ring
    unfold CoordConverter.toGrid
    simp only [htheta, hro1]
    have h1 : ¬ (0 : ℝ) > Real.pi := by linarith
    have h2 : ¬ (0 : ℝ) < -Real.pi := by linarith
    simp only [if_neg h1, if_neg h2, zero_mul, Real.sin_zero, Real.cos_zero, mul_zero, mul_one,
      zero_add, sub_self]
    congr 1
    · rw [Int.floor_eq_iff]
      unfold CoordConverter.XO
      norm_num
    · rw [Int.floor_eq_iff]
      unfold CoordConverter.YO
      norm_num
  · unfold CoordConverter.toLatLon
    simp only
    have hxn : (43 : ℝ) - CoordConverter.XO = 0 := by unfold CoordConverter.XO; norm_num
    have hyn : CoordConverter.ro - 136 + CoordConverter.YO = CoordConverter.ro := by
      unfold CoordConverter.YO; ring
    have hra : Real.sqrt (0 * 0 + CoordConverter.ro * CoordConverter.ro) = CoordConverter.ro := by
      rw [zero_mul, zero_add]
      exact Real.sqrt_mul_self hro.le
    have hsn0 : CoordConverter.sn > 0.0 := by
      have : (0.0 : ℝ) = 0 := by norm_num
      rw [gt_iff_lt, this]
      exact hsn
    rw [hxn, hyn, hra, if_pos hsn0]
    have hbase : CoordConverter.RE / CoordConverter.GRID * CoordConverter.sf / CoordConverter.ro
        = Real.tan (16 * Real.pi / 45) ^ CoordConverter.sn := by
      rw [CoordConverter.ro_eq]
      have h1 : CoordConverter.RE / CoordConverter.GRID * CoordConverter.sf ≠ 0 :=
        (mul_pos CoordConverter.re_pos CoordConverter.sf_pos).ne'
      have h2 : Real.tan (16 * Real.pi / 45) ^ CoordConverter.sn ≠ 0 :=
        (Real.rpow_pos_of_pos CoordConverter.tan_olat_pos _).ne'
      generalize CoordConverter.RE / CoordConverter.GRID * CoordConverter.sf = A at h1
      generalize Real.tan (16 * Real.pi / 45) ^ CoordConverter.sn = T at h2
      field_simp
    rw [hbase, ← Real.rpow_mul CoordConverter.tan_olat_pos.le]
    have hone : CoordConverter.sn * (1.0 / CoordConverter.sn) = 1 := by
      have : (1.0 : ℝ) = 1 := by norm_num
      rw [this]
      field_simp
    rw [hone, Real.rpow_one, Real.arctan_tan (by linarith) (by linarith)]
    unfold CoordConverter.RADDEG
    field_simp
    ring
  · unfold CoordConverter.toLatLon
    simp only
    have hxn : (43 : ℝ) - CoordConverter.XO = 0 := by unfold CoordConverter.XO; norm_num
    rw [hxn]
    have h0 : |(0 : ℝ)| ≤ 0.0 := by norm_num
    rw [if_pos h0]
    unfold CoordConverter.OLON CoordConverter.DEGRAD CoordConverter.RADDEG
    field_simp
    ring
  · unfold CoordConverter.XO
    norm_num

/-! ## The cell of Seoul -/

/-- C26: in exact real arithmetic `toGrid(37.5665, 126.9780)` (Seoul) is the cell
nx = 60, ny = 127, and this is the entry of '서울' in `CITY_GRIDS`. -/
theorem toGrid_seoul :
    CoordConverter.toGrid 37.5665 126.9780 = { nx := 60, ny := 127 } ∧
      CoordConverter.CITY_GRIDS.lookup "서울" = some (CoordConverter.toGrid 37.5665 126.9780) := by
  have hpi1 := Real.pi_gt_d6
  have hpi2 := Real.pi_lt_d6
  have hq1 := CoordConverter.sn_ge
  have hq2 := CoordConverter.sn_le
  have hmain : CoordConverter.toGrid 37.5665 126.9780 = { nx := 60, ny := 127 } := by
    have htheta : (126.9780 : ℝ) * CoordConverter.DEGRAD
        - CoordConverter.OLON * CoordConverter.DEGRAD = 163 * Real.pi / 30000 := by
      unfold CoordConverter.OLON CoordConverter.DEGRAD; ring
    have h1 : ¬ (163 * Real.pi / 30000 > Real.pi) := by
      rw [not_lt]; linarith
    have h2 : ¬ (163 * Real.pi / 30000 < -Real.pi) := by
      rw [not_lt]; linarith
    have hd1 : (0.017069 : ℝ) ≤ 163 * Real.pi / 30000 := by linarith
    have hd2 : 163 * Real.pi / 30000 ≤ (0.01707 : ℝ) := by linarith
    have hth0 : 0 < 163 * Real.pi / 30000 * CoordConverter.sn := by
      apply mul_pos (by linarith) CoordConverter.sn_pos
    have hth1 : 163 * Real.pi / 30000 * CoordConverter.sn ≤ 1 := by
      have : 163 * Real.pi / 30000 * CoordConverter.sn ≤ 0.01707 * 0.72 :=
        mul_le_mul hd2 hq2 CoordConverter.sn_pos.le (by norm_num)
      linarith
    have hthL : (0.017069 : ℝ) * 0.71 ≤ 163 * Real.pi / 30000 * CoordConverter.sn :=
      mul_le_mul hd1 hq1 (by norm_num) (by linarith)
    have hs1 := @Real.sin_le (163 * Real.pi / 30000 * CoordConverter.sn) hth0.le
    have hs2 := (Real.sin_gt_sub_cube hth0 hth1).le
    have hc2 := @Real.one_sub_sq_div_two_le_cos (163 * Real.pi / 30000 * CoordConverter.sn)
    have hc1 : Real.cos (163 * Real.pi / 30000 * CoordConverter.sn) ≤ 1 - 0.0000719 := by
      have h := CoordConverter.cos_le_of_le _ (0.017069 * 0.71) (by norm_num) hthL hth1
      norm_num at h ⊢
      linarith
    have hoff := CoordConverter.seoul_offsets _ _ _ _ _ _ _ CoordConverter.scale_ge
      CoordConverter.scale_le hq1 hq2 CoordConverter.pow_seoul_ge CoordConverter.pow_seoul_le
      CoordConverter.pow_origin_ge CoordConverter.pow_origin_le
      CoordConverter.pow_seoul_le_origin CoordConverter.pow_origin_le_seoul hd1 hd2 hs1 hs2
      hc1 hc2
    unfold CoordConverter.toGrid
    simp only [htheta, if_neg h1, if_neg h2, CoordConverter.angle_seoul]
    rw [CoordConverter.ro_eq, CoordConverter.radius_eq _ CoordConverter.tan_olat_pos,
      CoordConverter.radius_eq _ CoordConverter.tan_seoul_pos]
    obtain ⟨hx1, hx2, hy1, hy2⟩ := hoff
    congr 1
    · rw [Int.floor_eq_iff]
      unfold CoordConverter.XO
      push_cast
      constructor <;> linarith
    · rw [Int.floor_eq_iff]
      unfold CoordConverter.YO
      push_cast
      constructor <;> linarith
  refine ⟨hmain, ?_⟩
  rw [hmain]
  rfl

/-! ## The approximate round trip -/

/-- C28: approximate round trip, in exact real arithmetic.  For every point of the box
30 ≤ lat ≤ 45, 120 ≤ lon ≤ 135 around Korea (it contains the projection origin, Seoul and
every city of `CITY_GRIDS`), `toLatLon(toGrid(lat, lon))` differs from `(lat, lon)` by less
than 0.05 degrees in latitude and by less than 0.05 degrees in longitude. -/
theorem roundtrip_near (lat lon : ℝ) (h1 : 30 ≤ lat) (h2 : lat ≤ 45) (h3 : 120 ≤ lon)
    (h4 : lon ≤ 135) :
    |(CoordConverter.toLatLon (CoordConverter.toGrid lat lon).nx
        (CoordConverter.toGrid lat lon).ny).lat - lat| < 0.05 ∧
      |(CoordConverter.toLatLon (CoordConverter.toGrid lat lon).nx
        (CoordConverter.toGrid lat lon).ny).lon - lon| < 0.05 := by
  have hp1 := Real.pi_gt_d6
  have hp2 := Real.pi_lt_d6
  have hq0 := CoordConverter.sn_pos
  have hq2 := CoordConverter.sn_le
  have ha1 : Real.pi / 3 ≤ Real.pi * 0.25 + lat * CoordConverter.DEGRAD * 0.5 := by
    unfold CoordConverter.DEGRAD
    have : Real.pi * 0.25 + lat * (Real.pi / 180.0) * 0.5 - Real.pi / 3
        = Real.pi * ((lat - 30) / 360) := by ring
    have h0 : 0 ≤ Real.pi * ((lat - 30) / 360) :=
      mul_nonneg Real.pi_pos.le (div_nonneg (by linarith) (by norm_num))
    linarith
  have ha2 : Real.pi * 0.25 + lat * CoordConverter.DEGRAD * 0.5 ≤ 3 * Real.pi / 8 := by
    unfold CoordConverter.DEGRAD
    have : 3 * Real.pi / 8 - (Real.pi * 0.25 + lat * (Real.pi / 180.0) * 0.5)
        = Real.pi * ((45 - lat) / 360) := by ring
    have h0 : 0 ≤ Real.pi * ((45 - lat) / 360) :=
      mul_nonneg Real.pi_pos.le (div_nonneg (by linarith) (by norm_num))
    linarith
  obtain ⟨hT, hρ⟩ := CoordConverter.radius_large _ ha1 ha2
  have hlat : (2 * Real.arctan (Real.tan (Real.pi * 0.25 + lat * CoordConverter.DEGRAD * 0.5))
      - Real.pi / 2) * CoordConverter.RADDEG = lat := by
    rw [Real.arctan_tan (by linarith) (by linarith)]
    unfold CoordConverter.DEGRAD CoordConverter.RADDEG
    field_simp
    ring
  have hδ : |lon * CoordConverter.DEGRAD - CoordConverter.OLON * CoordConverter.DEGRAD|
      ≤ 0.16 := by
    unfold CoordConverter.DEGRAD CoordConverter.OLON
    have e1 : 0 ≤ Real.pi * (lon - 120) := mul_nonneg Real.pi_pos.le (by linarith)
    have e2 : 0 ≤ Real.pi * (135 - lon) := mul_nonneg Real.pi_pos.le (by linarith)
    rw [abs_le]
    constructor
    · have : lon * (Real.pi / 180.0) - 126.0 * (Real.pi / 180.0)
          = (Real.pi * (lon - 120) - 6 * Real.pi) / 180 := by ring
      rw [this, le_div_iff₀ (by norm_num)]
      linarith
    · have : lon * (Real.pi / 180.0) - 126.0 * (Real.pi / 180.0)
          = (9 * Real.pi - Real.pi * (135 - lon)) / 180 := by ring
      rw [this, div_le_iff₀ (by norm_num)]
      linarith
  have hif1 : ¬ (lon * CoordConverter.DEGRAD - CoordConverter.OLON * CoordConverter.DEGRAD
      > Real.pi) := by
    rw [not_lt]
    linarith [(abs_le.mp hδ).2]
  have hif2 : ¬ (lon * CoordConverter.DEGRAD - CoordConverter.OLON * CoordConverter.DEGRAD
      < -Real.pi) := by
    rw [not_lt]
    linarith [(abs_le.mp hδ).1]
  have hθ : |(lon * CoordConverter.DEGRAD - CoordConverter.OLON * CoordConverter.DEGRAD)
      * CoordConverter.sn| ≤ 1 := by
    rw [abs_mul, abs_of_pos hq0]
    have : |lon * CoordConverter.DEGRAD - CoordConverter.OLON * CoordConverter.DEGRAD|
        * CoordConverter.sn ≤ 0.16 * 0.72 :=
      mul_le_mul hδ hq2 hq0.le (by norm_num)
    norm_num at this ⊢
    linarith
  have hlon : ((lon * CoordConverter.DEGRAD - CoordConverter.OLON * CoordConverter.DEGRAD)
      * CoordConverter.sn / CoordConverter.sn + CoordConverter.OLON * CoordConverter.DEGRAD)
      * CoordConverter.RADDEG = lon := by
    rw [mul_div_assoc, div_self hq0.ne', mul_one]
    unfold CoordConverter.DEGRAD CoordConverter.RADDEG
    field_simp
  have hcsρ : CoordConverter.RE / CoordConverter.GRID * CoordConverter.sf =
      CoordConverter.RE / CoordConverter.GRID * CoordConverter.sf /
        Real.tan (Real.pi * 0.25 + lat * CoordConverter.DEGRAD * 0.5) ^ CoordConverter.sn *
        Real.tan (Real.pi * 0.25 + lat * CoordConverter.DEGRAD * 0.5) ^ CoordConverter.sn :=
    (div_mul_cancel₀ _ (Real.rpow_pos_of_pos hT _).ne').symm
  unfold CoordConverter.toGrid
  simp only [if_neg hif1, if_neg hif2]
  generalize Real.tan (Real.pi * 0.25 + lat * CoordConverter.DEGRAD * 0.5) = T
    at hT hρ hlat hcsρ
  generalize (lon * CoordConverter.DEGRAD - CoordConverter.OLON * CoordConverter.DEGRAD)
    * CoordConverter.sn = θ at hθ hlon
  generalize CoordConverter.RE / CoordConverter.GRID * CoordConverter.sf / T ^ CoordConverter.sn
    = ρ at hρ hcsρ
  have hρ1 : 1191 ≤ ρ := by nlinarith
  have hx := CoordConverter.abs_floor_half_sub_le (ρ * Real.sin θ + CoordConverter.XO)
  have hy := CoordConverter.abs_floor_half_sub_le
    (CoordConverter.ro - ρ * Real.cos θ + CoordConverter.YO)
  generalize ((Int.floor (ρ * Real.sin θ + CoordConverter.XO + 0.5) : Int) : ℝ) = nx at hx
  generalize ((Int.floor (CoordConverter.ro - ρ * Real.cos θ + CoordConverter.YO + 0.5) : Int)
    : ℝ) = ny at hy
  have hx' : |nx - CoordConverter.XO - ρ * Real.sin θ| ≤ 0.5 := by
    rw [show nx - CoordConverter.XO - ρ * Real.sin θ
      = nx - (ρ * Real.sin θ + CoordConverter.XO) by ring]
    exact hx
  have hy' : |ρ * Real.cos θ - (CoordConverter.ro - ny + CoordConverter.YO)| ≤ 0.5 := by
    rw [show ρ * Real.cos θ - (CoordConverter.ro - ny + CoordConverter.YO)
      = ny - (CoordConverter.ro - ρ * Real.cos θ + CoordConverter.YO) by ring]
    exact hy
  obtain ⟨P, r, hP, hr, hxn, hyn, hσ1, hσ2, hy0⟩ := CoordConverter.near_point ρ θ
    (nx - CoordConverter.XO) (CoordConverter.ro - ny + CoordConverter.YO) hρ1 hθ hx' hy'
  have hA := CoordConverter.lat_near T ρ nx ny hT hcsρ hρ hσ1 hσ2
  have hB := CoordConverter.lon_near θ ρ nx ny P r hθ hρ hP hr hxn hyn hy0
  rw [hlat] at hA
  rw [hlon] at hB
  exact ⟨hA, hB⟩

/-! ## The base time of a request: theorems -/

theorem availableReleases_minutes (hour minute : Nat) :
    availableReleases hour minute = availableReleases hour (if 10 ≤ minute % 60 then 10 else 0)
      ∨ 60 ≤ minute := by
  by_cases hm : 60 ≤ minute
  · exact Or.inr hm
  · left
    unfold availableReleases
    apply List.filter_congr
    intro r _
    rw [decide_eq_decide]
    split_ifs <;> omega

theorem getBaseDateTime_baseTime (now : LocalDate) :
    (getBaseDateTime now).baseTime =
      (getBaseDateTime { year := 0, month := 0, date := 1, hours := now.hours, minutes := 0 }).baseTime :=
  rfl

theorem latestRelease_baseTime (now : LocalDate) :
    (latestRelease now).baseTime =
      some (((availableReleases now.hours now.minutes).getLast?.map
        fun r => padStart2 r ++ "00").getD "2300") := by
  unfold latestRelease
  cases (availableReleases now.hours now.minutes).getLast? <;> rfl

theorem baseTime_table :
    ∀ hour, hour < 24 → ∀ late : Bool,
      ((getBaseDateTime { year := 0, month := 0, date := 1, hours := hour, minutes := 0 }).baseTime =
        some (((availableReleases hour (if late then 10 else 0)).getLast?.map
          fun r => padStart2 r ++ "00").getD "2300") ↔
        ¬ (hour % 3 = 2 ∧ late = true)) := by
  decide!

/-- The minute is never read, and the base time is the most recent available release
exactly when the time is not within 10 to 59 minutes after a release hour. -/
theorem getBaseDateTime_agreement (now : LocalDate) (hh : now.hours < 24)
    (hm : now.minutes < 60) :
    (∀ m : Nat, getBaseDateTime { now with minutes := m } = getBaseDateTime now) ∧
      ((getBaseDateTime now).baseTime = (latestRelease now).baseTime ↔
        ¬ (now.hours % 3 = 2 ∧ 10 ≤ now.minutes)) := by
  constructor
  · intro m
    simp only [getBaseDateTime, setDatePrevious]
    split_ifs <;> rfl
  · rw [getBaseDateTime_baseTime, latestRelease_baseTime]
    rcases availableReleases_minutes now.hours now.minutes with h | h
    · rw [h, Nat.mod_eq_of_lt hm]
      have ht := baseTime_table now.hours hh (decide (10 ≤ now.minutes))
      simp only [decide_eq_true_eq] at ht
      exact ht
    · omega

/-- C31 at the failing input: at 02:30 of 15 January 2024 the release of 02:00 is
available, so the most recent available release is 0200 of that day, and the code returns
2300 of the day before; at 23:30 the release of 23:00 is available and the code returns
2000. -/
theorem getBaseDateTime_stale :
    availableReleases 2 30 = [2] ∧
      latestRelease halfPastTwo = { baseDate := "20240115", baseTime := some "0200" } ∧
      getBaseDateTime halfPastTwo = { baseDate := "20240114", baseTime := some "2300" } ∧
      latestRelease { halfPastTwo with hours := 23 } =
        { baseDate := "20240115", baseTime := some "2300" } ∧
      getBaseDateTime { halfPastTwo with hours := 23 } =
        { baseDate := "20240115", baseTime := some "2000" } := by
  refine ⟨by decide, by decide!, by decide!, by decide!, by decide!⟩

/-! ## The order of the daily list -/

theorem digitsValue_append (xs ys : List Char) :
    digitsValue (xs ++ ys) = digitsValue xs * 10 ^ ys.length + digitsValue ys := by
  have h := digitsValue_foldl ys (digitsValue xs)
  rw [← h]
  unfold digitsValue
  rw [List.foldl_append]

/-- The days collected from slots whose dates never go back are in the order of the
dates. -/
theorem foldl_addToDay_pairwise (R : Option String → Option String → Prop) (l : List TimeSlot)
    (h : l.Pairwise (fun a b => a.date = b.date ∨ R a.date b.date)) :
    ((l.foldl addToDay []).map fun d => d.date).Pairwise R := by
  induction l using List.reverseRecOn with
  | nil => simp
  | append_singleton l a ih =>
    rw [List.pairwise_append] at h
    obtain ⟨h1, _, h3⟩ := h
    rw [List.foldl_append]
    simp only [List.foldl_cons, List.foldl_nil]
    rw [addToDay_dates]
    split_ifs with hk
    · exact ih h1
    · rw [List.pairwise_append]
      refine ⟨ih h1, List.pairwise_singleton _ _, ?_⟩
      intro x hx y hy
      rw [List.mem_singleton] at hy
      rw [(foldl_addToDay_dates l).2, List.mem_map] at hx
      obtain ⟨s, hs, rfl⟩ := hx
      rcases h3 s hs a (List.mem_singleton_self a) with he | hr
      · exfalso
        apply hk
        rw [(foldl_addToDay_dates l).2, ← he]
        exact List.mem_map_of_mem _ hs
      · rw [hy]
        exact hr

/-- The first day collected is the day of the first slot. -/
theorem foldl_addToDay_head (s : TimeSlot) (l : List TimeSlot) :
    (((s :: l).foldl addToDay []).map fun d => d.date).head? = some s.date := by
  induction l using List.reverseRecOn with
  | nil =>
    simp only [List.foldl_cons, List.foldl_nil]
    rw [addToDay_dates]
    simp
  | append_singleton l a ih =>
    rw [← List.cons_append, List.foldl_append]
    generalize List.foldl addToDay [] (s :: l) = L at ih ⊢
    simp only [List.foldl_cons, List.foldl_nil]
    rw [addToDay_dates]
    split_ifs with hk
    · exact ih
    · cases hd : L.map (fun d => d.date) with
      | nil => rw [hd] at ih; simp at ih
      | cons x xs =>
        rw [hd] at ih
        simpa using ih

/-- Two slots of well-formed records in chronological order are of the same day, or
the day of the first is before the day of the second. -/
theorem date_le_of_dateTime_lt (a b : TimeSlot) (ra rb : ForecastRecord)
    (hwa : wellFormed ra = true) (hwb : wellFormed rb = true)
    (had : a.date = some ra.fcstDate) (hat : a.time = some ra.fcstTime)
    (hbd : b.date = some rb.fcstDate) (hbt : b.time = some rb.fcstTime)
    (hlt : ∃ m n : ℕ, dateTimeInt a = JSNum.fin m ∧ dateTimeInt b = JSNum.fin n ∧ m < n) :
    a.date = b.date ∨ dateBefore a.date b.date := by
  obtain ⟨m, n, hm, hn, hmn⟩ := hlt
  obtain ⟨a1, a2, a3, a4⟩ := (wellFormed_iff ra).1 hwa
  obtain ⟨b1, b2, b3, b4⟩ := (wellFormed_iff rb).1 hwb
  rw [dateTimeInt_of_record a ra hwa had hat] at hm
  rw [dateTimeInt_of_record b rb hwb hbd hbt] at hn
  have hm2 : digitsValue (ra.fcstDate.toList ++ ra.fcstTime.toList) = m := by
    have := JSNum.fin.inj hm
    exact_mod_cast this
  have hn2 : digitsValue (rb.fcstDate.toList ++ rb.fcstTime.toList) = n := by
    have := JSNum.fin.inj hn
    exact_mod_cast this
  rw [digitsValue_append, a3] at hm2
  rw [digitsValue_append, b3] at hn2
  have hta := digitsValue_lt _ a4
  have htb := digitsValue_lt _ b4
  rw [a3] at hta
  rw [b3] at htb
  have hle : digitsValue ra.fcstDate.toList ≤ digitsValue rb.fcstDate.toList := by
    have h4 : (10 : ℕ) ^ 4 = 10000 := by norm_num
    rw [h4] at hta htb hm2 hn2
    omega
  rcases Nat.eq_or_lt_of_le hle with heq | hlt
  · left
    have := digitsValue_injective _ _ (by rw [a1, b1]) a2 b2 heq
    rw [had, hbd, String.ext this]
  · right
    refine ⟨ra.fcstDate, rb.fcstDate, _, _, had, hbd, ?_, ?_, hlt⟩
    · exact parseInt_digits _ (by intro h; rw [h] at a1; simp at a1) a2 (by rw [a1]; norm_num)
    · exact parseInt_digits _ (by intro h; rw [h] at b1; simp at b1) b2 (by rw [b1]; norm_num)

theorem dateBefore_asymm (a b : Option String) (h1 : dateBefore a b) (h2 : dateBefore b a) :
    False := by
  obtain ⟨x, y, m, n, ha, hb, hx, hy, hmn⟩ := h1
  obtain ⟨y2, x2, n2, m2, hb2, ha2, hy2, hx2, hnm⟩ := h2
  rw [ha] at ha2
  rw [hb] at hb2
  cases ha2
  cases hb2
  rw [hx] at hx2
  rw [hy] at hy2
  have e1 : m = m2 := by
    have := JSNum.fin.inj hx2
    exact_mod_cast this
  have e2 : n = n2 := by
    have := JSNum.fin.inj hy2
    exact_mod_cast this
  omega

/-- The dates of `daily` are the dates of the records. -/
theorem mem_daily_dates (items : List ForecastRecord) (hwf : ∀ r ∈ items, wellFormed r = true)
    (x : Option String) :
    x ∈ (parseWeatherData items).daily.map (fun d => d.date) ↔
      ∃ r ∈ items, x = some r.fcstDate := by
  obtain ⟨_, hperm⟩ := sorted_slots_facts items hwf
  have hdaily : (parseWeatherData items).daily.map (fun d => d.date) =
      ((sortSlots ((items.foldl addItem []).map Prod.snd)).foldl addToDay []).map
        (fun d => d.date) := aggregateDailyForecast_dates _
  rw [hdaily, (foldl_addToDay_dates _).2]
  have hfst : (sortSlots ((items.foldl addItem []).map Prod.snd)).map (fun s => s.date) =
      ((sortSlots ((items.foldl addItem []).map Prod.snd)).map
        fun s => (s.date, s.time)).map Prod.fst := by
    rw [List.map_map]; rfl
  rw [hfst, (hperm.map Prod.fst).mem_iff, List.mem_map]
  constructor
  · rintro ⟨p, hp, rfl⟩
    rw [List.mem_dedup, List.mem_map] at hp
    obtain ⟨r, hr, rfl⟩ := hp
    exact ⟨r, hr, rfl⟩
  · rintro ⟨r, hr, rfl⟩
    exact ⟨(some r.fcstDate, some r.fcstTime),
      List.mem_dedup.2 (List.mem_map_of_mem _ hr), rfl⟩

/-- The dates of `daily` are in the order of the dates. -/
theorem daily_dates_pairwise (items : List ForecastRecord)
    (hwf : ∀ r ∈ items, wellFormed r = true) :
    ((parseWeatherData items).daily.map fun d => d.date).Pairwise dateBefore := by
  obtain ⟨hstrict, hperm⟩ := sorted_slots_facts items hwf
  have hrec : ∀ s ∈ sortSlots ((items.foldl addItem []).map Prod.snd),
      ∃ r ∈ items, s.date = some r.fcstDate ∧ s.time = some r.fcstTime := by
    intro s hs
    have h1 : (s.date, s.time) ∈ (sortSlots ((items.foldl addItem []).map Prod.snd)).map
        (fun s => (s.date, s.time)) := List.mem_map_of_mem _ hs
    rw [hperm.mem_iff, List.mem_dedup, List.mem_map] at h1
    obtain ⟨r, hr, he⟩ := h1
    simp only [Prod.mk.injEq] at he
    exact ⟨r, hr, he.1.symm, he.2.symm⟩
  have hdaily : (parseWeatherData items).daily.map (fun d => d.date) =
      ((sortSlots ((items.foldl addItem []).map Prod.snd)).foldl addToDay []).map
        (fun d => d.date) := aggregateDailyForecast_dates _
  rw [hdaily]
  apply foldl_addToDay_pairwise
  refine List.Pairwise.imp_of_mem ?_ hstrict
  intro a b ha hb hlt
  obtain ⟨ra, hra, had, hat⟩ := hrec a ha
  obtain ⟨rb, hrb, hbd, hbt⟩ := hrec b hb
  exact date_le_of_dateTime_lt a b ra rb (hwf ra hra) (hwf rb hrb) had hat hbd hbt hlt

/-- C32: for every non-empty sequence of well-formed records the dates of `daily` are
strictly increasing (as the integers read by `parseInt`, which on 8-digit dates is the
calendar order); the list of dates is the same for every rearrangement of the records; and
`daily[0]` is the day of the current slot. -/
theorem parseWeatherData_daily_sorted (items : List ForecastRecord) (hne : items ≠ [])
    (hwf : ∀ r ∈ items, wellFormed r = true) :
    ((parseWeatherData items).daily.map fun d => d.date).Pairwise dateBefore ∧
      (∀ items2 : List ForecastRecord, items2.Perm items →
        (parseWeatherData items2).daily.map (fun d => d.date) =
          (parseWeatherData items).daily.map (fun d => d.date)) ∧
      ∃ d, (parseWeatherData items).daily.head? = some d ∧
        d.date = (parseWeatherData items).current.date := by
  obtain ⟨_, hperm⟩ := sorted_slots_facts items hwf
  have hdaily : (parseWeatherData items).daily.map (fun d => d.date) =
      ((sortSlots ((items.foldl addItem []).map Prod.snd)).foldl addToDay []).map
        (fun d => d.date) := aggregateDailyForecast_dates _
  have hcurrent : (parseWeatherData items).current =
      (sortSlots ((items.foldl addItem []).map Prod.snd)).head?.getD {} := rfl
  refine ⟨daily_dates_pairwise items hwf, ?_, ?_⟩
  · intro items2 hp
    have hwf2 : ∀ r ∈ items2, wellFormed r = true := fun r hr => hwf r (hp.mem_iff.1 hr)
    have h1 := daily_dates_pairwise items hwf
    have h2 := daily_dates_pairwise items2 hwf2
    haveI : IsAntisymm (Option String) dateBefore :=
      ⟨fun a b hab hba => (dateBefore_asymm a b hab hba).elim⟩
    have hirr : ∀ a : Option String, ¬ dateBefore a a := fun a h => dateBefore_asymm a a h h
    have hne2 : ∀ a b : Option String, dateBefore a b → a ≠ b := by
      intro a b hab he
      rw [← he] at hab
      exact hirr a hab
    have hn1 : ((parseWeatherData items).daily.map fun d => d.date).Pairwise
        (fun a b => a ≠ b) := h1.imp (hne2 _ _)
    have hn2 : ((parseWeatherData items2).daily.map fun d => d.date).Pairwise
        (fun a b => a ≠ b) := h2.imp (hne2 _ _)
    apply List.eq_of_perm_of_sorted _ h2 h1
    rw [List.perm_ext_iff_of_nodup hn2 hn1]
    intro x
    rw [mem_daily_dates items hwf, mem_daily_dates items2 hwf2]
    constructor
    · rintro ⟨r, hr, rfl⟩; exact ⟨r, hp.mem_iff.1 hr, rfl⟩
    · rintro ⟨r, hr, rfl⟩; exact ⟨r, hp.mem_iff.2 hr, rfl⟩
  · cases hs : sortSlots ((items.foldl addItem []).map Prod.snd) with
    | nil =>
      exfalso
      have hl := hperm.length_eq
      rw [hs] at hl
      simp only [List.map_nil, List.length_nil] at hl
      have h0 := List.length_eq_zero.1 hl.symm
      cases items with
      | nil => exact hne rfl
      | cons r rest =>
        have hm : ((some r.fcstDate : Option String), (some r.fcstTime : Option String)) ∈
            ((r :: rest).map fun r => (some r.fcstDate, some r.fcstTime)).dedup := by
          rw [List.mem_dedup]
          simp
        rw [h0] at hm
        exact List.not_mem_nil _ hm
    | cons s rest =>
      have hhead := foldl_addToDay_head s rest
      rw [← hs, ← hdaily, List.head?_map] at hhead
      rw [hcurrent, hs]
      cases hd : (parseWeatherData items).daily.head? with
      | none => rw [hd] at hhead; simp at hhead
      | some d =>
        rw [hd] at hhead
        simp only [Option.map_some', Option.some.injEq] at hhead
        exact ⟨d, rfl, hhead⟩

/-! ## The exact cell round trip -/

/-- The cell of the point that `toLatLon` returns for a cell on the near side of the
apex is that cell. -/
theorem cell_round_trip (nx ny : Int)
    (h : 0 < CoordConverter.ro - (ny : ℝ) + 136) :
    CoordConverter.toGrid (CoordConverter.toLatLon nx ny).lat
      (CoordConverter.toLatLon nx ny).lon = { nx := nx, ny := ny } := by
  have hy : 0 < CoordConverter.ro - (ny : ℝ) + CoordConverter.YO := by
    unfold CoordConverter.YO
    exact h
  obtain ⟨θ, hθ, hlt, hsin, hcos⟩ := CoordConverter.theta_near_side
    ((nx : ℝ) - CoordConverter.XO) (CoordConverter.ro - (ny : ℝ) + CoordConverter.YO) hy
  have hra : 0 < Real.sqrt (((nx : ℝ) - CoordConverter.XO) * ((nx : ℝ) - CoordConverter.XO) +
      (CoordConverter.ro - (ny : ℝ) + CoordConverter.YO) *
        (CoordConverter.ro - (ny : ℝ) + CoordConverter.YO)) := by
    apply Real.sqrt_pos.mpr
    nlinarith [mul_self_nonneg ((nx : ℝ) - CoordConverter.XO), mul_pos hy hy]
  have hsn0 : CoordConverter.sn > 0.0 := by
    have : (0.0 : ℝ) = 0 := by norm_num
    rw [gt_iff_lt, this]
    exact CoordConverter.sn_pos
  unfold CoordConverter.toGrid CoordConverter.toLatLon
  simp only [hθ, if_pos hsn0, CoordConverter.radius_of_lat _ hra,
    CoordConverter.theta_of_lon θ hlt, hsin, hcos]
  congr 1
  · rw [Int.floor_eq_iff]
    constructor <;> norm_num
  · have : CoordConverter.ro - (CoordConverter.ro - (ny : ℝ) + CoordConverter.YO)
        + CoordConverter.YO + 0.5 = (ny : ℝ) + 0.5 := by ring
    rw [this, Int.floor_eq_iff]
    constructor <;> norm_num

theorem city_grids_south : ∀ c ∈ CoordConverter.CITY_GRIDS, c.2.ny ≤ 131 := by
  decide

/-- C33: exact cell round trip, in exact real arithmetic: for every integer cell
(nx, ny) with ro - ny + 136 > 0, `toGrid` applied to the latitude and longitude returned by
`toLatLon(nx, ny)` is (nx, ny); every cell of `CITY_GRIDS` satisfies the condition and is
returned. -/
theorem toGrid_toLatLon :
    (∀ nx ny : Int, 0 < CoordConverter.ro - (ny : ℝ) + 136 →
      CoordConverter.toGrid (CoordConverter.toLatLon nx ny).lat
        (CoordConverter.toLatLon nx ny).lon = { nx := nx, ny := ny }) ∧
      ∀ c ∈ CoordConverter.CITY_GRIDS,
        0 < CoordConverter.ro - (c.2.ny : ℝ) + 136 ∧
          CoordConverter.toGrid (CoordConverter.toLatLon c.2.nx c.2.ny).lat
            (CoordConverter.toLatLon c.2.nx c.2.ny).lon = c.2 := by
  refine ⟨cell_round_trip, ?_⟩
  intro c hc
  have h1 : (c.2.ny : ℝ) ≤ 131 := by
    exact_mod_cast city_grids_south c hc
  have h2 : 0 < CoordConverter.ro - (c.2.ny : ℝ) + 136 := by
    linarith [CoordConverter.ro_pos]
  exact ⟨h2, cell_round_trip c.2.nx c.2.ny h2⟩

/-! ## Monotonicity of the car-wash index -/

theorem jsGe_of_jsLt (v w : Option JSNum) (c : ℚ) (h : jsLt v w = true) (hv : jsGe v c = true) :
    jsGe w c = true := by
  unfold jsLt at h
  unfold jsGe at hv ⊢
  generalize toNumber v = x at h hv
  generalize toNumber w = y at h ⊢
  cases x with
  | fin a =>
    cases y with
    | fin b =>
      simp only [JSNum.lt, JSNum.ge, decide_eq_true_eq] at h hv ⊢
      exact le_of_lt (lt_of_le_of_lt hv h)
    | nan => exact absurd h (by simp [JSNum.lt])
    | posInf => rfl
    | negInf => exact absurd h (by simp [JSNum.lt])
  | nan => exact absurd hv (by simp [JSNum.ge])
  | posInf => cases y <;> exact absurd h (by simp [JSNum.lt])
  | negInf => exact absurd hv (by simp [JSNum.ge])

theorem filter_length_le_of_rel {α : Type} (R : α → α → Prop) (p : α → Bool)
    (hp : ∀ a b, R a b → p a = true → p b = true) (l1 l2 : List α) (h : List.Forall₂ R l1 l2) :
    (l1.filter p).length ≤ (l2.filter p).length := by
  induction h with
  | nil => simp
  | @cons a b l1 l2 hab _ ih =>
    by_cases ha : p a = true
    · rw [List.filter_cons_of_pos ha, List.filter_cons_of_pos (hp a b hab ha)]
      simp only [List.length_cons]
      omega
    · rw [List.filter_cons_of_neg ha]
      by_cases hb : p b = true
      · rw [List.filter_cons_of_pos hb]
        simp only [List.length_cons]
        omega
      · rw [List.filter_cons_of_neg hb]
        exact ih

/-- C34: the car-wash score is monotone in the rain forecast: when the second daily list
is the first one except that some aggregates have a larger `maxRainProbability`, the
lists have equal length and the score of the second is at most the score of the first. -/
theorem carWash_monotone (d1 d2 : List DailyAggregate) (h : List.Forall₂ rainierDay d1 d2) :
    d1.length = d2.length ∧
      (calculateCarWashIndex d2).score ≤ (calculateCarWashIndex d1).score := by
  refine ⟨h.length_eq, ?_⟩
  have hcount := filter_length_le_of_rel rainierDay
    (fun day => jsGe day.maxRainProbability 40)
    (by
      intro a b hab ha
      rcases hab with rfl | ⟨_, hlt⟩
      · exact ha
      · exact jsGe_of_jsLt _ _ _ hlt ha)
    (d1.take 3) (d2.take 3) (List.forall₂_take 3 h)
  simp only [calculateCarWashIndex, Acc.set]
  split_ifs <;> first | omega | norm_num

/-! ## Wind sectors -/

theorem windDirection_table :
    ∀ d, d < 361 →
      getWindDirection (toString d) = some (compassSector d) ∧
        ["북", "북동", "동", "남동", "남", "남서", "서", "북서"][(Int.floor
          ((d : ℚ) / 45 + 1 / 2) % 8).toNat]? = some (compassSector d) ∧
        compassSector d ∈ ["북", "북동", "동", "남동", "남", "남서", "서", "북서"] := by
  decide!

/-- C35: for every integer bearing d with 0 ≤ d ≤ 360, given as a decimal string,
`getWindDirection` returns a compass name, never `undefined`: the element of index
round(d / 45) mod 8 of `directions`, which is the name of the 45-degree sector around d
(0 to 22 and 338 to 360 north, 23 to 67 north-east, and so on); 0 and 360 give north. -/
theorem getWindDirection_sectors (d : Nat) (h : d ≤ 360) :
    getWindDirection (toString d) = some (compassSector d) ∧
      getWindDirection (toString d) =
        ["북", "북동", "동", "남동", "남", "남서", "서", "북서"][(Int.floor
          ((d : ℚ) / 45 + 1 / 2) % 8).toNat]? ∧
      compassSector d ∈ ["북", "북동", "동", "남동", "남", "남서", "서", "북서"] ∧
      getWindDirection "0" = some "북" ∧ getWindDirection "360" = some "북" := by
  obtain ⟨h1, h2, h3⟩ := windDirection_table d (by omega)
  refine ⟨h1, by rw [h1, h2], h3, ?_, ?_⟩
  · exact (windDirection_table 0 (by omega)).1
  · exact (windDirection_table 360 (by omega)).1

/-! ## Instances on the scenario forecast -/

theorem calculateAll_score_bounds_witness :
    calculateExerciseIndex scenarioSlot ∈ calculateAll scenarioForecast ∧
      ∃ n : ℕ, (calculateExerciseIndex scenarioSlot).score = (n : Int) ∧ n ≤ 100 :=
  ⟨by simp [calculateAll, scenarioForecast],
    calculateAll_score_bounds scenarioForecast (calculateExerciseIndex scenarioSlot)
      (by simp [calculateAll, scenarioForecast])⟩

theorem calculateAll_grade_color_bands_witness :
    calculateFoodPoisoningIndex scenarioSlot ∈ calculateAll scenarioForecast ∧
      (calculateFoodPoisoningIndex scenarioSlot).grade =
        getGrade (calculateFoodPoisoningIndex scenarioSlot).score ∧
      (calculateFoodPoisoningIndex scenarioSlot).color =
        getColor (calculateFoodPoisoningIndex scenarioSlot).score :=
  ⟨by simp [calculateAll, scenarioForecast],
    (calculateAll_grade_color_bands scenarioForecast (calculateFoodPoisoningIndex scenarioSlot)
      (by simp [calculateAll, scenarioForecast])).1⟩

theorem calculateAll_description_amended_witness :
    calculateFoodPoisoningIndex scenarioSlot ∈ calculateAll scenarioForecast ∧
      (calculateFoodPoisoningIndex scenarioSlot).id = "foodsafety" ∧
      (calculateFoodPoisoningIndex scenarioSlot).description =
        if (calculateFoodPoisoningIndex scenarioSlot).score ≥ 70 then "식품 보관이 안전합니다"
        else if (calculateFoodPoisoningIndex scenarioSlot).score ≥ 40 then "식품 보관에 주의하세요"
        else "식품 보관에 각별히 주의하세요" :=
  ⟨by simp [calculateAll, scenarioForecast], rfl,
    (calculateAll_description_amended scenarioForecast (calculateFoodPoisoningIndex scenarioSlot)
      (by simp [calculateAll, scenarioForecast])).2.2.2.2.2.2.2 rfl⟩

theorem calculateAll_reasons_nonempty_witness :
    calculateCampingIndex scenarioSlot dryDays ∈ calculateAll scenarioForecast ∧
      (calculateCampingIndex scenarioSlot dryDays).reasons ≠ [] :=
  ⟨by simp [calculateAll, scenarioForecast],
    (calculateAll_reasons_nonempty scenarioForecast).1 (calculateCampingIndex scenarioSlot dryDays)
      (by simp [calculateAll, scenarioForecast])⟩

theorem laundry_score_formula_witness :
    (scenarioSlot.rainProbability = some (JSNum.fin 10) ∧
      scenarioSlot.humidity = some (JSNum.fin 85) ∧
      scenarioSlot.windSpeed = some (JSNum.fin 2)) ∧
      (calculateLaundryIndex scenarioSlot dryDays).score = 85 :=
  ⟨⟨rfl, rfl, rfl⟩,
    (laundry_score_formula scenarioSlot dryDays 10 85 2 rfl rfl rfl).1.trans (by decide)⟩

theorem carWash_score_formula_witness :
    (dryDays.take 3).countP (fun d => jsGe d.maxRainProbability 40) = 0 ∧
      (calculateCarWashIndex dryDays).score = 100 :=
  ⟨by decide, (carWash_score_formula dryDays).1.1 (by decide)⟩

theorem dogWalk_score_formula_witness :
    (scenarioSlot.precipitationCode = some "0" ∧
      scenarioSlot.temperature = some (JSNum.fin 32) ∧
      scenarioSlot.rainProbability = some (JSNum.fin 10) ∧
      scenarioSlot.windSpeed = some (JSNum.fin 2)) ∧
      (calculateDogWalkIndex scenarioSlot).score = 60 ∧
      (calculateDogWalkIndex scenarioSlot).reasons = ["너무 더워 반려견에게 위험할 수 있습니다"] :=
  ⟨⟨rfl, rfl, rfl, rfl⟩,
    (dogWalk_score_formula scenarioSlot "0" 32 10 2 rfl rfl rfl rfl).2 rfl rfl rfl rfl⟩

theorem camping_score_formula_witness :
    (scenarioSlot.windSpeed = some (JSNum.fin 2) ∧
      scenarioSlot.temperature = some (JSNum.fin 32)) ∧
      (calculateCampingIndex scenarioSlot dryDays).score = 80 :=
  ⟨⟨rfl, rfl⟩, (camping_score_formula scenarioSlot dryDays 2 32 rfl rfl).1.trans (by decide)⟩

theorem exercise_score_formula_witness :
    (scenarioSlot.temperature = some (JSNum.fin 32) ∧
      scenarioSlot.humidity = some (JSNum.fin 85) ∧
      scenarioSlot.rainProbability = some (JSNum.fin 10)) ∧
      (calculateExerciseIndex scenarioSlot).score = 35 :=
  ⟨⟨rfl, rfl, rfl⟩,
    (exercise_score_formula scenarioSlot 32 85 10 rfl rfl rfl).trans (by decide)⟩

theorem stargazing_score_formula_witness :
    (scenarioSlot.skyCode = some "1" ∧ scenarioSlot.precipitationCode = some "0") ∧
      (calculateStargazingIndex scenarioSlot).score = 100 ∧
      (calculateStargazingIndex scenarioSlot).reasons.length = 1 :=
  ⟨⟨rfl, rfl⟩,
    ((stargazing_score_formula scenarioSlot "1" "0" rfl rfl).1 rfl).1.trans (by decide),
    ((stargazing_score_formula scenarioSlot "1" "0" rfl rfl).1 rfl).2⟩

theorem foodSafety_score_formula_witness :
    (scenarioSlot.temperature = some (JSNum.fin 32) ∧
      scenarioSlot.humidity = some (JSNum.fin 85)) ∧
      (calculateFoodPoisoningIndex scenarioSlot).score = 20 :=
  ⟨⟨rfl, rfl⟩, (foodSafety_score_formula scenarioSlot 32 85 rfl rfl).1.trans (by decide)⟩

theorem calculateAll_recommendation_bands_witness :
    calculateStargazingIndex scenarioSlot ∈ calculateAll scenarioForecast ∧
      (calculateStargazingIndex scenarioSlot).id = "stargazing" ∧
      (calculateStargazingIndex scenarioSlot).recommendation =
        if (calculateStargazingIndex scenarioSlot).score ≥ 70 then "별 보기 좋은 밤입니다!"
        else if (calculateStargazingIndex scenarioSlot).score ≥ 40 then
          "구름 사이로 별을 볼 수 있습니다"
        else "별 관측이 어렵습니다" :=
  ⟨by simp [calculateAll, scenarioForecast], rfl,
    (calculateAll_recommendation_bands.1 scenarioForecast (calculateStargazingIndex scenarioSlot)
      (by simp [calculateAll, scenarioForecast])).2.2.2.2.2.1 rfl⟩

theorem foodSafety_hot_humid_witness :
    (scenarioSlot.temperature = some (JSNum.fin 32) ∧
      scenarioSlot.humidity = some (JSNum.fin 85) ∧ (32 : ℚ) ≥ 25 ∧ (85 : ℚ) ≥ 60) ∧
      (calculateFoodPoisoningIndex scenarioSlot).score = 20 ∧
      (calculateFoodPoisoningIndex scenarioSlot).grade = "나쁨" :=
  ⟨⟨rfl, rfl, by norm_num, by norm_num⟩,
    (foodSafety_hot_humid scenarioSlot 32 85 rfl rfl (by norm_num) (by norm_num)).2.2⟩

theorem parseWeatherData_hourly_witness :
    (sampleRecords ≠ [] ∧ ∀ r ∈ sampleRecords, wellFormed r = true) ∧
      (parseWeatherData sampleRecords).hourly.length ≤ 24 ∧
      (parseWeatherData sampleRecords).hourly.head? =
        some (parseWeatherData sampleRecords).current :=
  ⟨⟨by decide, by decide⟩,
    (parseWeatherData_hourly sampleRecords (by decide) (by decide)).2.1,
    (parseWeatherData_hourly sampleRecords (by decide) (by decide)).2.2.2.2⟩

theorem parseWeatherData_daily_dates_witness :
    (∀ r ∈ sampleRecords, wellFormed r = true) ∧
      ((parseWeatherData sampleRecords).daily.map fun d => d.date).Perm
        ((sampleRecords.map fun r => some r.fcstDate).dedup) :=
  ⟨by decide, (parseWeatherData_daily_dates sampleRecords (by decide)).2.2⟩

theorem unknown_category_ignored_witness :
    ((∀ r ∈ sampleWithUnknown, wellFormed r = true) ∧
      (∀ r ∈ sampleRecords, wellFormed r = true) ∧
      (sampleWithUnknown.filter fun r => decide (r.category ∈ knownCategories)) =
        (sampleRecords.filter fun r => decide (r.category ∈ knownCategories)) ∧
      (∀ r ∈ sampleWithUnknown, ∃ r2 ∈ sampleWithUnknown, r2.category ∈ knownCategories ∧
        r2.fcstDate = r.fcstDate ∧ r2.fcstTime = r.fcstTime) ∧
      (∀ r ∈ sampleRecords, ∃ r2 ∈ sampleRecords, r2.category ∈ knownCategories ∧
        r2.fcstDate = r.fcstDate ∧ r2.fcstTime = r.fcstTime)) ∧
      parseWeatherData sampleWithUnknown = parseWeatherData sampleRecords :=
  ⟨⟨by decide, by decide, by decide, by decide, by decide⟩,
    (unknown_category_ignored sampleWithUnknown sampleRecords (by decide) (by decide)
      (by decide) (by decide) (by decide)).1⟩

theorem daily_max_formula_witness :
    ((parseWeatherData sampleRecords).daily.headD {} ∈ (parseWeatherData sampleRecords).daily ∧
      ∀ x ∈ ((sortedForecast sampleRecords).filter fun s =>
          decide (s.date = ((parseWeatherData sampleRecords).daily.headD {}).date)).filterMap
            (fun s => s.rainProbability), ∃ q : ℚ, x = JSNum.fin q ∧ 0 ≤ q) ∧
      ∃ m : ℚ, ((parseWeatherData sampleRecords).daily.headD {}).maxRainProbability =
        some (JSNum.fin m) ∧ 0 ≤ m := by
  have hmem : (parseWeatherData sampleRecords).daily.headD {} ∈
      (parseWeatherData sampleRecords).daily := by decide!
  have hlist : ((sortedForecast sampleRecords).filter fun s =>
      decide (s.date = ((parseWeatherData sampleRecords).daily.headD {}).date)).filterMap
        (fun s => s.rainProbability) = [JSNum.fin 30] := by decide!
  have hnonneg : ∀ x ∈ ((sortedForecast sampleRecords).filter fun s =>
      decide (s.date = ((parseWeatherData sampleRecords).daily.headD {}).date)).filterMap
        (fun s => s.rainProbability), ∃ q : ℚ, x = JSNum.fin q ∧ 0 ≤ q := by
    rw [hlist]
    intro x hx
    rw [List.mem_singleton] at hx
    exact ⟨30, hx, by norm_num⟩
  obtain ⟨m, h1, h2, _⟩ :=
    (daily_max_formula sampleRecords _ hmem).1 hnonneg
  exact ⟨⟨hmem, hnonneg⟩, m, h1, h2⟩

theorem getForecast_cache_fresh_witness :
    (cacheGet sampleCache (toString (60 : Int) ++ "_" ++ toString (127 : Int)) =
        some { data := scenarioForecast, timestamp := 1000 } ∧
      (500000 : Int) - 1000 < 600000) ∧
      (getForecast sampleCache 60 127 500000 500001 (FetchResponse.success [])).result =
        Except.ok scenarioForecast ∧
      (getForecast sampleCache 60 127 500000 500001 (FetchResponse.success [])).fetched = false ∧
      (getForecast sampleCache 60 127 500000 500001 (FetchResponse.success [])).cache =
        sampleCache :=
  ⟨⟨by decide, by decide⟩,
    (getForecast_cache_fresh sampleCache 60 127 500000 500001 (FetchResponse.success [])).2.1
      { data := scenarioForecast, timestamp := 1000 } (by decide) (by decide)⟩

theorem roundtrip_near_witness :
    ((30 : ℝ) ≤ 37.5665 ∧ (37.5665 : ℝ) ≤ 45 ∧ (120 : ℝ) ≤ 126.9780 ∧ (126.9780 : ℝ) ≤ 135 ∧
      |(CoordConverter.toLatLon (CoordConverter.toGrid 37.5665 126.9780).nx
        (CoordConverter.toGrid 37.5665 126.9780).ny).lat - 37.5665| < 0.05 ∧
      |(CoordConverter.toLatLon (CoordConverter.toGrid 37.5665 126.9780).nx
        (CoordConverter.toGrid 37.5665 126.9780).ny).lon - 126.9780| < 0.05) ∧
    ((30 : ℝ) ≤ 38.0 ∧ (38.0 : ℝ) ≤ 45 ∧ (120 : ℝ) ≤ 126.0 ∧ (126.0 : ℝ) ≤ 135 ∧
      |(CoordConverter.toLatLon (CoordConverter.toGrid 38.0 126.0).nx
        (CoordConverter.toGrid 38.0 126.0).ny).lat - 38.0| < 0.05 ∧
      |(CoordConverter.toLatLon (CoordConverter.toGrid 38.0 126.0).nx
        (CoordConverter.toGrid 38.0 126.0).ny).lon - 126.0| < 0.05) :=
  ⟨⟨by norm_num, by norm_num, by norm_num, by norm_num,
      roundtrip_near 37.5665 126.9780 (by norm_num) (by norm_num) (by norm_num) (by norm_num)⟩,
    ⟨by norm_num, by norm_num, by norm_num, by norm_num,
      roundtrip_near 38.0 126.0 (by norm_num) (by norm_num) (by norm_num) (by norm_num)⟩⟩

theorem parseWeatherData_daily_sorted_witness :
    (sampleRecords ≠ [] ∧ ∀ r ∈ sampleRecords, wellFormed r = true) ∧
      ((parseWeatherData sampleRecords).daily.map fun d => d.date).Pairwise dateBefore ∧
      ∃ d, (parseWeatherData sampleRecords).daily.head? = some d ∧
        d.date = (parseWeatherData sampleRecords).current.date :=
  ⟨⟨by decide, by decide⟩,
    (parseWeatherData_daily_sorted sampleRecords (by decide) (by decide)).1,
    (parseWeatherData_daily_sorted sampleRecords (by decide) (by decide)).2.2⟩

theorem toGrid_toLatLon_witness :
    0 < CoordConverter.ro - ((127 : Int) : ℝ) + 136 ∧
      CoordConverter.toGrid (CoordConverter.toLatLon (60 : Int) (127 : Int)).lat
        (CoordConverter.toLatLon (60 : Int) (127 : Int)).lon = { nx := 60, ny := 127 } :=
  ⟨by have := CoordConverter.ro_pos; push_cast; linarith,
    toGrid_toLatLon.1 60 127 (by have := CoordConverter.ro_pos; push_cast; linarith)⟩

theorem carWash_monotone_witness :
    List.Forall₂ rainierDay dryDays oneRainDay ∧
      dryDays.length = oneRainDay.length ∧
      (calculateCarWashIndex oneRainDay).score ≤ (calculateCarWashIndex dryDays).score :=
  ⟨List.Forall₂.cons (Or.inl rfl) (List.Forall₂.cons (Or.inr ⟨rfl, by decide⟩)
      (List.Forall₂.cons (Or.inl rfl) List.Forall₂.nil)),
    carWash_monotone dryDays oneRainDay
      (List.Forall₂.cons (Or.inl rfl) (List.Forall₂.cons (Or.inr ⟨rfl, by decide⟩)
        (List.Forall₂.cons (Or.inl rfl) List.Forall₂.nil)))⟩

theorem getWindDirection_sectors_witness :
    (360 : Nat) ≤ 360 ∧ getWindDirection (toString (360 : Nat)) = some (compassSector 360) ∧
      compassSector 360 = "북" :=
  ⟨by decide, (getWindDirection_sectors 360 (by decide)).1, by decide⟩

theorem coldWarning_score_formula_witness :
    (parseWeatherData rangeRecords).current.humidity = some (JSNum.fin 50) ∧
      (parseWeatherData rangeRecords).current.temperature = some (JSNum.fin 10) ∧
      (coldWarningOf rangeRecords).score = 70 :=
  ⟨by decide!, by decide!,
    (coldWarning_score_formula rangeRecords 50 10 (by decide!) (by decide!)).2.2.2.2.1⟩

theorem unparseable_value_stored_witness :
    (∀ r ∈ [badTemperatureRecord], wellFormed r = true) ∧
      badTemperatureRecord.category ∈ numericCategories ∧
      parseable badTemperatureRecord.category badTemperatureRecord.fcstValue = false ∧
      ∃ day ∈ (parseWeatherData [badTemperatureRecord]).daily, ∃ s ∈ day.items,
        s.temperature = some JSNum.nan := by
  refine ⟨by decide, by decide, by decide, ?_⟩
  obtain ⟨day, hday, s, hs, _, _, _, h1, _⟩ :=
    (unparseable_value_stored [badTemperatureRecord] (by decide) badTemperatureRecord
      (List.mem_singleton_self _) (by decide) (by decide)).1
  exact ⟨day, hday, s, hs, h1 (by decide)⟩

theorem parseWeatherData_slots_witness :
    (∀ r ∈ sampleRecords, wellFormed r = true) ∧
      (parseWeatherData sampleRecords).hourly = (sortedForecast sampleRecords).take 24 ∧
      (parseWeatherData sampleRecords).hourly.map (fun s => (s.time, s.temperature)) =
        [(some "2300", some (JSNum.fin 5)), (some "0000", some (JSNum.fin (7 / 2)))] :=
  ⟨by decide, (parseWeatherData_slots sampleRecords (by decide)).2.2.1, by decide!⟩

theorem calculateAll_pure_witness :
    readForecast scenarioHeap 0 = some scenarioForecast ∧
      ∃ first ext1, calculateAllM 0 scenarioHeap = some (first, scenarioHeap ++ ext1) ∧
        readIndices (scenarioHeap ++ ext1) first = some (calculateAll scenarioForecast) ∧
        readForecast (scenarioHeap ++ ext1) 0 = some scenarioForecast := by
  have hw : readForecast scenarioHeap 0 = some scenarioForecast := by decide
  obtain ⟨first, _, ext1, _, h1, _, h3, _, _, _, _, h8, _⟩ :=
    calculateAll_pure scenarioHeap 0 scenarioForecast hw
  exact ⟨hw, first, ext1, h1, h3, h8⟩

end KakaoMcp
